import Mathlib

set_option linter.unreachableTactic false
set_option linter.unusedTactic false
set_option linter.deprecated false

/-!
# Verification of the Text2Chakra trace converter

Shallow embedding of `textconverter.back.py`: the converter turns a per-layer
training schedule into, for each simulated device, a stream of computation /
collective-communication nodes with explicit data dependencies.

Modelling conventions:
* Python `None`-holding "slot" fields on a layer only ever have their `.id`
  read (via `add_parent`), so slots are embedded as `Option Nat` holding the
  node id; reading a slot that is `None` raises `AttributeError` in Python and
  is an `Except.error` here.
* `encode_message(g, node)` appends the finished node to the current device's
  output list; the binary wire encoding and the `GlobalMetadata` record are
  external to the node graph and are not modelled.
* A fatal Python exception (`ValueError`, `IndexError`, `AttributeError`,
  `RuntimeError`) is `Except.error`; a run that errors produces no usable
  output (the spec instructs downstream consumers to discard partial files).
* `Node.role` is a bookkeeping tag recording the `phase` string passed to
  `get_comp_node` (it is the exact phase substring embedded in the node name);
  for communication nodes it records the sweep slot ("FWD", "BWD_IG",
  "BWD_WG") of the call site that created the node.
* Machine integers are `Int` (Python ints are unbounded); node ids are `Nat`
  (allocated from a counter starting at 0).
-/

namespace Chakra

/-- Collective communication kinds of the chakra protobuf enum; `UNKNOWN`
models the numeric fallback `0` returned for an unrecognized string. -/
inductive CommType where
  | ALL_REDUCE
  | ALL_TO_ALL
  | ALL_GATHER
  | REDUCE_SCATTER
  | UNKNOWN
deriving DecidableEq, Repr

inductive NodeType where
  | COMP_NODE
  | COMM_COLL_NODE
deriving DecidableEq, Repr

/-- One typed attribute value (`ChakraAttr` payload). -/
inductive AttrVal where
  | int64 (v : CommType)
  | uint64 (v : Int)
  | boolList (v : List Bool)
deriving DecidableEq, Repr

structure ChakraAttr where
  name : String
  val : AttrVal
deriving DecidableEq, Repr

structure Node where
  id : Nat
  name : String
  ntype : NodeType
  duration_micros : Int := 0
  attr : List ChakraAttr := []
  data_deps : List Nat := []
  role : String := ""
deriving DecidableEq, Repr

/-- One row of the schedule (`class Layer`), static fields plus the six
mutable node-reference slots (embedded as node ids). -/
structure Layer where
  name : String
  is_trainable : Bool
  fwd_comp_time : Int
  fwd_comm_type : String
  fwd_comm_size : Int
  bwd_ig_comp_time : Int
  bwd_ig_comm_type : String
  bwd_ig_comm_size : Int
  bwd_wg_comp_time : Int
  bwd_wg_comm_type : String
  bwd_wg_comm_size : Int
  bwd_wg_update_time : String
  fwd_comp_node : Option Nat := none
  fwd_comm_node : Option Nat := none
  bwd_ig_comp_node : Option Nat := none
  bwd_ig_comm_node : Option Nat := none
  bwd_wg_comp_node : Option Nat := none
  bwd_wg_comm_node : Option Nat := none
deriving DecidableEq, Repr

instance : Inhabited Layer :=
  ⟨{ name := "", is_trainable := false, fwd_comp_time := 0, fwd_comm_type := "",
     fwd_comm_size := 0, bwd_ig_comp_time := 0, bwd_ig_comm_type := "",
     bwd_ig_comm_size := 0, bwd_wg_comp_time := 0, bwd_wg_comm_type := "",
     bwd_wg_comm_size := 0, bwd_wg_update_time := "" }⟩

/-- Helper for `splitWs`: scan the character list, accumulating the current
field (in reverse). -/
def splitWsAux : List Char → List Char → List String
  | [], acc => if acc.isEmpty then [] else [String.mk acc.reverse]
  | ch :: cs, acc =>
    if ch.isWhitespace then
      if acc.isEmpty then splitWsAux cs []
      else String.mk acc.reverse :: splitWsAux cs []
    else splitWsAux cs (ch :: acc)

/-- `line.strip().split()`: split on whitespace runs, dropping empty fields. -/
def splitWs (s : String) : List String :=
  splitWsAux s.toList []

/-- `line.strip()`: drop leading and trailing whitespace. -/
def stripWs (s : String) : String :=
  String.mk (((s.toList.dropWhile Char.isWhitespace).reverse.dropWhile
    Char.isWhitespace).reverse)

/-- Digit-string to number (empty or non-digit characters fail). -/
def digitsToNat : List Char → Option Nat
  | [] => none
  | cs => cs.foldl (fun acc ch =>
      acc.bind (fun n => if ch.isDigit then some (10 * n + (ch.toNat - 48)) else none))
      (some 0)

/-- `int(s)` on an already-stripped token: optional sign then digits.
(Python's `int` also accepts underscore separators and surrounding
whitespace; the schedule format never uses those.) -/
def pyInt (s : String) : Option Int :=
  match s.toList with
  | '-' :: cs => (digitsToNat cs).map (fun n => -(n : Int))
  | '+' :: cs => (digitsToNat cs).map (fun n => (n : Int))
  | cs => (digitsToNat cs).map (fun n => (n : Int))

/-- `Layer.__init__`: columns 0..11 of the line populate the fields (extra
columns are ignored, Python indexes the split list); any failure (missing
column, non-numeric field) is the catch-all `ValueError`. -/
def parseLayer (line : String) : Except String Layer :=
  match (splitWs line).take 12 with
  | [name, c1, c2, fcty, c4, c5, icty, c7, c8, wcty, c10, wut] =>
    match pyInt c1, pyInt c2, pyInt c4, pyInt c5, pyInt c7, pyInt c8, pyInt c10 with
    | some tr, some fct, some fcs, some ict, some ics, some wct, some wcs =>
      .ok { name := name, is_trainable := tr > 0,
            fwd_comp_time := fct, fwd_comm_type := fcty, fwd_comm_size := fcs,
            bwd_ig_comp_time := ict, bwd_ig_comm_type := icty, bwd_ig_comm_size := ics,
            bwd_wg_comp_time := wct, bwd_wg_comm_type := wcty, bwd_wg_comm_size := wcs,
            bwd_wg_update_time := wut }
    | _, _, _, _, _, _, _ => .error ("Cannot parse the following layer -- \"" ++ line ++ "\"")
  | _ => .error ("Cannot parse the following layer -- \"" ++ line ++ "\"")

/-- Converter configuration (constructor arguments that the graph builders
read: mesh dimensionality, device count, pass count). -/
structure Converter where
  num_dims : Nat
  num_npus : Nat
  num_passes : Nat
deriving Repr

/-- Mutable run state: the id counter, the (slot-mutated) layer list, the
current device's emitted node stream, and the finished devices' traces. -/
structure St where
  next_node_id : Nat
  layers : List Layer
  out : List Node
  traces : List (List Node)
deriving Repr

set_option linter.unusedVariables false in
/-- `get_layers`: reads every remaining line of the file, ignoring the
declared `num_layers` argument entirely. -/
def get_layers (lines : List String) (num_layers : Int) : Except String (List Layer) :=
  lines.mapM parseLayer

/-- `get_node`: allocate the next id and build a bare node. -/
def get_node (st : St) (name : String) (node_type : NodeType) : Node × St :=
  ({ id := st.next_node_id, name := name, ntype := node_type },
   { st with next_node_id := st.next_node_id + 1 })

/-- `get_comp_node`. -/
def get_comp_node (st : St) (layer_name phase : String) (comp_time : Int) : Node × St :=
  let p := get_node st ("COMP_NODE_" ++ layer_name ++ "_" ++ phase) .COMP_NODE
  ({ p.1 with duration_micros := comp_time, role := phase }, p.2)

/-- `get_comm_type`: string to enum, unrecognized strings silently map to the
fallback value. -/
def get_comm_type (comm_type : String) : CommType :=
  if comm_type = "ALLREDUCE" then .ALL_REDUCE
  else if comm_type = "ALLTOALL" then .ALL_TO_ALL
  else if comm_type = "ALLGATHER" then .ALL_GATHER
  else if comm_type = "REDUCESCATTER" then .REDUCE_SCATTER
  else .UNKNOWN

/-- `get_comm_coll_node` (the `role` argument is the bookkeeping tag for the
calling sweep, see the module comment). -/
def get_comm_coll_node (st : St) (layer_name comm_type : String) (comm_size : Int)
    (role : String) : Node × St :=
  let p := get_node st ("COMM_COLL_NODE_" ++ layer_name ++ "_" ++ comm_type) .COMM_COLL_NODE
  ({ p.1 with
      attr := [⟨"comm_type", .int64 (get_comm_type comm_type)⟩,
               ⟨"comm_size", .uint64 comm_size⟩],
      role := role }, p.2)

/-- `add_parent(child, parent)` where `parent` may be a `None` slot:
`child.data_deps.append(parent.id)`, `AttributeError` on `None`. -/
def add_parent (child : Node) (parent : Option Nat) : Except String Node :=
  match parent with
  | some pid => .ok { child with data_deps := child.data_deps ++ [pid] }
  | none => .error "AttributeError: 'NoneType' object has no attribute 'id'"

/-- `if slot != None: add_parent(child, slot)` — the guarded pattern, total. -/
def add_parent_if (child : Node) (parent : Option Nat) : Node :=
  match parent with
  | some pid => { child with data_deps := child.data_deps ++ [pid] }
  | none => child

/-- `involved_dim` attribute with `num_dims` `True` flags. -/
def involvedDimAll (num_dims : Nat) : ChakraAttr :=
  ⟨"involved_dim", .boolList (List.replicate num_dims true)⟩

/-- `involved_dim` attribute: one `True` then `num_dims - 1` `False` flags
(Python appends `True`, then loops `range(num_dims - 1)`). -/
def involvedDimFirst (num_dims : Nat) : ChakraAttr :=
  ⟨"involved_dim", .boolList (true :: List.replicate (num_dims - 1) false)⟩

/-- `involved_dim` attribute: one `False` then `num_dims - 1` `True` flags. -/
def involvedDimRest (num_dims : Nat) : ChakraAttr :=
  ⟨"involved_dim", .boolList (false :: List.replicate (num_dims - 1) true)⟩

/-- `encode_message(g, node)`: append to the current device's stream. -/
def emit (st : St) (n : Node) : St :=
  { st with out := st.out ++ [n] }

/-- Write one slot of layer `idx` (Python mutates the aliased list element). -/
def setLayer (st : St) (idx : Nat) (f : Layer → Layer) : St :=
  { st with
    layers := match st.layers.get? idx with
      | some l => st.layers.set idx (f l)
      | none => st.layers }

/-- Index-driven loop: run `body` over the given indices, stopping at the
first error (a Python `for` loop whose body may raise). -/
def loopE {σ : Type} (body : Nat → σ → Except String σ) : List Nat → σ → Except String σ
  | [], s => .ok s
  | i :: is, s =>
    match body i s with
    | .error e => .error e
    | .ok s' => loopE body is s'

/-! ## DATA-parallel builder (`convert_data_parallel`) -/

/-- Forward-sweep body for layer `idx` in DATA mode.  The running
`Option Nat` is the Python local `fwd_comp_node`. -/
def data_fwd_body (idx : Nat) (acc : Option Nat × St) : Except String (Option Nat × St) :=
  let st := acc.2
  match st.layers.get? idx with
  | none => .error "IndexError: list index out of range"
  | some layer =>
    let p := get_comp_node st layer.name "FWD" layer.fwd_comp_time
    let st1 := p.2
    let r : Except String Node :=
      if idx = 0 then .ok p.1
      else
        match st1.layers.get? (idx - 1) with
        | none => .error "IndexError: list index out of range"
        | some prev => add_parent p.1 prev.fwd_comp_node
    match r with
    | .error e => .error e
    | .ok n0 =>
      let n1 := add_parent_if n0 layer.bwd_wg_comm_node
      let st2 := setLayer st1 idx (fun l => { l with fwd_comp_node := some n1.id })
      .ok (some n1.id, emit st2 n1)

/-- Backward-sweep body for reversed position `idx` in DATA mode
(`layer = layers[len(layers) - 1 - idx]`); `fwd` is the final value of the
forward sweep's `fwd_comp_node` local. -/
def data_bwd_body (c : Converter) (fwd : Option Nat) (idx : Nat) (st : St) :
    Except String St :=
  let L := st.layers.length
  match st.layers.get? (L - 1 - idx) with
  | none => .error "IndexError: list index out of range"
  | some layer =>
    let p := get_comp_node st layer.name "BWD_WG" layer.bwd_wg_comp_time
    let st1 := p.2
    let r : Except String Node :=
      if idx = 0 then
        match fwd with
        | none => .error "ValueError: fwd_comp_node is None"
        | some fid => add_parent p.1 (some fid)
      else
        match st1.layers.get? (L - idx) with
        | none => .error "IndexError: list index out of range"
        | some nxt => add_parent p.1 nxt.bwd_ig_comp_node
    match r with
    | .error e => .error e
    | .ok wg_comp =>
      let st2 := emit st1 wg_comp
      let q := get_comm_coll_node st2 layer.name layer.bwd_wg_comm_type
        layer.bwd_wg_comm_size "BWD_WG"
      let wg_comm0 := { q.1 with attr := q.1.attr ++ [involvedDimAll c.num_dims] }
      let st3 := q.2
      let wg_comm := add_parent_if wg_comm0 (some wg_comp.id)
      let st4 := setLayer st3 (L - 1 - idx)
        (fun l => { l with bwd_wg_comm_node := some wg_comm.id })
      let st5 := emit st4 wg_comm
      if idx = L - 1 then .ok st5
      else
        let r2 := get_comp_node st5 layer.name "BWD_IG" layer.bwd_ig_comp_time
        let ig_comp := add_parent_if r2.1 (some wg_comp.id)
        let st6 := setLayer r2.2 (L - 1 - idx)
          (fun l => { l with bwd_ig_comp_node := some ig_comp.id })
        .ok (emit st6 ig_comp)

/-- One DATA-mode pass: forward sweep then backward sweep. -/
def data_pass_body (c : Converter) (_pass : Nat) (st : St) : Except String St :=
  match loopE data_fwd_body (List.range st.layers.length) (none, st) with
  | .error e => .error e
  | .ok (fwd, st1) => loopE (data_bwd_body c fwd) (List.range st1.layers.length) st1

/-- One DATA-mode device: fresh sink, `num_passes` passes, then the
`bwd_wg_comm_node` slots are cleared. -/
def data_device_body (c : Converter) (_npu : Nat) (st : St) : Except String St :=
  let st0 := { st with out := [] }
  match loopE (data_pass_body c) (List.range c.num_passes) st0 with
  | .error e => .error e
  | .ok st1 =>
    let st2 := { st1 with
      layers := st1.layers.map (fun (l : Layer) => { l with bwd_wg_comm_node := none }) }
    .ok { st2 with traces := st2.traces ++ [st2.out], out := [] }

/-- Initial run state for a conversion run. -/
def initSt (ls : List Layer) : St :=
  { next_node_id := 0, layers := ls, out := [], traces := [] }

/-- `convert_data_parallel`. -/
def convert_data_parallel (c : Converter) (lines : List String) (num_layers : Int) :
    Except String (List (List Node)) :=
  match get_layers lines num_layers with
  | .error e => .error e
  | .ok ls =>
    match loopE (data_device_body c) (List.range c.num_npus) (initSt ls) with
    | .error e => .error e
    | .ok st => .ok st.traces

/-! ## MICRO builder (`convert_microbenchmark`) -/

/-- Per-layer body in MICRO mode: one standalone weight-gradient collective
with no data dependencies. -/
def micro_layer_body (c : Converter) (idx : Nat) (st : St) : Except String St :=
  match st.layers.get? idx with
  | none => .error "IndexError: list index out of range"
  | some layer =>
    let q := get_comm_coll_node st layer.name layer.bwd_wg_comm_type
      layer.bwd_wg_comm_size "BWD_WG"
    let n := { q.1 with attr := q.1.attr ++ [involvedDimAll c.num_dims] }
    .ok (emit q.2 n)

def micro_pass_body (c : Converter) (_pass : Nat) (st : St) : Except String St :=
  loopE (micro_layer_body c) (List.range st.layers.length) st

def micro_device_body (c : Converter) (_npu : Nat) (st : St) : Except String St :=
  let st0 := { st with out := [] }
  match loopE (micro_pass_body c) (List.range c.num_passes) st0 with
  | .error e => .error e
  | .ok st1 => .ok { st1 with traces := st1.traces ++ [st1.out], out := [] }

/-- `convert_microbenchmark`. -/
def convert_microbenchmark (c : Converter) (lines : List String) (num_layers : Int) :
    Except String (List (List Node)) :=
  match get_layers lines num_layers with
  | .error e => .error e
  | .ok ls =>
    match loopE (micro_device_body c) (List.range c.num_npus) (initSt ls) with
    | .error e => .error e
    | .ok st => .ok st.traces

/-! ## MODEL-parallel builder (`convert_model_parallel`) -/

/-- Forward-sweep body in MODEL mode; the running `Option Nat` is the local
`fwd_comm_node`. -/
def model_fwd_body (c : Converter) (idx : Nat) (acc : Option Nat × St) :
    Except String (Option Nat × St) :=
  let st := acc.2
  match st.layers.get? idx with
  | none => .error "IndexError: list index out of range"
  | some layer =>
    let p := get_comp_node st layer.name "FWD" layer.fwd_comp_time
    let st1 := p.2
    let r : Except String Node :=
      if idx = 0 then .ok p.1
      else
        match st1.layers.get? (idx - 1) with
        | none => .error "IndexError: list index out of range"
        | some prev => add_parent p.1 prev.fwd_comm_node
    match r with
    | .error e => .error e
    | .ok n0 =>
      let n1 := add_parent_if n0 layer.bwd_wg_comp_node
      let st2 := setLayer st1 idx (fun l => { l with fwd_comp_node := some n1.id })
      let st3 := emit st2 n1
      let q := get_comm_coll_node st3 layer.name layer.fwd_comm_type
        layer.fwd_comm_size "FWD"
      let comm0 := { q.1 with attr := q.1.attr ++ [involvedDimAll c.num_dims] }
      let comm := add_parent_if comm0 (some n1.id)
      let st4 := setLayer q.2 idx (fun l => { l with fwd_comm_node := some comm.id })
      .ok (some comm.id, emit st4 comm)

/-- Backward-sweep body in MODEL mode for reversed position `idx`;
`num_layers` is the (declared) layer count used by the
`idx != num_layers - 1` test, `fwd_comm` the forward sweep's final local. -/
def model_bwd_body (c : Converter) (num_layers : Int) (fwd_comm : Option Nat)
    (idx : Nat) (st : St) : Except String St :=
  let L := st.layers.length
  match st.layers.get? (L - 1 - idx) with
  | none => .error "IndexError: list index out of range"
  | some layer =>
    let p := get_comp_node st layer.name "BWD_IG" layer.bwd_ig_comp_time
    let st1 := p.2
    let r : Except String Node :=
      if idx = 0 then
        match fwd_comm with
        | none => .error "ValueError: fwd_comm_node is None"
        | some fid => add_parent p.1 (some fid)
      else
        match st1.layers.get? (L - idx) with
        | none => .error "IndexError: list index out of range"
        | some nxt =>
          match add_parent p.1 nxt.bwd_wg_comp_node with
          | .error e => .error e
          | .ok n1 => add_parent n1 nxt.bwd_ig_comm_node
    match r with
    | .error e => .error e
    | .ok ig_comp =>
      let st2 := emit st1 ig_comp
      let st3 :=
        if (idx : Int) = num_layers - 1 then st2
        else
          let q := get_comm_coll_node st2 layer.name layer.bwd_ig_comm_type
            layer.bwd_ig_comm_size "BWD_IG"
          let comm0 := { q.1 with attr := q.1.attr ++ [involvedDimAll c.num_dims] }
          let comm := add_parent_if comm0 (some ig_comp.id)
          let st' := setLayer q.2 (L - 1 - idx)
            (fun l => { l with bwd_ig_comm_node := some comm.id })
          emit st' comm
      let q2 := get_comp_node st3 layer.name "BWD_WG" layer.bwd_wg_comp_time
      let wg := add_parent_if q2.1 (some ig_comp.id)
      let st4 := setLayer q2.2 (L - 1 - idx)
        (fun l => { l with bwd_wg_comp_node := some wg.id })
      .ok (emit st4 wg)

def model_pass_body (c : Converter) (num_layers : Int) (_pass : Nat) (st : St) :
    Except String St :=
  match loopE (model_fwd_body c) (List.range st.layers.length) (none, st) with
  | .error e => .error e
  | .ok (fc, st1) =>
    loopE (model_bwd_body c num_layers fc) (List.range st1.layers.length) st1

def model_device_body (c : Converter) (num_layers : Int) (_npu : Nat) (st : St) :
    Except String St :=
  let st0 := { st with out := [] }
  match loopE (model_pass_body c num_layers) (List.range c.num_passes) st0 with
  | .error e => .error e
  | .ok st1 =>
    let st2 := { st1 with
      layers := st1.layers.map (fun (l : Layer) => { l with bwd_wg_comp_node := none }) }
    .ok { st2 with traces := st2.traces ++ [st2.out], out := [] }

/-- `convert_model_parallel`. -/
def convert_model_parallel (c : Converter) (lines : List String) (num_layers : Int) :
    Except String (List (List Node)) :=
  match get_layers lines num_layers with
  | .error e => .error e
  | .ok ls =>
    match loopE (model_device_body c num_layers) (List.range c.num_npus) (initSt ls) with
    | .error e => .error e
    | .ok st => .ok st.traces

/-! ## HYBRID_DATA_MODEL builder (`convert_hybrid_data_model`) -/

/-- Forward-sweep body in HYBRID_DATA_MODEL mode.  Unlike MODEL, the guarded
`bwd_wg_comm_node` parent is added before the chain parent, and the forward
compute node is not stored in a slot. -/
def hdm_fwd_body (c : Converter) (idx : Nat) (acc : Option Nat × St) :
    Except String (Option Nat × St) :=
  let st := acc.2
  match st.layers.get? idx with
  | none => .error "IndexError: list index out of range"
  | some layer =>
    let p := get_comp_node st layer.name "FWD" layer.fwd_comp_time
    let st1 := p.2
    let n0 := add_parent_if p.1 layer.bwd_wg_comm_node
    let r : Except String Node :=
      if idx = 0 then .ok n0
      else
        match st1.layers.get? (idx - 1) with
        | none => .error "IndexError: list index out of range"
        | some prev => add_parent n0 prev.fwd_comm_node
    match r with
    | .error e => .error e
    | .ok n1 =>
      let st2 := emit st1 n1
      let q := get_comm_coll_node st2 layer.name layer.fwd_comm_type
        layer.fwd_comm_size "FWD"
      let comm0 := { q.1 with attr := q.1.attr ++ [involvedDimFirst c.num_dims] }
      let comm := add_parent_if comm0 (some n1.id)
      let st3 := setLayer q.2 idx (fun l => { l with fwd_comm_node := some comm.id })
      .ok (some comm.id, emit st3 comm)

/-- Backward-sweep body in HYBRID_DATA_MODEL mode: like MODEL plus one extra
weight-gradient communication node; the input-gradient communication node is
named with an extra `_IG_COMM_` tag. -/
def hdm_bwd_body (c : Converter) (num_layers : Int) (fwd_comm : Option Nat)
    (idx : Nat) (st : St) : Except String St :=
  let L := st.layers.length
  match st.layers.get? (L - 1 - idx) with
  | none => .error "IndexError: list index out of range"
  | some layer =>
    let p := get_comp_node st layer.name "BWD_IG" layer.bwd_ig_comp_time
    let st1 := p.2
    let r : Except String Node :=
      if idx = 0 then
        match fwd_comm with
        | none => .error "ValueError: fwd_comm_node is None"
        | some fid => add_parent p.1 (some fid)
      else
        match st1.layers.get? (L - idx) with
        | none => .error "IndexError: list index out of range"
        | some nxt =>
          match add_parent p.1 nxt.bwd_wg_comp_node with
          | .error e => .error e
          | .ok n1 => add_parent n1 nxt.bwd_ig_comm_node
    match r with
    | .error e => .error e
    | .ok ig_comp =>
      let st2 := emit st1 ig_comp
      let st3 :=
        if (idx : Int) = num_layers - 1 then st2
        else
          let q := get_comm_coll_node st2 (layer.name ++ "_IG_COMM_")
            layer.bwd_ig_comm_type layer.bwd_ig_comm_size "BWD_IG"
          let comm0 := { q.1 with attr := q.1.attr ++ [involvedDimFirst c.num_dims] }
          let comm := add_parent_if comm0 (some ig_comp.id)
          let st' := setLayer q.2 (L - 1 - idx)
            (fun l => { l with bwd_ig_comm_node := some comm.id })
          emit st' comm
      let q2 := get_comp_node st3 layer.name "BWD_WG" layer.bwd_wg_comp_time
      let wg := add_parent_if q2.1 (some ig_comp.id)
      let st4 := setLayer q2.2 (L - 1 - idx)
        (fun l => { l with bwd_wg_comp_node := some wg.id })
      let st5 := emit st4 wg
      let q3 := get_comm_coll_node st5 layer.name layer.bwd_wg_comm_type
        layer.bwd_wg_comm_size "BWD_WG"
      let wgc0 := { q3.1 with attr := q3.1.attr ++ [involvedDimRest c.num_dims] }
      let wgc := add_parent_if wgc0 (some wg.id)
      let st6 := setLayer q3.2 (L - 1 - idx)
        (fun l => { l with bwd_wg_comm_node := some wgc.id })
      .ok (emit st6 wgc)

def hdm_pass_body (c : Converter) (num_layers : Int) (_pass : Nat) (st : St) :
    Except String St :=
  match loopE (hdm_fwd_body c) (List.range st.layers.length) (none, st) with
  | .error e => .error e
  | .ok (fc, st1) =>
    loopE (hdm_bwd_body c num_layers fc) (List.range st1.layers.length) st1

def hdm_device_body (c : Converter) (num_layers : Int) (_npu : Nat) (st : St) :
    Except String St :=
  let st0 := { st with out := [] }
  match loopE (hdm_pass_body c num_layers) (List.range c.num_passes) st0 with
  | .error e => .error e
  | .ok st1 =>
    let st2 := { st1 with
      layers := st1.layers.map (fun (l : Layer) => { l with bwd_wg_comm_node := none }) }
    .ok { st2 with traces := st2.traces ++ [st2.out], out := [] }

/-- `convert_hybrid_data_model`. -/
def convert_hybrid_data_model (c : Converter) (lines : List String) (num_layers : Int) :
    Except String (List (List Node)) :=
  match get_layers lines num_layers with
  | .error e => .error e
  | .ok ls =>
    match loopE (hdm_device_body c num_layers) (List.range c.num_npus) (initSt ls) with
    | .error e => .error e
    | .ok st => .ok st.traces

/-! ## HYBRID_MODEL_DATA builder (`convert_hybrid_model_data`) -/

/-- Forward-sweep body in HYBRID_MODEL_DATA mode (the `involved_dim` bitmask
is the inverse of HYBRID_DATA_MODEL's). -/
def hmd_fwd_body (c : Converter) (idx : Nat) (acc : Option Nat × St) :
    Except String (Option Nat × St) :=
  let st := acc.2
  match st.layers.get? idx with
  | none => .error "IndexError: list index out of range"
  | some layer =>
    let p := get_comp_node st layer.name "FWD" layer.fwd_comp_time
    let st1 := p.2
    let n0 := add_parent_if p.1 layer.bwd_wg_comm_node
    let r : Except String Node :=
      if idx = 0 then .ok n0
      else
        match st1.layers.get? (idx - 1) with
        | none => .error "IndexError: list index out of range"
        | some prev => add_parent n0 prev.fwd_comm_node
    match r with
    | .error e => .error e
    | .ok n1 =>
      let st2 := emit st1 n1
      let q := get_comm_coll_node st2 layer.name layer.fwd_comm_type
        layer.fwd_comm_size "FWD"
      let comm0 := { q.1 with attr := q.1.attr ++ [involvedDimRest c.num_dims] }
      let comm := add_parent_if comm0 (some n1.id)
      let st3 := setLayer q.2 idx (fun l => { l with fwd_comm_node := some comm.id })
      .ok (some comm.id, emit st3 comm)

/-- Backward-sweep body in HYBRID_MODEL_DATA mode. -/
def hmd_bwd_body (c : Converter) (num_layers : Int) (fwd_comm : Option Nat)
    (idx : Nat) (st : St) : Except String St :=
  let L := st.layers.length
  match st.layers.get? (L - 1 - idx) with
  | none => .error "IndexError: list index out of range"
  | some layer =>
    let p := get_comp_node st layer.name "BWD_IG" layer.bwd_ig_comp_time
    let st1 := p.2
    let r : Except String Node :=
      if idx = 0 then
        match fwd_comm with
        | none => .error "ValueError: fwd_comm_node is None"
        | some fid => add_parent p.1 (some fid)
      else
        match st1.layers.get? (L - idx) with
        | none => .error "IndexError: list index out of range"
        | some nxt =>
          match add_parent p.1 nxt.bwd_wg_comp_node with
          | .error e => .error e
          | .ok n1 => add_parent n1 nxt.bwd_ig_comm_node
    match r with
    | .error e => .error e
    | .ok ig_comp =>
      let st2 := emit st1 ig_comp
      let st3 :=
        if (idx : Int) = num_layers - 1 then st2
        else
          let q := get_comm_coll_node st2 layer.name layer.bwd_ig_comm_type
            layer.bwd_ig_comm_size "BWD_IG"
          let comm0 := { q.1 with attr := q.1.attr ++ [involvedDimRest c.num_dims] }
          let comm := add_parent_if comm0 (some ig_comp.id)
          let st' := setLayer q.2 (L - 1 - idx)
            (fun l => { l with bwd_ig_comm_node := some comm.id })
          emit st' comm
      let q2 := get_comp_node st3 layer.name "BWD_WG" layer.bwd_wg_comp_time
      let wg := add_parent_if q2.1 (some ig_comp.id)
      let st4 := setLayer q2.2 (L - 1 - idx)
        (fun l => { l with bwd_wg_comp_node := some wg.id })
      let st5 := emit st4 wg
      let q3 := get_comm_coll_node st5 layer.name layer.bwd_wg_comm_type
        layer.bwd_wg_comm_size "BWD_WG"
      let wgc0 := { q3.1 with attr := q3.1.attr ++ [involvedDimFirst c.num_dims] }
      let wgc := add_parent_if wgc0 (some wg.id)
      let st6 := setLayer q3.2 (L - 1 - idx)
        (fun l => { l with bwd_wg_comm_node := some wgc.id })
      .ok (emit st6 wgc)

def hmd_pass_body (c : Converter) (num_layers : Int) (_pass : Nat) (st : St) :
    Except String St :=
  match loopE (hmd_fwd_body c) (List.range st.layers.length) (none, st) with
  | .error e => .error e
  | .ok (fc, st1) =>
    loopE (hmd_bwd_body c num_layers fc) (List.range st1.layers.length) st1

def hmd_device_body (c : Converter) (num_layers : Int) (_npu : Nat) (st : St) :
    Except String St :=
  let st0 := { st with out := [] }
  match loopE (hmd_pass_body c num_layers) (List.range c.num_passes) st0 with
  | .error e => .error e
  | .ok st1 =>
    let st2 := { st1 with
      layers := st1.layers.map (fun (l : Layer) => { l with bwd_wg_comm_node := none }) }
    .ok { st2 with traces := st2.traces ++ [st2.out], out := [] }

/-- `convert_hybrid_model_data`. -/
def convert_hybrid_model_data (c : Converter) (lines : List String) (num_layers : Int) :
    Except String (List (List Node)) :=
  match get_layers lines num_layers with
  | .error e => .error e
  | .ok ls =>
    match loopE (hmd_device_body c num_layers) (List.range c.num_npus) (initSt ls) with
    | .error e => .error e
    | .ok st => .ok st.traces

/-! ## HYBRID_DLRM builder (`convert_hybrid_dlrm`) -/

/-- Forward-sweep body in HYBRID_DLRM mode; `lbl` is `last_bottom_layer`.
The running `Option Nat` is the local `fwd_comp_node`. -/
def dlrm_fwd_body (c : Converter) (lbl : Int) (idx : Nat) (acc : Option Nat × St) :
    Except String (Option Nat × St) :=
  let st := acc.2
  match st.layers.get? idx with
  | none => .error "IndexError: list index out of range"
  | some layer =>
    let p := get_comp_node st layer.name "FWD" layer.fwd_comp_time
    let st1 := p.2
    let n0 :=
      match layer.bwd_wg_comm_node with
      | some v => { p.1 with data_deps := p.1.data_deps ++ [v] }
      | none =>
        match layer.bwd_wg_comp_node with
        | some v => { p.1 with data_deps := p.1.data_deps ++ [v] }
        | none => p.1
    let r : Except String Node :=
      if idx = 0 then .ok n0
      else
        match st1.layers.get? (idx - 1) with
        | none => .error "IndexError: list index out of range"
        | some prev => add_parent n0 prev.fwd_comp_node
    match r with
    | .error e => .error e
    | .ok n1 =>
      let r2 : Except String Node :=
        if (idx : Int) = lbl then
          match st1.layers.get? 0 with
          | none => .error "IndexError: list index out of range"
          | some l0 => add_parent n1 l0.fwd_comm_node
        else .ok n1
      match r2 with
      | .error e => .error e
      | .ok n2 =>
        let st2 := setLayer st1 idx (fun l => { l with fwd_comp_node := some n2.id })
        let st3 := emit st2 n2
        if layer.fwd_comm_type = "ALLTOALL" then
          let q := get_comm_coll_node st3 layer.name layer.fwd_comm_type
            layer.fwd_comm_size "FWD"
          let comm0 := { q.1 with attr := q.1.attr ++ [involvedDimAll c.num_dims] }
          let comm := add_parent_if comm0 (some n2.id)
          let st4 := setLayer q.2 idx (fun l => { l with fwd_comm_node := some comm.id })
          .ok (some n2.id, emit st4 comm)
        else
          .ok (some n2.id, st3)

/-- Backward-sweep body in HYBRID_DLRM mode for reversed position `idx`. -/
def dlrm_bwd_body (c : Converter) (lbl : Int) (fwd : Option Nat) (idx : Nat)
    (st : St) : Except String St :=
  let L := st.layers.length
  match st.layers.get? (L - 1 - idx) with
  | none => .error "IndexError: list index out of range"
  | some layer =>
    let p := get_comp_node st layer.name "BWD_WG" layer.bwd_wg_comp_time
    let st1 := p.2
    let r : Except String Node :=
      if idx = 0 then
        match fwd with
        | none => .error "ValueError: fwd_comp_node is None"
        | some fid => add_parent p.1 (some fid)
      else
        match st1.layers.get? (L - idx), st1.layers.get? (L - idx - 1) with
        | some nxt, some nxt1 =>
          let n1 := add_parent_if p.1 nxt.bwd_ig_comp_node
          .ok (add_parent_if n1 nxt1.bwd_ig_comm_node)
        | _, _ => .error "IndexError: list index out of range"
    match r with
    | .error e => .error e
    | .ok wg_comp =>
      let st2 := setLayer st1 (L - 1 - idx)
        (fun l => { l with bwd_wg_comp_node := some wg_comp.id })
      let st3 := emit st2 wg_comp
      let st4 :=
        if layer.bwd_wg_comm_type = "NONE" then st3
        else
          let q := get_comm_coll_node st3 layer.name layer.bwd_wg_comm_type
            layer.bwd_wg_comm_size "BWD_WG"
          let comm0 := { q.1 with attr := q.1.attr ++ [involvedDimAll c.num_dims] }
          let comm := add_parent_if comm0 (some wg_comp.id)
          let st' := setLayer q.2 (L - 1 - idx)
            (fun l => { l with bwd_wg_comm_node := some comm.id })
          emit st' comm
      let big : Option Nat × St :=
        if idx = L - 1 then (none, st4)
        else
          let q2 := get_comp_node st4 layer.name "BWD_IG" layer.bwd_ig_comp_time
          let ig := add_parent_if q2.1 (some wg_comp.id)
          let st' := setLayer q2.2 (L - 1 - idx)
            (fun l => { l with bwd_ig_comp_node := some ig.id })
          (some ig.id, emit st' ig)
      let st5 := big.2
      if ((L : Int) - idx - 1) = lbl + 1 then
        match st5.layers.get? 0 with
        | none => .error "IndexError: list index out of range"
        | some l0 =>
          let q3 := get_comm_coll_node st5 l0.name l0.bwd_ig_comm_type
            l0.bwd_ig_comm_size "BWD_IG"
          let comm0 := { q3.1 with attr := q3.1.attr ++ [involvedDimAll c.num_dims] }
          match big.1 with
          | none => .error "ValueError: bwd_ig_comp_node is None"
          | some b =>
            let comm := add_parent_if comm0 (some b)
            let st6 := setLayer q3.2 0
              (fun l => { l with bwd_ig_comm_node := some comm.id })
            .ok (emit st6 comm)
      else .ok st5

def dlrm_pass_body (c : Converter) (lbl : Int) (_pass : Nat) (st : St) :
    Except String St :=
  match loopE (dlrm_fwd_body c lbl) (List.range st.layers.length) (none, st) with
  | .error e => .error e
  | .ok (fwd, st1) =>
    loopE (dlrm_bwd_body c lbl fwd) (List.range st1.layers.length) st1

def dlrm_device_body (c : Converter) (lbl : Int) (_npu : Nat) (st : St) :
    Except String St :=
  let st0 := { st with out := [] }
  match loopE (dlrm_pass_body c lbl) (List.range c.num_passes) st0 with
  | .error e => .error e
  | .ok st1 =>
    let st2 := { st1 with
      layers := st1.layers.map (fun (l : Layer) =>
        { l with bwd_wg_comm_node := none, bwd_wg_comp_node := none,
                 bwd_ig_comm_node := none, bwd_ig_comp_node := none }) }
    .ok { st2 with traces := st2.traces ++ [st2.out], out := [] }

/-- `convert_hybrid_dlrm`. -/
def convert_hybrid_dlrm (c : Converter) (lines : List String) (num_layers : Int)
    (last_bottom_layer : Int) : Except String (List (List Node)) :=
  match get_layers lines num_layers with
  | .error e => .error e
  | .ok ls =>
    match loopE (dlrm_device_body c last_bottom_layer) (List.range c.num_npus)
        (initSt ls) with
    | .error e => .error e
    | .ok st => .ok st.traces

/-! ## CUSTOM builder (`convert_custom_paralellism`) -/

/-- The inner `for j in range(0, layer_id)` scan of the classification loop;
an out-of-range access raises `IndexError` (this happens exactly when the
declared layer count exceeds the actual number of layer lines). -/
def has_trainable_underneath (ls : List Layer) (layer_id : Nat) : Except String Bool :=
  if layer_id ≤ ls.length then .ok ((ls.take layer_id).any (fun l => l.is_trainable))
  else .error "IndexError: list index out of range"

/-- The classification loop of `convert_custom_paralellism`: one kind string
per `layer_id in range(num_layers)` (the declared count). -/
def custom_layer_types (ls : List Layer) (num_layers : Int) : Except String (List String) :=
  loopE (fun layer_id types =>
    match has_trainable_underneath ls layer_id with
    | .error e => .error e
    | .ok u =>
      match ls.get? layer_id with
      | none => .error "IndexError: list index out of range"
      | some l =>
        .ok (types ++ [if l.is_trainable then (if u then "FP+IG+WG" else "FP+WG")
                       else (if u then "FP+IG" else "FP")]))
    (List.range num_layers.toNat) []

/-- Forward-sweep body in CUSTOM mode: the straight compute chain (the
cross-pass `bwd_wg_comm_node` parent of DATA mode is commented out in the
source). -/
def custom_fwd_body (idx : Nat) (acc : Option Nat × St) :
    Except String (Option Nat × St) :=
  let st := acc.2
  match st.layers.get? idx with
  | none => .error "IndexError: list index out of range"
  | some layer =>
    let p := get_comp_node st layer.name "FWD" layer.fwd_comp_time
    let st1 := p.2
    let r : Except String Node :=
      if idx = 0 then .ok p.1
      else
        match st1.layers.get? (idx - 1) with
        | none => .error "IndexError: list index out of range"
        | some prev => add_parent p.1 prev.fwd_comp_node
    match r with
    | .error e => .error e
    | .ok n1 =>
      let st2 := setLayer st1 idx (fun l => { l with fwd_comp_node := some n1.id })
      .ok (some n1.id, emit st2 n1)

/-- Backward-sweep body in CUSTOM mode for reversed position `idx`.  Note
that the kind is looked up as `layer_types[idx]` — the *forward* index of
position `idx` — while the layer being processed is
`layers[len(layers) - 1 - idx]`.  The running `Option Nat` is the local
`prev_comp_node`. -/
def custom_bwd_body (types : List String) (fwd : Option Nat) (idx : Nat)
    (acc : Option Nat × St) : Except String (Option Nat × St) :=
  let prev := acc.1
  let st := acc.2
  let L := st.layers.length
  match st.layers.get? (L - 1 - idx) with
  | none => .error "IndexError: list index out of range"
  | some layer =>
    match types.get? idx with
    | none => .error "IndexError: list index out of range"
    | some t =>
      if t = "FP" then
        let st1 := setLayer st (L - 1 - idx)
          (fun l => { l with bwd_ig_comp_node := none, bwd_wg_comp_node := none })
        .ok (prev, st1)
      else if t = "FP+IG" then
        let p := get_comp_node st layer.name "BWD_IG" layer.bwd_ig_comp_time
        let r := if idx = 0 then add_parent p.1 fwd else add_parent p.1 prev
        match r with
        | .error e => .error e
        | .ok ig =>
          let st1 := setLayer p.2 (L - 1 - idx)
            (fun l => { l with bwd_ig_comp_node := some ig.id, bwd_wg_comp_node := none })
          .ok (some ig.id, emit st1 ig)
      else if t = "FP+WG" then
        let p := get_comp_node st layer.name "BWD_WG" layer.bwd_wg_comp_time
        let r := if idx = 0 then add_parent p.1 fwd else add_parent p.1 prev
        match r with
        | .error e => .error e
        | .ok wg =>
          let st1 := setLayer p.2 (L - 1 - idx)
            (fun l => { l with bwd_ig_comp_node := none, bwd_wg_comp_node := some wg.id })
          .ok (some wg.id, emit st1 wg)
      else if t = "FP+IG+WG" then
        let p := get_comp_node st layer.name "BWD_IG" layer.bwd_ig_comp_time
        let q := get_comp_node p.2 layer.name "BWD_WG" layer.bwd_wg_comp_time
        let ig := add_parent_if p.1 (some q.1.id)
        let r := if idx = 0 then add_parent q.1 fwd else add_parent q.1 prev
        match r with
        | .error e => .error e
        | .ok wg =>
          let st1 := setLayer q.2 (L - 1 - idx)
            (fun l => { l with bwd_ig_comp_node := some ig.id,
                               bwd_wg_comp_node := some wg.id })
          .ok (some ig.id, emit (emit st1 ig) wg)
      else .error ("Unknown compute type: " ++ t)

def custom_pass_body (types : List String) (_pass : Nat) (st : St) :
    Except String St :=
  match loopE custom_fwd_body (List.range st.layers.length) (none, st) with
  | .error e => .error e
  | .ok (fwd, st1) =>
    match loopE (custom_bwd_body types fwd) (List.range st1.layers.length)
        (none, st1) with
    | .error e => .error e
    | .ok (_, st2) => .ok st2

/-- One CUSTOM-mode device: no global metadata and no slot clearing (the
clearing loop is commented out in the source). -/
def custom_device_body (types : List String) (c : Converter) (_npu : Nat) (st : St) :
    Except String St :=
  let st0 := { st with out := [] }
  match loopE (custom_pass_body types) (List.range c.num_passes) st0 with
  | .error e => .error e
  | .ok st1 => .ok { st1 with traces := st1.traces ++ [st1.out], out := [] }

/-- `convert_custom_paralellism`. -/
def convert_custom_paralellism (c : Converter) (lines : List String) (num_layers : Int) :
    Except String (List (List Node)) :=
  match get_layers lines num_layers with
  | .error e => .error e
  | .ok ls =>
    match custom_layer_types ls num_layers with
    | .error e => .error e
    | .ok types =>
      match loopE (custom_device_body types c) (List.range c.num_npus) (initSt ls) with
      | .error e => .error e
      | .ok st => .ok st.traces

/-! ## Strategy dispatcher (`convert`) -/

/-- `convert`: read the mode tag and the declared layer count, then dispatch
to the per-strategy builder; an unrecognized tag is the fatal
`UnsupportedStrategy` error (Python `ValueError`), raised before any output
sink is opened. -/
def convert (c : Converter) (lines : List String) : Except String (List (List Node)) :=
  let first_line := splitWs ((lines.get? 0).getD "")
  match first_line.get? 0 with
  | none => .error "IndexError: list index out of range"
  | some parallelism_type =>
    match pyInt (stripWs ((lines.get? 1).getD "")) with
    | none => .error "ValueError: invalid literal for int()"
    | some num_layers =>
      let rest := lines.drop 2
      if parallelism_type = "MICRO" then convert_microbenchmark c rest num_layers
      else if parallelism_type = "DATA" then convert_data_parallel c rest num_layers
      else if parallelism_type = "MODEL" then convert_model_parallel c rest num_layers
      else if parallelism_type = "HYBRID_DATA_MODEL" then
        convert_hybrid_data_model c rest num_layers
      else if parallelism_type = "HYBRID_MODEL_DATA" then
        convert_hybrid_model_data c rest num_layers
      else if parallelism_type = "CUSTOM" then
        convert_custom_paralellism c rest num_layers
      else if parallelism_type = "HYBRID_DLRM" ∨
          parallelism_type = "HYBRID_DLRM_ENHANCED" then
        match first_line.get? 1 with
        | none => .error "IndexError: list index out of range"
        | some tok =>
          match pyInt tok with
          | none => .error "ValueError: invalid literal for int()"
          | some last_bottom_layer =>
            convert_hybrid_dlrm c rest num_layers last_bottom_layer
      else .error ("Unsupported parallelism type, " ++ parallelism_type)

/-! ## Specification predicates -/

instance : Inhabited Node :=
  ⟨{ id := 0, name := "", ntype := .COMP_NODE }⟩

/-- The id stream of a trace, in emission order. -/
def idsOf (t : List Node) : List Nat := t.map Node.id

/-- Every dependency of every node points strictly below the node's own id. -/
def StrictDeps (t : List Node) : Prop :=
  ∀ n ∈ t, ∀ d ∈ n.data_deps, d < n.id

/-- Every dependency of every node is at least `b` (the first id allocated
for the trace's device). -/
def DepsLB (b : Nat) (t : List Node) : Prop :=
  ∀ n ∈ t, ∀ d ∈ n.data_deps, b ≤ d

/-- Weak run invariant (holds in every mode): the ids of all emitted nodes,
finished traces first and then the current device's stream, are exactly
`0, 1, 2, …` up to the id counter; and no node depends on an id allocated
before its own device's first id. -/
structure InvW (st : St) : Prop where
  ids : idsOf st.traces.flatten ++ idsOf st.out = List.range st.next_node_id
  prevLB : ∀ k (h : k < st.traces.length),
    DepsLB ((st.traces.take k).flatten.length) (st.traces.get ⟨k, h⟩)
  curLB : DepsLB st.traces.flatten.length st.out

/-- Strong run invariant (all modes except CUSTOM): additionally every
dependency points strictly below the depending node's id. -/
structure InvS (st : St) extends InvW st : Prop where
  prevS : ∀ k (h : k < st.traces.length), StrictDeps (st.traces.get ⟨k, h⟩)
  curS : StrictDeps st.out

/-- All `involved_dim` boolean vectors attached to a node. -/
def involved_dims (n : Node) : List (List Bool) :=
  n.attr.filterMap (fun a =>
    match a.name, a.val with
    | "involved_dim", .boolList bs => some bs
    | _, _ => none)

/-! ## Functional description of one DATA-mode pass -/

/-- The forward compute node of layer `i` in a DATA pass that starts
allocating at id `N` from layer list `ls`. -/
def dataFwdNode (ls : List Layer) (N i : Nat) : Node :=
  let l := ls.getD i default
  { id := N + i,
    name := "COMP_NODE_" ++ l.name ++ "_" ++ "FWD",
    ntype := .COMP_NODE,
    duration_micros := l.fwd_comp_time,
    attr := [],
    data_deps := (if i = 0 then [] else [N + (i - 1)]) ++
      (match l.bwd_wg_comm_node with | some v => [v] | none => []),
    role := "FWD" }

/-- The nodes emitted by backward step `j` (layer `ls.length - 1 - j`) of a
DATA pass starting at id `N`: weight-gradient compute, weight-gradient
collective, and (except at the last step) input-gradient compute. -/
def dataBwdChunk (d : Nat) (ls : List Layer) (N j : Nat) : List Node :=
  let L := ls.length
  let l := ls.getD (L - 1 - j) default
  let M := N + L + 3 * j
  let wg : Node :=
    { id := M, name := "COMP_NODE_" ++ l.name ++ "_" ++ "BWD_WG",
      ntype := .COMP_NODE, duration_micros := l.bwd_wg_comp_time, attr := [],
      data_deps := [M - 1], role := "BWD_WG" }
  let comm : Node :=
    { id := M + 1,
      name := "COMM_COLL_NODE_" ++ l.name ++ "_" ++ l.bwd_wg_comm_type,
      ntype := .COMM_COLL_NODE, duration_micros := 0,
      attr := [⟨"comm_type", .int64 (get_comm_type l.bwd_wg_comm_type)⟩,
               ⟨"comm_size", .uint64 l.bwd_wg_comm_size⟩, involvedDimAll d],
      data_deps := [M], role := "BWD_WG" }
  let ig : Node :=
    { id := M + 2, name := "COMP_NODE_" ++ l.name ++ "_" ++ "BWD_IG",
      ntype := .COMP_NODE, duration_micros := l.bwd_ig_comp_time, attr := [],
      data_deps := [M], role := "BWD_IG" }
  if j = L - 1 then [wg, comm] else [wg, comm, ig]

/-- All nodes emitted by one DATA-mode pass over `ls` starting at id `N`
(`d` is the mesh dimensionality). -/
def dataSegment (d : Nat) (ls : List Layer) (N : Nat) : List Node :=
  ((List.range ls.length).map (dataFwdNode ls N)) ++
  ((List.range ls.length).map (dataBwdChunk d ls N)).flatten

/-- Layer `i` after one DATA-mode pass over `L` layers starting at id `N`. -/
def dataPassLayer (L N i : Nat) (l : Layer) : Layer :=
  { l with
    fwd_comp_node := some (N + i),
    bwd_wg_comm_node := some (N + L + 3 * (L - 1 - i) + 1),
    bwd_ig_comp_node := if i = 0 then l.bwd_ig_comp_node
      else some (N + L + 3 * (L - 1 - i) + 2) }

/-- Loop invariant of the DATA forward sweep, after `j` completed steps:
ids advanced by `j`, one forward node per processed layer appended, the
processed layers' `fwd_comp_node` slots rewritten, and the local
`fwd_comp_node` holding the last created node. -/
def DataFwdInv (ls₀ : List Layer) (N₀ : Nat) (out₀ : List Node)
    (tr₀ : List (List Node)) (j : Nat) (acc : Option Nat × St) : Prop :=
  acc.2.next_node_id = N₀ + j ∧
  acc.2.traces = tr₀ ∧
  acc.2.out = out₀ ++ (List.range j).map (dataFwdNode ls₀ N₀) ∧
  acc.2.layers.length = ls₀.length ∧
  (∀ i, j ≤ i → acc.2.layers.get? i = ls₀.get? i) ∧
  (∀ i, i < j → acc.2.layers.get? i =
    some { ls₀.getD i default with fwd_comp_node := some (N₀ + i) }) ∧
  acc.1 = (if j = 0 then none else some (N₀ + j - 1)) ∧
  j ≤ ls₀.length

/-- Loop invariant of the DATA backward sweep, after `j` completed steps
(`ls₀` and `N₀` are the layer list and first id of the enclosing pass,
`out₁` the stream after the forward sweep). -/
def DataBwdInv (d : Nat) (ls₀ : List Layer) (N₀ : Nat) (out₁ : List Node)
    (tr₀ : List (List Node)) (j : Nat) (st : St) : Prop :=
  st.next_node_id = N₀ + ls₀.length + min (3 * j) (3 * ls₀.length - 1) ∧
  st.traces = tr₀ ∧
  st.out = out₁ ++ ((List.range j).map (dataBwdChunk d ls₀ N₀)).flatten ∧
  st.layers.length = ls₀.length ∧
  (∀ i, i < ls₀.length - j → st.layers.get? i =
    some { ls₀.getD i default with fwd_comp_node := some (N₀ + i) }) ∧
  (∀ i, ls₀.length - j ≤ i → i < ls₀.length → st.layers.get? i =
    some (dataPassLayer ls₀.length N₀ i (ls₀.getD i default))) ∧
  j ≤ ls₀.length

/-- The part of a layer record that one DATA-mode pass actually reads: the
twelve static fields and the `bwd_wg_comm_node` slot (the other five slots
are overwritten before being read, or never read). -/
def segView (l : Layer) : Layer :=
  { l with fwd_comp_node := none, fwd_comm_node := none,
           bwd_ig_comp_node := none, bwd_ig_comm_node := none,
           bwd_wg_comp_node := none }

/-- Only the twelve static fields of a layer (all slots erased). -/
def staticView (l : Layer) : Layer :=
  { segView l with bwd_wg_comm_node := none }

/-- The whole layer list after one DATA pass starting at id `N`. -/
def dataLayersAfter (ls : List Layer) (N : Nat) : List Layer :=
  (List.range ls.length).map (fun i => dataPassLayer ls.length N i (ls.getD i default))

/-- The layer list after `k` DATA passes of one device whose first pass
starts allocating at `N₀`. -/
def dataStateLayers (ls : List Layer) (N₀ : Nat) : Nat → List Layer
  | 0 => ls
  | k + 1 => dataLayersAfter (dataStateLayers ls N₀ k)
      (N₀ + k * (4 * ls.length - 1))

/-- The per-pass node segments of one DATA-mode device (`P` passes) whose
first pass starts allocating at `N₀`. -/
def dataSegs (d : Nat) (ls : List Layer) (N₀ P : Nat) : List (List Node) :=
  (List.range P).map (fun p =>
    dataSegment d (dataStateLayers ls N₀ p) (N₀ + p * (4 * ls.length - 1)))

/-- A forward compute node (as tagged at its creation site). -/
def isFwdComp (n : Node) : Bool :=
  n.role == "FWD" && n.ntype == NodeType.COMP_NODE

/-- A weight-gradient compute node. -/
def isWgComp (n : Node) : Bool :=
  n.role == "BWD_WG" && n.ntype == NodeType.COMP_NODE

/-- A weight-gradient collective communication node. -/
def isWgComm (n : Node) : Bool :=
  n.role == "BWD_WG" && n.ntype == NodeType.COMM_COLL_NODE

/-- An input-gradient compute node. -/
def isIgComp (n : Node) : Bool :=
  n.role == "BWD_IG" && n.ntype == NodeType.COMP_NODE

/-- Weak final-trace contract: node ids over all traces in emission order are
exactly `0, 1, 2, …`, and no node of any trace depends on an id allocated
before the first id of the trace's own device. -/
def GoodW (traces : List (List Node)) : Prop :=
  idsOf traces.flatten = List.range traces.flatten.length ∧
  ∀ k (h : k < traces.length),
    DepsLB ((traces.take k).flatten.length) (traces.get ⟨k, h⟩)

/-- Strong final-trace contract: additionally every dependency points
strictly below the depending node's own id. -/
def GoodS (traces : List (List Node)) : Prop :=
  GoodW traces ∧ ∀ k (h : k < traces.length), StrictDeps (traces.get ⟨k, h⟩)

/-- A populated node-reference slot holds an id in `[B, N)` (device base to
id counter); an empty slot is fine. -/
def SlotLB (B N : Nat) (o : Option Nat) : Prop :=
  ∀ v, o = some v → B ≤ v ∧ v < N

/-- The layer skipped by the `idx != num_layers - 1` test of the backward
sweep (MODEL/HDM/HMD) never has its `bwd_ig_comm_node` slot populated. -/
def SkipNone (d : Int) (st : St) : Prop :=
  ∀ j, ∀ l, st.layers.get? j = some l →
    ((st.layers.length - 1 - j : Nat) : Int) = d - 1 →
    l.bwd_ig_comm_node = none

/-- All `bwd_wg_comp_node` slots lie in the current device's id window. -/
def WgCompLB (st : St) : Prop :=
  ∀ l ∈ st.layers,
    SlotLB st.traces.flatten.length st.next_node_id l.bwd_wg_comp_node

/-- All `bwd_wg_comm_node` slots lie in the current device's id window. -/
def WgCommLB (st : St) : Prop :=
  ∀ l ∈ st.layers,
    SlotLB st.traces.flatten.length st.next_node_id l.bwd_wg_comm_node

/-- After `k` forward steps, layers `0 … k-1` have an in-window
`fwd_comm_node` slot. -/
def FwdCommFresh (k : Nat) (st : St) : Prop :=
  ∀ j, j < k → ∀ l, st.layers.get? j = some l →
    SlotLB st.traces.flatten.length st.next_node_id l.fwd_comm_node

/-- After `k` forward steps, layers `0 … k-1` have an in-window
`fwd_comp_node` slot. -/
def FwdCompFresh (k : Nat) (st : St) : Prop :=
  ∀ j, j < k → ∀ l, st.layers.get? j = some l →
    SlotLB st.traces.flatten.length st.next_node_id l.fwd_comp_node

/-- After `k` backward steps, the processed layers' `bwd_ig_comm_node`
slots lie in the device window (or are empty). -/
def IgCommDone (k : Nat) (st : St) : Prop :=
  ∀ pos, pos < k → ∀ l,
    st.layers.get? (st.layers.length - 1 - pos) = some l →
    SlotLB st.traces.flatten.length st.next_node_id l.bwd_ig_comm_node

/-- After `k` backward steps, the processed layers' `bwd_wg_comp_node`
slots lie in the device window (or are empty). -/
def WgCompDone (k : Nat) (st : St) : Prop :=
  ∀ pos, pos < k → ∀ l,
    st.layers.get? (st.layers.length - 1 - pos) = some l →
    SlotLB st.traces.flatten.length st.next_node_id l.bwd_wg_comp_node

/-- After `k` backward steps, the processed layers' `bwd_ig_comp_node`
slots lie in the device window (or are empty). -/
def IgCompDone (k : Nat) (st : St) : Prop :=
  ∀ pos, pos < k → ∀ l,
    st.layers.get? (st.layers.length - 1 - pos) = some l →
    SlotLB st.traces.flatten.length st.next_node_id l.bwd_ig_comp_node

/-- Every emitted node (current stream and finished traces) satisfies `Q`. -/
def AttrsOK (Q : Node → Prop) (st : St) : Prop :=
  (∀ n ∈ st.out, Q n) ∧ (∀ t ∈ st.traces, ∀ n ∈ t, Q n)

/-- The `involved_dim` contract of HYBRID_DATA_MODEL communication nodes:
first dimension only for forward/input-gradient collectives, all but the
first for weight-gradient collectives. -/
def hdmQ (dims : Nat) (n : Node) : Prop :=
  n.ntype = .COMM_COLL_NODE →
    involved_dims n = [if n.role = "BWD_WG"
      then false :: List.replicate (dims - 1) true
      else true :: List.replicate (dims - 1) false]

/-- The `involved_dim` contract of HYBRID_MODEL_DATA communication nodes
(the exact inverse of HYBRID_DATA_MODEL's). -/
def hmdQ (dims : Nat) (n : Node) : Prop :=
  n.ntype = .COMM_COLL_NODE →
    involved_dims n = [if n.role = "BWD_WG"
      then true :: List.replicate (dims - 1) false
      else false :: List.replicate (dims - 1) true]

/-- All four backward-slot fields of every layer lie in the current device's
id window (HYBRID_DLRM; all four are reset at device end). -/
def DlrmBwdLB (st : St) : Prop :=
  ∀ l ∈ st.layers,
    SlotLB st.traces.flatten.length st.next_node_id l.bwd_ig_comp_node ∧
    SlotLB st.traces.flatten.length st.next_node_id l.bwd_ig_comm_node ∧
    SlotLB st.traces.flatten.length st.next_node_id l.bwd_wg_comp_node ∧
    SlotLB st.traces.flatten.length st.next_node_id l.bwd_wg_comm_node

/-- If layer 0's forward communication kind is not `ALLTOALL`, its
`fwd_comm_node` slot is never populated (HYBRID_DLRM: the slot is only
written under the `ALLTOALL` test). -/
def DlrmF0 (st : St) : Prop :=
  ∀ l0, st.layers.get? 0 = some l0 → l0.fwd_comm_type ≠ "ALLTOALL" →
    l0.fwd_comm_node = none

/-- With `last_bottom_layer = 0` the bottom-gather parent of layer 0 is read
before the slot could ever be written, so every reachable state still has
layer 0's `fwd_comm_node` slot empty (the first pass fails on the empty
slot before any write). -/
def DlrmF0N (lbl : Int) (st : St) : Prop :=
  lbl = 0 → 0 < st.layers.length → ∀ l0, st.layers.get? 0 = some l0 →
    l0.fwd_comm_node = none

/-- After at least one HYBRID_DLRM forward step of the current pass, layer
0's `fwd_comm_node` slot lies in the device window (or is empty). -/
def F0Done (k : Nat) (st : St) : Prop :=
  1 ≤ k → ∀ l0, st.layers.get? 0 = some l0 →
    SlotLB st.traces.flatten.length st.next_node_id l0.fwd_comm_node

/-! ## General lemmas -/

theorem loopE_range'_ind {σ : Type} (body : Nat → σ → Except String σ)
    (P : Nat → σ → Prop) :
    ∀ (k i : Nat) (s u : σ),
      (∀ j t v, i ≤ j → j < i + k → P j t → body j t = .ok v → P (j + 1) v) →
      P i s → loopE body (List.range' i k) s = .ok u → P (i + k) u := by
  intro k
  induction k with
  | zero =>
    intro i s u _ hP h
    simp only [List.range', loopE] at h
    cases h
    exact hP
  | succ k ih =>
    intro i s u hstep hP h
    rw [List.range'_succ] at h
    simp only [loopE] at h
    cases hb : body i s with
    | error e => rw [hb] at h; cases h
    | ok s' =>
      rw [hb] at h
      have hstep' : ∀ j t v, i + 1 ≤ j → j < (i + 1) + k → P j t →
          body j t = .ok v → P (j + 1) v := by
        intro j t v h1 h2 hPj hbj
        exact hstep j t v (by omega) (by omega) hPj hbj
      have h1 : P i s := hP
      have h2 : P (i + 1) s' :=
        hstep i s s' (Nat.le_refl i) (by omega) h1 hb
      have h3 := ih (i + 1) s' u hstep' h2 h
      have : i + 1 + k = i + (k + 1) := by omega
      rw [this] at h3
      exact h3

theorem loopE_range_ind {σ : Type} (body : Nat → σ → Except String σ)
    (P : Nat → σ → Prop) (k : Nat) (s u : σ)
    (hstep : ∀ j t v, j < k → P j t → body j t = .ok v → P (j + 1) v)
    (hP : P 0 s) (h : loopE body (List.range k) s = .ok u) : P k u := by
  rw [List.range_eq_range'] at h
  have := loopE_range'_ind body P k 0 s u
    (fun j t v _ h2 => hstep j t v (by omega)) hP h
  simpa using this

theorem get_layers_length {lines : List String} {n : Int} {ls : List Layer}
    (h : get_layers lines n = .ok ls) : ls.length = lines.length := by
  induction lines generalizing ls with
  | nil =>
    simp only [get_layers, List.mapM_nil, pure, Except.pure] at h
    cases h
    rfl
  | cons a rest ih =>
    simp only [get_layers, List.mapM_cons] at h
    cases hpa : parseLayer a with
    | error e => rw [hpa] at h; cases h
    | ok b =>
      rw [hpa] at h
      cases hrest : rest.mapM parseLayer with
      | error e =>
        rw [hrest] at h
        cases h
      | ok bs =>
        rw [hrest] at h
        simp only [bind, Except.bind, pure, Except.pure] at h
        cases h
        simp only [List.length_cons]
        rw [ih hrest]

theorem data_fwd_body_step (ls₀ : List Layer) (N₀ : Nat) (out₀ : List Node)
    (tr₀ : List (List Node)) (j : Nat) (acc v : Option Nat × St)
    (hj : j < ls₀.length)
    (hP : DataFwdInv ls₀ N₀ out₀ tr₀ j acc)
    (hok : data_fwd_body j acc = .ok v) :
    DataFwdInv ls₀ N₀ out₀ tr₀ (j + 1) v := by
  obtain ⟨hN, htr, hout, hlen, hhi, hlo, hfwd, hjle⟩ := hP
  have hget : acc.2.layers.get? j = ls₀.get? j := hhi j (Nat.le_refl j)
  cases hls : ls₀.get? j with
  | none =>
    rw [List.get?_eq_none] at hls
    omega
  | some layer =>
    rw [hls] at hget
    have hlayerD : ls₀.getD j default = layer := by
      rw [List.getD_eq_getElem?_getD, ← List.get?_eq_getElem?, hls]
      rfl
    have hlayerD' : ls₀[j]?.getD default = layer := by
      rw [← List.get?_eq_getElem?, hls]
      rfl
    have hbody : data_fwd_body j acc = .ok (some (N₀ + j),
        { acc.2 with
          next_node_id := N₀ + j + 1,
          layers := acc.2.layers.set j { layer with fwd_comp_node := some (N₀ + j) },
          out := acc.2.out ++ [dataFwdNode ls₀ N₀ j] }) := by
      unfold data_fwd_body
      by_cases hj0 : j = 0
      · subst hj0
        simp only [hget, if_pos rfl, get_comp_node, get_node, add_parent_if,
          setLayer, emit, hN, dataFwdNode, hlayerD]
        cases layer.bwd_wg_comm_node <;> simp
      · have hprev : acc.2.layers.get? (j - 1) =
            some { ls₀.getD (j - 1) default with fwd_comp_node := some (N₀ + (j - 1)) } :=
          hlo (j - 1) (by omega)
        simp only [hget, if_neg hj0, get_comp_node, get_node, add_parent,
          add_parent_if, setLayer, emit, hN, dataFwdNode, hlayerD, hprev]
        cases layer.bwd_wg_comm_node <;> simp [hj0]
    rw [hbody] at hok
    cases hok
    refine ⟨by simp; omega, by simp [htr], ?_, by simp [hlen], ?_, ?_, by simp, by omega⟩
    · simp only [hout, List.range_succ, List.map_append, List.map_cons, List.map_nil]
      simp [List.append_assoc]
    · intro i hi
      simp only []
      rw [List.get?_set_ne _ _ (by omega : j ≠ i)]
      exact hhi i (by omega)
    · intro i hi
      simp only []
      by_cases hij : i = j
      · subst hij
        rw [List.get?_set_eq, hget]
        simp [hlayerD, hlayerD']
      · rw [List.get?_set_ne _ _ (by omega : j ≠ i)]
        exact hlo i (by omega)

theorem data_bwd_body_step (c : Converter) (ls₀ : List Layer) (N₀ : Nat)
    (out₁ : List Node) (tr₀ : List (List Node)) (fwd : Option Nat)
    (hfwd : fwd = some (N₀ + ls₀.length - 1))
    (j : Nat) (st v : St) (hj : j < ls₀.length)
    (hP : DataBwdInv c.num_dims ls₀ N₀ out₁ tr₀ j st)
    (hok : data_bwd_body c fwd j st = .ok v) :
    DataBwdInv c.num_dims ls₀ N₀ out₁ tr₀ (j + 1) v := by
  obtain ⟨hN, htr, hout, hlen, hunp, hproc, hjle⟩ := hP
  have hmin : min (3 * j) (3 * ls₀.length - 1) = 3 * j := by omega
  rw [hmin] at hN
  have hgetk : st.layers.get? (ls₀.length - 1 - j) =
      some { ls₀.getD (ls₀.length - 1 - j) default with
        fwd_comp_node := some (N₀ + (ls₀.length - 1 - j)) } :=
    hunp (ls₀.length - 1 - j) (by omega)
  have hL : st.layers.length = ls₀.length := hlen
  unfold data_bwd_body at hok
  rw [hL] at hok
  by_cases hj0 : j = 0
  · subst hj0
    simp only [hgetk, hfwd, get_comp_node, get_node, add_parent, add_parent_if,
      get_comm_coll_node, setLayer, emit, hN, List.get?_set_eq,
      eq_self_iff_true, if_true, Option.map_some, List.nil_append] at hok
    split at hok <;> rename_i hlast <;> cases hok <;>
      refine ⟨?_, htr, ?_, by simp [hlen], ?_, ?_, by omega⟩
    · (try dsimp only)
      omega
    · simp only [hout, List.range_succ, List.map_append, List.map_cons,
        List.map_nil, List.flatten_append, List.flatten_cons, List.flatten_nil,
        List.append_assoc, List.append_nil, List.singleton_append,
        List.cons_append]
      rw [List.append_right_inj, List.append_right_inj]
      simp only [dataBwdChunk, if_pos hlast, List.cons.injEq, Node.mk.injEq,
        Option.some.injEq, List.nil_append, involvedDimAll]
      repeat' apply And.intro
      all_goals first | rfl | trivial | omega
    · intro i hi
      (try dsimp only)
      rw [List.get?_set_ne _ _ (by omega : ls₀.length - 1 - 0 ≠ i)]
      exact hunp i (by omega)
    · intro i hi hi2
      (try dsimp only)
      by_cases hik : i = ls₀.length - 1 - 0
      · subst hik
        rw [List.get?_set_eq, hgetk]
        simp only [Option.map_some, Option.some.injEq, dataPassLayer]
        rw [if_pos (by omega : ls₀.length - 1 - 0 = 0)]
        simp only [Layer.mk.injEq, Option.some.injEq]
        repeat' apply And.intro
        all_goals first | rfl | trivial | omega
      · rw [List.get?_set_ne _ _ (fun h => hik h.symm)]
        exact hproc i (by omega) hi2
    · (try dsimp only)
      omega
    · simp only [hout, List.range_succ, List.map_append, List.map_cons,
        List.map_nil, List.flatten_append, List.flatten_cons, List.flatten_nil,
        List.append_assoc, List.append_nil, List.singleton_append,
        List.cons_append]
      rw [List.append_right_inj, List.append_right_inj]
      simp only [dataBwdChunk, if_neg hlast, List.cons.injEq, Node.mk.injEq,
        Option.some.injEq, List.nil_append, involvedDimAll]
      repeat' apply And.intro
      all_goals first | rfl | trivial | omega
    · intro i hi
      (try dsimp only)
      rw [List.set_set]
      rw [List.get?_set_ne _ _ (by omega : ls₀.length - 1 - 0 ≠ i)]
      exact hunp i (by omega)
    · intro i hi hi2
      (try dsimp only)
      rw [List.set_set]
      by_cases hik : i = ls₀.length - 1 - 0
      · subst hik
        rw [List.get?_set_eq, hgetk]
        simp only [Option.map_some, Option.some.injEq, dataPassLayer]
        rw [if_neg (by omega : ¬ ls₀.length - 1 - 0 = 0)]
        simp only [Layer.mk.injEq, Option.some.injEq]
        repeat' apply And.intro
        all_goals first | rfl | trivial | omega
      · rw [List.get?_set_ne _ _ (fun h => hik h.symm)]
        exact hproc i (by omega) hi2
  · have hnext : st.layers.get? (ls₀.length - j) =
        some (dataPassLayer ls₀.length N₀ (ls₀.length - j)
          (ls₀.getD (ls₀.length - j) default)) :=
      hproc (ls₀.length - j) (by omega) (by omega)
    have hig : (dataPassLayer ls₀.length N₀ (ls₀.length - j)
        (ls₀.getD (ls₀.length - j) default)).bwd_ig_comp_node =
        some (N₀ + ls₀.length + 3 * j - 1) := by
      simp only [dataPassLayer]
      rw [if_neg (by omega : ¬ ls₀.length - j = 0)]
      simp only [Option.some.injEq]
      omega
    simp only [hgetk, if_neg hj0, hnext, hig, get_comp_node, get_node,
      add_parent, add_parent_if, get_comm_coll_node, setLayer, emit, hN,
      List.get?_set_eq, eq_self_iff_true, if_true, Option.map_some,
      List.nil_append] at hok
    split at hok <;> rename_i hlast <;> cases hok <;>
      refine ⟨?_, htr, ?_, by simp [hlen], ?_, ?_, by omega⟩
    · (try dsimp only)
      omega
    · simp only [hout, List.range_succ, List.map_append, List.map_cons,
        List.map_nil, List.flatten_append, List.flatten_cons, List.flatten_nil,
        List.append_assoc, List.append_nil, List.singleton_append,
        List.cons_append]
      rw [List.append_right_inj, List.append_right_inj]
      simp only [dataBwdChunk, if_pos hlast, List.cons.injEq, Node.mk.injEq,
        Option.some.injEq, List.nil_append, involvedDimAll]
      repeat' apply And.intro
      all_goals first | rfl | trivial | omega
    · intro i hi
      (try dsimp only)
      rw [List.get?_set_ne _ _ (by omega : ls₀.length - 1 - j ≠ i)]
      exact hunp i (by omega)
    · intro i hi hi2
      (try dsimp only)
      by_cases hik : i = ls₀.length - 1 - j
      · subst hik
        rw [List.get?_set_eq, hgetk]
        simp only [Option.map_some, Option.some.injEq, dataPassLayer]
        rw [if_pos (by omega : ls₀.length - 1 - j = 0)]
        simp only [Layer.mk.injEq, Option.some.injEq]
        repeat' apply And.intro
        all_goals first | rfl | trivial | omega
      · rw [List.get?_set_ne _ _ (fun h => hik h.symm)]
        exact hproc i (by omega) hi2
    · (try dsimp only)
      omega
    · simp only [hout, List.range_succ, List.map_append, List.map_cons,
        List.map_nil, List.flatten_append, List.flatten_cons, List.flatten_nil,
        List.append_assoc, List.append_nil, List.singleton_append,
        List.cons_append]
      rw [List.append_right_inj, List.append_right_inj]
      simp only [dataBwdChunk, if_neg hlast, List.cons.injEq, Node.mk.injEq,
        Option.some.injEq, List.nil_append, involvedDimAll]
      repeat' apply And.intro
      all_goals first | rfl | trivial | omega
    · intro i hi
      (try dsimp only)
      rw [List.set_set]
      rw [List.get?_set_ne _ _ (by omega : ls₀.length - 1 - j ≠ i)]
      exact hunp i (by omega)
    · intro i hi hi2
      (try dsimp only)
      rw [List.set_set]
      by_cases hik : i = ls₀.length - 1 - j
      · subst hik
        rw [List.get?_set_eq, hgetk]
        simp only [Option.map_some, Option.some.injEq, dataPassLayer]
        rw [if_neg (by omega : ¬ ls₀.length - 1 - j = 0)]
        simp only [Layer.mk.injEq, Option.some.injEq]
        repeat' apply And.intro
        all_goals first | rfl | trivial | omega
      · rw [List.get?_set_ne _ _ (fun h => hik h.symm)]
        exact hproc i (by omega) hi2

theorem data_fwd_loop_spec (ls₀ : List Layer) (N₀ : Nat) (out₀ : List Node)
    (tr₀ : List (List Node)) (res : Option Nat × St)
    (h : loopE data_fwd_body (List.range ls₀.length)
      (none, ⟨N₀, ls₀, out₀, tr₀⟩) = .ok res) :
    DataFwdInv ls₀ N₀ out₀ tr₀ ls₀.length res := by
  refine loopE_range_ind data_fwd_body (DataFwdInv ls₀ N₀ out₀ tr₀)
    ls₀.length _ res
    (fun j t v hj hP hb => data_fwd_body_step ls₀ N₀ out₀ tr₀ j t v hj hP hb)
    ?_ h
  exact ⟨rfl, rfl, by simp, rfl, fun i _ => rfl,
    fun i hi => absurd hi (by omega), rfl, by omega⟩

theorem data_bwd_loop_spec (c : Converter) (ls₀ : List Layer) (N₀ : Nat)
    (out₁ : List Node) (tr₀ : List (List Node)) (fwd : Option Nat)
    (hfwd : ls₀.length ≠ 0 → fwd = some (N₀ + ls₀.length - 1))
    (st v : St)
    (hP : DataBwdInv c.num_dims ls₀ N₀ out₁ tr₀ 0 st)
    (h : loopE (data_bwd_body c fwd) (List.range ls₀.length) st = .ok v) :
    DataBwdInv c.num_dims ls₀ N₀ out₁ tr₀ ls₀.length v := by
  refine loopE_range_ind (data_bwd_body c fwd)
    (DataBwdInv c.num_dims ls₀ N₀ out₁ tr₀) ls₀.length st v
    (fun j t w hj hPj hb =>
      data_bwd_body_step c ls₀ N₀ out₁ tr₀ fwd (hfwd (by omega)) j t w hj hPj hb)
    hP h

theorem data_pass_spec (c : Converter) (p : Nat) (st v : St)
    (hok : data_pass_body c p st = .ok v) :
    v.next_node_id = st.next_node_id + (4 * st.layers.length - 1) ∧
    v.traces = st.traces ∧
    v.out = st.out ++ dataSegment c.num_dims st.layers st.next_node_id ∧
    v.layers = dataLayersAfter st.layers st.next_node_id := by
  unfold data_pass_body at hok
  cases hfl : loopE data_fwd_body (List.range st.layers.length) (none, st) with
  | error e => rw [hfl] at hok; cases hok
  | ok res =>
    rw [hfl] at hok
    obtain ⟨fc, st1⟩ := res
    have hfwd := data_fwd_loop_spec st.layers st.next_node_id st.out st.traces
      (fc, st1) hfl
    have hN1 : st1.next_node_id = st.next_node_id + st.layers.length := hfwd.1
    have htr1 : st1.traces = st.traces := hfwd.2.1
    have hout1 : st1.out = st.out ++
        (List.range st.layers.length).map (dataFwdNode st.layers st.next_node_id) :=
      hfwd.2.2.1
    have hlen1 : st1.layers.length = st.layers.length := hfwd.2.2.2.1
    have hlo1 : ∀ i, i < st.layers.length → st1.layers.get? i =
        some { st.layers.getD i default with
          fwd_comp_node := some (st.next_node_id + i) } :=
      hfwd.2.2.2.2.2.1
    have hfc : fc = if st.layers.length = 0 then none
        else some (st.next_node_id + st.layers.length - 1) :=
      hfwd.2.2.2.2.2.2.1
    simp only [] at hok
    rw [hlen1] at hok
    have hP0 : DataBwdInv c.num_dims st.layers st.next_node_id st1.out
        st.traces 0 st1 := by
      refine ⟨by rw [hN1]; omega, htr1, by simp, hlen1, ?_, ?_, by omega⟩
      · intro i hi
        exact hlo1 i (by omega)
      · intro i hi hi2
        omega
    have hbwd := data_bwd_loop_spec c st.layers st.next_node_id st1.out
      st.traces fc (fun hne => by rw [hfc, if_neg hne]) st1 v hP0 hok
    obtain ⟨hN2, htr2, hout2, hlen2, _, hproc2, _⟩ := hbwd
    refine ⟨by rw [hN2]; omega, htr2, ?_, ?_⟩
    · rw [hout2, hout1]
      unfold dataSegment
      rw [List.append_assoc]
    · apply List.ext_get?
      intro i
      by_cases hi : i < st.layers.length
      · rw [hproc2 i (by omega) hi]
        unfold dataLayersAfter
        rw [List.get?_map, List.get?_range hi]
        rfl
      · have h1 : v.layers.get? i = none := by
          rw [List.get?_eq_none]
          omega
        have h2 : (dataLayersAfter st.layers st.next_node_id).get? i = none := by
          rw [List.get?_eq_none]
          unfold dataLayersAfter
          simp
          omega
        rw [h1, h2]

theorem dataStateLayers_length (ls : List Layer) (N₀ : Nat) :
    ∀ k, (dataStateLayers ls N₀ k).length = ls.length := by
  intro k
  induction k with
  | zero => rfl
  | succ k ih =>
    unfold dataStateLayers dataLayersAfter
    simp [ih]

theorem segView_dataPassLayer (L N i : Nat) (l : Layer) :
    segView (dataPassLayer L N i l) =
    { segView l with bwd_wg_comm_node := some (N + L + 3 * (L - 1 - i) + 1) } := by
  unfold segView dataPassLayer
  by_cases hi : i = 0 <;> simp [hi]

theorem map_segView_getD (ls1 ls2 : List Layer)
    (h : ls1.map segView = ls2.map segView) (i : Nat) :
    segView (ls1.getD i default) = segView (ls2.getD i default) := by
  have hlen : ls1.length = ls2.length := by simpa using congrArg List.length h
  rw [List.getD_eq_getElem?_getD, List.getD_eq_getElem?_getD,
    ← List.get?_eq_getElem?, ← List.get?_eq_getElem?]
  by_cases hi : i < ls1.length
  · have hmap := congrArg (fun l => l.get? i) h
    simp only [List.get?_map] at hmap
    cases h1 : ls1.get? i with
    | none => rw [List.get?_eq_none] at h1; omega
    | some a =>
      cases h2 : ls2.get? i with
      | none => rw [List.get?_eq_none] at h2; omega
      | some b =>
        rw [h1, h2] at hmap
        simp only [Option.map_some'] at hmap
        simpa using hmap
  · rw [List.get?_eq_none.mpr (by omega), List.get?_eq_none.mpr (by omega)]

theorem dataFwdNode_congr (ls1 ls2 : List Layer) (N i : Nat)
    (h : segView (ls1.getD i default) = segView (ls2.getD i default)) :
    dataFwdNode ls1 N i = dataFwdNode ls2 N i := by
  have hn : (ls1.getD i default).name = (ls2.getD i default).name := by
    have hc := congrArg Layer.name h
    exact hc
  have ht : (ls1.getD i default).fwd_comp_time = (ls2.getD i default).fwd_comp_time := by
    have hc := congrArg Layer.fwd_comp_time h
    exact hc
  have hw : (ls1.getD i default).bwd_wg_comm_node =
      (ls2.getD i default).bwd_wg_comm_node := by
    have hc := congrArg Layer.bwd_wg_comm_node h
    exact hc
  simp only [dataFwdNode]
  rw [hn, ht, hw]

theorem dataBwdChunk_congr (d : Nat) (ls1 ls2 : List Layer) (N j : Nat)
    (hlen : ls1.length = ls2.length)
    (h : segView (ls1.getD (ls1.length - 1 - j) default) =
      segView (ls2.getD (ls2.length - 1 - j) default)) :
    dataBwdChunk d ls1 N j = dataBwdChunk d ls2 N j := by
  have hn : (ls1.getD (ls1.length - 1 - j) default).name =
      (ls2.getD (ls2.length - 1 - j) default).name := by
    have hc := congrArg Layer.name h
    exact hc
  have h1 : (ls1.getD (ls1.length - 1 - j) default).bwd_wg_comp_time =
      (ls2.getD (ls2.length - 1 - j) default).bwd_wg_comp_time := by
    have hc := congrArg Layer.bwd_wg_comp_time h
    exact hc
  have h2 : (ls1.getD (ls1.length - 1 - j) default).bwd_wg_comm_type =
      (ls2.getD (ls2.length - 1 - j) default).bwd_wg_comm_type := by
    have hc := congrArg Layer.bwd_wg_comm_type h
    exact hc
  have h3 : (ls1.getD (ls1.length - 1 - j) default).bwd_wg_comm_size =
      (ls2.getD (ls2.length - 1 - j) default).bwd_wg_comm_size := by
    have hc := congrArg Layer.bwd_wg_comm_size h
    exact hc
  have h4 : (ls1.getD (ls1.length - 1 - j) default).bwd_ig_comp_time =
      (ls2.getD (ls2.length - 1 - j) default).bwd_ig_comp_time := by
    have hc := congrArg Layer.bwd_ig_comp_time h
    exact hc
  simp only [dataBwdChunk]
  rw [hlen] at hn h1 h2 h3 h4 ⊢
  rw [hn, h1, h2, h3, h4]

theorem dataSegment_congr (d : Nat) (ls1 ls2 : List Layer) (N : Nat)
    (h : ls1.map segView = ls2.map segView) :
    dataSegment d ls1 N = dataSegment d ls2 N := by
  have hlen : ls1.length = ls2.length := by simpa using congrArg List.length h
  unfold dataSegment
  rw [hlen]
  congr 1
  · apply List.map_congr_left
    intro i _
    exact dataFwdNode_congr ls1 ls2 N i (map_segView_getD ls1 ls2 h i)
  · congr 1
    apply List.map_congr_left
    intro j _
    refine dataBwdChunk_congr d ls1 ls2 N j hlen ?_
    rw [hlen]
    exact map_segView_getD ls1 ls2 h (ls2.length - 1 - j)

theorem dataLayersAfter_segView (ls1 ls2 : List Layer) (N : Nat)
    (h : ls1.map segView = ls2.map segView) :
    (dataLayersAfter ls1 N).map segView = (dataLayersAfter ls2 N).map segView := by
  have hlen : ls1.length = ls2.length := by simpa using congrArg List.length h
  unfold dataLayersAfter
  rw [hlen]
  simp only [List.map_map]
  apply List.map_congr_left
  intro i _
  simp only [Function.comp_apply]
  rw [segView_dataPassLayer, segView_dataPassLayer,
    map_segView_getD ls1 ls2 h i]

theorem dataStateLayers_segView (ls1 ls2 : List Layer) (N₀ : Nat)
    (h : ls1.map segView = ls2.map segView) :
    ∀ k, (dataStateLayers ls1 N₀ k).map segView =
      (dataStateLayers ls2 N₀ k).map segView := by
  have hlen : ls1.length = ls2.length := by simpa using congrArg List.length h
  intro k
  induction k with
  | zero => exact h
  | succ k ih =>
    unfold dataStateLayers
    rw [hlen]
    exact dataLayersAfter_segView _ _ _ ih

theorem dataSegs_congr (d : Nat) (ls1 ls2 : List Layer) (N₀ P : Nat)
    (h : ls1.map segView = ls2.map segView) :
    dataSegs d ls1 N₀ P = dataSegs d ls2 N₀ P := by
  have hlen : ls1.length = ls2.length := by simpa using congrArg List.length h
  unfold dataSegs
  apply List.map_congr_left
  intro p _
  rw [hlen]
  exact dataSegment_congr d _ _ _ (dataStateLayers_segView ls1 ls2 N₀ h p)

theorem data_passes_spec (c : Converter) (entry : List Layer) (N₀ : Nat)
    (tr₀ : List (List Node)) (v : St)
    (h : loopE (data_pass_body c) (List.range c.num_passes)
      ⟨N₀, entry, [], tr₀⟩ = .ok v) :
    v.next_node_id = N₀ + c.num_passes * (4 * entry.length - 1) ∧
    v.traces = tr₀ ∧
    v.out = (dataSegs c.num_dims entry N₀ c.num_passes).flatten ∧
    v.layers = dataStateLayers entry N₀ c.num_passes := by
  refine loopE_range_ind (data_pass_body c)
    (fun p st =>
      st.next_node_id = N₀ + p * (4 * entry.length - 1) ∧
      st.traces = tr₀ ∧
      st.out = (dataSegs c.num_dims entry N₀ p).flatten ∧
      st.layers = dataStateLayers entry N₀ p)
    c.num_passes _ v ?_ ⟨by simp, rfl, by simp [dataSegs], rfl⟩ h
  intro p t w _ hP hb
  obtain ⟨hN, htr, hout, hlay⟩ := hP
  obtain ⟨hN', htr', hout', hlay'⟩ := data_pass_spec c p t w hb
  have hlen : t.layers.length = entry.length := by
    rw [hlay, dataStateLayers_length]
  refine ⟨?_, by rw [htr', htr], ?_, ?_⟩
  · rw [hN', hN, hlen]
    generalize 4 * entry.length - 1 = E
    ring
  · rw [hout', hout, hlay, hN]
    unfold dataSegs
    rw [List.range_succ, List.map_append, List.flatten_append]
    simp
  · rw [hlay', hlay, hN]
    rfl

theorem data_device_spec (c : Converter) (k : Nat) (st v : St)
    (hok : data_device_body c k st = .ok v) :
    v.next_node_id = st.next_node_id +
      c.num_passes * (4 * st.layers.length - 1) ∧
    v.traces = st.traces ++
      [(dataSegs c.num_dims st.layers st.next_node_id c.num_passes).flatten] ∧
    v.out = [] ∧
    v.layers = (dataStateLayers st.layers st.next_node_id c.num_passes).map
      (fun l => { l with bwd_wg_comm_node := none }) := by
  unfold data_device_body at hok
  cases hpl : loopE (data_pass_body c) (List.range c.num_passes)
      { st with out := [] } with
  | error e => simp only [hpl] at hok; cases hok
  | ok st1 =>
    simp only [hpl] at hok
    cases hok
    obtain ⟨hN, htr, hout, hlay⟩ :=
      data_passes_spec c st.layers st.next_node_id st.traces st1 hpl
    exact ⟨hN, by rw [htr, hout], rfl, by rw [hlay]⟩

theorem staticView_dataPassLayer (L N i : Nat) (l : Layer) :
    staticView (dataPassLayer L N i l) = staticView l := by
  unfold staticView segView dataPassLayer
  by_cases hi : i = 0 <;> simp [hi]

theorem map_staticView_dataLayersAfter (ls : List Layer) (N : Nat) :
    (dataLayersAfter ls N).map staticView = ls.map staticView := by
  unfold dataLayersAfter
  apply List.ext_get?
  intro i
  rw [List.get?_map, List.get?_map, List.get?_map]
  by_cases hi : i < ls.length
  · rw [List.get?_range hi]
    simp only [Option.map_some']
    rw [staticView_dataPassLayer]
    cases h1 : ls.get? i with
    | none => rw [List.get?_eq_none] at h1; omega
    | some a =>
      rw [List.getD_eq_getElem?_getD, ← List.get?_eq_getElem?, h1]
      rfl
  · rw [List.get?_eq_none.mpr (by rw [List.length_range]; omega),
      List.get?_eq_none.mpr (by omega : ls.length ≤ i)]
    rfl

theorem map_staticView_dataStateLayers (ls : List Layer) (N₀ : Nat) :
    ∀ k, (dataStateLayers ls N₀ k).map staticView = ls.map staticView := by
  intro k
  induction k with
  | zero => rfl
  | succ k ih =>
    unfold dataStateLayers
    rw [map_staticView_dataLayersAfter, ih]

theorem map_staticView_eq_map_segView_clear (X : List Layer) :
    X.map staticView =
      (X.map segView).map (fun l => { l with bwd_wg_comm_node := none }) := by
  rw [List.map_map]
  rfl

theorem data_devices_spec (c : Converter) (ls : List Layer)
    (hwg : ∀ l ∈ ls, l.bwd_wg_comm_node = none) (v : St)
    (h : loopE (data_device_body c) (List.range c.num_npus) (initSt ls) = .ok v) :
    v.traces = (List.range c.num_npus).map (fun dev =>
      (dataSegs c.num_dims ls (dev * (c.num_passes * (4 * ls.length - 1)))
        c.num_passes).flatten) := by
  have hmain := loopE_range_ind (data_device_body c)
    (fun k st =>
      st.next_node_id = k * (c.num_passes * (4 * ls.length - 1)) ∧
      st.traces = (List.range k).map (fun dev =>
        (dataSegs c.num_dims ls (dev * (c.num_passes * (4 * ls.length - 1)))
          c.num_passes).flatten) ∧
      st.out = [] ∧
      st.layers.length = ls.length ∧
      st.layers.map segView = ls.map segView)
    c.num_npus (initSt ls) v ?_ ⟨by simp [initSt], rfl, rfl, rfl, rfl⟩ h
  · exact hmain.2.1
  intro k t w _ hP hb
  obtain ⟨hN, htr, hout, hlen, hseg⟩ := hP
  obtain ⟨hN', htr', hout', hlay'⟩ := data_device_spec c k t w hb
  refine ⟨?_, ?_, hout', ?_, ?_⟩
  · rw [hN', hN, hlen]
    generalize c.num_passes * (4 * ls.length - 1) = E
    ring
  · rw [htr', htr, List.range_succ, List.map_append]
    congr 1
    rw [dataSegs_congr c.num_dims t.layers ls _ _ hseg, hN]
    simp
  · rw [hlay']
    simp [dataStateLayers_length, hlen]
  · calc w.layers.map segView
        = (dataStateLayers t.layers t.next_node_id c.num_passes).map staticView := by
          rw [hlay', List.map_map]
          rfl
      _ = t.layers.map staticView :=
          map_staticView_dataStateLayers t.layers t.next_node_id c.num_passes
      _ = (t.layers.map segView).map (fun l => { l with bwd_wg_comm_node := none }) :=
          map_staticView_eq_map_segView_clear t.layers
      _ = (ls.map segView).map (fun l => { l with bwd_wg_comm_node := none }) := by
          rw [hseg]
      _ = ls.map staticView := (map_staticView_eq_map_segView_clear ls).symm
      _ = ls.map segView := by
          apply List.map_congr_left
          intro l hl
          unfold staticView segView
          simp [hwg l hl]

theorem parseLayer_slots {line : String} {l : Layer}
    (h : parseLayer line = .ok l) :
    l.fwd_comp_node = none ∧ l.fwd_comm_node = none ∧
    l.bwd_ig_comp_node = none ∧ l.bwd_ig_comm_node = none ∧
    l.bwd_wg_comp_node = none ∧ l.bwd_wg_comm_node = none := by
  unfold parseLayer at h
  split at h
  · split at h
    · cases h
      exact ⟨rfl, rfl, rfl, rfl, rfl, rfl⟩
    · cases h
  · cases h

theorem get_layers_slots {lines : List String} {n : Int} {ls : List Layer}
    (h : get_layers lines n = .ok ls) :
    ∀ l ∈ ls, l.fwd_comp_node = none ∧ l.fwd_comm_node = none ∧
      l.bwd_ig_comp_node = none ∧ l.bwd_ig_comm_node = none ∧
      l.bwd_wg_comp_node = none ∧ l.bwd_wg_comm_node = none := by
  induction lines generalizing ls with
  | nil =>
    simp only [get_layers, List.mapM_nil, pure, Except.pure] at h
    cases h
    intro l hl
    cases hl
  | cons a rest ih =>
    simp only [get_layers, List.mapM_cons] at h
    cases hpa : parseLayer a with
    | error e => rw [hpa] at h; cases h
    | ok b =>
      rw [hpa] at h
      cases hrest : rest.mapM parseLayer with
      | error e => rw [hrest] at h; cases h
      | ok bs =>
        rw [hrest] at h
        simp only [bind, Except.bind, pure, Except.pure] at h
        cases h
        intro l hl
        cases hl with
        | head => exact parseLayer_slots hpa
        | tail _ hmem => exact ih hrest l hmem

/-- Master description of a DATA-mode run: each device's trace is the
concatenation of its per-pass segments, device `dev` allocating ids from
`dev * num_passes * (4L - 1)`. -/
theorem convert_data_parallel_spec (c : Converter) (lines : List String)
    (nl : Int) (ls : List Layer) (hls : get_layers lines nl = .ok ls)
    (traces : List (List Node))
    (hok : convert_data_parallel c lines nl = .ok traces) :
    traces = (List.range c.num_npus).map (fun dev =>
      (dataSegs c.num_dims ls (dev * (c.num_passes * (4 * ls.length - 1)))
        c.num_passes).flatten) := by
  unfold convert_data_parallel at hok
  simp only [hls] at hok
  cases hdl : loopE (data_device_body c) (List.range c.num_npus) (initSt ls) with
  | error e => simp only [hdl] at hok; cases hok
  | ok v =>
    simp only [hdl] at hok
    cases hok
    exact data_devices_spec c ls
      (fun l hl => (get_layers_slots hls l hl).2.2.2.2.2) v hdl

theorem range'_concat (s m n : Nat) :
    List.range' s m ++ List.range' (s + m) n = List.range' s (m + n) := by
  have h := List.range'_append s m n 1
  simp only [Nat.one_mul] at h
  rw [Nat.add_comm m n]
  exact h

theorem idsOf_append (t1 t2 : List Node) :
    idsOf (t1 ++ t2) = idsOf t1 ++ idsOf t2 :=
  List.map_append _ _ _

/-- Appending freshly numbered nodes with in-device, backward-pointing
dependencies preserves the strong invariant. -/
theorem InvS_append {st st' : St} (h : InvS st) (ns : List Node)
    (hids : idsOf ns = List.range' st.next_node_id ns.length)
    (hdeps : ∀ n ∈ ns, ∀ dep ∈ n.data_deps,
      st.traces.flatten.length ≤ dep ∧ dep < n.id)
    (hout : st'.out = st.out ++ ns) (htr : st'.traces = st.traces)
    (hnext : st'.next_node_id = st.next_node_id + ns.length) : InvS st' := by
  obtain ⟨n2, l2, o2, t2⟩ := st'
  replace hout : o2 = st.out ++ ns := hout
  replace htr : t2 = st.traces := htr
  replace hnext : n2 = st.next_node_id + ns.length := hnext
  subst hout htr hnext
  obtain ⟨⟨hid, hprev, hcur⟩, hprevS, hcurS⟩ := h
  refine ⟨⟨?_, ?_, ?_⟩, ?_, ?_⟩
  · show idsOf st.traces.flatten ++ idsOf (st.out ++ ns) =
      List.range (st.next_node_id + ns.length)
    rw [idsOf_append, ← List.append_assoc, hid, hids,
      List.range_eq_range', List.range_eq_range']
    have := range'_concat 0 st.next_node_id ns.length
    simpa using this
  · intro k hk
    exact hprev k hk
  · show DepsLB st.traces.flatten.length (st.out ++ ns)
    intro n hn dep hdep
    rcases List.mem_append.mp hn with h1 | h1
    · exact hcur n h1 dep hdep
    · exact (hdeps n h1 dep hdep).1
  · intro k hk
    exact hprevS k hk
  · show StrictDeps (st.out ++ ns)
    intro n hn dep hdep
    rcases List.mem_append.mp hn with h1 | h1
    · exact hcurS n h1 dep hdep
    · exact (hdeps n h1 dep hdep).2

/-- Weak version of `InvS_append` (no backward-pointing requirement):
dependencies only have to stay at or above the device's first id. -/
theorem InvW_append {st st' : St} (h : InvW st) (ns : List Node)
    (hids : idsOf ns = List.range' st.next_node_id ns.length)
    (hdeps : ∀ n ∈ ns, ∀ dep ∈ n.data_deps, st.traces.flatten.length ≤ dep)
    (hout : st'.out = st.out ++ ns) (htr : st'.traces = st.traces)
    (hnext : st'.next_node_id = st.next_node_id + ns.length) : InvW st' := by
  obtain ⟨n2, l2, o2, t2⟩ := st'
  replace hout : o2 = st.out ++ ns := hout
  replace htr : t2 = st.traces := htr
  replace hnext : n2 = st.next_node_id + ns.length := hnext
  subst hout htr hnext
  obtain ⟨hid, hprev, hcur⟩ := h
  refine ⟨?_, ?_, ?_⟩
  · show idsOf st.traces.flatten ++ idsOf (st.out ++ ns) =
      List.range (st.next_node_id + ns.length)
    rw [idsOf_append, ← List.append_assoc, hid, hids,
      List.range_eq_range', List.range_eq_range']
    have := range'_concat 0 st.next_node_id ns.length
    simpa using this
  · intro k hk
    exact hprev k hk
  · show DepsLB st.traces.flatten.length (st.out ++ ns)
    intro n hn dep hdep
    rcases List.mem_append.mp hn with h1 | h1
    · exact hcur n h1 dep hdep
    · exact hdeps n h1 dep hdep

/-- Committing the current device's stream as a finished trace preserves the
invariants (the layer list may change arbitrarily). -/
theorem InvW_commit {st st' : St} (h : InvW st)
    (htr : st'.traces = st.traces ++ [st.out]) (hout : st'.out = [])
    (hnext : st'.next_node_id = st.next_node_id) : InvW st' := by
  obtain ⟨n2, l2, o2, t2⟩ := st'
  replace hout : o2 = [] := hout
  replace htr : t2 = st.traces ++ [st.out] := htr
  replace hnext : n2 = st.next_node_id := hnext
  subst hout htr hnext
  obtain ⟨hid, hprev, hcur⟩ := h
  refine ⟨?_, ?_, ?_⟩
  · show idsOf (st.traces ++ [st.out]).flatten ++ idsOf [] =
      List.range st.next_node_id
    rw [List.flatten_append, List.flatten_cons, List.flatten_nil,
      List.append_nil, idsOf_append]
    simpa [idsOf] using hid
  · intro k hk
    replace hk : k < (st.traces ++ [st.out]).length := hk
    show DepsLB (List.take k (st.traces ++ [st.out])).flatten.length
      ((st.traces ++ [st.out]).get ⟨k, hk⟩)
    rw [List.length_append, List.length_cons, List.length_nil] at hk
    by_cases hlt : k < st.traces.length
    · have hg : (st.traces ++ [st.out]).get ⟨k, by simp; omega⟩ =
          st.traces.get ⟨k, hlt⟩ := by
        rw [List.get_append _ hlt]
      rw [List.take_append_of_le_length (by omega), hg]
      exact hprev k hlt
    · have hk0 : k = st.traces.length := by omega
      subst hk0
      have h1 : (st.traces ++ [st.out]).get ⟨st.traces.length, by simp⟩ =
          st.out := by
        have hq : (st.traces ++ [st.out]).get? st.traces.length = some st.out := by
          rw [List.get?_append_right (Nat.le_refl _)]
          simp
        obtain ⟨h', hg⟩ := List.get?_eq_some.mp hq
        exact hg
      rw [h1]
      have h2 : ((st.traces ++ [st.out]).take st.traces.length).flatten.length =
          st.traces.flatten.length := by
        rw [List.take_append_of_le_length (by omega), List.take_length]
      rw [h2]
      exact hcur
  · show DepsLB (st.traces ++ [st.out]).flatten.length []
    intro n hn
    cases hn

theorem InvS_commit {st st' : St} (h : InvS st)
    (htr : st'.traces = st.traces ++ [st.out]) (hout : st'.out = [])
    (hnext : st'.next_node_id = st.next_node_id) : InvS st' := by
  have hW : InvW st' := InvW_commit h.toInvW htr hout hnext
  obtain ⟨n2, l2, o2, t2⟩ := st'
  replace hout : o2 = [] := hout
  replace htr : t2 = st.traces ++ [st.out] := htr
  subst hout htr
  obtain ⟨_, hprevS, hcurS⟩ := h
  refine ⟨hW, ?_, ?_⟩
  · intro k hk
    replace hk : k < (st.traces ++ [st.out]).length := hk
    show StrictDeps ((st.traces ++ [st.out]).get ⟨k, hk⟩)
    rw [List.length_append, List.length_cons, List.length_nil] at hk
    by_cases hlt : k < st.traces.length
    · have hg : (st.traces ++ [st.out]).get ⟨k, by simp; omega⟩ =
          st.traces.get ⟨k, hlt⟩ := by
        rw [List.get_append _ hlt]
      rw [hg]
      exact hprevS k hlt
    · have hk0 : k = st.traces.length := by omega
      subst hk0
      have h1 : (st.traces ++ [st.out]).get ⟨st.traces.length, by simp⟩ =
          st.out := by
        have hq : (st.traces ++ [st.out]).get? st.traces.length = some st.out := by
          rw [List.get?_append_right (Nat.le_refl _)]
          simp
        obtain ⟨h', hg⟩ := List.get?_eq_some.mp hq
        exact hg
      rw [h1]
      exact hcurS
  · show StrictDeps ([] : List Node)
    intro n hn
    cases hn

/-- In a trace whose ids are consecutive from `b` and whose dependencies all
lie in `[b, own id)`, every dependency resolves to a strictly earlier
position of the same trace: the stream is a topological order. -/
theorem topo_of_consecutive (t : List Node) (b : Nat)
    (hids : idsOf t = List.range' b t.length)
    (hdeps : ∀ n ∈ t, ∀ dep ∈ n.data_deps, b ≤ dep ∧ dep < n.id) :
    ∀ i (hi : i < t.length), ∀ dep ∈ (t.get ⟨i, hi⟩).data_deps,
      dep < (t.get ⟨i, hi⟩).id ∧
      ∃ j, j < i ∧ ∃ (hj : j < t.length), (t.get ⟨j, hj⟩).id = dep := by
  have hgetid : ∀ i (hi : i < t.length), (t.get ⟨i, hi⟩).id = b + i := by
    intro i hi
    have h1 : (idsOf t).get? i = some ((t.get ⟨i, hi⟩).id) := by
      unfold idsOf
      rw [List.get?_map]
      rw [List.get?_eq_get hi]
      rfl
    rw [hids] at h1
    have h2 : (List.range' b t.length).get? i = some (b + i) := by
      rw [List.get?_eq_getElem?]
      simp [List.getElem?_range', hi]
    rw [h2] at h1
    exact (Option.some.injEq _ _ ▸ h1).symm
  intro i hi dep hdep
  have hmem : t.get ⟨i, hi⟩ ∈ t := t.get_mem i hi
  obtain ⟨hb, hlt⟩ := hdeps _ hmem dep hdep
  refine ⟨hlt, dep - b, ?_, ?_⟩
  · have := hgetid i hi
    omega
  · have hj : dep - b < t.length := by
      have := hgetid i hi
      omega
    exact ⟨hj, by rw [hgetid (dep - b) hj]; omega⟩

/-! ## DATA-mode segment geometry -/

theorem dataBwdChunk_length (d : Nat) (ls : List Layer) (N j : Nat) :
    (dataBwdChunk d ls N j).length = if j = ls.length - 1 then 2 else 3 := by
  simp only [dataBwdChunk]
  by_cases h : j = ls.length - 1
  · rw [if_pos h, if_pos h]
    rfl
  · rw [if_neg h, if_neg h]
    rfl

theorem idsOf_dataBwdChunk (d : Nat) (ls : List Layer) (N j : Nat) :
    idsOf (dataBwdChunk d ls N j) =
      List.range' (N + ls.length + 3 * j) (if j = ls.length - 1 then 2 else 3) := by
  simp only [dataBwdChunk]
  by_cases h : j = ls.length - 1
  · rw [if_pos h, if_pos h]
    rfl
  · rw [if_neg h, if_neg h]
    rfl

theorem idsOf_bwdFlat (d : Nat) (ls : List Layer) (N : Nat) :
    ∀ k, k ≤ ls.length →
      idsOf (((List.range k).map (dataBwdChunk d ls N)).flatten) =
        List.range' (N + ls.length) (min (3 * k) (3 * ls.length - 1))
  | 0, _ => by simp [idsOf]
  | (k+1), hk => by
    rw [List.range_succ, List.map_append, List.flatten_append, idsOf_append,
      idsOf_bwdFlat d ls N k (by omega)]
    have hck : idsOf (([k].map (dataBwdChunk d ls N)).flatten) =
        idsOf (dataBwdChunk d ls N k) := by
      simp
    rw [hck, idsOf_dataBwdChunk]
    by_cases h : k = ls.length - 1
    · rw [if_pos h]
      have h1 : min (3 * k) (3 * ls.length - 1) = 3 * k := by omega
      have h2 : min (3 * (k + 1)) (3 * ls.length - 1) = 3 * k + 2 := by omega
      rw [h1, h2]
      exact range'_concat (N + ls.length) (3 * k) 2
    · rw [if_neg h]
      have h1 : min (3 * k) (3 * ls.length - 1) = 3 * k := by omega
      have h2 : min (3 * (k + 1)) (3 * ls.length - 1) = 3 * k + 3 := by omega
      rw [h1, h2]
      exact range'_concat (N + ls.length) (3 * k) 3

theorem idsOf_fwdPart (ls : List Layer) (N : Nat) :
    idsOf ((List.range ls.length).map (dataFwdNode ls N)) =
      List.range' N ls.length := by
  unfold idsOf
  rw [List.map_map]
  have h1 : (Node.id ∘ dataFwdNode ls N) = (fun i => N + i) :=
    funext fun i => rfl
  rw [h1, ← List.range'_eq_map_range]

theorem idsOf_dataSegment (d : Nat) (ls : List Layer) (N : Nat) :
    idsOf (dataSegment d ls N) = List.range' N (4 * ls.length - 1) := by
  unfold dataSegment
  rw [idsOf_append, idsOf_fwdPart,
    idsOf_bwdFlat d ls N ls.length (Nat.le_refl _)]
  have h1 : min (3 * ls.length) (3 * ls.length - 1) = 3 * ls.length - 1 := by
    omega
  rw [h1, range'_concat]
  congr 1
  omega

theorem dataSegment_length (d : Nat) (ls : List Layer) (N : Nat) :
    (dataSegment d ls N).length = 4 * ls.length - 1 := by
  have h := congrArg List.length (idsOf_dataSegment d ls N)
  simpa [idsOf] using h

/-! ## DATA-mode per-pass node census -/

theorem countP_dataBwdChunk_wgComp (d : Nat) (ls : List Layer) (N j : Nat) :
    (dataBwdChunk d ls N j).countP isWgComp = 1 := by
  simp only [dataBwdChunk]
  by_cases h : j = ls.length - 1
  · rw [if_pos h]
    rfl
  · rw [if_neg h]
    rfl

theorem countP_dataBwdChunk_wgComm (d : Nat) (ls : List Layer) (N j : Nat) :
    (dataBwdChunk d ls N j).countP isWgComm = 1 := by
  simp only [dataBwdChunk]
  by_cases h : j = ls.length - 1
  · rw [if_pos h]
    rfl
  · rw [if_neg h]
    rfl

theorem countP_dataBwdChunk_fwdComp (d : Nat) (ls : List Layer) (N j : Nat) :
    (dataBwdChunk d ls N j).countP isFwdComp = 0 := by
  simp only [dataBwdChunk]
  by_cases h : j = ls.length - 1
  · rw [if_pos h]
    rfl
  · rw [if_neg h]
    rfl

theorem countP_dataBwdChunk_ig (d : Nat) (ls : List Layer) (N j : Nat) :
    (dataBwdChunk d ls N j).countP isIgComp =
      if j = ls.length - 1 then 0 else 1 := by
  simp only [dataBwdChunk]
  by_cases h : j = ls.length - 1
  · rw [if_pos h, if_pos h]
    rfl
  · rw [if_neg h, if_neg h]
    rfl

theorem countP_fwdPart_fwdComp (ls : List Layer) (N : Nat) :
    ((List.range ls.length).map (dataFwdNode ls N)).countP isFwdComp =
      ls.length := by
  rw [List.countP_map]
  have h1 : ∀ a ∈ List.range ls.length,
      (isFwdComp ∘ dataFwdNode ls N) a = true := by
    intro a _
    rfl
  rw [List.countP_eq_length.mpr h1, List.length_range]

theorem countP_fwdPart_zero (ls : List Layer) (N : Nat) (p : Node → Bool)
    (hp : ∀ i, p (dataFwdNode ls N i) = false) :
    ((List.range ls.length).map (dataFwdNode ls N)).countP p = 0 := by
  rw [List.countP_map]
  apply List.countP_eq_zero.mpr
  intro a _
  show ¬ p (dataFwdNode ls N a) = true
  rw [hp a]
  exact Bool.false_ne_true

theorem countP_bwdFlat_one (d : Nat) (ls : List Layer) (N : Nat)
    (p : Node → Bool) (hp : ∀ j, (dataBwdChunk d ls N j).countP p = 1) :
    (((List.range ls.length).map (dataBwdChunk d ls N)).flatten).countP p =
      ls.length := by
  rw [List.countP_flatten, List.map_map]
  have h1 : (List.range ls.length).map (List.countP p ∘ dataBwdChunk d ls N) =
      (List.range ls.length).map (fun _ => 1) := by
    apply List.map_congr_left
    intro a _
    exact hp a
  rw [h1, List.map_const', List.sum_replicate, List.length_range, smul_eq_mul,
    Nat.mul_one]

theorem countP_bwdFlat_zero (d : Nat) (ls : List Layer) (N : Nat)
    (p : Node → Bool) (hp : ∀ j, (dataBwdChunk d ls N j).countP p = 0) :
    (((List.range ls.length).map (dataBwdChunk d ls N)).flatten).countP p =
      0 := by
  rw [List.countP_flatten, List.map_map]
  apply List.sum_eq_zero
  intro x hx
  obtain ⟨a, _, ha⟩ := List.mem_map.mp hx
  rw [← ha]
  exact hp a

theorem countP_bwdFlat_ig (d : Nat) (ls : List Layer) (N : Nat) :
    (((List.range ls.length).map (dataBwdChunk d ls N)).flatten).countP
      isIgComp = ls.length - 1 := by
  rw [List.countP_flatten, List.map_map]
  cases hL : ls.length with
  | zero => simp [hL]
  | succ m =>
    rw [List.range_succ, List.map_append, List.sum_append]
    have h1 : (List.range m).map (List.countP isIgComp ∘ dataBwdChunk d ls N) =
        (List.range m).map (fun _ => 1) := by
      apply List.map_congr_left
      intro a ha
      have ham : a < m := List.mem_range.mp ha
      show (dataBwdChunk d ls N a).countP isIgComp = 1
      rw [countP_dataBwdChunk_ig, if_neg (by omega)]
    have h2 : ([m].map (List.countP isIgComp ∘ dataBwdChunk d ls N)).sum = 0 := by
      simp only [List.map_cons, List.map_nil, List.sum_cons, List.sum_nil]
      show (dataBwdChunk d ls N m).countP isIgComp + 0 = 0
      rw [countP_dataBwdChunk_ig, if_pos (by omega)]
    rw [h1, h2, List.map_const', List.sum_replicate, List.length_range,
      smul_eq_mul, Nat.mul_one]
    omega

theorem countP_dataSegment_fwd (d : Nat) (ls : List Layer) (N : Nat) :
    (dataSegment d ls N).countP isFwdComp = ls.length := by
  unfold dataSegment
  rw [List.countP_append, countP_fwdPart_fwdComp,
    countP_bwdFlat_zero d ls N _ (countP_dataBwdChunk_fwdComp d ls N),
    Nat.add_zero]

theorem countP_dataSegment_wgComp (d : Nat) (ls : List Layer) (N : Nat) :
    (dataSegment d ls N).countP isWgComp = ls.length := by
  unfold dataSegment
  rw [List.countP_append,
    countP_fwdPart_zero ls N isWgComp (fun i => rfl),
    countP_bwdFlat_one d ls N _ (countP_dataBwdChunk_wgComp d ls N),
    Nat.zero_add]

theorem countP_dataSegment_wgComm (d : Nat) (ls : List Layer) (N : Nat) :
    (dataSegment d ls N).countP isWgComm = ls.length := by
  unfold dataSegment
  rw [List.countP_append,
    countP_fwdPart_zero ls N isWgComm (fun i => rfl),
    countP_bwdFlat_one d ls N _ (countP_dataBwdChunk_wgComm d ls N),
    Nat.zero_add]

theorem countP_dataSegment_ig (d : Nat) (ls : List Layer) (N : Nat) :
    (dataSegment d ls N).countP isIgComp = ls.length - 1 := by
  unfold dataSegment
  rw [List.countP_append,
    countP_fwdPart_zero ls N isIgComp (fun i => rfl),
    countP_bwdFlat_ig, Nat.zero_add]

/-! ## DATA-mode positional structure -/

theorem dataSegment_get_fwd (d : Nat) (ls : List Layer) (N i : Nat)
    (hi : i < ls.length) :
    (dataSegment d ls N).get? i = some (dataFwdNode ls N i) := by
  unfold dataSegment
  rw [List.get?_append (by simpa using hi), List.get?_map, List.get?_range hi]
  rfl

theorem bwdFlat_take_length (d : Nat) (ls : List Layer) (N : Nat) :
    ∀ j, j < ls.length →
      (((List.range j).map (dataBwdChunk d ls N)).flatten).length = 3 * j
  | 0, _ => rfl
  | (j+1), hj => by
    rw [List.range_succ, List.map_append, List.flatten_append,
      List.length_append, bwdFlat_take_length d ls N j (by omega)]
    have h2 : (([j].map (dataBwdChunk d ls N)).flatten).length = 3 := by
      simp only [List.map_cons, List.map_nil, List.flatten_cons,
        List.flatten_nil, List.append_nil]
      rw [dataBwdChunk_length, if_neg (by omega)]
    rw [h2]
    omega

theorem dataSegment_get_bwd (d : Nat) (ls : List Layer) (N j t : Nat)
    (hj : j < ls.length) (ht : t < if j = ls.length - 1 then 2 else 3) :
    (dataSegment d ls N).get? (ls.length + 3 * j + t) =
      (dataBwdChunk d ls N j).get? t := by
  unfold dataSegment
  have hlen : ((List.range ls.length).map (dataFwdNode ls N)).length =
      ls.length := by simp
  rw [List.get?_append_right (by rw [hlen]; omega), hlen]
  have hidx : ls.length + 3 * j + t - ls.length = 3 * j + t := by omega
  rw [hidx]
  have e2 : ls.length - j - 1 + 1 = ls.length - j := by omega
  have h4 : List.range' j (ls.length - j) =
      j :: List.range' (j + 1) (ls.length - j - 1) := by
    rw [← e2, List.range'_succ]
    simp only [Nat.add_sub_cancel]
  have h5 : List.range j ++ List.range' j (ls.length - j) =
      List.range ls.length := by
    have h := range'_concat 0 j (ls.length - j)
    rw [Nat.zero_add] at h
    rw [List.range_eq_range', List.range_eq_range', h]
    congr 1
    omega
  have hsplit : List.range ls.length =
      List.range j ++ j :: List.range' (j + 1) (ls.length - j - 1) := by
    rw [← h5, h4]
  rw [hsplit, List.map_append, List.flatten_append]
  have hpre := bwdFlat_take_length d ls N j (by omega)
  rw [List.get?_append_right (by rw [hpre]; omega), hpre]
  have hidx2 : 3 * j + t - 3 * j = t := by omega
  rw [hidx2, List.map_cons, List.flatten_cons,
    List.get?_append (by rw [dataBwdChunk_length]; exact ht)]

theorem dataStateLayers_static (ls : List Layer) (N₀ : Nat) (p i : Nat)
    (hi : i < ls.length) :
    staticView ((dataStateLayers ls N₀ p).getD i default) =
      staticView (ls.getD i default) := by
  have h2 := congrArg (fun l => l.get? i) (map_staticView_dataStateLayers ls N₀ p)
  simp only [List.get?_map] at h2
  have hlen := dataStateLayers_length ls N₀ p
  cases hx : (dataStateLayers ls N₀ p).get? i with
  | none => rw [List.get?_eq_none] at hx; omega
  | some a =>
    cases hy : ls.get? i with
    | none => rw [List.get?_eq_none] at hy; omega
    | some b =>
      rw [hx, hy] at h2
      simp only [Option.map_some'] at h2
      rw [List.getD_eq_getElem?_getD, ← List.get?_eq_getElem?, hx,
        List.getD_eq_getElem?_getD, ← List.get?_eq_getElem?, hy]
      simp only [Option.getD_some]
      exact Option.some.inj h2

theorem dataStateLayers_wg_slot (ls : List Layer) (N₀ : Nat)
    (hslots : ∀ l ∈ ls, l.bwd_wg_comm_node = none) :
    ∀ p i, i < ls.length →
      ((dataStateLayers ls N₀ p).getD i default).bwd_wg_comm_node =
        if p = 0 then none
        else some (N₀ + (p - 1) * (4 * ls.length - 1) + ls.length +
          3 * (ls.length - 1 - i) + 1)
  | 0, i, hi => by
    rw [if_pos rfl]
    have hmem : ls.getD i default ∈ ls := by
      rw [List.getD_eq_get ls default hi]
      exact ls.get_mem i hi
    exact hslots _ hmem
  | (p+1), i, hi => by
    rw [if_neg (Nat.succ_ne_zero p)]
    show ((dataLayersAfter (dataStateLayers ls N₀ p)
      (N₀ + p * (4 * ls.length - 1))).getD i default).bwd_wg_comm_node = _
    have hlen := dataStateLayers_length ls N₀ p
    have hgd : (dataLayersAfter (dataStateLayers ls N₀ p)
        (N₀ + p * (4 * ls.length - 1))).getD i default =
        dataPassLayer (dataStateLayers ls N₀ p).length
          (N₀ + p * (4 * ls.length - 1)) i
          ((dataStateLayers ls N₀ p).getD i default) := by
      unfold dataLayersAfter
      rw [List.getD_eq_getElem?_getD, ← List.get?_eq_getElem?, List.get?_map,
        List.get?_range (by omega : i < (dataStateLayers ls N₀ p).length)]
      rfl
    have hproj : ∀ (A B : Nat) (X : Layer),
        (dataPassLayer A B i X).bwd_wg_comm_node =
          some (B + A + 3 * (A - 1 - i) + 1) := fun A B X => rfl
    rw [hgd, hproj, hlen]
    simp only [Nat.add_sub_cancel]

theorem dataSegs_succ (d : Nat) (ls : List Layer) (B P : Nat) :
    dataSegs d ls B (P + 1) = dataSegs d ls B P ++
      [dataSegment d (dataStateLayers ls B P)
        (B + P * (4 * ls.length - 1))] := by
  unfold dataSegs
  rw [List.range_succ, List.map_append]
  simp only [List.map_cons, List.map_nil]

theorem idsOf_dataSegs (d : Nat) (ls : List Layer) (B : Nat) :
    ∀ P, idsOf ((dataSegs d ls B P).flatten) =
      List.range' B (P * (4 * ls.length - 1))
  | 0 => by simp [dataSegs, idsOf]
  | (P+1) => by
    rw [dataSegs_succ, List.flatten_append, idsOf_append,
      idsOf_dataSegs d ls B P]
    simp only [List.flatten_cons, List.flatten_nil, List.append_nil]
    rw [idsOf_dataSegment, dataStateLayers_length]
    have h := range'_concat B (P * (4 * ls.length - 1)) (4 * ls.length - 1)
    rw [h]
    congr 1
    ring

theorem dataSegment_deps (B d : Nat) (ls : List Layer) (N : Nat) (hBN : B ≤ N)
    (hslot : ∀ i, i < ls.length → ∀ v,
      (ls.getD i default).bwd_wg_comm_node = some v → B ≤ v ∧ v < N) :
    ∀ n ∈ dataSegment d ls N, ∀ dep ∈ n.data_deps, B ≤ dep ∧ dep < n.id := by
  intro n hn dep hdep
  unfold dataSegment at hn
  rcases List.mem_append.mp hn with hf | hb
  · obtain ⟨i, hir, hni⟩ := List.mem_map.mp hf
    have hi : i < ls.length := List.mem_range.mp hir
    subst hni
    have hdep' : dep ∈ (if i = 0 then ([] : List Nat) else [N + (i - 1)]) ++
        (match (ls.getD i default).bwd_wg_comm_node with
         | some v => [v] | none => []) := hdep
    show B ≤ dep ∧ dep < N + i
    rcases List.mem_append.mp hdep' with h1 | h1
    · by_cases h0 : i = 0
      · rw [if_pos h0] at h1
        cases h1
      · rw [if_neg h0] at h1
        have he : dep = N + (i - 1) := List.mem_singleton.mp h1
        omega
    · cases hslotv : (ls.getD i default).bwd_wg_comm_node with
      | none => rw [hslotv] at h1; cases h1
      | some v =>
        rw [hslotv] at h1
        have he : dep = v := List.mem_singleton.mp h1
        have hv := hslot i hi v hslotv
        omega
  · obtain ⟨chunk, hchunk, hnc⟩ := List.mem_flatten.mp hb
    obtain ⟨j, hjr, hcj⟩ := List.mem_map.mp hchunk
    have hj : j < ls.length := List.mem_range.mp hjr
    subst hcj
    revert hnc
    simp only [dataBwdChunk]
    by_cases hlast : j = ls.length - 1
    · rw [if_pos hlast]
      intro hnc
      rcases List.mem_cons.mp hnc with rfl | hnc2
      · have he : dep = N + ls.length + 3 * j - 1 := List.mem_singleton.mp hdep
        show B ≤ dep ∧ dep < N + ls.length + 3 * j
        omega
      rcases List.mem_cons.mp hnc2 with rfl | hnc3
      · have he : dep = N + ls.length + 3 * j := List.mem_singleton.mp hdep
        show B ≤ dep ∧ dep < N + ls.length + 3 * j + 1
        omega
      cases hnc3
    · rw [if_neg hlast]
      intro hnc
      rcases List.mem_cons.mp hnc with rfl | hnc2
      · have he : dep = N + ls.length + 3 * j - 1 := List.mem_singleton.mp hdep
        show B ≤ dep ∧ dep < N + ls.length + 3 * j
        omega
      rcases List.mem_cons.mp hnc2 with rfl | hnc3
      · have he : dep = N + ls.length + 3 * j := List.mem_singleton.mp hdep
        show B ≤ dep ∧ dep < N + ls.length + 3 * j + 1
        omega
      rcases List.mem_cons.mp hnc3 with rfl | hnc4
      · have he : dep = N + ls.length + 3 * j := List.mem_singleton.mp hdep
        show B ≤ dep ∧ dep < N + ls.length + 3 * j + 2
        omega
      cases hnc4

theorem dataSegs_deps (d : Nat) (ls : List Layer) (B : Nat)
    (hwg : ∀ l ∈ ls, l.bwd_wg_comm_node = none) :
    ∀ P, ∀ n ∈ (dataSegs d ls B P).flatten, ∀ dep ∈ n.data_deps,
      B ≤ dep ∧ dep < n.id
  | 0 => by simp [dataSegs]
  | (P+1) => by
    rw [dataSegs_succ, List.flatten_append]
    intro n hn dep hdep
    rcases List.mem_append.mp hn with h | h
    · exact dataSegs_deps d ls B hwg P n h dep hdep
    · have h2 : n ∈ dataSegment d (dataStateLayers ls B P)
          (B + P * (4 * ls.length - 1)) := by simpa using h
      have hlen := dataStateLayers_length ls B P
      refine dataSegment_deps B d _ _ (Nat.le_add_right _ _) ?_ n h2 dep hdep
      intro i hi v hv
      have hi' : i < ls.length := by omega
      rw [dataStateLayers_wg_slot ls B hwg P i hi'] at hv
      by_cases hp : P = 0
      · rw [if_pos hp] at hv
        cases hv
      · rw [if_neg hp] at hv
        have he := Option.some.inj hv
        subst he
        have hL : 1 ≤ ls.length := by omega
        have hP1 : P - 1 + 1 = P := by omega
        have hPE : (P - 1) * (4 * ls.length - 1) + (4 * ls.length - 1) =
            P * (4 * ls.length - 1) := by
          calc (P - 1) * (4 * ls.length - 1) + (4 * ls.length - 1)
              = (P - 1 + 1) * (4 * ls.length - 1) := by ring
            _ = P * (4 * ls.length - 1) := by rw [hP1]
        rw [← hPE]
        generalize (P - 1) * (4 * ls.length - 1) = X
        constructor <;> omega

/-- A successful DATA-mode run satisfies the strong trace contract. -/
theorem data_goodS (c : Converter) (lines : List String) (nl : Int)
    (ls : List Layer) (hls : get_layers lines nl = .ok ls)
    (traces : List (List Node))
    (hok : convert_data_parallel c lines nl = .ok traces) :
    GoodS traces := by
  have htr := convert_data_parallel_spec c lines nl ls hls traces hok
  have hwg : ∀ l ∈ ls, l.bwd_wg_comm_node = none :=
    fun l hl => (get_layers_slots hls l hl).2.2.2.2.2
  set E := c.num_passes * (4 * ls.length - 1) with hE
  have key : ∀ m, idsOf (((List.range m).map (fun dev =>
      (dataSegs c.num_dims ls (dev * E) c.num_passes).flatten)).flatten) =
      List.range' 0 (m * E) := by
    intro m
    induction m with
    | zero => simp [idsOf]
    | succ m ih =>
      rw [List.range_succ, List.map_append, List.flatten_append, idsOf_append,
        ih]
      simp only [List.map_cons, List.map_nil, List.flatten_cons,
        List.flatten_nil, List.append_nil]
      rw [idsOf_dataSegs, ← hE]
      have h := range'_concat 0 (m * E) E
      rw [Nat.zero_add] at h
      rw [h]
      congr 1
      ring
  have hids : idsOf traces.flatten = List.range' 0 (c.num_npus * E) := by
    rw [htr]
    exact key c.num_npus
  have hlenflat : traces.flatten.length = c.num_npus * E := by
    have h1 : (idsOf traces.flatten).length = traces.flatten.length :=
      List.length_map _ _
    have h := congrArg List.length hids
    rw [h1, List.length_range'] at h
    exact h
  have main : ∀ k (hk : k < traces.length),
      traces.get ⟨k, hk⟩ =
        (dataSegs c.num_dims ls (k * E) c.num_passes).flatten ∧
      (traces.take k).flatten.length = k * E := by
    intro k hk
    have hkn : k < c.num_npus := by
      rw [htr] at hk
      simpa using hk
    constructor
    · have hq : traces.get? k = some
          ((dataSegs c.num_dims ls (k * E) c.num_passes).flatten) := by
        rw [htr, List.get?_map, List.get?_range hkn]
        rfl
      have hq2 : traces.get? k = some (traces.get ⟨k, hk⟩) :=
        List.get?_eq_get hk
      exact Option.some.inj (hq2.symm.trans hq)
    · have htk : traces.take k = (List.range k).map (fun dev =>
          (dataSegs c.num_dims ls (dev * E) c.num_passes).flatten) := by
        have hmin : min k c.num_npus = k := by omega
        rw [htr, ← List.map_take, List.take_range, hmin]
      have h2 := congrArg List.length (key k)
      simp only [idsOf, List.length_map, List.length_range'] at h2
      rw [htk]
      exact h2
  refine ⟨⟨?_, ?_⟩, ?_⟩
  · rw [hids, hlenflat, List.range_eq_range']
  · intro k hk
    obtain ⟨hget, htake⟩ := main k hk
    rw [htake, hget]
    intro n hn dep hdep
    exact (dataSegs_deps c.num_dims ls (k * E) hwg c.num_passes n hn dep hdep).1
  · intro k hk
    obtain ⟨hget, _⟩ := main k hk
    rw [hget]
    intro n hn dep hdep
    exact (dataSegs_deps c.num_dims ls (k * E) hwg c.num_passes n hn dep hdep).2

/-! ## Run-invariant plumbing shared by all modes -/

theorem invS_init (ls : List Layer) : InvS (initSt ls) := by
  refine ⟨⟨rfl, ?_, ?_⟩, ?_, ?_⟩
  · intro k hk
    simp [initSt] at hk
  · intro n hn
    cases hn
  · intro k hk
    simp [initSt] at hk
  · intro n hn
    cases hn

theorem goodS_of_invS (st : St) (h : InvS st) (hout : st.out = []) :
    GoodS st.traces := by
  obtain ⟨⟨hid, hprev, hcur⟩, hprevS, hcurS⟩ := h
  rw [hout] at hid
  rw [show idsOf ([] : List Node) = [] from rfl, List.append_nil] at hid
  have hlen : st.traces.flatten.length = st.next_node_id := by
    have h1 : (idsOf st.traces.flatten).length = st.traces.flatten.length :=
      List.length_map _ _
    have hl := congrArg List.length hid
    rw [h1, List.length_range] at hl
    exact hl
  refine ⟨⟨?_, hprev⟩, hprevS⟩
  rw [hid, hlen]

theorem goodW_of_invW (st : St) (h : InvW st) (hout : st.out = []) :
    GoodW st.traces := by
  obtain ⟨hid, hprev, hcur⟩ := h
  rw [hout] at hid
  rw [show idsOf ([] : List Node) = [] from rfl, List.append_nil] at hid
  have hlen : st.traces.flatten.length = st.next_node_id := by
    have h1 : (idsOf st.traces.flatten).length = st.traces.flatten.length :=
      List.length_map _ _
    have hl := congrArg List.length hid
    rw [h1, List.length_range] at hl
    exact hl
  refine ⟨?_, hprev⟩
  rw [hid, hlen]

theorem AttrsOK_append {Q : Node → Prop} {st st' : St} (h : AttrsOK Q st)
    (ns : List Node) (hns : ∀ n ∈ ns, Q n)
    (hout : st'.out = st.out ++ ns) (htr : st'.traces = st.traces) :
    AttrsOK Q st' := by
  obtain ⟨h1, h2⟩ := h
  constructor
  · intro n hn
    rw [hout] at hn
    rcases List.mem_append.mp hn with hx | hx
    · exact h1 n hx
    · exact hns n hx
  · intro t ht
    rw [htr] at ht
    exact h2 t ht

theorem AttrsOK_commit {Q : Node → Prop} {st st' : St} (h : AttrsOK Q st)
    (htr : st'.traces = st.traces ++ [st.out]) (hout : st'.out = []) :
    AttrsOK Q st' := by
  obtain ⟨h1, h2⟩ := h
  constructor
  · intro n hn
    rw [hout] at hn
    cases hn
  · intro t ht
    rw [htr] at ht
    rcases List.mem_append.mp ht with hx | hx
    · exact h2 t hx
    · rw [List.mem_singleton.mp hx]
      exact h1

theorem attrsOK_init (Q : Node → Prop) (ls : List Layer) :
    AttrsOK Q (initSt ls) := by
  constructor
  · intro n hn
    cases hn
  · intro t ht
    cases ht

/-! ## MICRO mode: strong invariant -/

theorem micro_layer_step (c : Converter) (idx : Nat) (st st' : St)
    (h : InvS st) (hb : micro_layer_body c idx st = .ok st') : InvS st' := by
  unfold micro_layer_body at hb
  cases hly : st.layers.get? idx with
  | none =>
    rw [hly] at hb
    cases hb
  | some layer =>
    rw [hly] at hb
    cases hb
    refine InvS_append h
      [{ (get_comm_coll_node st layer.name layer.bwd_wg_comm_type
            layer.bwd_wg_comm_size "BWD_WG").1 with
          attr := (get_comm_coll_node st layer.name layer.bwd_wg_comm_type
            layer.bwd_wg_comm_size "BWD_WG").1.attr ++
            [involvedDimAll c.num_dims] }]
      rfl ?_ rfl rfl rfl
    intro nd hnd dep hdep
    have he := List.mem_singleton.mp hnd
    subst he
    cases hdep

theorem micro_pass_inv (c : Converter) (p : Nat) (st st' : St)
    (h : InvS st) (hb : micro_pass_body c p st = .ok st') : InvS st' := by
  unfold micro_pass_body at hb
  exact loopE_range_ind (micro_layer_body c) (fun _ s => InvS s)
    st.layers.length st st'
    (fun j t v _ hP hbj => micro_layer_step c j t v hP hbj) h hb

theorem micro_device_inv (c : Converter) (k : Nat) (st st' : St)
    (h : InvS st ∧ st.out = []) (hb : micro_device_body c k st = .ok st') :
    InvS st' ∧ st'.out = [] := by
  unfold micro_device_body at hb
  have hst0 : { st with out := ([] : List Node) } = st := by
    rw [← h.2]
  cases hpl : loopE (micro_pass_body c) (List.range c.num_passes)
      { st with out := [] } with
  | error e =>
    simp only [hpl] at hb
    cases hb
  | ok u =>
    simp only [hpl] at hb
    cases hb
    have h0 : InvS { st with out := ([] : List Node) } := by
      rw [hst0]
      exact h.1
    have hu : InvS u := loopE_range_ind (micro_pass_body c)
      (fun _ s => InvS s) c.num_passes { st with out := [] } u
      (fun j t v _ hP hbj => micro_pass_inv c j t v hP hbj) h0 hpl
    exact ⟨InvS_commit hu rfl rfl rfl, rfl⟩

theorem micro_goodS (c : Converter) (lines : List String) (nl : Int)
    (traces : List (List Node))
    (hok : convert_microbenchmark c lines nl = .ok traces) : GoodS traces := by
  unfold convert_microbenchmark at hok
  cases hls : get_layers lines nl with
  | error e =>
    simp only [hls] at hok
    cases hok
  | ok ls =>
    simp only [hls] at hok
    cases hdl : loopE (micro_device_body c) (List.range c.num_npus)
        (initSt ls) with
    | error e =>
      simp only [hdl] at hok
      cases hok
    | ok v =>
      simp only [hdl] at hok
      cases hok
      have hmain := loopE_range_ind (micro_device_body c)
        (fun _ s => InvS s ∧ s.out = []) c.num_npus (initSt ls) v
        (fun j t w _ hP hbj => micro_device_inv c j t w hP hbj)
        ⟨invS_init ls, rfl⟩ hdl
      exact goodS_of_invS v hmain.1 hmain.2

/-! ## MODEL mode: strong invariant -/

theorem SlotLB.mono {B N N' : Nat} {o : Option Nat} (h : SlotLB B N o)
    (hN : N ≤ N') : SlotLB B N' o :=
  fun v hv => ⟨(h v hv).1, lt_of_lt_of_le (h v hv).2 hN⟩

/-- The device base never exceeds the id counter, and the counter is the
base plus the current stream's length. -/
theorem InvW.base_le {st : St} (h : InvW st) :
    st.traces.flatten.length ≤ st.next_node_id ∧
    st.traces.flatten.length + st.out.length = st.next_node_id := by
  have hl := congrArg List.length h.ids
  simp only [List.length_append, idsOf, List.length_map, List.length_range]
    at hl
  omega

theorem model_fwd_finish (d : Int) (L idx : Nat) (st st' : St)
    (layer : Layer) (n1 cm : Node)
    (hly : st.layers.get? idx = some layer) (hidx : idx < L)
    (hIS : InvS st) (hlen : st.layers.length = L) (hwg : WgCompLB st)
    (hskip : SkipNone d st) (hfresh : FwdCommFresh idx st)
    (hn1 : n1.id = st.next_node_id)
    (hcm : cm.id = st.next_node_id + 1)
    (hn1d : ∀ dep ∈ n1.data_deps,
      st.traces.flatten.length ≤ dep ∧ dep < st.next_node_id)
    (hcmd : cm.data_deps = [st.next_node_id])
    (hnext' : st'.next_node_id = st.next_node_id + 2)
    (hlay' : st'.layers = st.layers.set idx
      { layer with
        fwd_comp_node := some st.next_node_id,
        fwd_comm_node := some (st.next_node_id + 1) })
    (hout' : st'.out = st.out ++ [n1, cm])
    (htr' : st'.traces = st.traces) :
    InvS st' ∧ st'.layers.length = L ∧ WgCompLB st' ∧ SkipNone d st' ∧
      FwdCommFresh (idx + 1) st' ∧
      SlotLB st'.traces.flatten.length st'.next_node_id
        (some (st.next_node_id + 1)) := by
  have hbase := hIS.toInvW.base_le
  refine ⟨?_, by rw [hlay', List.length_set, hlen], ?_, ?_, ?_, ?_⟩
  · refine InvS_append hIS [n1, cm] ?_ ?_ hout' htr' (by rw [hnext']; rfl)
    · rw [show idsOf [n1, cm] = [n1.id, cm.id] from rfl, hn1, hcm]
      rfl
    · intro nd hnd dep hdep
      rcases List.mem_cons.mp hnd with rfl | hnd2
      · have h1 := hn1d dep hdep
        omega
      rcases List.mem_cons.mp hnd2 with rfl | hnd3
      · rw [hcmd] at hdep
        have he := List.mem_singleton.mp hdep
        omega
      cases hnd3
  · intro l hl
    rw [htr', hnext']
    rw [hlay'] at hl
    rcases List.mem_or_eq_of_mem_set hl with hx | hx
    · exact (hwg l hx).mono (by omega)
    · subst hx
      show SlotLB st.traces.flatten.length (st.next_node_id + 2)
        layer.bwd_wg_comp_node
      exact (hwg layer (List.get?_mem hly)).mono (by omega)
  · intro j l' hget hcond
    rw [hlay', List.length_set] at hcond
    rw [hlay'] at hget
    by_cases hji : j = idx
    · subst hji
      rw [List.get?_set_eq, hly] at hget
      have he := Option.some.inj hget
      rw [← he]
      exact hskip j layer hly hcond
    · rw [List.get?_set_ne _ _ (fun hc => hji hc.symm)] at hget
      exact hskip j l' hget hcond
  · intro j hj l' hget
    rw [htr', hnext']
    rw [hlay'] at hget
    by_cases hji : j = idx
    · subst hji
      rw [List.get?_set_eq, hly] at hget
      have he := Option.some.inj hget
      rw [← he]
      intro v hv
      have hv' := Option.some.inj hv
      omega
    · rw [List.get?_set_ne _ _ (fun hc => hji hc.symm)] at hget
      exact (hfresh j (by omega) l' hget).mono (by omega)
  · rw [htr', hnext']
    intro v hv
    have hv' := Option.some.inj hv
    omega

theorem model_fwd_step (c : Converter) (d : Int) (L : Nat) (idx : Nat)
    (acc acc' : Option Nat × St) (hidx : idx < L)
    (hP : InvS acc.2 ∧ acc.2.layers.length = L ∧ WgCompLB acc.2 ∧
      SkipNone d acc.2 ∧ FwdCommFresh idx acc.2 ∧
      SlotLB acc.2.traces.flatten.length acc.2.next_node_id acc.1)
    (hb : model_fwd_body c idx acc = .ok acc') :
    InvS acc'.2 ∧ acc'.2.layers.length = L ∧ WgCompLB acc'.2 ∧
      SkipNone d acc'.2 ∧ FwdCommFresh (idx + 1) acc'.2 ∧
      SlotLB acc'.2.traces.flatten.length acc'.2.next_node_id acc'.1 := by
  obtain ⟨fc0, st⟩ := acc
  obtain ⟨hIS, hlen, hwg, hskip, hfresh, hacc⟩ := hP
  dsimp only at hIS hlen hwg hskip hfresh hacc
  cases hly : st.layers.get? idx with
  | none =>
    unfold model_fwd_body at hb
    simp only [hly] at hb
    cases hb
  | some layer =>
    by_cases h0 : idx = 0
    · subst h0
      have hbody : model_fwd_body c 0 (fc0, st) = .ok
          (some (st.next_node_id + 1),
          { st with
            next_node_id := st.next_node_id + 2,
            layers := st.layers.set 0
              { layer with
                fwd_comp_node := some st.next_node_id,
                fwd_comm_node := some (st.next_node_id + 1) },
            out := st.out ++
              [{ id := st.next_node_id,
                 name := "COMP_NODE_" ++ layer.name ++ "_" ++ "FWD",
                 ntype := .COMP_NODE, duration_micros := layer.fwd_comp_time,
                 attr := [],
                 data_deps := (match layer.bwd_wg_comp_node with
                   | some w => [w] | none => []),
                 role := "FWD" },
               { id := st.next_node_id + 1,
                 name := "COMM_COLL_NODE_" ++ layer.name ++ "_" ++
                   layer.fwd_comm_type,
                 ntype := .COMM_COLL_NODE, duration_micros := 0,
                 attr := [⟨"comm_type",
                     .int64 (get_comm_type layer.fwd_comm_type)⟩,
                   ⟨"comm_size", .uint64 layer.fwd_comm_size⟩,
                   involvedDimAll c.num_dims],
                 data_deps := [st.next_node_id], role := "FWD" }] }) := by
        unfold model_fwd_body
        simp only [hly, if_pos rfl, get_comp_node, get_node, add_parent_if,
          setLayer, emit, get_comm_coll_node, List.get?_set_eq,
          Option.map_some', List.set_set]
        cases layer.bwd_wg_comp_node <;> simp
      rw [hbody] at hb
      cases hb
      exact model_fwd_finish d L 0 st _ layer _ _ hly hidx hIS hlen hwg hskip
        hfresh rfl rfl
        (by
          intro dep hdep
          cases hwgs : layer.bwd_wg_comp_node with
          | none =>
            rw [hwgs] at hdep
            cases hdep
          | some w =>
            rw [hwgs] at hdep
            have he := List.mem_singleton.mp hdep
            subst he
            exact hwg layer (List.get?_mem hly) dep hwgs)
        rfl rfl rfl rfl rfl
    · cases hpl : st.layers.get? (idx - 1) with
      | none =>
        rw [List.get?_eq_none] at hpl
        omega
      | some prevl =>
        cases hpc : prevl.fwd_comm_node with
        | none =>
          have hbody : model_fwd_body c idx (fc0, st) = .error
              "AttributeError: 'NoneType' object has no attribute 'id'" := by
            unfold model_fwd_body
            simp only [hly, if_neg h0, get_comp_node, get_node, hpl, hpc,
              add_parent]
          rw [hbody] at hb
          cases hb
        | some v =>
          have hbody : model_fwd_body c idx (fc0, st) = .ok
              (some (st.next_node_id + 1),
              { st with
                next_node_id := st.next_node_id + 2,
                layers := st.layers.set idx
                  { layer with
                    fwd_comp_node := some st.next_node_id,
                    fwd_comm_node := some (st.next_node_id + 1) },
                out := st.out ++
                  [{ id := st.next_node_id,
                     name := "COMP_NODE_" ++ layer.name ++ "_" ++ "FWD",
                     ntype := .COMP_NODE,
                     duration_micros := layer.fwd_comp_time,
                     attr := [],
                     data_deps := v :: (match layer.bwd_wg_comp_node with
                       | some w => [w] | none => []),
                     role := "FWD" },
                   { id := st.next_node_id + 1,
                     name := "COMM_COLL_NODE_" ++ layer.name ++ "_" ++
                       layer.fwd_comm_type,
                     ntype := .COMM_COLL_NODE, duration_micros := 0,
                     attr := [⟨"comm_type",
                         .int64 (get_comm_type layer.fwd_comm_type)⟩,
                       ⟨"comm_size", .uint64 layer.fwd_comm_size⟩,
                       involvedDimAll c.num_dims],
                     data_deps := [st.next_node_id], role := "FWD" }] }) := by
            unfold model_fwd_body
            simp only [hly, if_neg h0, hpl, hpc, add_parent, add_parent_if,
              get_comp_node, get_node, get_comm_coll_node, setLayer, emit,
              List.get?_set_eq, Option.map_some', List.set_set]
            cases layer.bwd_wg_comp_node <;> simp
          rw [hbody] at hb
          cases hb
          refine model_fwd_finish d L idx st _ layer _ _ hly hidx hIS hlen hwg
            hskip hfresh rfl rfl ?_ rfl rfl rfl rfl rfl
          intro dep hdep
          rcases List.mem_cons.mp hdep with rfl | hdep2
          · exact hfresh (idx - 1) (by omega) prevl hpl dep hpc
          · cases hwgs : layer.bwd_wg_comp_node with
            | none =>
              rw [hwgs] at hdep2
              cases hdep2
            | some w =>
              rw [hwgs] at hdep2
              have he := List.mem_singleton.mp hdep2
              subst he
              exact hwg layer (List.get?_mem hly) dep hwgs

theorem model_bwd_finish (d : Int) (L idx : Nat) (st st' : St)
    (layer : Layer) (o : Option Nat) (ns : List Node) (newl : Layer)
    (hidx : idx < L)
    (hly : st.layers.get? (st.layers.length - 1 - idx) = some layer)
    (hIS : InvS st) (hlen : st.layers.length = L) (hwg : WgCompLB st)
    (hskip : SkipNone d st) (hdone : IgCommDone idx st)
    (ho : SlotLB st.traces.flatten.length st.next_node_id o)
    (hlay' : st'.layers = st.layers.set (st.layers.length - 1 - idx) newl)
    (hout' : st'.out = st.out ++ ns)
    (htr' : st'.traces = st.traces)
    (hnext' : st'.next_node_id = st.next_node_id + ns.length)
    (hnsids : idsOf ns = List.range' st.next_node_id ns.length)
    (hnsdeps : ∀ n ∈ ns, ∀ dep ∈ n.data_deps,
      st.traces.flatten.length ≤ dep ∧ dep < n.id)
    (hnewwg : SlotLB st.traces.flatten.length
      (st.next_node_id + ns.length) newl.bwd_wg_comp_node)
    (hnewig : SlotLB st.traces.flatten.length
      (st.next_node_id + ns.length) newl.bwd_ig_comm_node)
    (hnewskip : (idx : Int) = d - 1 → newl.bwd_ig_comm_node = none) :
    InvS st' ∧ st'.layers.length = L ∧ WgCompLB st' ∧ SkipNone d st' ∧
      IgCommDone (idx + 1) st' ∧
      SlotLB st'.traces.flatten.length st'.next_node_id o := by
  have hbase := hIS.toInvW.base_le
  refine ⟨InvS_append hIS ns hnsids hnsdeps hout' htr' hnext',
    by rw [hlay', List.length_set, hlen], ?_, ?_, ?_, ?_⟩
  · intro l hl
    rw [htr', hnext']
    rw [hlay'] at hl
    rcases List.mem_or_eq_of_mem_set hl with hx | hx
    · exact (hwg l hx).mono (by omega)
    · subst hx
      exact hnewwg
  · intro j l' hget hcond
    rw [hlay', List.length_set] at hcond
    rw [hlay'] at hget
    by_cases hji : j = st.layers.length - 1 - idx
    · subst hji
      rw [List.get?_set_eq, hly] at hget
      have he : newl = l' := Option.some.inj hget
      rw [← he]
      have hcast : st.layers.length - 1 - (st.layers.length - 1 - idx) =
          idx := by omega
      rw [hcast] at hcond
      exact hnewskip hcond
    · rw [List.get?_set_ne _ _ (fun hc => hji hc.symm)] at hget
      exact hskip j l' hget hcond
  · intro pos hpos l' hget
    rw [htr', hnext']
    rw [hlay', List.length_set] at hget
    by_cases hpi : pos = idx
    · subst hpi
      rw [List.get?_set_eq, hly] at hget
      have he : newl = l' := Option.some.inj hget
      rw [← he]
      exact hnewig
    · have hne : st.layers.length - 1 - idx ≠ st.layers.length - 1 - pos := by
        omega
      rw [List.get?_set_ne _ _ hne] at hget
      exact (hdone pos (by omega) l' hget).mono (by omega)
  · rw [htr', hnext']
    exact ho.mono (by omega)

theorem model_bwd_step (c : Converter) (d : Int) (L : Nat) (fc : Option Nat)
    (idx : Nat) (st st' : St) (hidx : idx < L)
    (hP : InvS st ∧ st.layers.length = L ∧ WgCompLB st ∧ SkipNone d st ∧
      IgCommDone idx st ∧
      SlotLB st.traces.flatten.length st.next_node_id fc)
    (hb : model_bwd_body c d fc idx st = .ok st') :
    InvS st' ∧ st'.layers.length = L ∧ WgCompLB st' ∧ SkipNone d st' ∧
      IgCommDone (idx + 1) st' ∧
      SlotLB st'.traces.flatten.length st'.next_node_id fc := by
  obtain ⟨hIS, hlen, hwg, hskip, hdone, hfc⟩ := hP
  have hbase := hIS.toInvW.base_le
  cases hly : st.layers.get? (st.layers.length - 1 - idx) with
  | none =>
    rw [List.get?_eq_none] at hly
    omega
  | some layer =>
    by_cases h0 : idx = 0
    · subst h0
      cases fc with
      | none =>
        unfold model_bwd_body at hb
        simp only [hly] at hb
        cases hb
      | some fid =>
        have hfid := hfc fid rfl
        have hlig0 : ((0 : Nat) : Int) = d - 1 →
            layer.bwd_ig_comm_node = none := by
          intro hg
          apply hskip (st.layers.length - 1 - 0) layer hly
          have hcast : st.layers.length - 1 - (st.layers.length - 1 - 0) =
              0 := by omega
          rw [hcast]
          exact hg
        by_cases hg : ((0 : Nat) : Int) = d - 1
        · have hbody : model_bwd_body c d (some fid) 0 st = .ok
              { st with
                next_node_id := st.next_node_id + 2,
                layers := st.layers.set (st.layers.length - 1 - 0)
                  { layer with
                    bwd_wg_comp_node := some (st.next_node_id + 1) },
                out := st.out ++
                  [{ id := st.next_node_id,
                     name := "COMP_NODE_" ++ layer.name ++ "_" ++ "BWD_IG",
                     ntype := .COMP_NODE,
                     duration_micros := layer.bwd_ig_comp_time, attr := [],
                     data_deps := [fid], role := "BWD_IG" },
                   { id := st.next_node_id + 1,
                     name := "COMP_NODE_" ++ layer.name ++ "_" ++ "BWD_WG",
                     ntype := .COMP_NODE,
                     duration_micros := layer.bwd_wg_comp_time, attr := [],
                     data_deps := [st.next_node_id],
                     role := "BWD_WG" }] } := by
            unfold model_bwd_body
            simp only [hly, if_pos rfl, add_parent, if_pos hg, get_comp_node,
              get_node, add_parent_if, setLayer, emit, List.get?_set_eq,
              Option.map_some', List.set_set]
            try simp
          rw [hbody] at hb
          cases hb
          refine model_bwd_finish d L 0 st _ layer (some fid) _ _ hidx hly
            hIS hlen hwg hskip hdone hfc rfl rfl rfl rfl rfl ?_ ?_ ?_ ?_
          · intro nd hnd dep hdep
            rcases List.mem_cons.mp hnd with rfl | hnd2
            · have he := List.mem_singleton.mp hdep
              show st.traces.flatten.length ≤ dep ∧ dep < st.next_node_id
              omega
            rcases List.mem_cons.mp hnd2 with rfl | hnd3
            · have he := List.mem_singleton.mp hdep
              show st.traces.flatten.length ≤ dep ∧ dep < st.next_node_id + 1
              omega
            cases hnd3
          · intro v hv
            have hvv := Option.some.inj hv
            constructor
            · omega
            · show v < st.next_node_id + 2
              omega
          · intro v hv
            have hv' : layer.bwd_ig_comm_node = some v := hv
            rw [hlig0 hg] at hv'
            cases hv'
          · intro _
            exact hlig0 hg
        · have hbody : model_bwd_body c d (some fid) 0 st = .ok
              { st with
                next_node_id := st.next_node_id + 3,
                layers := st.layers.set (st.layers.length - 1 - 0)
                  { layer with
                    bwd_ig_comm_node := some (st.next_node_id + 1),
                    bwd_wg_comp_node := some (st.next_node_id + 2) },
                out := st.out ++
                  [{ id := st.next_node_id,
                     name := "COMP_NODE_" ++ layer.name ++ "_" ++ "BWD_IG",
                     ntype := .COMP_NODE,
                     duration_micros := layer.bwd_ig_comp_time, attr := [],
                     data_deps := [fid], role := "BWD_IG" },
                   { id := st.next_node_id + 1,
                     name := "COMM_COLL_NODE_" ++ layer.name ++ "_" ++
                       layer.bwd_ig_comm_type,
                     ntype := .COMM_COLL_NODE, duration_micros := 0,
                     attr := [⟨"comm_type",
                         .int64 (get_comm_type layer.bwd_ig_comm_type)⟩,
                       ⟨"comm_size", .uint64 layer.bwd_ig_comm_size⟩,
                       involvedDimAll c.num_dims],
                     data_deps := [st.next_node_id], role := "BWD_IG" },
                   { id := st.next_node_id + 2,
                     name := "COMP_NODE_" ++ layer.name ++ "_" ++ "BWD_WG",
                     ntype := .COMP_NODE,
                     duration_micros := layer.bwd_wg_comp_time, attr := [],
                     data_deps := [st.next_node_id],
                     role := "BWD_WG" }] } := by
            unfold model_bwd_body
            simp only [hly, if_pos rfl, add_parent, if_neg hg, get_comp_node,
              get_node, get_comm_coll_node, add_parent_if, setLayer, emit,
              List.get?_set_eq, Option.map_some', List.set_set]
            try simp
          rw [hbody] at hb
          cases hb
          refine model_bwd_finish d L 0 st _ layer (some fid) _ _ hidx hly
            hIS hlen hwg hskip hdone hfc rfl rfl rfl rfl rfl ?_ ?_ ?_ ?_
          · intro nd hnd dep hdep
            rcases List.mem_cons.mp hnd with rfl | hnd2
            · have he := List.mem_singleton.mp hdep
              show st.traces.flatten.length ≤ dep ∧ dep < st.next_node_id
              omega
            rcases List.mem_cons.mp hnd2 with rfl | hnd3
            · have he := List.mem_singleton.mp hdep
              show st.traces.flatten.length ≤ dep ∧ dep < st.next_node_id + 1
              omega
            rcases List.mem_cons.mp hnd3 with rfl | hnd4
            · have he := List.mem_singleton.mp hdep
              show st.traces.flatten.length ≤ dep ∧ dep < st.next_node_id + 2
              omega
            cases hnd4
          · intro v hv
            have hvv := Option.some.inj hv
            constructor
            · omega
            · show v < st.next_node_id + 3
              omega
          · intro v hv
            have hvv := Option.some.inj hv
            constructor
            · omega
            · show v < st.next_node_id + 3
              omega
          · intro hcontra
            exact absurd hcontra hg
    · cases hnx : st.layers.get? (st.layers.length - idx) with
      | none =>
        rw [List.get?_eq_none] at hnx
        omega
      | some nxt =>
        cases hw : nxt.bwd_wg_comp_node with
        | none =>
          unfold model_bwd_body at hb
          simp only [hly, if_neg h0, get_comp_node, get_node, hnx, hw,
            add_parent] at hb
          cases hb
        | some w =>
          cases hu : nxt.bwd_ig_comm_node with
          | none =>
            unfold model_bwd_body at hb
            simp only [hly, if_neg h0, get_comp_node, get_node, hnx, hw, hu,
              add_parent] at hb
            cases hb
          | some u =>
            have hw' := hwg nxt (List.get?_mem hnx) w hw
            have hu' : st.traces.flatten.length ≤ u ∧ u < st.next_node_id := by
              have hgetconv : st.layers.get?
                  (st.layers.length - 1 - (idx - 1)) = some nxt := by
                have hc : st.layers.length - 1 - (idx - 1) =
                    st.layers.length - idx := by omega
                rw [hc]
                exact hnx
              exact hdone (idx - 1) (by omega) nxt hgetconv u hu
            have hligN : (idx : Int) = d - 1 →
                layer.bwd_ig_comm_node = none := by
              intro hg
              apply hskip (st.layers.length - 1 - idx) layer hly
              have hcast : st.layers.length - 1 -
                  (st.layers.length - 1 - idx) = idx := by omega
              rw [hcast]
              exact hg
            by_cases hg : (idx : Int) = d - 1
            · have hbody : model_bwd_body c d fc idx st = .ok
                  { st with
                    next_node_id := st.next_node_id + 2,
                    layers := st.layers.set (st.layers.length - 1 - idx)
                      { layer with
                        bwd_wg_comp_node := some (st.next_node_id + 1) },
                    out := st.out ++
                      [{ id := st.next_node_id,
                         name := "COMP_NODE_" ++ layer.name ++ "_" ++
                           "BWD_IG",
                         ntype := .COMP_NODE,
                         duration_micros := layer.bwd_ig_comp_time,
                         attr := [],
                         data_deps := [w, u], role := "BWD_IG" },
                       { id := st.next_node_id + 1,
                         name := "COMP_NODE_" ++ layer.name ++ "_" ++
                           "BWD_WG",
                         ntype := .COMP_NODE,
                         duration_micros := layer.bwd_wg_comp_time,
                         attr := [],
                         data_deps := [st.next_node_id],
                         role := "BWD_WG" }] } := by
                unfold model_bwd_body
                simp only [hly, if_neg h0, get_comp_node, get_node, hnx, hw,
                  hu, add_parent, if_pos hg, add_parent_if, setLayer, emit,
                  List.get?_set_eq, Option.map_some', List.set_set]
                try simp
              rw [hbody] at hb
              cases hb
              refine model_bwd_finish d L idx st _ layer fc _ _ hidx hly
                hIS hlen hwg hskip hdone hfc rfl rfl rfl rfl rfl ?_ ?_ ?_ ?_
              · intro nd hnd dep hdep
                rcases List.mem_cons.mp hnd with rfl | hnd2
                · rcases List.mem_cons.mp hdep with rfl | hdep2
                  · show st.traces.flatten.length ≤ dep ∧
                      dep < st.next_node_id
                    omega
                  · have he := List.mem_singleton.mp hdep2
                    subst he
                    show st.traces.flatten.length ≤ dep ∧
                      dep < st.next_node_id
                    omega
                rcases List.mem_cons.mp hnd2 with rfl | hnd3
                · have he := List.mem_singleton.mp hdep
                  show st.traces.flatten.length ≤ dep ∧
                    dep < st.next_node_id + 1
                  omega
                cases hnd3
              · intro v hv
                have hvv := Option.some.inj hv
                constructor
                · omega
                · show v < st.next_node_id + 2
                  omega
              · intro v hv
                have hv' : layer.bwd_ig_comm_node = some v := hv
                rw [hligN hg] at hv'
                cases hv'
              · intro _
                exact hligN hg
            · have hbody : model_bwd_body c d fc idx st = .ok
                  { st with
                    next_node_id := st.next_node_id + 3,
                    layers := st.layers.set (st.layers.length - 1 - idx)
                      { layer with
                        bwd_ig_comm_node := some (st.next_node_id + 1),
                        bwd_wg_comp_node := some (st.next_node_id + 2) },
                    out := st.out ++
                      [{ id := st.next_node_id,
                         name := "COMP_NODE_" ++ layer.name ++ "_" ++
                           "BWD_IG",
                         ntype := .COMP_NODE,
                         duration_micros := layer.bwd_ig_comp_time,
                         attr := [],
                         data_deps := [w, u], role := "BWD_IG" },
                       { id := st.next_node_id + 1,
                         name := "COMM_COLL_NODE_" ++ layer.name ++ "_" ++
                           layer.bwd_ig_comm_type,
                         ntype := .COMM_COLL_NODE, duration_micros := 0,
                         attr := [⟨"comm_type",
                             .int64 (get_comm_type layer.bwd_ig_comm_type)⟩,
                           ⟨"comm_size", .uint64 layer.bwd_ig_comm_size⟩,
                           involvedDimAll c.num_dims],
                         data_deps := [st.next_node_id],
                         role := "BWD_IG" },
                       { id := st.next_node_id + 2,
                         name := "COMP_NODE_" ++ layer.name ++ "_" ++
                           "BWD_WG",
                         ntype := .COMP_NODE,
                         duration_micros := layer.bwd_wg_comp_time,
                         attr := [],
                         data_deps := [st.next_node_id],
                         role := "BWD_WG" }] } := by
                unfold model_bwd_body
                simp only [hly, if_neg h0, get_comp_node, get_node, hnx, hw,
                  hu, add_parent, if_neg hg, get_comm_coll_node,
                  add_parent_if, setLayer, emit, List.get?_set_eq,
                  Option.map_some', List.set_set]
                try simp
              rw [hbody] at hb
              cases hb
              refine model_bwd_finish d L idx st _ layer fc _ _ hidx hly
                hIS hlen hwg hskip hdone hfc rfl rfl rfl rfl rfl ?_ ?_ ?_ ?_
              · intro nd hnd dep hdep
                rcases List.mem_cons.mp hnd with rfl | hnd2
                · rcases List.mem_cons.mp hdep with rfl | hdep2
                  · show st.traces.flatten.length ≤ dep ∧
                      dep < st.next_node_id
                    omega
                  · have he := List.mem_singleton.mp hdep2
                    subst he
                    show st.traces.flatten.length ≤ dep ∧
                      dep < st.next_node_id
                    omega
                rcases List.mem_cons.mp hnd2 with rfl | hnd3
                · have he := List.mem_singleton.mp hdep
                  show st.traces.flatten.length ≤ dep ∧
                    dep < st.next_node_id + 1
                  omega
                rcases List.mem_cons.mp hnd3 with rfl | hnd4
                · have he := List.mem_singleton.mp hdep
                  show st.traces.flatten.length ≤ dep ∧
                    dep < st.next_node_id + 2
                  omega
                cases hnd4
              · intro v hv
                have hvv := Option.some.inj hv
                constructor
                · omega
                · show v < st.next_node_id + 3
                  omega
              · intro v hv
                have hvv := Option.some.inj hv
                constructor
                · omega
                · show v < st.next_node_id + 3
                  omega
              · intro hcontra
                exact absurd hcontra hg

theorem model_pass_inv (c : Converter) (d : Int) (L : Nat) (p : Nat)
    (st st' : St)
    (hP : InvS st ∧ st.layers.length = L ∧ WgCompLB st ∧ SkipNone d st)
    (hb : model_pass_body c d p st = .ok st') :
    InvS st' ∧ st'.layers.length = L ∧ WgCompLB st' ∧ SkipNone d st' := by
  obtain ⟨hIS, hlen, hwg, hskip⟩ := hP
  unfold model_pass_body at hb
  cases hfl : loopE (model_fwd_body c) (List.range st.layers.length)
      (none, st) with
  | error e =>
    simp only [hfl] at hb
    cases hb
  | ok r =>
    obtain ⟨fc, st1⟩ := r
    simp only [hfl] at hb
    have hfwd := loopE_range_ind (model_fwd_body c)
      (fun k acc => InvS acc.2 ∧ acc.2.layers.length = L ∧ WgCompLB acc.2 ∧
        SkipNone d acc.2 ∧ FwdCommFresh k acc.2 ∧
        SlotLB acc.2.traces.flatten.length acc.2.next_node_id acc.1)
      st.layers.length (none, st) (fc, st1)
      (fun j t v hj hPj hbj =>
        model_fwd_step c d L j t v (by omega) hPj hbj)
      ⟨hIS, hlen, hwg, hskip,
        (fun j hj => absurd hj (Nat.not_lt_zero j)),
        (fun v hv => by cases hv)⟩ hfl
    obtain ⟨hIS1, hlen1, hwg1, hskip1, _, hfc1⟩ := hfwd
    dsimp only at hIS1 hlen1 hwg1 hskip1 hfc1
    have hbwd := loopE_range_ind (model_bwd_body c d fc)
      (fun k s => InvS s ∧ s.layers.length = L ∧ WgCompLB s ∧
        SkipNone d s ∧ IgCommDone k s ∧
        SlotLB s.traces.flatten.length s.next_node_id fc)
      st1.layers.length st1 st'
      (fun j t v hj hPj hbj =>
        model_bwd_step c d L fc j t v (by omega) hPj hbj)
      ⟨hIS1, hlen1, hwg1, hskip1,
        (fun pos hpos => absurd hpos (Nat.not_lt_zero pos)), hfc1⟩ hb
    exact ⟨hbwd.1, hbwd.2.1, hbwd.2.2.1, hbwd.2.2.2.1⟩

theorem model_device_inv (c : Converter) (d : Int) (L : Nat) (k : Nat)
    (st st' : St)
    (hP : InvS st ∧ st.layers.length = L ∧ WgCompLB st ∧ SkipNone d st ∧
      st.out = [])
    (hb : model_device_body c d k st = .ok st') :
    InvS st' ∧ st'.layers.length = L ∧ WgCompLB st' ∧ SkipNone d st' ∧
      st'.out = [] := by
  obtain ⟨hIS, hlen, hwg, hskip, hout⟩ := hP
  unfold model_device_body at hb
  have hst0 : { st with out := ([] : List Node) } = st := by
    rw [← hout]
  cases hpl : loopE (model_pass_body c d) (List.range c.num_passes)
      { st with out := [] } with
  | error e =>
    simp only [hpl] at hb
    cases hb
  | ok u =>
    simp only [hpl] at hb
    have hst' := Except.ok.inj hb
    have hlay' : st'.layers = u.layers.map (fun (l : Layer) =>
        { l with bwd_wg_comp_node := none }) := by
      rw [← hst']
    have htr' : st'.traces = u.traces ++ [u.out] := by
      rw [← hst']
    have hout'' : st'.out = [] := by
      rw [← hst']
    have hnext' : st'.next_node_id = u.next_node_id := by
      rw [← hst']
    have h0 : InvS { st with out := ([] : List Node) } ∧
        ({ st with out := ([] : List Node) } : St).layers.length = L ∧
        WgCompLB { st with out := ([] : List Node) } ∧
        SkipNone d { st with out := ([] : List Node) } := by
      rw [hst0]
      exact ⟨hIS, hlen, hwg, hskip⟩
    have hrun := loopE_range_ind (model_pass_body c d)
      (fun _ s => InvS s ∧ s.layers.length = L ∧ WgCompLB s ∧ SkipNone d s)
      c.num_passes { st with out := [] } u
      (fun j t v _ hPj hbj => model_pass_inv c d L j t v hPj hbj) h0 hpl
    obtain ⟨hISu, hlenu, hwgu, hskipu⟩ := hrun
    refine ⟨InvS_commit hISu htr' hout'' hnext', ?_, ?_, ?_, hout''⟩
    · rw [hlay', List.length_map]
      exact hlenu
    · intro l hl
      rw [hlay'] at hl
      obtain ⟨l₀, _, hml⟩ := List.mem_map.mp hl
      intro v hv
      rw [← hml] at hv
      cases hv
    · intro j l' hget hcond
      rw [hlay', List.length_map] at hcond
      rw [hlay', List.get?_map] at hget
      cases hg0 : u.layers.get? j with
      | none =>
        rw [hg0] at hget
        cases hget
      | some l₀ =>
        rw [hg0] at hget
        simp only [Option.map_some'] at hget
        have he := Option.some.inj hget
        rw [← he]
        exact hskipu j l₀ hg0 hcond

theorem model_goodS (c : Converter) (lines : List String) (nl : Int)
    (traces : List (List Node))
    (hok : convert_model_parallel c lines nl = .ok traces) :
    GoodS traces := by
  unfold convert_model_parallel at hok
  cases hls : get_layers lines nl with
  | error e =>
    simp only [hls] at hok
    cases hok
  | ok ls =>
    simp only [hls] at hok
    cases hdl : loopE (model_device_body c nl) (List.range c.num_npus)
        (initSt ls) with
    | error e =>
      simp only [hdl] at hok
      cases hok
    | ok v =>
      simp only [hdl] at hok
      cases hok
      have hinit : InvS (initSt ls) ∧ (initSt ls).layers.length = ls.length ∧
          WgCompLB (initSt ls) ∧ SkipNone nl (initSt ls) ∧
          (initSt ls).out = [] := by
        refine ⟨invS_init ls, rfl, ?_, ?_, rfl⟩
        · intro l hl v hv
          rw [(get_layers_slots hls l hl).2.2.2.2.1] at hv
          cases hv
        · intro j l' hget _
          exact (get_layers_slots hls l' (List.get?_mem hget)).2.2.2.1
      have hmain := loopE_range_ind (model_device_body c nl)
        (fun _ s => InvS s ∧ s.layers.length = ls.length ∧ WgCompLB s ∧
          SkipNone nl s ∧ s.out = [])
        c.num_npus (initSt ls) v
        (fun j t w _ hPj hbj => model_device_inv c nl ls.length j t w hPj hbj)
        hinit hdl
      exact goodS_of_invS v hmain.1 hmain.2.2.2.2

/-! ## HYBRID_DATA_MODEL / HYBRID_MODEL_DATA: strong invariant -/

theorem hyb_fwd_finish (Q : Node → Prop) (d : Int) (L idx : Nat) (st st' : St)
    (layer : Layer) (n1 cm : Node)
    (hly : st.layers.get? idx = some layer) (hidx : idx < L)
    (hIS : InvS st) (hlen : st.layers.length = L) (hwgc : WgCommLB st)
    (hskip : SkipNone d st) (hfresh : FwdCommFresh idx st)
    (hattrs : AttrsOK Q st)
    (hlay' : st'.layers = st.layers.set idx
      { layer with fwd_comm_node := some (st.next_node_id + 1) })
    (hout' : st'.out = st.out ++ [n1, cm])
    (htr' : st'.traces = st.traces)
    (hnext' : st'.next_node_id = st.next_node_id + 2)
    (hn1 : n1.id = st.next_node_id)
    (hcm : cm.id = st.next_node_id + 1)
    (hn1d : ∀ dep ∈ n1.data_deps,
      st.traces.flatten.length ≤ dep ∧ dep < st.next_node_id)
    (hcmd : cm.data_deps = [st.next_node_id])
    (hQ1 : Q n1) (hQ2 : Q cm) :
    InvS st' ∧ st'.layers.length = L ∧ WgCommLB st' ∧ SkipNone d st' ∧
      FwdCommFresh (idx + 1) st' ∧
      SlotLB st'.traces.flatten.length st'.next_node_id
        (some (st.next_node_id + 1)) ∧ AttrsOK Q st' := by
  have hbase := hIS.toInvW.base_le
  refine ⟨?_, by rw [hlay', List.length_set, hlen], ?_, ?_, ?_, ?_, ?_⟩
  · refine InvS_append hIS [n1, cm] ?_ ?_ hout' htr' (by rw [hnext']; rfl)
    · rw [show idsOf [n1, cm] = [n1.id, cm.id] from rfl, hn1, hcm]
      rfl
    · intro nd hnd dep hdep
      rcases List.mem_cons.mp hnd with rfl | hnd2
      · have h1 := hn1d dep hdep
        omega
      rcases List.mem_cons.mp hnd2 with rfl | hnd3
      · rw [hcmd] at hdep
        have he := List.mem_singleton.mp hdep
        omega
      cases hnd3
  · intro l hl
    rw [htr', hnext']
    rw [hlay'] at hl
    rcases List.mem_or_eq_of_mem_set hl with hx | hx
    · exact (hwgc l hx).mono (by omega)
    · subst hx
      show SlotLB st.traces.flatten.length (st.next_node_id + 2)
        layer.bwd_wg_comm_node
      exact (hwgc layer (List.get?_mem hly)).mono (by omega)
  · intro j l' hget hcond
    rw [hlay', List.length_set] at hcond
    rw [hlay'] at hget
    by_cases hji : j = idx
    · subst hji
      rw [List.get?_set_eq, hly] at hget
      have he : ({ layer with
          fwd_comm_node := some (st.next_node_id + 1) } : Layer) = l' :=
        Option.some.inj hget
      rw [← he]
      exact hskip j layer hly hcond
    · rw [List.get?_set_ne _ _ (fun hc => hji hc.symm)] at hget
      exact hskip j l' hget hcond
  · intro j hj l' hget
    rw [htr', hnext']
    rw [hlay'] at hget
    by_cases hji : j = idx
    · subst hji
      rw [List.get?_set_eq, hly] at hget
      have he : ({ layer with
          fwd_comm_node := some (st.next_node_id + 1) } : Layer) = l' :=
        Option.some.inj hget
      rw [← he]
      intro v hv
      have hv' := Option.some.inj hv
      omega
    · rw [List.get?_set_ne _ _ (fun hc => hji hc.symm)] at hget
      exact (hfresh j (by omega) l' hget).mono (by omega)
  · rw [htr', hnext']
    intro v hv
    have hv' := Option.some.inj hv
    omega
  · refine AttrsOK_append hattrs [n1, cm] ?_ hout' htr'
    intro n hn
    rcases List.mem_cons.mp hn with rfl | hn2
    · exact hQ1
    rcases List.mem_cons.mp hn2 with rfl | hn3
    · exact hQ2
    cases hn3

theorem hyb_bwd_finish (Q : Node → Prop) (d : Int) (L idx : Nat) (st st' : St)
    (layer : Layer) (o : Option Nat) (ns : List Node) (newl : Layer)
    (hidx : idx < L)
    (hly : st.layers.get? (st.layers.length - 1 - idx) = some layer)
    (hIS : InvS st) (hlen : st.layers.length = L) (hwgc : WgCommLB st)
    (hskip : SkipNone d st) (hdone : IgCommDone idx st)
    (hwdone : WgCompDone idx st) (hattrs : AttrsOK Q st)
    (ho : SlotLB st.traces.flatten.length st.next_node_id o)
    (hlay' : st'.layers = st.layers.set (st.layers.length - 1 - idx) newl)
    (hout' : st'.out = st.out ++ ns)
    (htr' : st'.traces = st.traces)
    (hnext' : st'.next_node_id = st.next_node_id + ns.length)
    (hnsids : idsOf ns = List.range' st.next_node_id ns.length)
    (hnsdeps : ∀ n ∈ ns, ∀ dep ∈ n.data_deps,
      st.traces.flatten.length ≤ dep ∧ dep < n.id)
    (hQns : ∀ n ∈ ns, Q n)
    (hnewwgcomm : SlotLB st.traces.flatten.length
      (st.next_node_id + ns.length) newl.bwd_wg_comm_node)
    (hnewwgcomp : SlotLB st.traces.flatten.length
      (st.next_node_id + ns.length) newl.bwd_wg_comp_node)
    (hnewig : SlotLB st.traces.flatten.length
      (st.next_node_id + ns.length) newl.bwd_ig_comm_node)
    (hnewskip : (idx : Int) = d - 1 → newl.bwd_ig_comm_node = none) :
    InvS st' ∧ st'.layers.length = L ∧ WgCommLB st' ∧ SkipNone d st' ∧
      IgCommDone (idx + 1) st' ∧ WgCompDone (idx + 1) st' ∧
      SlotLB st'.traces.flatten.length st'.next_node_id o ∧
      AttrsOK Q st' := by
  have hbase := hIS.toInvW.base_le
  refine ⟨InvS_append hIS ns hnsids hnsdeps hout' htr' hnext',
    by rw [hlay', List.length_set, hlen], ?_, ?_, ?_, ?_, ?_,
    AttrsOK_append hattrs ns hQns hout' htr'⟩
  · intro l hl
    rw [htr', hnext']
    rw [hlay'] at hl
    rcases List.mem_or_eq_of_mem_set hl with hx | hx
    · exact (hwgc l hx).mono (by omega)
    · subst hx
      exact hnewwgcomm
  · intro j l' hget hcond
    rw [hlay', List.length_set] at hcond
    rw [hlay'] at hget
    by_cases hji : j = st.layers.length - 1 - idx
    · subst hji
      rw [List.get?_set_eq, hly] at hget
      have he : newl = l' := Option.some.inj hget
      rw [← he]
      have hcast : st.layers.length - 1 - (st.layers.length - 1 - idx) =
          idx := by omega
      rw [hcast] at hcond
      exact hnewskip hcond
    · rw [List.get?_set_ne _ _ (fun hc => hji hc.symm)] at hget
      exact hskip j l' hget hcond
  · intro pos hpos l' hget
    rw [htr', hnext']
    rw [hlay', List.length_set] at hget
    by_cases hpi : pos = idx
    · subst hpi
      rw [List.get?_set_eq, hly] at hget
      have he : newl = l' := Option.some.inj hget
      rw [← he]
      exact hnewig
    · have hne : st.layers.length - 1 - idx ≠ st.layers.length - 1 - pos := by
        omega
      rw [List.get?_set_ne _ _ hne] at hget
      exact (hdone pos (by omega) l' hget).mono (by omega)
  · intro pos hpos l' hget
    rw [htr', hnext']
    rw [hlay', List.length_set] at hget
    by_cases hpi : pos = idx
    · subst hpi
      rw [List.get?_set_eq, hly] at hget
      have he : newl = l' := Option.some.inj hget
      rw [← he]
      exact hnewwgcomp
    · have hne : st.layers.length - 1 - idx ≠ st.layers.length - 1 - pos := by
        omega
      rw [List.get?_set_ne _ _ hne] at hget
      exact (hwdone pos (by omega) l' hget).mono (by omega)
  · rw [htr', hnext']
    exact ho.mono (by omega)

theorem hdm_fwd_step (c : Converter) (d : Int) (L : Nat) (idx : Nat)
    (acc acc' : Option Nat × St) (hidx : idx < L)
    (hP : InvS acc.2 ∧ acc.2.layers.length = L ∧ WgCommLB acc.2 ∧
      SkipNone d acc.2 ∧ FwdCommFresh idx acc.2 ∧
      SlotLB acc.2.traces.flatten.length acc.2.next_node_id acc.1 ∧
      AttrsOK (hdmQ c.num_dims) acc.2)
    (hb : hdm_fwd_body c idx acc = .ok acc') :
    InvS acc'.2 ∧ acc'.2.layers.length = L ∧ WgCommLB acc'.2 ∧
      SkipNone d acc'.2 ∧ FwdCommFresh (idx + 1) acc'.2 ∧
      SlotLB acc'.2.traces.flatten.length acc'.2.next_node_id acc'.1 ∧
      AttrsOK (hdmQ c.num_dims) acc'.2 := by
  obtain ⟨fc0, st⟩ := acc
  obtain ⟨hIS, hlen, hwgc, hskip, hfresh, hacc, hattrs⟩ := hP
  dsimp only at hIS hlen hwgc hskip hfresh hacc hattrs
  have hbase := hIS.toInvW.base_le
  cases hly : st.layers.get? idx with
  | none =>
    unfold hdm_fwd_body at hb
    simp only [hly] at hb
    cases hb
  | some layer =>
    have hD0 : ∀ dep ∈ (match layer.bwd_wg_comm_node with
        | some w => ([w] : List Nat) | none => []),
        st.traces.flatten.length ≤ dep ∧ dep < st.next_node_id := by
      intro dep hdep
      cases hwgs : layer.bwd_wg_comm_node with
      | none =>
        rw [hwgs] at hdep
        cases hdep
      | some w =>
        rw [hwgs] at hdep
        have he := List.mem_singleton.mp hdep
        subst he
        exact hwgc layer (List.get?_mem hly) dep hwgs
    by_cases h0 : idx = 0
    · subst h0
      have hbody : hdm_fwd_body c 0 (fc0, st) = .ok
          (some (st.next_node_id + 1),
          { st with
            next_node_id := st.next_node_id + 2,
            layers := st.layers.set 0
              { layer with fwd_comm_node := some (st.next_node_id + 1) },
            out := st.out ++
              [{ id := st.next_node_id,
                 name := "COMP_NODE_" ++ layer.name ++ "_" ++ "FWD",
                 ntype := .COMP_NODE, duration_micros := layer.fwd_comp_time,
                 attr := [],
                 data_deps := (match layer.bwd_wg_comm_node with
                   | some w => [w] | none => []),
                 role := "FWD" },
               { id := st.next_node_id + 1,
                 name := "COMM_COLL_NODE_" ++ layer.name ++ "_" ++
                   layer.fwd_comm_type,
                 ntype := .COMM_COLL_NODE, duration_micros := 0,
                 attr := [⟨"comm_type",
                     .int64 (get_comm_type layer.fwd_comm_type)⟩,
                   ⟨"comm_size", .uint64 layer.fwd_comm_size⟩,
                   involvedDimFirst c.num_dims],
                 data_deps := [st.next_node_id], role := "FWD" }] }) := by
        unfold hdm_fwd_body
        simp only [hly, if_pos rfl, get_comp_node, get_node, add_parent_if,
          setLayer, emit, get_comm_coll_node, List.get?_set_eq,
          Option.map_some', List.set_set]
        cases layer.bwd_wg_comm_node <;> simp
      rw [hbody] at hb
      cases hb
      exact hyb_fwd_finish (hdmQ c.num_dims) d L 0 st _ layer _ _ hly hidx
        hIS hlen hwgc hskip hfresh hattrs rfl rfl rfl rfl rfl rfl hD0 rfl
        (fun h => nomatch h) (fun _ => rfl)
    · cases hpl : st.layers.get? (idx - 1) with
      | none =>
        rw [List.get?_eq_none] at hpl
        omega
      | some prevl =>
        cases hpc : prevl.fwd_comm_node with
        | none =>
          have hbody : hdm_fwd_body c idx (fc0, st) = .error
              "AttributeError: 'NoneType' object has no attribute 'id'" := by
            unfold hdm_fwd_body
            simp only [hly, if_neg h0, get_comp_node, get_node, add_parent_if,
              hpl, hpc, add_parent]
          rw [hbody] at hb
          cases hb
        | some v =>
          have hbody : hdm_fwd_body c idx (fc0, st) = .ok
              (some (st.next_node_id + 1),
              { st with
                next_node_id := st.next_node_id + 2,
                layers := st.layers.set idx
                  { layer with fwd_comm_node := some (st.next_node_id + 1) },
                out := st.out ++
                  [{ id := st.next_node_id,
                     name := "COMP_NODE_" ++ layer.name ++ "_" ++ "FWD",
                     ntype := .COMP_NODE,
                     duration_micros := layer.fwd_comp_time,
                     attr := [],
                     data_deps := (match layer.bwd_wg_comm_node with
                       | some w => [w] | none => []) ++ [v],
                     role := "FWD" },
                   { id := st.next_node_id + 1,
                     name := "COMM_COLL_NODE_" ++ layer.name ++ "_" ++
                       layer.fwd_comm_type,
                     ntype := .COMM_COLL_NODE, duration_micros := 0,
                     attr := [⟨"comm_type",
                         .int64 (get_comm_type layer.fwd_comm_type)⟩,
                       ⟨"comm_size", .uint64 layer.fwd_comm_size⟩,
                       involvedDimFirst c.num_dims],
                     data_deps := [st.next_node_id], role := "FWD" }] }) := by
            unfold hdm_fwd_body
            simp only [hly, if_neg h0, hpl, hpc, add_parent, add_parent_if,
              get_comp_node, get_node, get_comm_coll_node, setLayer, emit,
              List.get?_set_eq, Option.map_some', List.set_set]
            cases layer.bwd_wg_comm_node <;> simp
          rw [hbody] at hb
          cases hb
          refine hyb_fwd_finish (hdmQ c.num_dims) d L idx st _ layer _ _ hly
            hidx hIS hlen hwgc hskip hfresh hattrs rfl rfl rfl rfl rfl rfl ?_
            rfl (fun h => nomatch h) (fun _ => rfl)
          intro dep hdep
          rcases List.mem_append.mp hdep with hdep2 | hdep2
          · exact hD0 dep hdep2
          · have he := List.mem_singleton.mp hdep2
            subst he
            exact hfresh (idx - 1) (by omega) prevl hpl dep hpc

theorem hdm_bwd_step (c : Converter) (d : Int) (L : Nat) (fc : Option Nat)
    (idx : Nat) (st st' : St) (hidx : idx < L)
    (hP : InvS st ∧ st.layers.length = L ∧ WgCommLB st ∧ SkipNone d st ∧
      IgCommDone idx st ∧ WgCompDone idx st ∧
      SlotLB st.traces.flatten.length st.next_node_id fc ∧
      AttrsOK (hdmQ c.num_dims) st)
    (hb : hdm_bwd_body c d fc idx st = .ok st') :
    InvS st' ∧ st'.layers.length = L ∧ WgCommLB st' ∧ SkipNone d st' ∧
      IgCommDone (idx + 1) st' ∧ WgCompDone (idx + 1) st' ∧
      SlotLB st'.traces.flatten.length st'.next_node_id fc ∧
      AttrsOK (hdmQ c.num_dims) st' := by
  obtain ⟨hIS, hlen, hwgc, hskip, hdone, hwdone, hfc, hattrs⟩ := hP
  have hbase := hIS.toInvW.base_le
  cases hly : st.layers.get? (st.layers.length - 1 - idx) with
  | none =>
    rw [List.get?_eq_none] at hly
    omega
  | some layer =>
    have hligN : (idx : Int) = d - 1 → layer.bwd_ig_comm_node = none := by
      intro hg
      apply hskip (st.layers.length - 1 - idx) layer hly
      have hcast : st.layers.length - 1 - (st.layers.length - 1 - idx) =
          idx := by omega
      rw [hcast]
      exact hg
    by_cases h0 : idx = 0
    · subst h0
      cases fc with
      | none =>
        unfold hdm_bwd_body at hb
        simp only [hly] at hb
        cases hb
      | some fid =>
        have hfid := hfc fid rfl
        have hlyE : st.layers[st.layers.length - 1]? = some layer := by
          rw [← List.get?_eq_getElem?]
          exact hly
        by_cases hg : ((0 : Nat) : Int) = d - 1
        · have hbody : hdm_bwd_body c d (some fid) 0 st = .ok
              { st with
                next_node_id := st.next_node_id + 3,
                layers := st.layers.set (st.layers.length - 1 - 0)
                  { layer with
                    bwd_wg_comp_node := some (st.next_node_id + 1),
                    bwd_wg_comm_node := some (st.next_node_id + 2) },
                out := st.out ++
                  [{ id := st.next_node_id,
                     name := "COMP_NODE_" ++ layer.name ++ "_" ++ "BWD_IG",
                     ntype := .COMP_NODE,
                     duration_micros := layer.bwd_ig_comp_time, attr := [],
                     data_deps := [fid], role := "BWD_IG" },
                   { id := st.next_node_id + 1,
                     name := "COMP_NODE_" ++ layer.name ++ "_" ++ "BWD_WG",
                     ntype := .COMP_NODE,
                     duration_micros := layer.bwd_wg_comp_time, attr := [],
                     data_deps := [st.next_node_id], role := "BWD_WG" },
                   { id := st.next_node_id + 2,
                     name := "COMM_COLL_NODE_" ++ layer.name ++ "_" ++
                       layer.bwd_wg_comm_type,
                     ntype := .COMM_COLL_NODE, duration_micros := 0,
                     attr := [⟨"comm_type",
                         .int64 (get_comm_type layer.bwd_wg_comm_type)⟩,
                       ⟨"comm_size", .uint64 layer.bwd_wg_comm_size⟩,
                       involvedDimRest c.num_dims],
                     data_deps := [st.next_node_id + 1],
                     role := "BWD_WG" }] } := by
            unfold hdm_bwd_body
            simp only [hly, if_pos rfl, add_parent, if_pos hg, get_comp_node,
              get_node, get_comm_coll_node, add_parent_if, setLayer, emit,
              List.get?_set_eq, Option.map_some', List.set_set,
                  List.get?_eq_getElem?, List.getElem?_set_self', Option.map_eq_map,
                  Function.const, Nat.sub_zero, hlyE]
            try simp
          rw [hbody] at hb
          cases hb
          refine hyb_bwd_finish (hdmQ c.num_dims) d L 0 st _ layer
            (some fid) _ _ hidx hly hIS hlen hwgc hskip hdone hwdone hattrs
            hfc rfl rfl rfl rfl rfl ?_ ?_ ?_ ?_ ?_ ?_
          · intro nd hnd dep hdep
            rcases List.mem_cons.mp hnd with rfl | hnd2
            · have he := List.mem_singleton.mp hdep
              show st.traces.flatten.length ≤ dep ∧ dep < st.next_node_id
              omega
            rcases List.mem_cons.mp hnd2 with rfl | hnd3
            · have he := List.mem_singleton.mp hdep
              show st.traces.flatten.length ≤ dep ∧ dep < st.next_node_id + 1
              omega
            rcases List.mem_cons.mp hnd3 with rfl | hnd4
            · have he := List.mem_singleton.mp hdep
              show st.traces.flatten.length ≤ dep ∧ dep < st.next_node_id + 2
              omega
            cases hnd4
          · intro n hn
            rcases List.mem_cons.mp hn with rfl | hn2
            · exact fun h => nomatch h
            rcases List.mem_cons.mp hn2 with rfl | hn3
            · exact fun h => nomatch h
            rcases List.mem_cons.mp hn3 with rfl | hn4
            · exact fun _ => rfl
            cases hn4
          · intro v hv
            have hvv := Option.some.inj hv
            constructor
            · omega
            · show v < st.next_node_id + 3
              omega
          · intro v hv
            have hvv := Option.some.inj hv
            constructor
            · omega
            · show v < st.next_node_id + 3
              omega
          · intro v hv
            have hv' : layer.bwd_ig_comm_node = some v := hv
            rw [hligN hg] at hv'
            cases hv'
          · intro _
            exact hligN hg
        · have hbody : hdm_bwd_body c d (some fid) 0 st = .ok
              { st with
                next_node_id := st.next_node_id + 4,
                layers := st.layers.set (st.layers.length - 1 - 0)
                  { layer with
                    bwd_ig_comm_node := some (st.next_node_id + 1),
                    bwd_wg_comp_node := some (st.next_node_id + 2),
                    bwd_wg_comm_node := some (st.next_node_id + 3) },
                out := st.out ++
                  [{ id := st.next_node_id,
                     name := "COMP_NODE_" ++ layer.name ++ "_" ++ "BWD_IG",
                     ntype := .COMP_NODE,
                     duration_micros := layer.bwd_ig_comp_time, attr := [],
                     data_deps := [fid], role := "BWD_IG" },
                   { id := st.next_node_id + 1,
                     name := "COMM_COLL_NODE_" ++
                       (layer.name ++ "_IG_COMM_") ++ "_" ++
                       layer.bwd_ig_comm_type,
                     ntype := .COMM_COLL_NODE, duration_micros := 0,
                     attr := [⟨"comm_type",
                         .int64 (get_comm_type layer.bwd_ig_comm_type)⟩,
                       ⟨"comm_size", .uint64 layer.bwd_ig_comm_size⟩,
                       involvedDimFirst c.num_dims],
                     data_deps := [st.next_node_id], role := "BWD_IG" },
                   { id := st.next_node_id + 2,
                     name := "COMP_NODE_" ++ layer.name ++ "_" ++ "BWD_WG",
                     ntype := .COMP_NODE,
                     duration_micros := layer.bwd_wg_comp_time, attr := [],
                     data_deps := [st.next_node_id], role := "BWD_WG" },
                   { id := st.next_node_id + 3,
                     name := "COMM_COLL_NODE_" ++ layer.name ++ "_" ++
                       layer.bwd_wg_comm_type,
                     ntype := .COMM_COLL_NODE, duration_micros := 0,
                     attr := [⟨"comm_type",
                         .int64 (get_comm_type layer.bwd_wg_comm_type)⟩,
                       ⟨"comm_size", .uint64 layer.bwd_wg_comm_size⟩,
                       involvedDimRest c.num_dims],
                     data_deps := [st.next_node_id + 2],
                     role := "BWD_WG" }] } := by
            unfold hdm_bwd_body
            simp only [hly, if_pos rfl, add_parent, if_neg hg, get_comp_node,
              get_node, get_comm_coll_node, add_parent_if, setLayer, emit,
              List.get?_set_eq, Option.map_some', List.set_set,
                  List.get?_eq_getElem?, List.getElem?_set_self', Option.map_eq_map,
                  Function.const, Nat.sub_zero, hlyE]
            try simp
          rw [hbody] at hb
          cases hb
          refine hyb_bwd_finish (hdmQ c.num_dims) d L 0 st _ layer
            (some fid) _ _ hidx hly hIS hlen hwgc hskip hdone hwdone hattrs
            hfc rfl rfl rfl rfl rfl ?_ ?_ ?_ ?_ ?_ ?_
          · intro nd hnd dep hdep
            rcases List.mem_cons.mp hnd with rfl | hnd2
            · have he := List.mem_singleton.mp hdep
              show st.traces.flatten.length ≤ dep ∧ dep < st.next_node_id
              omega
            rcases List.mem_cons.mp hnd2 with rfl | hnd3
            · have he := List.mem_singleton.mp hdep
              show st.traces.flatten.length ≤ dep ∧ dep < st.next_node_id + 1
              omega
            rcases List.mem_cons.mp hnd3 with rfl | hnd4
            · have he := List.mem_singleton.mp hdep
              show st.traces.flatten.length ≤ dep ∧ dep < st.next_node_id + 2
              omega
            rcases List.mem_cons.mp hnd4 with rfl | hnd5
            · have he := List.mem_singleton.mp hdep
              show st.traces.flatten.length ≤ dep ∧ dep < st.next_node_id + 3
              omega
            cases hnd5
          · intro n hn
            rcases List.mem_cons.mp hn with rfl | hn2
            · exact fun h => nomatch h
            rcases List.mem_cons.mp hn2 with rfl | hn3
            · exact fun _ => rfl
            rcases List.mem_cons.mp hn3 with rfl | hn4
            · exact fun h => nomatch h
            rcases List.mem_cons.mp hn4 with rfl | hn5
            · exact fun _ => rfl
            cases hn5
          · intro v hv
            have hvv := Option.some.inj hv
            constructor
            · omega
            · show v < st.next_node_id + 4
              omega
          · intro v hv
            have hvv := Option.some.inj hv
            constructor
            · omega
            · show v < st.next_node_id + 4
              omega
          · intro v hv
            have hvv := Option.some.inj hv
            constructor
            · omega
            · show v < st.next_node_id + 4
              omega
          · intro hcontra
            exact absurd hcontra hg
    · cases hnx : st.layers.get? (st.layers.length - idx) with
      | none =>
        rw [List.get?_eq_none] at hnx
        omega
      | some nxt =>
        cases hw : nxt.bwd_wg_comp_node with
        | none =>
          unfold hdm_bwd_body at hb
          simp only [hly, if_neg h0, get_comp_node, get_node, hnx, hw,
            add_parent] at hb
          cases hb
        | some w =>
          cases hu : nxt.bwd_ig_comm_node with
          | none =>
            unfold hdm_bwd_body at hb
            simp only [hly, if_neg h0, get_comp_node, get_node, hnx, hw, hu,
              add_parent] at hb
            cases hb
          | some u =>
            have hgetconv : st.layers.get?
                (st.layers.length - 1 - (idx - 1)) = some nxt := by
              have hcv : st.layers.length - 1 - (idx - 1) =
                  st.layers.length - idx := by omega
              rw [hcv]
              exact hnx
            have hw' := hwdone (idx - 1) (by omega) nxt hgetconv w hw
            have hu' := hdone (idx - 1) (by omega) nxt hgetconv u hu
            have hlyE : st.layers[st.layers.length - 1 - idx]? =
                some layer := by
              rw [← List.get?_eq_getElem?]
              exact hly
            have hnxE : st.layers[st.layers.length - idx]? = some nxt := by
              rw [← List.get?_eq_getElem?]
              exact hnx
            by_cases hg : (idx : Int) = d - 1
            · have hbody : hdm_bwd_body c d fc idx st = .ok
                  { st with
                    next_node_id := st.next_node_id + 3,
                    layers := st.layers.set (st.layers.length - 1 - idx)
                      { layer with
                        bwd_wg_comp_node := some (st.next_node_id + 1),
                        bwd_wg_comm_node := some (st.next_node_id + 2) },
                    out := st.out ++
                      [{ id := st.next_node_id,
                         name := "COMP_NODE_" ++ layer.name ++ "_" ++
                           "BWD_IG",
                         ntype := .COMP_NODE,
                         duration_micros := layer.bwd_ig_comp_time,
                         attr := [], data_deps := [w, u],
                         role := "BWD_IG" },
                       { id := st.next_node_id + 1,
                         name := "COMP_NODE_" ++ layer.name ++ "_" ++
                           "BWD_WG",
                         ntype := .COMP_NODE,
                         duration_micros := layer.bwd_wg_comp_time,
                         attr := [], data_deps := [st.next_node_id],
                         role := "BWD_WG" },
                       { id := st.next_node_id + 2,
                         name := "COMM_COLL_NODE_" ++ layer.name ++ "_" ++
                           layer.bwd_wg_comm_type,
                         ntype := .COMM_COLL_NODE, duration_micros := 0,
                         attr := [⟨"comm_type",
                             .int64 (get_comm_type layer.bwd_wg_comm_type)⟩,
                           ⟨"comm_size", .uint64 layer.bwd_wg_comm_size⟩,
                           involvedDimRest c.num_dims],
                         data_deps := [st.next_node_id + 1],
                         role := "BWD_WG" }] } := by
                unfold hdm_bwd_body
                simp only [hly, if_neg h0, get_comp_node, get_node, hnx, hw,
                  hu, add_parent, if_pos hg, get_comm_coll_node,
                  add_parent_if, setLayer, emit, List.get?_set_eq,
                  Option.map_some', List.set_set,
                  List.get?_eq_getElem?, List.getElem?_set_self', Option.map_eq_map,
                  Function.const, Nat.sub_zero, hlyE]
                try simp
              rw [hbody] at hb
              cases hb
              refine hyb_bwd_finish (hdmQ c.num_dims) d L idx st _ layer fc
                _ _ hidx hly hIS hlen hwgc hskip hdone hwdone hattrs hfc
                rfl rfl rfl rfl rfl ?_ ?_ ?_ ?_ ?_ ?_
              · intro nd hnd dep hdep
                rcases List.mem_cons.mp hnd with rfl | hnd2
                · rcases List.mem_cons.mp hdep with rfl | hdep2
                  · show st.traces.flatten.length ≤ dep ∧
                      dep < st.next_node_id
                    omega
                  · have he := List.mem_singleton.mp hdep2
                    show st.traces.flatten.length ≤ dep ∧
                      dep < st.next_node_id
                    omega
                rcases List.mem_cons.mp hnd2 with rfl | hnd3
                · have he := List.mem_singleton.mp hdep
                  show st.traces.flatten.length ≤ dep ∧
                    dep < st.next_node_id + 1
                  omega
                rcases List.mem_cons.mp hnd3 with rfl | hnd4
                · have he := List.mem_singleton.mp hdep
                  show st.traces.flatten.length ≤ dep ∧
                    dep < st.next_node_id + 2
                  omega
                cases hnd4
              · intro n hn
                rcases List.mem_cons.mp hn with rfl | hn2
                · exact fun h => nomatch h
                rcases List.mem_cons.mp hn2 with rfl | hn3
                · exact fun h => nomatch h
                rcases List.mem_cons.mp hn3 with rfl | hn4
                · exact fun _ => rfl
                cases hn4
              · intro v hv
                have hvv := Option.some.inj hv
                constructor
                · omega
                · show v < st.next_node_id + 3
                  omega
              · intro v hv
                have hvv := Option.some.inj hv
                constructor
                · omega
                · show v < st.next_node_id + 3
                  omega
              · intro v hv
                have hv' : layer.bwd_ig_comm_node = some v := hv
                rw [hligN hg] at hv'
                cases hv'
              · intro _
                exact hligN hg
            · have hbody : hdm_bwd_body c d fc idx st = .ok
                  { st with
                    next_node_id := st.next_node_id + 4,
                    layers := st.layers.set (st.layers.length - 1 - idx)
                      { layer with
                        bwd_ig_comm_node := some (st.next_node_id + 1),
                        bwd_wg_comp_node := some (st.next_node_id + 2),
                        bwd_wg_comm_node := some (st.next_node_id + 3) },
                    out := st.out ++
                      [{ id := st.next_node_id,
                         name := "COMP_NODE_" ++ layer.name ++ "_" ++
                           "BWD_IG",
                         ntype := .COMP_NODE,
                         duration_micros := layer.bwd_ig_comp_time,
                         attr := [], data_deps := [w, u],
                         role := "BWD_IG" },
                       { id := st.next_node_id + 1,
                         name := "COMM_COLL_NODE_" ++
                           (layer.name ++ "_IG_COMM_") ++ "_" ++
                           layer.bwd_ig_comm_type,
                         ntype := .COMM_COLL_NODE, duration_micros := 0,
                         attr := [⟨"comm_type",
                             .int64 (get_comm_type layer.bwd_ig_comm_type)⟩,
                           ⟨"comm_size", .uint64 layer.bwd_ig_comm_size⟩,
                           involvedDimFirst c.num_dims],
                         data_deps := [st.next_node_id],
                         role := "BWD_IG" },
                       { id := st.next_node_id + 2,
                         name := "COMP_NODE_" ++ layer.name ++ "_" ++
                           "BWD_WG",
                         ntype := .COMP_NODE,
                         duration_micros := layer.bwd_wg_comp_time,
                         attr := [], data_deps := [st.next_node_id],
                         role := "BWD_WG" },
                       { id := st.next_node_id + 3,
                         name := "COMM_COLL_NODE_" ++ layer.name ++ "_" ++
                           layer.bwd_wg_comm_type,
                         ntype := .COMM_COLL_NODE, duration_micros := 0,
                         attr := [⟨"comm_type",
                             .int64 (get_comm_type layer.bwd_wg_comm_type)⟩,
                           ⟨"comm_size", .uint64 layer.bwd_wg_comm_size⟩,
                           involvedDimRest c.num_dims],
                         data_deps := [st.next_node_id + 2],
                         role := "BWD_WG" }] } := by
                unfold hdm_bwd_body
                simp only [hly, if_neg h0, get_comp_node, get_node, hnx, hw,
                  hu, add_parent, if_neg hg, get_comm_coll_node,
                  add_parent_if, setLayer, emit, List.get?_set_eq,
                  Option.map_some', List.set_set,
                  List.get?_eq_getElem?, List.getElem?_set_self', Option.map_eq_map,
                  Function.const, Nat.sub_zero, hlyE]
                try simp
              rw [hbody] at hb
              cases hb
              refine hyb_bwd_finish (hdmQ c.num_dims) d L idx st _ layer fc
                _ _ hidx hly hIS hlen hwgc hskip hdone hwdone hattrs hfc
                rfl rfl rfl rfl rfl ?_ ?_ ?_ ?_ ?_ ?_
              · intro nd hnd dep hdep
                rcases List.mem_cons.mp hnd with rfl | hnd2
                · rcases List.mem_cons.mp hdep with rfl | hdep2
                  · show st.traces.flatten.length ≤ dep ∧
                      dep < st.next_node_id
                    omega
                  · have he := List.mem_singleton.mp hdep2
                    show st.traces.flatten.length ≤ dep ∧
                      dep < st.next_node_id
                    omega
                rcases List.mem_cons.mp hnd2 with rfl | hnd3
                · have he := List.mem_singleton.mp hdep
                  show st.traces.flatten.length ≤ dep ∧
                    dep < st.next_node_id + 1
                  omega
                rcases List.mem_cons.mp hnd3 with rfl | hnd4
                · have he := List.mem_singleton.mp hdep
                  show st.traces.flatten.length ≤ dep ∧
                    dep < st.next_node_id + 2
                  omega
                rcases List.mem_cons.mp hnd4 with rfl | hnd5
                · have he := List.mem_singleton.mp hdep
                  show st.traces.flatten.length ≤ dep ∧
                    dep < st.next_node_id + 3
                  omega
                cases hnd5
              · intro n hn
                rcases List.mem_cons.mp hn with rfl | hn2
                · exact fun h => nomatch h
                rcases List.mem_cons.mp hn2 with rfl | hn3
                · exact fun _ => rfl
                rcases List.mem_cons.mp hn3 with rfl | hn4
                · exact fun h => nomatch h
                rcases List.mem_cons.mp hn4 with rfl | hn5
                · exact fun _ => rfl
                cases hn5
              · intro v hv
                have hvv := Option.some.inj hv
                constructor
                · omega
                · show v < st.next_node_id + 4
                  omega
              · intro v hv
                have hvv := Option.some.inj hv
                constructor
                · omega
                · show v < st.next_node_id + 4
                  omega
              · intro v hv
                have hvv := Option.some.inj hv
                constructor
                · omega
                · show v < st.next_node_id + 4
                  omega
              · intro hcontra
                exact absurd hcontra hg

theorem hdm_pass_inv (c : Converter) (d : Int) (L : Nat) (p : Nat)
    (st st' : St)
    (hP : InvS st ∧ st.layers.length = L ∧ WgCommLB st ∧ SkipNone d st ∧
      AttrsOK (hdmQ c.num_dims) st)
    (hb : hdm_pass_body c d p st = .ok st') :
    InvS st' ∧ st'.layers.length = L ∧ WgCommLB st' ∧ SkipNone d st' ∧
      AttrsOK (hdmQ c.num_dims) st' := by
  obtain ⟨hIS, hlen, hwg, hskip, hattrs⟩ := hP
  unfold hdm_pass_body at hb
  cases hfl : loopE (hdm_fwd_body c) (List.range st.layers.length)
      (none, st) with
  | error e =>
    simp only [hfl] at hb
    cases hb
  | ok r =>
    obtain ⟨fc, st1⟩ := r
    simp only [hfl] at hb
    have hfwd := loopE_range_ind (hdm_fwd_body c)
      (fun k acc => InvS acc.2 ∧ acc.2.layers.length = L ∧ WgCommLB acc.2 ∧
        SkipNone d acc.2 ∧ FwdCommFresh k acc.2 ∧
        SlotLB acc.2.traces.flatten.length acc.2.next_node_id acc.1 ∧
        AttrsOK (hdmQ c.num_dims) acc.2)
      st.layers.length (none, st) (fc, st1)
      (fun j t v hj hPj hbj =>
        hdm_fwd_step c d L j t v (by omega) hPj hbj)
      ⟨hIS, hlen, hwg, hskip,
        (fun j hj => absurd hj (Nat.not_lt_zero j)),
        (fun v hv => by cases hv), hattrs⟩ hfl
    obtain ⟨hIS1, hlen1, hwg1, hskip1, _, hfc1, hattrs1⟩ := hfwd
    dsimp only at hIS1 hlen1 hwg1 hskip1 hfc1 hattrs1
    have hbwd := loopE_range_ind (hdm_bwd_body c d fc)
      (fun k s => InvS s ∧ s.layers.length = L ∧ WgCommLB s ∧
        SkipNone d s ∧ IgCommDone k s ∧ WgCompDone k s ∧
        SlotLB s.traces.flatten.length s.next_node_id fc ∧
        AttrsOK (hdmQ c.num_dims) s)
      st1.layers.length st1 st'
      (fun j t v hj hPj hbj =>
        hdm_bwd_step c d L fc j t v (by omega) hPj hbj)
      ⟨hIS1, hlen1, hwg1, hskip1,
        (fun pos hpos => absurd hpos (Nat.not_lt_zero pos)),
        (fun pos hpos => absurd hpos (Nat.not_lt_zero pos)),
        hfc1, hattrs1⟩ hb
    exact ⟨hbwd.1, hbwd.2.1, hbwd.2.2.1, hbwd.2.2.2.1, hbwd.2.2.2.2.2.2.2⟩

theorem hdm_device_inv (c : Converter) (d : Int) (L : Nat) (k : Nat)
    (st st' : St)
    (hP : InvS st ∧ st.layers.length = L ∧ WgCommLB st ∧ SkipNone d st ∧
      AttrsOK (hdmQ c.num_dims) st ∧ st.out = [])
    (hb : hdm_device_body c d k st = .ok st') :
    InvS st' ∧ st'.layers.length = L ∧ WgCommLB st' ∧ SkipNone d st' ∧
      AttrsOK (hdmQ c.num_dims) st' ∧ st'.out = [] := by
  obtain ⟨hIS, hlen, hwg, hskip, hattrs, hout⟩ := hP
  unfold hdm_device_body at hb
  have hst0 : { st with out := ([] : List Node) } = st := by
    rw [← hout]
  cases hpl : loopE (hdm_pass_body c d) (List.range c.num_passes)
      { st with out := [] } with
  | error e =>
    simp only [hpl] at hb
    cases hb
  | ok u =>
    simp only [hpl] at hb
    have hst' := Except.ok.inj hb
    have hlay' : st'.layers = u.layers.map (fun (l : Layer) =>
        { l with bwd_wg_comm_node := none }) := by
      rw [← hst']
    have htr' : st'.traces = u.traces ++ [u.out] := by
      rw [← hst']
    have hout'' : st'.out = [] := by
      rw [← hst']
    have hnext' : st'.next_node_id = u.next_node_id := by
      rw [← hst']
    have h0 : InvS { st with out := ([] : List Node) } ∧
        ({ st with out := ([] : List Node) } : St).layers.length = L ∧
        WgCommLB { st with out := ([] : List Node) } ∧
        SkipNone d { st with out := ([] : List Node) } ∧
        AttrsOK (hdmQ c.num_dims) { st with out := ([] : List Node) } := by
      rw [hst0]
      exact ⟨hIS, hlen, hwg, hskip, hattrs⟩
    have hrun := loopE_range_ind (hdm_pass_body c d)
      (fun _ s => InvS s ∧ s.layers.length = L ∧ WgCommLB s ∧ SkipNone d s ∧
        AttrsOK (hdmQ c.num_dims) s)
      c.num_passes { st with out := [] } u
      (fun j t v _ hPj hbj => hdm_pass_inv c d L j t v hPj hbj) h0 hpl
    obtain ⟨hISu, hlenu, hwgu, hskipu, hattrsu⟩ := hrun
    refine ⟨InvS_commit hISu htr' hout'' hnext', ?_, ?_, ?_,
      AttrsOK_commit hattrsu htr' hout'', hout''⟩
    · rw [hlay', List.length_map]
      exact hlenu
    · intro l hl
      rw [hlay'] at hl
      obtain ⟨l₀, _, hml⟩ := List.mem_map.mp hl
      intro v hv
      rw [← hml] at hv
      cases hv
    · intro j l' hget hcond
      rw [hlay', List.length_map] at hcond
      rw [hlay', List.get?_map] at hget
      cases hg0 : u.layers.get? j with
      | none =>
        rw [hg0] at hget
        cases hget
      | some l₀ =>
        rw [hg0] at hget
        simp only [Option.map_some'] at hget
        have he := Option.some.inj hget
        rw [← he]
        exact hskipu j l₀ hg0 hcond

/-- A successful HYBRID_DATA_MODEL run satisfies the strong trace contract,
and every emitted node satisfies the HYBRID_DATA_MODEL `involved_dim`
contract. -/
theorem hdm_goodS (c : Converter) (lines : List String) (nl : Int)
    (traces : List (List Node))
    (hok : convert_hybrid_data_model c lines nl = .ok traces) :
    GoodS traces ∧ ∀ t ∈ traces, ∀ n ∈ t, hdmQ c.num_dims n := by
  unfold convert_hybrid_data_model at hok
  cases hls : get_layers lines nl with
  | error e =>
    simp only [hls] at hok
    cases hok
  | ok ls =>
    simp only [hls] at hok
    cases hdl : loopE (hdm_device_body c nl) (List.range c.num_npus)
        (initSt ls) with
    | error e =>
      simp only [hdl] at hok
      cases hok
    | ok v =>
      simp only [hdl] at hok
      cases hok
      have hinit : InvS (initSt ls) ∧ (initSt ls).layers.length = ls.length ∧
          WgCommLB (initSt ls) ∧ SkipNone nl (initSt ls) ∧
          AttrsOK (hdmQ c.num_dims) (initSt ls) ∧ (initSt ls).out = [] := by
        refine ⟨invS_init ls, rfl, ?_, ?_, attrsOK_init _ ls, rfl⟩
        · intro l hl v hv
          rw [(get_layers_slots hls l hl).2.2.2.2.2] at hv
          cases hv
        · intro j l' hget _
          exact (get_layers_slots hls l' (List.get?_mem hget)).2.2.2.1
      have hmain := loopE_range_ind (hdm_device_body c nl)
        (fun _ s => InvS s ∧ s.layers.length = ls.length ∧ WgCommLB s ∧
          SkipNone nl s ∧ AttrsOK (hdmQ c.num_dims) s ∧ s.out = [])
        c.num_npus (initSt ls) v
        (fun j t w _ hPj hbj => hdm_device_inv c nl ls.length j t w hPj hbj)
        hinit hdl
      exact ⟨goodS_of_invS v hmain.1 hmain.2.2.2.2.2,
        hmain.2.2.2.2.1.2⟩

theorem hmd_fwd_step (c : Converter) (d : Int) (L : Nat) (idx : Nat)
    (acc acc' : Option Nat × St) (hidx : idx < L)
    (hP : InvS acc.2 ∧ acc.2.layers.length = L ∧ WgCommLB acc.2 ∧
      SkipNone d acc.2 ∧ FwdCommFresh idx acc.2 ∧
      SlotLB acc.2.traces.flatten.length acc.2.next_node_id acc.1 ∧
      AttrsOK (hmdQ c.num_dims) acc.2)
    (hb : hmd_fwd_body c idx acc = .ok acc') :
    InvS acc'.2 ∧ acc'.2.layers.length = L ∧ WgCommLB acc'.2 ∧
      SkipNone d acc'.2 ∧ FwdCommFresh (idx + 1) acc'.2 ∧
      SlotLB acc'.2.traces.flatten.length acc'.2.next_node_id acc'.1 ∧
      AttrsOK (hmdQ c.num_dims) acc'.2 := by
  obtain ⟨fc0, st⟩ := acc
  obtain ⟨hIS, hlen, hwgc, hskip, hfresh, hacc, hattrs⟩ := hP
  dsimp only at hIS hlen hwgc hskip hfresh hacc hattrs
  have hbase := hIS.toInvW.base_le
  cases hly : st.layers.get? idx with
  | none =>
    unfold hmd_fwd_body at hb
    simp only [hly] at hb
    cases hb
  | some layer =>
    have hD0 : ∀ dep ∈ (match layer.bwd_wg_comm_node with
        | some w => ([w] : List Nat) | none => []),
        st.traces.flatten.length ≤ dep ∧ dep < st.next_node_id := by
      intro dep hdep
      cases hwgs : layer.bwd_wg_comm_node with
      | none =>
        rw [hwgs] at hdep
        cases hdep
      | some w =>
        rw [hwgs] at hdep
        have he := List.mem_singleton.mp hdep
        subst he
        exact hwgc layer (List.get?_mem hly) dep hwgs
    by_cases h0 : idx = 0
    · subst h0
      have hbody : hmd_fwd_body c 0 (fc0, st) = .ok
          (some (st.next_node_id + 1),
          { st with
            next_node_id := st.next_node_id + 2,
            layers := st.layers.set 0
              { layer with fwd_comm_node := some (st.next_node_id + 1) },
            out := st.out ++
              [{ id := st.next_node_id,
                 name := "COMP_NODE_" ++ layer.name ++ "_" ++ "FWD",
                 ntype := .COMP_NODE, duration_micros := layer.fwd_comp_time,
                 attr := [],
                 data_deps := (match layer.bwd_wg_comm_node with
                   | some w => [w] | none => []),
                 role := "FWD" },
               { id := st.next_node_id + 1,
                 name := "COMM_COLL_NODE_" ++ layer.name ++ "_" ++
                   layer.fwd_comm_type,
                 ntype := .COMM_COLL_NODE, duration_micros := 0,
                 attr := [⟨"comm_type",
                     .int64 (get_comm_type layer.fwd_comm_type)⟩,
                   ⟨"comm_size", .uint64 layer.fwd_comm_size⟩,
                   involvedDimRest c.num_dims],
                 data_deps := [st.next_node_id], role := "FWD" }] }) := by
        unfold hmd_fwd_body
        simp only [hly, if_pos rfl, get_comp_node, get_node, add_parent_if,
          setLayer, emit, get_comm_coll_node, List.get?_set_eq,
          Option.map_some', List.set_set]
        cases layer.bwd_wg_comm_node <;> simp
      rw [hbody] at hb
      cases hb
      exact hyb_fwd_finish (hmdQ c.num_dims) d L 0 st _ layer _ _ hly hidx
        hIS hlen hwgc hskip hfresh hattrs rfl rfl rfl rfl rfl rfl hD0 rfl
        (fun h => nomatch h) (fun _ => rfl)
    · cases hpl : st.layers.get? (idx - 1) with
      | none =>
        rw [List.get?_eq_none] at hpl
        omega
      | some prevl =>
        cases hpc : prevl.fwd_comm_node with
        | none =>
          have hbody : hmd_fwd_body c idx (fc0, st) = .error
              "AttributeError: 'NoneType' object has no attribute 'id'" := by
            unfold hmd_fwd_body
            simp only [hly, if_neg h0, get_comp_node, get_node, add_parent_if,
              hpl, hpc, add_parent]
          rw [hbody] at hb
          cases hb
        | some v =>
          have hbody : hmd_fwd_body c idx (fc0, st) = .ok
              (some (st.next_node_id + 1),
              { st with
                next_node_id := st.next_node_id + 2,
                layers := st.layers.set idx
                  { layer with fwd_comm_node := some (st.next_node_id + 1) },
                out := st.out ++
                  [{ id := st.next_node_id,
                     name := "COMP_NODE_" ++ layer.name ++ "_" ++ "FWD",
                     ntype := .COMP_NODE,
                     duration_micros := layer.fwd_comp_time,
                     attr := [],
                     data_deps := (match layer.bwd_wg_comm_node with
                       | some w => [w] | none => []) ++ [v],
                     role := "FWD" },
                   { id := st.next_node_id + 1,
                     name := "COMM_COLL_NODE_" ++ layer.name ++ "_" ++
                       layer.fwd_comm_type,
                     ntype := .COMM_COLL_NODE, duration_micros := 0,
                     attr := [⟨"comm_type",
                         .int64 (get_comm_type layer.fwd_comm_type)⟩,
                       ⟨"comm_size", .uint64 layer.fwd_comm_size⟩,
                       involvedDimRest c.num_dims],
                     data_deps := [st.next_node_id], role := "FWD" }] }) := by
            unfold hmd_fwd_body
            simp only [hly, if_neg h0, hpl, hpc, add_parent, add_parent_if,
              get_comp_node, get_node, get_comm_coll_node, setLayer, emit,
              List.get?_set_eq, Option.map_some', List.set_set]
            cases layer.bwd_wg_comm_node <;> simp
          rw [hbody] at hb
          cases hb
          refine hyb_fwd_finish (hmdQ c.num_dims) d L idx st _ layer _ _ hly
            hidx hIS hlen hwgc hskip hfresh hattrs rfl rfl rfl rfl rfl rfl ?_
            rfl (fun h => nomatch h) (fun _ => rfl)
          intro dep hdep
          rcases List.mem_append.mp hdep with hdep2 | hdep2
          · exact hD0 dep hdep2
          · have he := List.mem_singleton.mp hdep2
            subst he
            exact hfresh (idx - 1) (by omega) prevl hpl dep hpc

theorem hmd_bwd_step (c : Converter) (d : Int) (L : Nat) (fc : Option Nat)
    (idx : Nat) (st st' : St) (hidx : idx < L)
    (hP : InvS st ∧ st.layers.length = L ∧ WgCommLB st ∧ SkipNone d st ∧
      IgCommDone idx st ∧ WgCompDone idx st ∧
      SlotLB st.traces.flatten.length st.next_node_id fc ∧
      AttrsOK (hmdQ c.num_dims) st)
    (hb : hmd_bwd_body c d fc idx st = .ok st') :
    InvS st' ∧ st'.layers.length = L ∧ WgCommLB st' ∧ SkipNone d st' ∧
      IgCommDone (idx + 1) st' ∧ WgCompDone (idx + 1) st' ∧
      SlotLB st'.traces.flatten.length st'.next_node_id fc ∧
      AttrsOK (hmdQ c.num_dims) st' := by
  obtain ⟨hIS, hlen, hwgc, hskip, hdone, hwdone, hfc, hattrs⟩ := hP
  have hbase := hIS.toInvW.base_le
  cases hly : st.layers.get? (st.layers.length - 1 - idx) with
  | none =>
    rw [List.get?_eq_none] at hly
    omega
  | some layer =>
    have hligN : (idx : Int) = d - 1 → layer.bwd_ig_comm_node = none := by
      intro hg
      apply hskip (st.layers.length - 1 - idx) layer hly
      have hcast : st.layers.length - 1 - (st.layers.length - 1 - idx) =
          idx := by omega
      rw [hcast]
      exact hg
    by_cases h0 : idx = 0
    · subst h0
      cases fc with
      | none =>
        unfold hmd_bwd_body at hb
        simp only [hly] at hb
        cases hb
      | some fid =>
        have hfid := hfc fid rfl
        have hlyE : st.layers[st.layers.length - 1]? = some layer := by
          rw [← List.get?_eq_getElem?]
          exact hly
        by_cases hg : ((0 : Nat) : Int) = d - 1
        · have hbody : hmd_bwd_body c d (some fid) 0 st = .ok
              { st with
                next_node_id := st.next_node_id + 3,
                layers := st.layers.set (st.layers.length - 1 - 0)
                  { layer with
                    bwd_wg_comp_node := some (st.next_node_id + 1),
                    bwd_wg_comm_node := some (st.next_node_id + 2) },
                out := st.out ++
                  [{ id := st.next_node_id,
                     name := "COMP_NODE_" ++ layer.name ++ "_" ++ "BWD_IG",
                     ntype := .COMP_NODE,
                     duration_micros := layer.bwd_ig_comp_time, attr := [],
                     data_deps := [fid], role := "BWD_IG" },
                   { id := st.next_node_id + 1,
                     name := "COMP_NODE_" ++ layer.name ++ "_" ++ "BWD_WG",
                     ntype := .COMP_NODE,
                     duration_micros := layer.bwd_wg_comp_time, attr := [],
                     data_deps := [st.next_node_id], role := "BWD_WG" },
                   { id := st.next_node_id + 2,
                     name := "COMM_COLL_NODE_" ++ layer.name ++ "_" ++
                       layer.bwd_wg_comm_type,
                     ntype := .COMM_COLL_NODE, duration_micros := 0,
                     attr := [⟨"comm_type",
                         .int64 (get_comm_type layer.bwd_wg_comm_type)⟩,
                       ⟨"comm_size", .uint64 layer.bwd_wg_comm_size⟩,
                       involvedDimFirst c.num_dims],
                     data_deps := [st.next_node_id + 1],
                     role := "BWD_WG" }] } := by
            unfold hmd_bwd_body
            simp only [hly, if_pos rfl, add_parent, if_pos hg, get_comp_node,
              get_node, get_comm_coll_node, add_parent_if, setLayer, emit,
              List.get?_set_eq, Option.map_some', List.set_set,
                  List.get?_eq_getElem?, List.getElem?_set_self', Option.map_eq_map,
                  Function.const, Nat.sub_zero, hlyE]
            try simp
          rw [hbody] at hb
          cases hb
          refine hyb_bwd_finish (hmdQ c.num_dims) d L 0 st _ layer
            (some fid) _ _ hidx hly hIS hlen hwgc hskip hdone hwdone hattrs
            hfc rfl rfl rfl rfl rfl ?_ ?_ ?_ ?_ ?_ ?_
          · intro nd hnd dep hdep
            rcases List.mem_cons.mp hnd with rfl | hnd2
            · have he := List.mem_singleton.mp hdep
              show st.traces.flatten.length ≤ dep ∧ dep < st.next_node_id
              omega
            rcases List.mem_cons.mp hnd2 with rfl | hnd3
            · have he := List.mem_singleton.mp hdep
              show st.traces.flatten.length ≤ dep ∧ dep < st.next_node_id + 1
              omega
            rcases List.mem_cons.mp hnd3 with rfl | hnd4
            · have he := List.mem_singleton.mp hdep
              show st.traces.flatten.length ≤ dep ∧ dep < st.next_node_id + 2
              omega
            cases hnd4
          · intro n hn
            rcases List.mem_cons.mp hn with rfl | hn2
            · exact fun h => nomatch h
            rcases List.mem_cons.mp hn2 with rfl | hn3
            · exact fun h => nomatch h
            rcases List.mem_cons.mp hn3 with rfl | hn4
            · exact fun _ => rfl
            cases hn4
          · intro v hv
            have hvv := Option.some.inj hv
            constructor
            · omega
            · show v < st.next_node_id + 3
              omega
          · intro v hv
            have hvv := Option.some.inj hv
            constructor
            · omega
            · show v < st.next_node_id + 3
              omega
          · intro v hv
            have hv' : layer.bwd_ig_comm_node = some v := hv
            rw [hligN hg] at hv'
            cases hv'
          · intro _
            exact hligN hg
        · have hbody : hmd_bwd_body c d (some fid) 0 st = .ok
              { st with
                next_node_id := st.next_node_id + 4,
                layers := st.layers.set (st.layers.length - 1 - 0)
                  { layer with
                    bwd_ig_comm_node := some (st.next_node_id + 1),
                    bwd_wg_comp_node := some (st.next_node_id + 2),
                    bwd_wg_comm_node := some (st.next_node_id + 3) },
                out := st.out ++
                  [{ id := st.next_node_id,
                     name := "COMP_NODE_" ++ layer.name ++ "_" ++ "BWD_IG",
                     ntype := .COMP_NODE,
                     duration_micros := layer.bwd_ig_comp_time, attr := [],
                     data_deps := [fid], role := "BWD_IG" },
                   { id := st.next_node_id + 1,
                     name := "COMM_COLL_NODE_" ++
                       layer.name ++ "_" ++
                       layer.bwd_ig_comm_type,
                     ntype := .COMM_COLL_NODE, duration_micros := 0,
                     attr := [⟨"comm_type",
                         .int64 (get_comm_type layer.bwd_ig_comm_type)⟩,
                       ⟨"comm_size", .uint64 layer.bwd_ig_comm_size⟩,
                       involvedDimRest c.num_dims],
                     data_deps := [st.next_node_id], role := "BWD_IG" },
                   { id := st.next_node_id + 2,
                     name := "COMP_NODE_" ++ layer.name ++ "_" ++ "BWD_WG",
                     ntype := .COMP_NODE,
                     duration_micros := layer.bwd_wg_comp_time, attr := [],
                     data_deps := [st.next_node_id], role := "BWD_WG" },
                   { id := st.next_node_id + 3,
                     name := "COMM_COLL_NODE_" ++ layer.name ++ "_" ++
                       layer.bwd_wg_comm_type,
                     ntype := .COMM_COLL_NODE, duration_micros := 0,
                     attr := [⟨"comm_type",
                         .int64 (get_comm_type layer.bwd_wg_comm_type)⟩,
                       ⟨"comm_size", .uint64 layer.bwd_wg_comm_size⟩,
                       involvedDimFirst c.num_dims],
                     data_deps := [st.next_node_id + 2],
                     role := "BWD_WG" }] } := by
            unfold hmd_bwd_body
            simp only [hly, if_pos rfl, add_parent, if_neg hg, get_comp_node,
              get_node, get_comm_coll_node, add_parent_if, setLayer, emit,
              List.get?_set_eq, Option.map_some', List.set_set,
                  List.get?_eq_getElem?, List.getElem?_set_self', Option.map_eq_map,
                  Function.const, Nat.sub_zero, hlyE]
            try simp
          rw [hbody] at hb
          cases hb
          refine hyb_bwd_finish (hmdQ c.num_dims) d L 0 st _ layer
            (some fid) _ _ hidx hly hIS hlen hwgc hskip hdone hwdone hattrs
            hfc rfl rfl rfl rfl rfl ?_ ?_ ?_ ?_ ?_ ?_
          · intro nd hnd dep hdep
            rcases List.mem_cons.mp hnd with rfl | hnd2
            · have he := List.mem_singleton.mp hdep
              show st.traces.flatten.length ≤ dep ∧ dep < st.next_node_id
              omega
            rcases List.mem_cons.mp hnd2 with rfl | hnd3
            · have he := List.mem_singleton.mp hdep
              show st.traces.flatten.length ≤ dep ∧ dep < st.next_node_id + 1
              omega
            rcases List.mem_cons.mp hnd3 with rfl | hnd4
            · have he := List.mem_singleton.mp hdep
              show st.traces.flatten.length ≤ dep ∧ dep < st.next_node_id + 2
              omega
            rcases List.mem_cons.mp hnd4 with rfl | hnd5
            · have he := List.mem_singleton.mp hdep
              show st.traces.flatten.length ≤ dep ∧ dep < st.next_node_id + 3
              omega
            cases hnd5
          · intro n hn
            rcases List.mem_cons.mp hn with rfl | hn2
            · exact fun h => nomatch h
            rcases List.mem_cons.mp hn2 with rfl | hn3
            · exact fun _ => rfl
            rcases List.mem_cons.mp hn3 with rfl | hn4
            · exact fun h => nomatch h
            rcases List.mem_cons.mp hn4 with rfl | hn5
            · exact fun _ => rfl
            cases hn5
          · intro v hv
            have hvv := Option.some.inj hv
            constructor
            · omega
            · show v < st.next_node_id + 4
              omega
          · intro v hv
            have hvv := Option.some.inj hv
            constructor
            · omega
            · show v < st.next_node_id + 4
              omega
          · intro v hv
            have hvv := Option.some.inj hv
            constructor
            · omega
            · show v < st.next_node_id + 4
              omega
          · intro hcontra
            exact absurd hcontra hg
    · cases hnx : st.layers.get? (st.layers.length - idx) with
      | none =>
        rw [List.get?_eq_none] at hnx
        omega
      | some nxt =>
        cases hw : nxt.bwd_wg_comp_node with
        | none =>
          unfold hmd_bwd_body at hb
          simp only [hly, if_neg h0, get_comp_node, get_node, hnx, hw,
            add_parent] at hb
          cases hb
        | some w =>
          cases hu : nxt.bwd_ig_comm_node with
          | none =>
            unfold hmd_bwd_body at hb
            simp only [hly, if_neg h0, get_comp_node, get_node, hnx, hw, hu,
              add_parent] at hb
            cases hb
          | some u =>
            have hgetconv : st.layers.get?
                (st.layers.length - 1 - (idx - 1)) = some nxt := by
              have hcv : st.layers.length - 1 - (idx - 1) =
                  st.layers.length - idx := by omega
              rw [hcv]
              exact hnx
            have hw' := hwdone (idx - 1) (by omega) nxt hgetconv w hw
            have hu' := hdone (idx - 1) (by omega) nxt hgetconv u hu
            have hlyE : st.layers[st.layers.length - 1 - idx]? =
                some layer := by
              rw [← List.get?_eq_getElem?]
              exact hly
            have hnxE : st.layers[st.layers.length - idx]? = some nxt := by
              rw [← List.get?_eq_getElem?]
              exact hnx
            by_cases hg : (idx : Int) = d - 1
            · have hbody : hmd_bwd_body c d fc idx st = .ok
                  { st with
                    next_node_id := st.next_node_id + 3,
                    layers := st.layers.set (st.layers.length - 1 - idx)
                      { layer with
                        bwd_wg_comp_node := some (st.next_node_id + 1),
                        bwd_wg_comm_node := some (st.next_node_id + 2) },
                    out := st.out ++
                      [{ id := st.next_node_id,
                         name := "COMP_NODE_" ++ layer.name ++ "_" ++
                           "BWD_IG",
                         ntype := .COMP_NODE,
                         duration_micros := layer.bwd_ig_comp_time,
                         attr := [], data_deps := [w, u],
                         role := "BWD_IG" },
                       { id := st.next_node_id + 1,
                         name := "COMP_NODE_" ++ layer.name ++ "_" ++
                           "BWD_WG",
                         ntype := .COMP_NODE,
                         duration_micros := layer.bwd_wg_comp_time,
                         attr := [], data_deps := [st.next_node_id],
                         role := "BWD_WG" },
                       { id := st.next_node_id + 2,
                         name := "COMM_COLL_NODE_" ++ layer.name ++ "_" ++
                           layer.bwd_wg_comm_type,
                         ntype := .COMM_COLL_NODE, duration_micros := 0,
                         attr := [⟨"comm_type",
                             .int64 (get_comm_type layer.bwd_wg_comm_type)⟩,
                           ⟨"comm_size", .uint64 layer.bwd_wg_comm_size⟩,
                           involvedDimFirst c.num_dims],
                         data_deps := [st.next_node_id + 1],
                         role := "BWD_WG" }] } := by
                unfold hmd_bwd_body
                simp only [hly, if_neg h0, get_comp_node, get_node, hnx, hw,
                  hu, add_parent, if_pos hg, get_comm_coll_node,
                  add_parent_if, setLayer, emit, List.get?_set_eq,
                  Option.map_some', List.set_set,
                  List.get?_eq_getElem?, List.getElem?_set_self', Option.map_eq_map,
                  Function.const, Nat.sub_zero, hlyE]
                try simp
              rw [hbody] at hb
              cases hb
              refine hyb_bwd_finish (hmdQ c.num_dims) d L idx st _ layer fc
                _ _ hidx hly hIS hlen hwgc hskip hdone hwdone hattrs hfc
                rfl rfl rfl rfl rfl ?_ ?_ ?_ ?_ ?_ ?_
              · intro nd hnd dep hdep
                rcases List.mem_cons.mp hnd with rfl | hnd2
                · rcases List.mem_cons.mp hdep with rfl | hdep2
                  · show st.traces.flatten.length ≤ dep ∧
                      dep < st.next_node_id
                    omega
                  · have he := List.mem_singleton.mp hdep2
                    show st.traces.flatten.length ≤ dep ∧
                      dep < st.next_node_id
                    omega
                rcases List.mem_cons.mp hnd2 with rfl | hnd3
                · have he := List.mem_singleton.mp hdep
                  show st.traces.flatten.length ≤ dep ∧
                    dep < st.next_node_id + 1
                  omega
                rcases List.mem_cons.mp hnd3 with rfl | hnd4
                · have he := List.mem_singleton.mp hdep
                  show st.traces.flatten.length ≤ dep ∧
                    dep < st.next_node_id + 2
                  omega
                cases hnd4
              · intro n hn
                rcases List.mem_cons.mp hn with rfl | hn2
                · exact fun h => nomatch h
                rcases List.mem_cons.mp hn2 with rfl | hn3
                · exact fun h => nomatch h
                rcases List.mem_cons.mp hn3 with rfl | hn4
                · exact fun _ => rfl
                cases hn4
              · intro v hv
                have hvv := Option.some.inj hv
                constructor
                · omega
                · show v < st.next_node_id + 3
                  omega
              · intro v hv
                have hvv := Option.some.inj hv
                constructor
                · omega
                · show v < st.next_node_id + 3
                  omega
              · intro v hv
                have hv' : layer.bwd_ig_comm_node = some v := hv
                rw [hligN hg] at hv'
                cases hv'
              · intro _
                exact hligN hg
            · have hbody : hmd_bwd_body c d fc idx st = .ok
                  { st with
                    next_node_id := st.next_node_id + 4,
                    layers := st.layers.set (st.layers.length - 1 - idx)
                      { layer with
                        bwd_ig_comm_node := some (st.next_node_id + 1),
                        bwd_wg_comp_node := some (st.next_node_id + 2),
                        bwd_wg_comm_node := some (st.next_node_id + 3) },
                    out := st.out ++
                      [{ id := st.next_node_id,
                         name := "COMP_NODE_" ++ layer.name ++ "_" ++
                           "BWD_IG",
                         ntype := .COMP_NODE,
                         duration_micros := layer.bwd_ig_comp_time,
                         attr := [], data_deps := [w, u],
                         role := "BWD_IG" },
                       { id := st.next_node_id + 1,
                         name := "COMM_COLL_NODE_" ++
                           layer.name ++ "_" ++
                           layer.bwd_ig_comm_type,
                         ntype := .COMM_COLL_NODE, duration_micros := 0,
                         attr := [⟨"comm_type",
                             .int64 (get_comm_type layer.bwd_ig_comm_type)⟩,
                           ⟨"comm_size", .uint64 layer.bwd_ig_comm_size⟩,
                           involvedDimRest c.num_dims],
                         data_deps := [st.next_node_id],
                         role := "BWD_IG" },
                       { id := st.next_node_id + 2,
                         name := "COMP_NODE_" ++ layer.name ++ "_" ++
                           "BWD_WG",
                         ntype := .COMP_NODE,
                         duration_micros := layer.bwd_wg_comp_time,
                         attr := [], data_deps := [st.next_node_id],
                         role := "BWD_WG" },
                       { id := st.next_node_id + 3,
                         name := "COMM_COLL_NODE_" ++ layer.name ++ "_" ++
                           layer.bwd_wg_comm_type,
                         ntype := .COMM_COLL_NODE, duration_micros := 0,
                         attr := [⟨"comm_type",
                             .int64 (get_comm_type layer.bwd_wg_comm_type)⟩,
                           ⟨"comm_size", .uint64 layer.bwd_wg_comm_size⟩,
                           involvedDimFirst c.num_dims],
                         data_deps := [st.next_node_id + 2],
                         role := "BWD_WG" }] } := by
                unfold hmd_bwd_body
                simp only [hly, if_neg h0, get_comp_node, get_node, hnx, hw,
                  hu, add_parent, if_neg hg, get_comm_coll_node,
                  add_parent_if, setLayer, emit, List.get?_set_eq,
                  Option.map_some', List.set_set,
                  List.get?_eq_getElem?, List.getElem?_set_self', Option.map_eq_map,
                  Function.const, Nat.sub_zero, hlyE]
                try simp
              rw [hbody] at hb
              cases hb
              refine hyb_bwd_finish (hmdQ c.num_dims) d L idx st _ layer fc
                _ _ hidx hly hIS hlen hwgc hskip hdone hwdone hattrs hfc
                rfl rfl rfl rfl rfl ?_ ?_ ?_ ?_ ?_ ?_
              · intro nd hnd dep hdep
                rcases List.mem_cons.mp hnd with rfl | hnd2
                · rcases List.mem_cons.mp hdep with rfl | hdep2
                  · show st.traces.flatten.length ≤ dep ∧
                      dep < st.next_node_id
                    omega
                  · have he := List.mem_singleton.mp hdep2
                    show st.traces.flatten.length ≤ dep ∧
                      dep < st.next_node_id
                    omega
                rcases List.mem_cons.mp hnd2 with rfl | hnd3
                · have he := List.mem_singleton.mp hdep
                  show st.traces.flatten.length ≤ dep ∧
                    dep < st.next_node_id + 1
                  omega
                rcases List.mem_cons.mp hnd3 with rfl | hnd4
                · have he := List.mem_singleton.mp hdep
                  show st.traces.flatten.length ≤ dep ∧
                    dep < st.next_node_id + 2
                  omega
                rcases List.mem_cons.mp hnd4 with rfl | hnd5
                · have he := List.mem_singleton.mp hdep
                  show st.traces.flatten.length ≤ dep ∧
                    dep < st.next_node_id + 3
                  omega
                cases hnd5
              · intro n hn
                rcases List.mem_cons.mp hn with rfl | hn2
                · exact fun h => nomatch h
                rcases List.mem_cons.mp hn2 with rfl | hn3
                · exact fun _ => rfl
                rcases List.mem_cons.mp hn3 with rfl | hn4
                · exact fun h => nomatch h
                rcases List.mem_cons.mp hn4 with rfl | hn5
                · exact fun _ => rfl
                cases hn5
              · intro v hv
                have hvv := Option.some.inj hv
                constructor
                · omega
                · show v < st.next_node_id + 4
                  omega
              · intro v hv
                have hvv := Option.some.inj hv
                constructor
                · omega
                · show v < st.next_node_id + 4
                  omega
              · intro v hv
                have hvv := Option.some.inj hv
                constructor
                · omega
                · show v < st.next_node_id + 4
                  omega
              · intro hcontra
                exact absurd hcontra hg

theorem hmd_pass_inv (c : Converter) (d : Int) (L : Nat) (p : Nat)
    (st st' : St)
    (hP : InvS st ∧ st.layers.length = L ∧ WgCommLB st ∧ SkipNone d st ∧
      AttrsOK (hmdQ c.num_dims) st)
    (hb : hmd_pass_body c d p st = .ok st') :
    InvS st' ∧ st'.layers.length = L ∧ WgCommLB st' ∧ SkipNone d st' ∧
      AttrsOK (hmdQ c.num_dims) st' := by
  obtain ⟨hIS, hlen, hwg, hskip, hattrs⟩ := hP
  unfold hmd_pass_body at hb
  cases hfl : loopE (hmd_fwd_body c) (List.range st.layers.length)
      (none, st) with
  | error e =>
    simp only [hfl] at hb
    cases hb
  | ok r =>
    obtain ⟨fc, st1⟩ := r
    simp only [hfl] at hb
    have hfwd := loopE_range_ind (hmd_fwd_body c)
      (fun k acc => InvS acc.2 ∧ acc.2.layers.length = L ∧ WgCommLB acc.2 ∧
        SkipNone d acc.2 ∧ FwdCommFresh k acc.2 ∧
        SlotLB acc.2.traces.flatten.length acc.2.next_node_id acc.1 ∧
        AttrsOK (hmdQ c.num_dims) acc.2)
      st.layers.length (none, st) (fc, st1)
      (fun j t v hj hPj hbj =>
        hmd_fwd_step c d L j t v (by omega) hPj hbj)
      ⟨hIS, hlen, hwg, hskip,
        (fun j hj => absurd hj (Nat.not_lt_zero j)),
        (fun v hv => by cases hv), hattrs⟩ hfl
    obtain ⟨hIS1, hlen1, hwg1, hskip1, _, hfc1, hattrs1⟩ := hfwd
    dsimp only at hIS1 hlen1 hwg1 hskip1 hfc1 hattrs1
    have hbwd := loopE_range_ind (hmd_bwd_body c d fc)
      (fun k s => InvS s ∧ s.layers.length = L ∧ WgCommLB s ∧
        SkipNone d s ∧ IgCommDone k s ∧ WgCompDone k s ∧
        SlotLB s.traces.flatten.length s.next_node_id fc ∧
        AttrsOK (hmdQ c.num_dims) s)
      st1.layers.length st1 st'
      (fun j t v hj hPj hbj =>
        hmd_bwd_step c d L fc j t v (by omega) hPj hbj)
      ⟨hIS1, hlen1, hwg1, hskip1,
        (fun pos hpos => absurd hpos (Nat.not_lt_zero pos)),
        (fun pos hpos => absurd hpos (Nat.not_lt_zero pos)),
        hfc1, hattrs1⟩ hb
    exact ⟨hbwd.1, hbwd.2.1, hbwd.2.2.1, hbwd.2.2.2.1, hbwd.2.2.2.2.2.2.2⟩

theorem hmd_device_inv (c : Converter) (d : Int) (L : Nat) (k : Nat)
    (st st' : St)
    (hP : InvS st ∧ st.layers.length = L ∧ WgCommLB st ∧ SkipNone d st ∧
      AttrsOK (hmdQ c.num_dims) st ∧ st.out = [])
    (hb : hmd_device_body c d k st = .ok st') :
    InvS st' ∧ st'.layers.length = L ∧ WgCommLB st' ∧ SkipNone d st' ∧
      AttrsOK (hmdQ c.num_dims) st' ∧ st'.out = [] := by
  obtain ⟨hIS, hlen, hwg, hskip, hattrs, hout⟩ := hP
  unfold hmd_device_body at hb
  have hst0 : { st with out := ([] : List Node) } = st := by
    rw [← hout]
  cases hpl : loopE (hmd_pass_body c d) (List.range c.num_passes)
      { st with out := [] } with
  | error e =>
    simp only [hpl] at hb
    cases hb
  | ok u =>
    simp only [hpl] at hb
    have hst' := Except.ok.inj hb
    have hlay' : st'.layers = u.layers.map (fun (l : Layer) =>
        { l with bwd_wg_comm_node := none }) := by
      rw [← hst']
    have htr' : st'.traces = u.traces ++ [u.out] := by
      rw [← hst']
    have hout'' : st'.out = [] := by
      rw [← hst']
    have hnext' : st'.next_node_id = u.next_node_id := by
      rw [← hst']
    have h0 : InvS { st with out := ([] : List Node) } ∧
        ({ st with out := ([] : List Node) } : St).layers.length = L ∧
        WgCommLB { st with out := ([] : List Node) } ∧
        SkipNone d { st with out := ([] : List Node) } ∧
        AttrsOK (hmdQ c.num_dims) { st with out := ([] : List Node) } := by
      rw [hst0]
      exact ⟨hIS, hlen, hwg, hskip, hattrs⟩
    have hrun := loopE_range_ind (hmd_pass_body c d)
      (fun _ s => InvS s ∧ s.layers.length = L ∧ WgCommLB s ∧ SkipNone d s ∧
        AttrsOK (hmdQ c.num_dims) s)
      c.num_passes { st with out := [] } u
      (fun j t v _ hPj hbj => hmd_pass_inv c d L j t v hPj hbj) h0 hpl
    obtain ⟨hISu, hlenu, hwgu, hskipu, hattrsu⟩ := hrun
    refine ⟨InvS_commit hISu htr' hout'' hnext', ?_, ?_, ?_,
      AttrsOK_commit hattrsu htr' hout'', hout''⟩
    · rw [hlay', List.length_map]
      exact hlenu
    · intro l hl
      rw [hlay'] at hl
      obtain ⟨l₀, _, hml⟩ := List.mem_map.mp hl
      intro v hv
      rw [← hml] at hv
      cases hv
    · intro j l' hget hcond
      rw [hlay', List.length_map] at hcond
      rw [hlay', List.get?_map] at hget
      cases hg0 : u.layers.get? j with
      | none =>
        rw [hg0] at hget
        cases hget
      | some l₀ =>
        rw [hg0] at hget
        simp only [Option.map_some'] at hget
        have he := Option.some.inj hget
        rw [← he]
        exact hskipu j l₀ hg0 hcond

/-- A successful HYBRID_MODEL_DATA run satisfies the strong trace contract,
and every emitted node satisfies the HYBRID_MODEL_DATA `involved_dim`
contract. -/
theorem hmd_goodS (c : Converter) (lines : List String) (nl : Int)
    (traces : List (List Node))
    (hok : convert_hybrid_model_data c lines nl = .ok traces) :
    GoodS traces ∧ ∀ t ∈ traces, ∀ n ∈ t, hmdQ c.num_dims n := by
  unfold convert_hybrid_model_data at hok
  cases hls : get_layers lines nl with
  | error e =>
    simp only [hls] at hok
    cases hok
  | ok ls =>
    simp only [hls] at hok
    cases hdl : loopE (hmd_device_body c nl) (List.range c.num_npus)
        (initSt ls) with
    | error e =>
      simp only [hdl] at hok
      cases hok
    | ok v =>
      simp only [hdl] at hok
      cases hok
      have hinit : InvS (initSt ls) ∧ (initSt ls).layers.length = ls.length ∧
          WgCommLB (initSt ls) ∧ SkipNone nl (initSt ls) ∧
          AttrsOK (hmdQ c.num_dims) (initSt ls) ∧ (initSt ls).out = [] := by
        refine ⟨invS_init ls, rfl, ?_, ?_, attrsOK_init _ ls, rfl⟩
        · intro l hl v hv
          rw [(get_layers_slots hls l hl).2.2.2.2.2] at hv
          cases hv
        · intro j l' hget _
          exact (get_layers_slots hls l' (List.get?_mem hget)).2.2.2.1
      have hmain := loopE_range_ind (hmd_device_body c nl)
        (fun _ s => InvS s ∧ s.layers.length = ls.length ∧ WgCommLB s ∧
          SkipNone nl s ∧ AttrsOK (hmdQ c.num_dims) s ∧ s.out = [])
        c.num_npus (initSt ls) v
        (fun j t w _ hPj hbj => hmd_device_inv c nl ls.length j t w hPj hbj)
        hinit hdl
      exact ⟨goodS_of_invS v hmain.1 hmain.2.2.2.2.2,
        hmain.2.2.2.2.1.2⟩

theorem dlrm_fwd_finish (lbl : Int) (L idx : Nat) (st st' : St)
    (layer newl : Layer) (ns : List Node)
    (hidx : idx < L)
    (hly : st.layers.get? idx = some layer)
    (hIS : InvS st) (hlen : st.layers.length = L) (hbs : DlrmBwdLB st)
    (hf0 : DlrmF0 st) (hf0n : DlrmF0N lbl st)
    (hfresh : FwdCompFresh idx st) (hf0d : F0Done idx st)
    (hlay' : st'.layers = st.layers.set idx newl)
    (hout' : st'.out = st.out ++ ns)
    (htr' : st'.traces = st.traces)
    (hnext' : st'.next_node_id = st.next_node_id + ns.length)
    (hnslen : 1 ≤ ns.length)
    (hnsids : idsOf ns = List.range' st.next_node_id ns.length)
    (hnsdeps : ∀ n ∈ ns, ∀ dep ∈ n.data_deps,
      st.traces.flatten.length ≤ dep ∧ dep < n.id)
    (hnewcomp : newl.fwd_comp_node = some st.next_node_id)
    (hnewty : newl.fwd_comm_type = layer.fwd_comm_type)
    (hnewbwd : newl.bwd_ig_comp_node = layer.bwd_ig_comp_node ∧
      newl.bwd_ig_comm_node = layer.bwd_ig_comm_node ∧
      newl.bwd_wg_comp_node = layer.bwd_wg_comp_node ∧
      newl.bwd_wg_comm_node = layer.bwd_wg_comm_node)
    (h0 : idx = 0 → (newl.fwd_comm_type ≠ "ALLTOALL" →
        newl.fwd_comm_node = none) ∧
      SlotLB st.traces.flatten.length (st.next_node_id + ns.length)
        newl.fwd_comm_node)
    (h0n : lbl = 0 → idx = 0 → newl.fwd_comm_node = none) :
    InvS st' ∧ st'.layers.length = L ∧ DlrmBwdLB st' ∧ DlrmF0 st' ∧
      DlrmF0N lbl st' ∧ FwdCompFresh (idx + 1) st' ∧ F0Done (idx + 1) st' ∧
      SlotLB st'.traces.flatten.length st'.next_node_id
        (some st.next_node_id) := by
  have hbase := hIS.toInvW.base_le
  refine ⟨InvS_append hIS ns hnsids hnsdeps hout' htr' hnext',
    by rw [hlay', List.length_set, hlen], ?_, ?_, ?_, ?_, ?_, ?_⟩
  · intro l hl
    rw [htr', hnext']
    rw [hlay'] at hl
    rcases List.mem_or_eq_of_mem_set hl with hx | hx
    · obtain ⟨h1, h2, h3, h4⟩ := hbs l hx
      exact ⟨h1.mono (by omega), h2.mono (by omega), h3.mono (by omega),
        h4.mono (by omega)⟩
    · subst hx
      obtain ⟨e1, e2, e3, e4⟩ := hnewbwd
      obtain ⟨h1, h2, h3, h4⟩ := hbs layer (List.get?_mem hly)
      rw [e1, e2, e3, e4]
      exact ⟨h1.mono (by omega), h2.mono (by omega), h3.mono (by omega),
        h4.mono (by omega)⟩
  · intro l0 hl0 hne
    rw [hlay'] at hl0
    by_cases hi0 : idx = 0
    · subst hi0
      rw [List.get?_set_eq, hly] at hl0
      have he : newl = l0 := Option.some.inj hl0
      rw [← he] at hne ⊢
      exact (h0 rfl).1 hne
    · rw [List.get?_set_ne _ _ hi0] at hl0
      exact hf0 l0 hl0 hne
  · intro hlbl hpos l0 hl0
    rw [hlay', List.length_set] at hpos
    rw [hlay'] at hl0
    by_cases hi0 : idx = 0
    · subst hi0
      rw [List.get?_set_eq, hly] at hl0
      have he : newl = l0 := Option.some.inj hl0
      rw [← he]
      exact h0n hlbl rfl
    · rw [List.get?_set_ne _ _ hi0] at hl0
      exact hf0n hlbl hpos l0 hl0
  · intro j hj l hget
    rw [htr', hnext']
    rw [hlay'] at hget
    by_cases hji : j = idx
    · subst hji
      rw [List.get?_set_eq, hly] at hget
      have he : newl = l := Option.some.inj hget
      rw [← he, hnewcomp]
      intro v hv
      have hv' := Option.some.inj hv
      omega
    · rw [List.get?_set_ne _ _ (fun hc => hji hc.symm)] at hget
      exact (hfresh j (by omega) l hget).mono (by omega)
  · intro _ l0 hl0
    rw [htr', hnext']
    rw [hlay'] at hl0
    by_cases hi0 : idx = 0
    · subst hi0
      rw [List.get?_set_eq, hly] at hl0
      have he : newl = l0 := Option.some.inj hl0
      rw [← he]
      exact (h0 rfl).2
    · rw [List.get?_set_ne _ _ hi0] at hl0
      exact (hf0d (by omega) l0 hl0).mono (by omega)
  · rw [htr', hnext']
    intro v hv
    have hv' := Option.some.inj hv
    omega

theorem dlrm_bwd_finish1 (lbl : Int) (L idx : Nat) (st st' : St)
    (layer newl : Layer) (o : Option Nat) (ns : List Node)
    (hidx : idx < L)
    (hly : st.layers.get? (st.layers.length - 1 - idx) = some layer)
    (hIS : InvS st) (hlen : st.layers.length = L) (hbs : DlrmBwdLB st)
    (hf0 : DlrmF0 st) (hf0n : DlrmF0N lbl st)
    (ho : SlotLB st.traces.flatten.length st.next_node_id o)
    (hlay' : st'.layers = st.layers.set (st.layers.length - 1 - idx) newl)
    (hout' : st'.out = st.out ++ ns)
    (htr' : st'.traces = st.traces)
    (hnext' : st'.next_node_id = st.next_node_id + ns.length)
    (hnsids : idsOf ns = List.range' st.next_node_id ns.length)
    (hnsdeps : ∀ n ∈ ns, ∀ dep ∈ n.data_deps,
      st.traces.flatten.length ≤ dep ∧ dep < n.id)
    (hslots : SlotLB st.traces.flatten.length (st.next_node_id + ns.length)
        newl.bwd_ig_comp_node ∧
      SlotLB st.traces.flatten.length (st.next_node_id + ns.length)
        newl.bwd_ig_comm_node ∧
      SlotLB st.traces.flatten.length (st.next_node_id + ns.length)
        newl.bwd_wg_comp_node ∧
      SlotLB st.traces.flatten.length (st.next_node_id + ns.length)
        newl.bwd_wg_comm_node)
    (hnewty : newl.fwd_comm_type = layer.fwd_comm_type)
    (hnewfc : newl.fwd_comm_node = layer.fwd_comm_node) :
    InvS st' ∧ st'.layers.length = L ∧ DlrmBwdLB st' ∧ DlrmF0 st' ∧
      DlrmF0N lbl st' ∧
      SlotLB st'.traces.flatten.length st'.next_node_id o := by
  have hbase := hIS.toInvW.base_le
  refine ⟨InvS_append hIS ns hnsids hnsdeps hout' htr' hnext',
    by rw [hlay', List.length_set, hlen], ?_, ?_, ?_, ?_⟩
  · intro l hl
    rw [htr', hnext']
    rw [hlay'] at hl
    rcases List.mem_or_eq_of_mem_set hl with hx | hx
    · obtain ⟨h1, h2, h3, h4⟩ := hbs l hx
      exact ⟨h1.mono (by omega), h2.mono (by omega), h3.mono (by omega),
        h4.mono (by omega)⟩
    · subst hx
      exact hslots
  · intro l0 hl0 hne
    rw [hlay'] at hl0
    by_cases hz : st.layers.length - 1 - idx = 0
    · rw [hz] at hly
      rw [hz, List.get?_set_eq, hly] at hl0
      have he : newl = l0 := Option.some.inj hl0
      rw [← he] at hne ⊢
      rw [hnewty] at hne
      rw [hnewfc]
      exact hf0 layer hly hne
    · rw [List.get?_set_ne _ _ hz] at hl0
      exact hf0 l0 hl0 hne
  · intro hlbl hpos l0 hl0
    rw [hlay', List.length_set] at hpos
    rw [hlay'] at hl0
    by_cases hz : st.layers.length - 1 - idx = 0
    · rw [hz] at hly
      rw [hz, List.get?_set_eq, hly] at hl0
      have he : newl = l0 := Option.some.inj hl0
      rw [← he, hnewfc]
      exact hf0n hlbl hpos layer hly
    · rw [List.get?_set_ne _ _ hz] at hl0
      exact hf0n hlbl hpos l0 hl0
  · rw [htr', hnext']
    exact ho.mono (by omega)

theorem dlrm_bwd_finish2 (lbl : Int) (L idx : Nat) (st st' : St)
    (layer newl l0 newl0 : Layer) (o : Option Nat) (ns : List Node)
    (hidx : idx < L)
    (hly : st.layers.get? (st.layers.length - 1 - idx) = some layer)
    (hne0 : st.layers.length - 1 - idx ≠ 0)
    (hl0 : st.layers.get? 0 = some l0)
    (hIS : InvS st) (hlen : st.layers.length = L) (hbs : DlrmBwdLB st)
    (hf0 : DlrmF0 st) (hf0n : DlrmF0N lbl st)
    (ho : SlotLB st.traces.flatten.length st.next_node_id o)
    (hlay' : st'.layers =
      (st.layers.set (st.layers.length - 1 - idx) newl).set 0 newl0)
    (hout' : st'.out = st.out ++ ns)
    (htr' : st'.traces = st.traces)
    (hnext' : st'.next_node_id = st.next_node_id + ns.length)
    (hnsids : idsOf ns = List.range' st.next_node_id ns.length)
    (hnsdeps : ∀ n ∈ ns, ∀ dep ∈ n.data_deps,
      st.traces.flatten.length ≤ dep ∧ dep < n.id)
    (hslots : SlotLB st.traces.flatten.length (st.next_node_id + ns.length)
        newl.bwd_ig_comp_node ∧
      SlotLB st.traces.flatten.length (st.next_node_id + ns.length)
        newl.bwd_ig_comm_node ∧
      SlotLB st.traces.flatten.length (st.next_node_id + ns.length)
        newl.bwd_wg_comp_node ∧
      SlotLB st.traces.flatten.length (st.next_node_id + ns.length)
        newl.bwd_wg_comm_node)
    (hslots0 : SlotLB st.traces.flatten.length (st.next_node_id + ns.length)
        newl0.bwd_ig_comp_node ∧
      SlotLB st.traces.flatten.length (st.next_node_id + ns.length)
        newl0.bwd_ig_comm_node ∧
      SlotLB st.traces.flatten.length (st.next_node_id + ns.length)
        newl0.bwd_wg_comp_node ∧
      SlotLB st.traces.flatten.length (st.next_node_id + ns.length)
        newl0.bwd_wg_comm_node)
    (hnewty0 : newl0.fwd_comm_type = l0.fwd_comm_type)
    (hnewfc0 : newl0.fwd_comm_node = l0.fwd_comm_node) :
    InvS st' ∧ st'.layers.length = L ∧ DlrmBwdLB st' ∧ DlrmF0 st' ∧
      DlrmF0N lbl st' ∧
      SlotLB st'.traces.flatten.length st'.next_node_id o := by
  have hbase := hIS.toInvW.base_le
  refine ⟨InvS_append hIS ns hnsids hnsdeps hout' htr' hnext',
    by rw [hlay', List.length_set, List.length_set, hlen], ?_, ?_, ?_, ?_⟩
  · intro l hl
    rw [htr', hnext']
    rw [hlay'] at hl
    rcases List.mem_or_eq_of_mem_set hl with hx | hx
    · rcases List.mem_or_eq_of_mem_set hx with hy | hy
      · obtain ⟨h1, h2, h3, h4⟩ := hbs l hy
        exact ⟨h1.mono (by omega), h2.mono (by omega), h3.mono (by omega),
          h4.mono (by omega)⟩
      · subst hy
        exact hslots
    · subst hx
      exact hslots0
  · intro q hq hne
    rw [hlay', List.get?_set_eq, List.get?_set_ne _ _ hne0, hl0] at hq
    have he : newl0 = q := Option.some.inj hq
    rw [← he] at hne ⊢
    rw [hnewty0] at hne
    rw [hnewfc0]
    exact hf0 l0 hl0 hne
  · intro hlbl hpos q hq
    rw [hlay', List.length_set, List.length_set] at hpos
    rw [hlay', List.get?_set_eq, List.get?_set_ne _ _ hne0, hl0] at hq
    have he : newl0 = q := Option.some.inj hq
    rw [← he, hnewfc0]
    exact hf0n hlbl hpos l0 hl0
  · rw [htr', hnext']
    exact ho.mono (by omega)

theorem dlrm_fwd_step (c : Converter) (lbl : Int) (L : Nat) (idx : Nat)
    (acc acc' : Option Nat × St) (hidx : idx < L)
    (hP : InvS acc.2 ∧ acc.2.layers.length = L ∧ DlrmBwdLB acc.2 ∧
      DlrmF0 acc.2 ∧ DlrmF0N lbl acc.2 ∧ FwdCompFresh idx acc.2 ∧
      F0Done idx acc.2 ∧
      SlotLB acc.2.traces.flatten.length acc.2.next_node_id acc.1)
    (hb : dlrm_fwd_body c lbl idx acc = .ok acc') :
    InvS acc'.2 ∧ acc'.2.layers.length = L ∧ DlrmBwdLB acc'.2 ∧
      DlrmF0 acc'.2 ∧ DlrmF0N lbl acc'.2 ∧ FwdCompFresh (idx + 1) acc'.2 ∧
      F0Done (idx + 1) acc'.2 ∧
      SlotLB acc'.2.traces.flatten.length acc'.2.next_node_id acc'.1 := by
  obtain ⟨fc0, st⟩ := acc
  obtain ⟨hIS, hlen, hbs, hf0, hf0n, hfresh, hf0d, hacc⟩ := hP
  dsimp only at hIS hlen hbs hf0 hf0n hfresh hf0d hacc
  have hbase := hIS.toInvW.base_le
  cases hly : st.layers.get? idx with
  | none =>
    unfold dlrm_fwd_body at hb
    simp only [hly] at hb
    cases hb
  | some layer =>
    have hD0 : ∀ dep ∈ (match layer.bwd_wg_comm_node with
        | some v => ([v] : List Nat)
        | none => match layer.bwd_wg_comp_node with
          | some v => [v]
          | none => []),
        st.traces.flatten.length ≤ dep ∧ dep < st.next_node_id := by
      have hmem := hbs layer (List.get?_mem hly)
      intro dep hdep
      cases hwgs : layer.bwd_wg_comm_node with
      | some v =>
        rw [hwgs] at hdep
        have he := List.mem_singleton.mp hdep
        subst he
        exact hmem.2.2.2 dep hwgs
      | none =>
        rw [hwgs] at hdep
        cases hwgc2 : layer.bwd_wg_comp_node with
        | some v =>
          rw [hwgc2] at hdep
          have he := List.mem_singleton.mp hdep
          subst he
          exact hmem.2.2.1 dep hwgc2
        | none =>
          rw [hwgc2] at hdep
          cases hdep
    by_cases hz : idx = 0
    · subst hz
      by_cases hlbl : ((0 : Nat) : Int) = lbl
      · have hlbl0 : lbl = 0 := by omega
        have hnone : layer.fwd_comm_node = none :=
          hf0n hlbl0 (by omega) layer hly
        have hbody : dlrm_fwd_body c lbl 0 (fc0, st) = .error
            "AttributeError: 'NoneType' object has no attribute 'id'" := by
          unfold dlrm_fwd_body
          simp only [hly, if_pos rfl, if_pos hlbl, get_comp_node, get_node,
            hnone, add_parent]
          cases layer.bwd_wg_comm_node <;> cases layer.bwd_wg_comp_node <;>
            simp
        rw [hbody] at hb
        cases hb
      · by_cases hat : layer.fwd_comm_type = "ALLTOALL"
        · have hbody : dlrm_fwd_body c lbl 0 (fc0, st) = .ok
              (some st.next_node_id,
              { st with
                next_node_id := st.next_node_id + 2,
                layers := st.layers.set 0
                  { layer with
                    fwd_comp_node := some st.next_node_id,
                    fwd_comm_node := some (st.next_node_id + 1) },
                out := st.out ++
                  [{ id := st.next_node_id,
                     name := "COMP_NODE_" ++ layer.name ++ "_" ++ "FWD",
                     ntype := .COMP_NODE,
                     duration_micros := layer.fwd_comp_time,
                     attr := [],
                     data_deps := (match layer.bwd_wg_comm_node with
                       | some v => [v]
                       | none => match layer.bwd_wg_comp_node with
                         | some v => [v]
                         | none => []),
                     role := "FWD" },
                   { id := st.next_node_id + 1,
                     name := "COMM_COLL_NODE_" ++ layer.name ++ "_" ++
                       layer.fwd_comm_type,
                     ntype := .COMM_COLL_NODE, duration_micros := 0,
                     attr := [⟨"comm_type",
                         .int64 (get_comm_type layer.fwd_comm_type)⟩,
                       ⟨"comm_size", .uint64 layer.fwd_comm_size⟩,
                       involvedDimAll c.num_dims],
                     data_deps := [st.next_node_id], role := "FWD" }] }) := by
            unfold dlrm_fwd_body
            simp only [hly, if_pos rfl, if_neg hlbl, if_pos hat,
              get_comp_node, get_node, get_comm_coll_node, add_parent_if,
              setLayer, emit, List.get?_set_eq, Option.map_some',
              List.set_set]
            cases layer.bwd_wg_comm_node <;>
              cases layer.bwd_wg_comp_node <;> simp
          rw [hbody] at hb
          cases hb
          refine dlrm_fwd_finish lbl L 0 st _ layer _ _ hidx hly hIS hlen
            hbs hf0 hf0n hfresh hf0d rfl rfl rfl rfl (by simp) rfl ?_ rfl
            rfl ⟨rfl, rfl, rfl, rfl⟩ ?_ ?_
          · intro n hn dep hdep
            rcases List.mem_cons.mp hn with rfl | hn2
            · have h1 := hD0 dep hdep
              exact ⟨h1.1, h1.2⟩
            rcases List.mem_cons.mp hn2 with rfl | hn3
            · have he := List.mem_singleton.mp hdep
              subst he
              dsimp only
              exact ⟨by omega, by omega⟩
            cases hn3
          · intro _
            constructor
            · intro hne
              exact absurd hat hne
            · intro v hv
              have hvv := Option.some.inj
                (show some (st.next_node_id + 1) = some v from hv)
              constructor
              · omega
              · show v < st.next_node_id + [(default : Node),
                  default].length
                simp only [List.length_cons, List.length_nil]
                omega
          · intro hl0 _
            exact absurd (show ((0 : Nat) : Int) = lbl by omega) hlbl
        · have hbody : dlrm_fwd_body c lbl 0 (fc0, st) = .ok
              (some st.next_node_id,
              { st with
                next_node_id := st.next_node_id + 1,
                layers := st.layers.set 0
                  { layer with
                    fwd_comp_node := some st.next_node_id },
                out := st.out ++
                  [{ id := st.next_node_id,
                     name := "COMP_NODE_" ++ layer.name ++ "_" ++ "FWD",
                     ntype := .COMP_NODE,
                     duration_micros := layer.fwd_comp_time,
                     attr := [],
                     data_deps := (match layer.bwd_wg_comm_node with
                       | some v => [v]
                       | none => match layer.bwd_wg_comp_node with
                         | some v => [v]
                         | none => []),
                     role := "FWD" }] }) := by
            unfold dlrm_fwd_body
            simp only [hly, if_pos rfl, if_neg hlbl, if_neg hat,
              get_comp_node, get_node, setLayer, emit, List.get?_set_eq,
              Option.map_some', List.set_set]
            cases layer.bwd_wg_comm_node <;>
              cases layer.bwd_wg_comp_node <;> simp
          rw [hbody] at hb
          cases hb
          refine dlrm_fwd_finish lbl L 0 st _ layer _ _ hidx hly hIS hlen
            hbs hf0 hf0n hfresh hf0d rfl rfl rfl rfl (by simp) rfl ?_ rfl
            rfl ⟨rfl, rfl, rfl, rfl⟩ ?_ ?_
          · intro n hn dep hdep
            rcases List.mem_cons.mp hn with rfl | hn2
            · have h1 := hD0 dep hdep
              exact ⟨h1.1, h1.2⟩
            cases hn2
          · intro _
            constructor
            · intro hne
              exact hf0 layer hly hat
            · intro v hv
              have hvv : layer.fwd_comm_node = some v := hv
              rw [hf0 layer hly hat] at hvv
              cases hvv
          · intro hl0 _
            exact absurd (show ((0 : Nat) : Int) = lbl by omega) hlbl
    · cases hpl : st.layers.get? (idx - 1) with
      | none =>
        rw [List.get?_eq_none] at hpl
        omega
      | some prev =>
        cases hpc : prev.fwd_comp_node with
        | none =>
          have hbody : dlrm_fwd_body c lbl idx (fc0, st) = .error
              "AttributeError: 'NoneType' object has no attribute 'id'" := by
            unfold dlrm_fwd_body
            simp only [hly, if_neg hz, hpl, hpc, add_parent, get_comp_node,
              get_node]
          rw [hbody] at hb
          cases hb
        | some w =>
          have hw := (hfresh (idx - 1) (by omega) prev hpl) w hpc
          by_cases hlbl : ((idx : Nat) : Int) = lbl
          · cases hl0g : st.layers.get? 0 with
            | none =>
              rw [List.get?_eq_none] at hl0g
              omega
            | some l0 =>
              cases hfc0g : l0.fwd_comm_node with
              | none =>
                have hbody : dlrm_fwd_body c lbl idx (fc0, st) = .error
                    "AttributeError: 'NoneType' object has no attribute 'id'"
                    := by
                  unfold dlrm_fwd_body
                  simp only [hly, if_neg hz, hpl, hpc, add_parent,
                    if_pos hlbl, hl0g, hfc0g, get_comp_node, get_node]
                rw [hbody] at hb
                cases hb
              | some u =>
                have hu := (hf0d (by omega) l0 hl0g) u hfc0g
                by_cases hat : layer.fwd_comm_type = "ALLTOALL"
                · have hbody : dlrm_fwd_body c lbl idx (fc0, st) = .ok
                      (some st.next_node_id,
                      { st with
                        next_node_id := st.next_node_id + 2,
                        layers := st.layers.set idx
                          { layer with
                            fwd_comp_node := some st.next_node_id,
                            fwd_comm_node := some (st.next_node_id + 1) },
                        out := st.out ++
                          [{ id := st.next_node_id,
                             name := "COMP_NODE_" ++ layer.name ++ "_" ++
                               "FWD",
                             ntype := .COMP_NODE,
                             duration_micros := layer.fwd_comp_time,
                             attr := [],
                             data_deps := ((match layer.bwd_wg_comm_node with
                               | some v => [v]
                               | none => match layer.bwd_wg_comp_node with
                                 | some v => [v]
                                 | none => []) ++ [w]) ++ [u],
                             role := "FWD" },
                           { id := st.next_node_id + 1,
                             name := "COMM_COLL_NODE_" ++ layer.name ++
                               "_" ++ layer.fwd_comm_type,
                             ntype := .COMM_COLL_NODE, duration_micros := 0,
                             attr := [⟨"comm_type",
                                 .int64 (get_comm_type layer.fwd_comm_type)⟩,
                               ⟨"comm_size", .uint64 layer.fwd_comm_size⟩,
                               involvedDimAll c.num_dims],
                             data_deps := [st.next_node_id],
                             role := "FWD" }] }) := by
                    unfold dlrm_fwd_body
                    simp only [hly, if_neg hz, hpl, hpc, add_parent,
                      if_pos hlbl, hl0g, hfc0g, if_pos hat, get_comp_node,
                      get_node, get_comm_coll_node, add_parent_if, setLayer,
                      emit, List.get?_set_eq, Option.map_some', List.set_set]
                    cases layer.bwd_wg_comm_node <;>
                      cases layer.bwd_wg_comp_node <;> simp
                  rw [hbody] at hb
                  cases hb
                  refine dlrm_fwd_finish lbl L idx st _ layer _ _ hidx hly
                    hIS hlen hbs hf0 hf0n hfresh hf0d rfl rfl rfl rfl
                    (by simp) rfl ?_ rfl rfl ⟨rfl, rfl, rfl, rfl⟩ ?_ ?_
                  · intro n hn dep hdep
                    rcases List.mem_cons.mp hn with rfl | hn2
                    · rcases List.mem_append.mp hdep with hd2 | hd2
                      · rcases List.mem_append.mp hd2 with hd3 | hd3
                        · have h1 := hD0 dep hd3
                          exact ⟨h1.1, h1.2⟩
                        · have he := List.mem_singleton.mp hd3
                          subst he
                          dsimp only
                          exact ⟨by omega, by omega⟩
                      · have he := List.mem_singleton.mp hd2
                        subst he
                        dsimp only
                        exact ⟨by omega, by omega⟩
                    rcases List.mem_cons.mp hn2 with rfl | hn3
                    · have he := List.mem_singleton.mp hdep
                      subst he
                      dsimp only
                      exact ⟨by omega, by omega⟩
                    cases hn3
                  · intro h00
                    exact absurd h00 hz
                  · intro _ h00
                    exact absurd h00 hz
                · have hbody : dlrm_fwd_body c lbl idx (fc0, st) = .ok
                      (some st.next_node_id,
                      { st with
                        next_node_id := st.next_node_id + 1,
                        layers := st.layers.set idx
                          { layer with
                            fwd_comp_node := some st.next_node_id },
                        out := st.out ++
                          [{ id := st.next_node_id,
                             name := "COMP_NODE_" ++ layer.name ++ "_" ++
                               "FWD",
                             ntype := .COMP_NODE,
                             duration_micros := layer.fwd_comp_time,
                             attr := [],
                             data_deps := ((match layer.bwd_wg_comm_node with
                               | some v => [v]
                               | none => match layer.bwd_wg_comp_node with
                                 | some v => [v]
                                 | none => []) ++ [w]) ++ [u],
                             role := "FWD" }] }) := by
                    unfold dlrm_fwd_body
                    simp only [hly, if_neg hz, hpl, hpc, add_parent,
                      if_pos hlbl, hl0g, hfc0g, if_neg hat, get_comp_node,
                      get_node, setLayer, emit, List.get?_set_eq,
                      Option.map_some', List.set_set]
                    cases layer.bwd_wg_comm_node <;>
                      cases layer.bwd_wg_comp_node <;> simp
                  rw [hbody] at hb
                  cases hb
                  refine dlrm_fwd_finish lbl L idx st _ layer _ _ hidx hly
                    hIS hlen hbs hf0 hf0n hfresh hf0d rfl rfl rfl rfl
                    (by simp) rfl ?_ rfl rfl ⟨rfl, rfl, rfl, rfl⟩ ?_ ?_
                  · intro n hn dep hdep
                    rcases List.mem_cons.mp hn with rfl | hn2
                    · rcases List.mem_append.mp hdep with hd2 | hd2
                      · rcases List.mem_append.mp hd2 with hd3 | hd3
                        · have h1 := hD0 dep hd3
                          exact ⟨h1.1, h1.2⟩
                        · have he := List.mem_singleton.mp hd3
                          subst he
                          dsimp only
                          exact ⟨by omega, by omega⟩
                      · have he := List.mem_singleton.mp hd2
                        subst he
                        dsimp only
                        exact ⟨by omega, by omega⟩
                    cases hn2
                  · intro h00
                    exact absurd h00 hz
                  · intro _ h00
                    exact absurd h00 hz
          · by_cases hat : layer.fwd_comm_type = "ALLTOALL"
            · have hbody : dlrm_fwd_body c lbl idx (fc0, st) = .ok
                  (some st.next_node_id,
                  { st with
                    next_node_id := st.next_node_id + 2,
                    layers := st.layers.set idx
                      { layer with
                        fwd_comp_node := some st.next_node_id,
                        fwd_comm_node := some (st.next_node_id + 1) },
                    out := st.out ++
                      [{ id := st.next_node_id,
                         name := "COMP_NODE_" ++ layer.name ++ "_" ++ "FWD",
                         ntype := .COMP_NODE,
                         duration_micros := layer.fwd_comp_time,
                         attr := [],
                         data_deps := (match layer.bwd_wg_comm_node with
                           | some v => [v]
                           | none => match layer.bwd_wg_comp_node with
                             | some v => [v]
                             | none => []) ++ [w],
                         role := "FWD" },
                       { id := st.next_node_id + 1,
                         name := "COMM_COLL_NODE_" ++ layer.name ++ "_" ++
                           layer.fwd_comm_type,
                         ntype := .COMM_COLL_NODE, duration_micros := 0,
                         attr := [⟨"comm_type",
                             .int64 (get_comm_type layer.fwd_comm_type)⟩,
                           ⟨"comm_size", .uint64 layer.fwd_comm_size⟩,
                           involvedDimAll c.num_dims],
                         data_deps := [st.next_node_id],
                         role := "FWD" }] }) := by
                unfold dlrm_fwd_body
                simp only [hly, if_neg hz, hpl, hpc, add_parent,
                  if_neg hlbl, if_pos hat, get_comp_node, get_node,
                  get_comm_coll_node, add_parent_if, setLayer, emit,
                  List.get?_set_eq, Option.map_some', List.set_set]
                cases layer.bwd_wg_comm_node <;>
                  cases layer.bwd_wg_comp_node <;> simp
              rw [hbody] at hb
              cases hb
              refine dlrm_fwd_finish lbl L idx st _ layer _ _ hidx hly hIS
                hlen hbs hf0 hf0n hfresh hf0d rfl rfl rfl rfl (by simp) rfl
                ?_ rfl rfl ⟨rfl, rfl, rfl, rfl⟩ ?_ ?_
              · intro n hn dep hdep
                rcases List.mem_cons.mp hn with rfl | hn2
                · rcases List.mem_append.mp hdep with hd2 | hd2
                  · have h1 := hD0 dep hd2
                    exact ⟨h1.1, h1.2⟩
                  · have he := List.mem_singleton.mp hd2
                    subst he
                    dsimp only
                    exact ⟨by omega, by omega⟩
                rcases List.mem_cons.mp hn2 with rfl | hn3
                · have he := List.mem_singleton.mp hdep
                  subst he
                  dsimp only
                  exact ⟨by omega, by omega⟩
                cases hn3
              · intro h00
                exact absurd h00 hz
              · intro _ h00
                exact absurd h00 hz
            · have hbody : dlrm_fwd_body c lbl idx (fc0, st) = .ok
                  (some st.next_node_id,
                  { st with
                    next_node_id := st.next_node_id + 1,
                    layers := st.layers.set idx
                      { layer with
                        fwd_comp_node := some st.next_node_id },
                    out := st.out ++
                      [{ id := st.next_node_id,
                         name := "COMP_NODE_" ++ layer.name ++ "_" ++ "FWD",
                         ntype := .COMP_NODE,
                         duration_micros := layer.fwd_comp_time,
                         attr := [],
                         data_deps := (match layer.bwd_wg_comm_node with
                           | some v => [v]
                           | none => match layer.bwd_wg_comp_node with
                             | some v => [v]
                             | none => []) ++ [w],
                         role := "FWD" }] }) := by
                unfold dlrm_fwd_body
                simp only [hly, if_neg hz, hpl, hpc, add_parent,
                  if_neg hlbl, if_neg hat, get_comp_node, get_node,
                  setLayer, emit, List.get?_set_eq, Option.map_some',
                  List.set_set]
                cases layer.bwd_wg_comm_node <;>
                  cases layer.bwd_wg_comp_node <;> simp
              rw [hbody] at hb
              cases hb
              refine dlrm_fwd_finish lbl L idx st _ layer _ _ hidx hly hIS
                hlen hbs hf0 hf0n hfresh hf0d rfl rfl rfl rfl (by simp) rfl
                ?_ rfl rfl ⟨rfl, rfl, rfl, rfl⟩ ?_ ?_
              · intro n hn dep hdep
                rcases List.mem_cons.mp hn with rfl | hn2
                · rcases List.mem_append.mp hdep with hd2 | hd2
                  · have h1 := hD0 dep hd2
                    exact ⟨h1.1, h1.2⟩
                  · have he := List.mem_singleton.mp hd2
                    subst he
                    dsimp only
                    exact ⟨by omega, by omega⟩
                cases hn2
              · intro h00
                exact absurd h00 hz
              · intro _ h00
                exact absurd h00 hz

theorem dlrm_bwd_step (c : Converter) (lbl : Int) (L : Nat) (fc : Option Nat)
    (idx : Nat) (st st' : St) (hidx : idx < L)
    (hP : InvS st ∧ st.layers.length = L ∧ DlrmBwdLB st ∧ DlrmF0 st ∧
      DlrmF0N lbl st ∧ SlotLB st.traces.flatten.length st.next_node_id fc)
    (hb : dlrm_bwd_body c lbl fc idx st = .ok st') :
    InvS st' ∧ st'.layers.length = L ∧ DlrmBwdLB st' ∧ DlrmF0 st' ∧
      DlrmF0N lbl st' ∧
      SlotLB st'.traces.flatten.length st'.next_node_id fc := by
  obtain ⟨hIS, hlen, hbs, hf0, hf0n, hfc⟩ := hP
  have hbase := hIS.toInvW.base_le
  cases hly : st.layers.get? (st.layers.length - 1 - idx) with
  | none =>
    rw [List.get?_eq_none] at hly
    omega
  | some layer =>
    have hmem := hbs layer (List.get?_mem hly)
    by_cases hz : idx = 0
    · subst hz
      have hlyE : st.layers[st.layers.length - 1]? = some layer := by
        rw [← List.get?_eq_getElem?]
        exact hly
      cases hfcc : fc with
      | none =>
        have hbody : dlrm_bwd_body c lbl fc 0 st = .error
            "ValueError: fwd_comp_node is None" := by
          unfold dlrm_bwd_body
          simp only [hly, if_pos rfl, if_true, hfcc, add_parent, add_parent_if, get_comp_node, get_node, setLayer, emit, List.get?_set_eq, Option.map_some', List.set_set, List.get?_eq_getElem?, List.getElem?_set_self', Option.map_eq_map, Function.const, Nat.sub_zero]
          all_goals simp [hlyE]
        rw [hbody] at hb
        cases hb
      | some fid =>
        have hfid := hfc fid hfcc
        rw [hfcc] at hfc
        by_cases hnn : layer.bwd_wg_comm_type = "NONE" <;>
          by_cases hlast : (0 : Nat) = st.layers.length - 1 <;>
          by_cases hbr : (st.layers.length : Int) - ((0 : Nat) : Int) - 1 = lbl + 1
        -- case nn=True last=True br=True
        ·
          have hq0 : st.layers.length - 1 = 0 := by omega
          have hlyE0 : st.layers[0]? = some layer := by
            rw [← List.get?_eq_getElem?, ← hq0]
            exact hly
          have hbody : dlrm_bwd_body c lbl fc 0 st = .error
              "ValueError: bwd_ig_comp_node is None" := by
            unfold dlrm_bwd_body
            simp only [hly, if_pos rfl, if_true, hfcc, add_parent, add_parent_if, get_comp_node, get_node, if_pos hnn, if_pos hlast, hq0, if_pos hbr, hlyE0, setLayer, emit, List.get?_set_eq, Option.map_some', List.set_set, List.get?_eq_getElem?, List.getElem?_set_self', Option.map_eq_map, Function.const, Nat.sub_zero]
            all_goals simp [hlyE0]
          rw [hbody] at hb
          cases hb
        -- case nn=True last=True br=False
        ·
          have hq0 : st.layers.length - 1 = 0 := by omega
          have hlyE0 : st.layers[0]? = some layer := by
            rw [← List.get?_eq_getElem?, ← hq0]
            exact hly
          have hbody : dlrm_bwd_body c lbl fc 0 st = .ok
              { st with
                              next_node_id := st.next_node_id + 1,
                              layers := st.layers.set (st.layers.length - 1 - 0)
                                  { layer with
                                    bwd_wg_comp_node := some st.next_node_id },
                              out := st.out ++
                                [{ id := st.next_node_id,
                                    name := "COMP_NODE_" ++ layer.name ++ "_" ++ "BWD_WG",
                                    ntype := .COMP_NODE,
                                    duration_micros := layer.bwd_wg_comp_time,
                                    attr := [],
                                    data_deps := [fid],
                                    role := "BWD_WG" }] }
              := by
            unfold dlrm_bwd_body
            simp only [hly, if_pos rfl, if_true, hfcc, add_parent, add_parent_if, get_comp_node, get_node, if_pos hnn, if_pos hlast, hq0, if_neg hbr, setLayer, emit, List.get?_set_eq, Option.map_some', List.set_set, List.get?_eq_getElem?, List.getElem?_set_self', Option.map_eq_map, Function.const, Nat.sub_zero, hlyE0]
            all_goals simp [hlyE0]
          rw [hbody] at hb
          cases hb
          refine dlrm_bwd_finish1 lbl L 0 st
            ({ st with
                           next_node_id := st.next_node_id + 1,
                           layers := st.layers.set (st.layers.length - 1 - 0)
                               { layer with
                                 bwd_wg_comp_node := some st.next_node_id },
                           out := st.out ++
                             [{ id := st.next_node_id,
                                 name := "COMP_NODE_" ++ layer.name ++ "_" ++ "BWD_WG",
                                 ntype := .COMP_NODE,
                                 duration_micros := layer.bwd_wg_comp_time,
                                 attr := [],
                                 data_deps := [fid],
                                 role := "BWD_WG" }] })
            layer
            ({ layer with
                           bwd_wg_comp_node := some st.next_node_id })
            (some fid)
            ([{ id := st.next_node_id,
                             name := "COMP_NODE_" ++ layer.name ++ "_" ++ "BWD_WG",
                             ntype := .COMP_NODE,
                             duration_micros := layer.bwd_wg_comp_time,
                             attr := [],
                             data_deps := [fid],
                             role := "BWD_WG" }])
            hidx hly hIS hlen hbs hf0 hf0n hfc
            rfl rfl rfl rfl rfl ?_ ?_ rfl rfl
          · intro nd hnd dep hdep
            rcases List.mem_cons.mp hnd with rfl | hnd1
            · have he := List.mem_singleton.mp hdep
              subst he
              dsimp only
              exact ⟨by omega, by omega⟩
            cases hnd1
          · refine ⟨?_, ?_, ?_, ?_⟩
            · exact (hmem.1).mono (Nat.le_add_right _ _)
            · exact (hmem.2.1).mono (Nat.le_add_right _ _)
            · intro v hv
              have hvv := Option.some.inj
                (show some (st.next_node_id) = some v from hv)
              refine ⟨by omega, ?_⟩
              show v < st.next_node_id + 1
              omega
            · exact (hmem.2.2.2).mono (Nat.le_add_right _ _)
        -- case nn=True last=False br=True
        ·
          have hqne : st.layers.length - 1 ≠ 0 := by omega
          cases hl0g : st.layers.get? 0 with
          | none =>
            rw [List.get?_eq_none] at hl0g
            omega
          | some l0 =>
            have hl0E : st.layers[0]? = some l0 := by
              rw [← List.get?_eq_getElem?]
              exact hl0g
            have hl0mem := hbs l0 (List.get?_mem hl0g)
            have hbody : dlrm_bwd_body c lbl fc 0 st = .ok
                { st with
                                  next_node_id := st.next_node_id + 3,
                                  layers := (st.layers.set (st.layers.length - 1 - 0)
                                      { layer with
                                        bwd_wg_comp_node := some st.next_node_id,
                                        bwd_ig_comp_node := some (st.next_node_id + 1) }).set 0
                                      { l0 with
                                        bwd_ig_comm_node := some (st.next_node_id + 1 + 1) },
                                  out := st.out ++
                                    [{ id := st.next_node_id,
                                        name := "COMP_NODE_" ++ layer.name ++ "_" ++ "BWD_WG",
                                        ntype := .COMP_NODE,
                                        duration_micros := layer.bwd_wg_comp_time,
                                        attr := [],
                                        data_deps := [fid],
                                        role := "BWD_WG" },
                                     { id := st.next_node_id + 1,
                                        name := "COMP_NODE_" ++ layer.name ++ "_" ++ "BWD_IG",
                                        ntype := .COMP_NODE,
                                        duration_micros := layer.bwd_ig_comp_time,
                                        attr := [],
                                        data_deps := [st.next_node_id], role := "BWD_IG" },
                                     { id := st.next_node_id + 1 + 1,
                                        name := "COMM_COLL_NODE_" ++ l0.name ++ "_" ++
                                          l0.bwd_ig_comm_type,
                                        ntype := .COMM_COLL_NODE, duration_micros := 0,
                                        attr := [⟨"comm_type",
                                            .int64 (get_comm_type l0.bwd_ig_comm_type)⟩,
                                          ⟨"comm_size", .uint64 l0.bwd_ig_comm_size⟩,
                                          involvedDimAll c.num_dims],
                                        data_deps := [st.next_node_id + 1], role := "BWD_IG" }] }
                := by
              unfold dlrm_bwd_body
              simp only [hly, if_pos rfl, if_true, hfcc, add_parent, add_parent_if, get_comp_node, get_node, if_pos hnn, if_neg hlast, get_comm_coll_node, if_pos hbr, hl0E, List.getElem?_set_ne hqne, setLayer, emit, List.get?_set_eq, Option.map_some', List.set_set, List.get?_eq_getElem?, List.getElem?_set_self', Option.map_eq_map, Function.const, Nat.sub_zero, hlyE]
              all_goals simp [hlyE]
            rw [hbody] at hb
            cases hb
            refine dlrm_bwd_finish2 lbl L 0 st
              ({ st with
                               next_node_id := st.next_node_id + 3,
                               layers := (st.layers.set (st.layers.length - 1 - 0)
                                   { layer with
                                     bwd_wg_comp_node := some st.next_node_id,
                                     bwd_ig_comp_node := some (st.next_node_id + 1) }).set 0
                                   { l0 with
                                     bwd_ig_comm_node := some (st.next_node_id + 1 + 1) },
                               out := st.out ++
                                 [{ id := st.next_node_id,
                                     name := "COMP_NODE_" ++ layer.name ++ "_" ++ "BWD_WG",
                                     ntype := .COMP_NODE,
                                     duration_micros := layer.bwd_wg_comp_time,
                                     attr := [],
                                     data_deps := [fid],
                                     role := "BWD_WG" },
                                  { id := st.next_node_id + 1,
                                     name := "COMP_NODE_" ++ layer.name ++ "_" ++ "BWD_IG",
                                     ntype := .COMP_NODE,
                                     duration_micros := layer.bwd_ig_comp_time,
                                     attr := [],
                                     data_deps := [st.next_node_id], role := "BWD_IG" },
                                  { id := st.next_node_id + 1 + 1,
                                     name := "COMM_COLL_NODE_" ++ l0.name ++ "_" ++
                                       l0.bwd_ig_comm_type,
                                     ntype := .COMM_COLL_NODE, duration_micros := 0,
                                     attr := [⟨"comm_type",
                                         .int64 (get_comm_type l0.bwd_ig_comm_type)⟩,
                                       ⟨"comm_size", .uint64 l0.bwd_ig_comm_size⟩,
                                       involvedDimAll c.num_dims],
                                     data_deps := [st.next_node_id + 1], role := "BWD_IG" }] })
              layer
              ({ layer with
                               bwd_wg_comp_node := some st.next_node_id,
                               bwd_ig_comp_node := some (st.next_node_id + 1) })
              l0
              ({ l0 with
                               bwd_ig_comm_node := some (st.next_node_id + 1 + 1) })
              (some fid)
              ([{ id := st.next_node_id,
                                 name := "COMP_NODE_" ++ layer.name ++ "_" ++ "BWD_WG",
                                 ntype := .COMP_NODE,
                                 duration_micros := layer.bwd_wg_comp_time,
                                 attr := [],
                                 data_deps := [fid],
                                 role := "BWD_WG" },
                              { id := st.next_node_id + 1,
                                 name := "COMP_NODE_" ++ layer.name ++ "_" ++ "BWD_IG",
                                 ntype := .COMP_NODE,
                                 duration_micros := layer.bwd_ig_comp_time,
                                 attr := [],
                                 data_deps := [st.next_node_id], role := "BWD_IG" },
                              { id := st.next_node_id + 1 + 1,
                                 name := "COMM_COLL_NODE_" ++ l0.name ++ "_" ++
                                   l0.bwd_ig_comm_type,
                                 ntype := .COMM_COLL_NODE, duration_micros := 0,
                                 attr := [⟨"comm_type",
                                     .int64 (get_comm_type l0.bwd_ig_comm_type)⟩,
                                   ⟨"comm_size", .uint64 l0.bwd_ig_comm_size⟩,
                                   involvedDimAll c.num_dims],
                                 data_deps := [st.next_node_id + 1], role := "BWD_IG" }])
              hidx hly hqne hl0g hIS hlen hbs hf0 hf0n hfc
              rfl rfl rfl rfl rfl ?_ ?_ ?_ rfl rfl
            · intro nd hnd dep hdep
              rcases List.mem_cons.mp hnd with rfl | hnd1
              · have he := List.mem_singleton.mp hdep
                subst he
                dsimp only
                exact ⟨by omega, by omega⟩
              rcases List.mem_cons.mp hnd1 with rfl | hnd2
              · have he := List.mem_singleton.mp hdep
                subst he
                dsimp only
                exact ⟨by omega, by omega⟩
              rcases List.mem_cons.mp hnd2 with rfl | hnd3
              · have he := List.mem_singleton.mp hdep
                subst he
                dsimp only
                exact ⟨by omega, by omega⟩
              cases hnd3
            · refine ⟨?_, ?_, ?_, ?_⟩
              · intro v hv
                have hvv := Option.some.inj
                  (show some (st.next_node_id + 1) = some v from hv)
                refine ⟨by omega, ?_⟩
                show v < st.next_node_id + 3
                omega
              · exact (hmem.2.1).mono (Nat.le_add_right _ _)
              · intro v hv
                have hvv := Option.some.inj
                  (show some (st.next_node_id) = some v from hv)
                refine ⟨by omega, ?_⟩
                show v < st.next_node_id + 3
                omega
              · exact (hmem.2.2.2).mono (Nat.le_add_right _ _)
            · refine ⟨?_, ?_, ?_, ?_⟩
              · exact (hl0mem.1).mono (Nat.le_add_right _ _)
              · intro v hv
                have hvv := Option.some.inj
                  (show some (st.next_node_id + 1 + 1) = some v from hv)
                refine ⟨by omega, ?_⟩
                show v < st.next_node_id + 3
                omega
              · exact (hl0mem.2.2.1).mono (Nat.le_add_right _ _)
              · exact (hl0mem.2.2.2).mono (Nat.le_add_right _ _)
        -- case nn=True last=False br=False
        ·
          have hqne : st.layers.length - 1 ≠ 0 := by omega
          have hbody : dlrm_bwd_body c lbl fc 0 st = .ok
              { st with
                              next_node_id := st.next_node_id + 2,
                              layers := st.layers.set (st.layers.length - 1 - 0)
                                  { layer with
                                    bwd_wg_comp_node := some st.next_node_id,
                                    bwd_ig_comp_node := some (st.next_node_id + 1) },
                              out := st.out ++
                                [{ id := st.next_node_id,
                                    name := "COMP_NODE_" ++ layer.name ++ "_" ++ "BWD_WG",
                                    ntype := .COMP_NODE,
                                    duration_micros := layer.bwd_wg_comp_time,
                                    attr := [],
                                    data_deps := [fid],
                                    role := "BWD_WG" },
                                 { id := st.next_node_id + 1,
                                    name := "COMP_NODE_" ++ layer.name ++ "_" ++ "BWD_IG",
                                    ntype := .COMP_NODE,
                                    duration_micros := layer.bwd_ig_comp_time,
                                    attr := [],
                                    data_deps := [st.next_node_id], role := "BWD_IG" }] }
              := by
            unfold dlrm_bwd_body
            simp only [hly, if_pos rfl, if_true, hfcc, add_parent, add_parent_if, get_comp_node, get_node, if_pos hnn, if_neg hlast, get_comm_coll_node, if_neg hbr, setLayer, emit, List.get?_set_eq, Option.map_some', List.set_set, List.get?_eq_getElem?, List.getElem?_set_self', Option.map_eq_map, Function.const, Nat.sub_zero, hlyE]
            all_goals simp [hlyE]
          rw [hbody] at hb
          cases hb
          refine dlrm_bwd_finish1 lbl L 0 st
            ({ st with
                           next_node_id := st.next_node_id + 2,
                           layers := st.layers.set (st.layers.length - 1 - 0)
                               { layer with
                                 bwd_wg_comp_node := some st.next_node_id,
                                 bwd_ig_comp_node := some (st.next_node_id + 1) },
                           out := st.out ++
                             [{ id := st.next_node_id,
                                 name := "COMP_NODE_" ++ layer.name ++ "_" ++ "BWD_WG",
                                 ntype := .COMP_NODE,
                                 duration_micros := layer.bwd_wg_comp_time,
                                 attr := [],
                                 data_deps := [fid],
                                 role := "BWD_WG" },
                              { id := st.next_node_id + 1,
                                 name := "COMP_NODE_" ++ layer.name ++ "_" ++ "BWD_IG",
                                 ntype := .COMP_NODE,
                                 duration_micros := layer.bwd_ig_comp_time,
                                 attr := [],
                                 data_deps := [st.next_node_id], role := "BWD_IG" }] })
            layer
            ({ layer with
                           bwd_wg_comp_node := some st.next_node_id,
                           bwd_ig_comp_node := some (st.next_node_id + 1) })
            (some fid)
            ([{ id := st.next_node_id,
                             name := "COMP_NODE_" ++ layer.name ++ "_" ++ "BWD_WG",
                             ntype := .COMP_NODE,
                             duration_micros := layer.bwd_wg_comp_time,
                             attr := [],
                             data_deps := [fid],
                             role := "BWD_WG" },
                          { id := st.next_node_id + 1,
                             name := "COMP_NODE_" ++ layer.name ++ "_" ++ "BWD_IG",
                             ntype := .COMP_NODE,
                             duration_micros := layer.bwd_ig_comp_time,
                             attr := [],
                             data_deps := [st.next_node_id], role := "BWD_IG" }])
            hidx hly hIS hlen hbs hf0 hf0n hfc
            rfl rfl rfl rfl rfl ?_ ?_ rfl rfl
          · intro nd hnd dep hdep
            rcases List.mem_cons.mp hnd with rfl | hnd1
            · have he := List.mem_singleton.mp hdep
              subst he
              dsimp only
              exact ⟨by omega, by omega⟩
            rcases List.mem_cons.mp hnd1 with rfl | hnd2
            · have he := List.mem_singleton.mp hdep
              subst he
              dsimp only
              exact ⟨by omega, by omega⟩
            cases hnd2
          · refine ⟨?_, ?_, ?_, ?_⟩
            · intro v hv
              have hvv := Option.some.inj
                (show some (st.next_node_id + 1) = some v from hv)
              refine ⟨by omega, ?_⟩
              show v < st.next_node_id + 2
              omega
            · exact (hmem.2.1).mono (Nat.le_add_right _ _)
            · intro v hv
              have hvv := Option.some.inj
                (show some (st.next_node_id) = some v from hv)
              refine ⟨by omega, ?_⟩
              show v < st.next_node_id + 2
              omega
            · exact (hmem.2.2.2).mono (Nat.le_add_right _ _)
        -- case nn=False last=True br=True
        ·
          have hq0 : st.layers.length - 1 = 0 := by omega
          have hlyE0 : st.layers[0]? = some layer := by
            rw [← List.get?_eq_getElem?, ← hq0]
            exact hly
          have hbody : dlrm_bwd_body c lbl fc 0 st = .error
              "ValueError: bwd_ig_comp_node is None" := by
            unfold dlrm_bwd_body
            simp only [hly, if_pos rfl, if_true, hfcc, add_parent, add_parent_if, get_comp_node, get_node, if_neg hnn, get_comm_coll_node, if_pos hlast, hq0, if_pos hbr, hlyE0, setLayer, emit, List.get?_set_eq, Option.map_some', List.set_set, List.get?_eq_getElem?, List.getElem?_set_self', Option.map_eq_map, Function.const, Nat.sub_zero]
            all_goals simp [hlyE0]
          rw [hbody] at hb
          cases hb
        -- case nn=False last=True br=False
        ·
          have hq0 : st.layers.length - 1 = 0 := by omega
          have hlyE0 : st.layers[0]? = some layer := by
            rw [← List.get?_eq_getElem?, ← hq0]
            exact hly
          have hbody : dlrm_bwd_body c lbl fc 0 st = .ok
              { st with
                              next_node_id := st.next_node_id + 2,
                              layers := st.layers.set (st.layers.length - 1 - 0)
                                  { layer with
                                    bwd_wg_comp_node := some st.next_node_id,
                                    bwd_wg_comm_node := some (st.next_node_id + 1) },
                              out := st.out ++
                                [{ id := st.next_node_id,
                                    name := "COMP_NODE_" ++ layer.name ++ "_" ++ "BWD_WG",
                                    ntype := .COMP_NODE,
                                    duration_micros := layer.bwd_wg_comp_time,
                                    attr := [],
                                    data_deps := [fid],
                                    role := "BWD_WG" },
                                 { id := st.next_node_id + 1,
                                    name := "COMM_COLL_NODE_" ++ layer.name ++ "_" ++
                                      layer.bwd_wg_comm_type,
                                    ntype := .COMM_COLL_NODE, duration_micros := 0,
                                    attr := [⟨"comm_type",
                                        .int64 (get_comm_type layer.bwd_wg_comm_type)⟩,
                                      ⟨"comm_size", .uint64 layer.bwd_wg_comm_size⟩,
                                      involvedDimAll c.num_dims],
                                    data_deps := [st.next_node_id], role := "BWD_WG" }] }
              := by
            unfold dlrm_bwd_body
            simp only [hly, if_pos rfl, if_true, hfcc, add_parent, add_parent_if, get_comp_node, get_node, if_neg hnn, get_comm_coll_node, if_pos hlast, hq0, if_neg hbr, setLayer, emit, List.get?_set_eq, Option.map_some', List.set_set, List.get?_eq_getElem?, List.getElem?_set_self', Option.map_eq_map, Function.const, Nat.sub_zero, hlyE0]
            all_goals simp [hlyE0]
          rw [hbody] at hb
          cases hb
          refine dlrm_bwd_finish1 lbl L 0 st
            ({ st with
                           next_node_id := st.next_node_id + 2,
                           layers := st.layers.set (st.layers.length - 1 - 0)
                               { layer with
                                 bwd_wg_comp_node := some st.next_node_id,
                                 bwd_wg_comm_node := some (st.next_node_id + 1) },
                           out := st.out ++
                             [{ id := st.next_node_id,
                                 name := "COMP_NODE_" ++ layer.name ++ "_" ++ "BWD_WG",
                                 ntype := .COMP_NODE,
                                 duration_micros := layer.bwd_wg_comp_time,
                                 attr := [],
                                 data_deps := [fid],
                                 role := "BWD_WG" },
                              { id := st.next_node_id + 1,
                                 name := "COMM_COLL_NODE_" ++ layer.name ++ "_" ++
                                   layer.bwd_wg_comm_type,
                                 ntype := .COMM_COLL_NODE, duration_micros := 0,
                                 attr := [⟨"comm_type",
                                     .int64 (get_comm_type layer.bwd_wg_comm_type)⟩,
                                   ⟨"comm_size", .uint64 layer.bwd_wg_comm_size⟩,
                                   involvedDimAll c.num_dims],
                                 data_deps := [st.next_node_id], role := "BWD_WG" }] })
            layer
            ({ layer with
                           bwd_wg_comp_node := some st.next_node_id,
                           bwd_wg_comm_node := some (st.next_node_id + 1) })
            (some fid)
            ([{ id := st.next_node_id,
                             name := "COMP_NODE_" ++ layer.name ++ "_" ++ "BWD_WG",
                             ntype := .COMP_NODE,
                             duration_micros := layer.bwd_wg_comp_time,
                             attr := [],
                             data_deps := [fid],
                             role := "BWD_WG" },
                          { id := st.next_node_id + 1,
                             name := "COMM_COLL_NODE_" ++ layer.name ++ "_" ++
                               layer.bwd_wg_comm_type,
                             ntype := .COMM_COLL_NODE, duration_micros := 0,
                             attr := [⟨"comm_type",
                                 .int64 (get_comm_type layer.bwd_wg_comm_type)⟩,
                               ⟨"comm_size", .uint64 layer.bwd_wg_comm_size⟩,
                               involvedDimAll c.num_dims],
                             data_deps := [st.next_node_id], role := "BWD_WG" }])
            hidx hly hIS hlen hbs hf0 hf0n hfc
            rfl rfl rfl rfl rfl ?_ ?_ rfl rfl
          · intro nd hnd dep hdep
            rcases List.mem_cons.mp hnd with rfl | hnd1
            · have he := List.mem_singleton.mp hdep
              subst he
              dsimp only
              exact ⟨by omega, by omega⟩
            rcases List.mem_cons.mp hnd1 with rfl | hnd2
            · have he := List.mem_singleton.mp hdep
              subst he
              dsimp only
              exact ⟨by omega, by omega⟩
            cases hnd2
          · refine ⟨?_, ?_, ?_, ?_⟩
            · exact (hmem.1).mono (Nat.le_add_right _ _)
            · exact (hmem.2.1).mono (Nat.le_add_right _ _)
            · intro v hv
              have hvv := Option.some.inj
                (show some (st.next_node_id) = some v from hv)
              refine ⟨by omega, ?_⟩
              show v < st.next_node_id + 2
              omega
            · intro v hv
              have hvv := Option.some.inj
                (show some (st.next_node_id + 1) = some v from hv)
              refine ⟨by omega, ?_⟩
              show v < st.next_node_id + 2
              omega
        -- case nn=False last=False br=True
        ·
          have hqne : st.layers.length - 1 ≠ 0 := by omega
          cases hl0g : st.layers.get? 0 with
          | none =>
            rw [List.get?_eq_none] at hl0g
            omega
          | some l0 =>
            have hl0E : st.layers[0]? = some l0 := by
              rw [← List.get?_eq_getElem?]
              exact hl0g
            have hl0mem := hbs l0 (List.get?_mem hl0g)
            have hbody : dlrm_bwd_body c lbl fc 0 st = .ok
                { st with
                                  next_node_id := st.next_node_id + 4,
                                  layers := (st.layers.set (st.layers.length - 1 - 0)
                                      { layer with
                                        bwd_wg_comp_node := some st.next_node_id,
                                        bwd_wg_comm_node := some (st.next_node_id + 1),
                                        bwd_ig_comp_node := some (st.next_node_id + 1 + 1) }).set 0
                                      { l0 with
                                        bwd_ig_comm_node := some (st.next_node_id + 1 + 1 + 1) },
                                  out := st.out ++
                                    [{ id := st.next_node_id,
                                        name := "COMP_NODE_" ++ layer.name ++ "_" ++ "BWD_WG",
                                        ntype := .COMP_NODE,
                                        duration_micros := layer.bwd_wg_comp_time,
                                        attr := [],
                                        data_deps := [fid],
                                        role := "BWD_WG" },
                                     { id := st.next_node_id + 1,
                                        name := "COMM_COLL_NODE_" ++ layer.name ++ "_" ++
                                          layer.bwd_wg_comm_type,
                                        ntype := .COMM_COLL_NODE, duration_micros := 0,
                                        attr := [⟨"comm_type",
                                            .int64 (get_comm_type layer.bwd_wg_comm_type)⟩,
                                          ⟨"comm_size", .uint64 layer.bwd_wg_comm_size⟩,
                                          involvedDimAll c.num_dims],
                                        data_deps := [st.next_node_id], role := "BWD_WG" },
                                     { id := st.next_node_id + 1 + 1,
                                        name := "COMP_NODE_" ++ layer.name ++ "_" ++ "BWD_IG",
                                        ntype := .COMP_NODE,
                                        duration_micros := layer.bwd_ig_comp_time,
                                        attr := [],
                                        data_deps := [st.next_node_id], role := "BWD_IG" },
                                     { id := st.next_node_id + 1 + 1 + 1,
                                        name := "COMM_COLL_NODE_" ++ l0.name ++ "_" ++
                                          l0.bwd_ig_comm_type,
                                        ntype := .COMM_COLL_NODE, duration_micros := 0,
                                        attr := [⟨"comm_type",
                                            .int64 (get_comm_type l0.bwd_ig_comm_type)⟩,
                                          ⟨"comm_size", .uint64 l0.bwd_ig_comm_size⟩,
                                          involvedDimAll c.num_dims],
                                        data_deps := [st.next_node_id + 1 + 1], role := "BWD_IG" }] }
                := by
              unfold dlrm_bwd_body
              simp only [hly, if_pos rfl, if_true, hfcc, add_parent, add_parent_if, get_comp_node, get_node, if_neg hnn, get_comm_coll_node, if_neg hlast, if_pos hbr, hl0E, List.getElem?_set_ne hqne, setLayer, emit, List.get?_set_eq, Option.map_some', List.set_set, List.get?_eq_getElem?, List.getElem?_set_self', Option.map_eq_map, Function.const, Nat.sub_zero, hlyE]
              all_goals simp [hlyE]
            rw [hbody] at hb
            cases hb
            refine dlrm_bwd_finish2 lbl L 0 st
              ({ st with
                               next_node_id := st.next_node_id + 4,
                               layers := (st.layers.set (st.layers.length - 1 - 0)
                                   { layer with
                                     bwd_wg_comp_node := some st.next_node_id,
                                     bwd_wg_comm_node := some (st.next_node_id + 1),
                                     bwd_ig_comp_node := some (st.next_node_id + 1 + 1) }).set 0
                                   { l0 with
                                     bwd_ig_comm_node := some (st.next_node_id + 1 + 1 + 1) },
                               out := st.out ++
                                 [{ id := st.next_node_id,
                                     name := "COMP_NODE_" ++ layer.name ++ "_" ++ "BWD_WG",
                                     ntype := .COMP_NODE,
                                     duration_micros := layer.bwd_wg_comp_time,
                                     attr := [],
                                     data_deps := [fid],
                                     role := "BWD_WG" },
                                  { id := st.next_node_id + 1,
                                     name := "COMM_COLL_NODE_" ++ layer.name ++ "_" ++
                                       layer.bwd_wg_comm_type,
                                     ntype := .COMM_COLL_NODE, duration_micros := 0,
                                     attr := [⟨"comm_type",
                                         .int64 (get_comm_type layer.bwd_wg_comm_type)⟩,
                                       ⟨"comm_size", .uint64 layer.bwd_wg_comm_size⟩,
                                       involvedDimAll c.num_dims],
                                     data_deps := [st.next_node_id], role := "BWD_WG" },
                                  { id := st.next_node_id + 1 + 1,
                                     name := "COMP_NODE_" ++ layer.name ++ "_" ++ "BWD_IG",
                                     ntype := .COMP_NODE,
                                     duration_micros := layer.bwd_ig_comp_time,
                                     attr := [],
                                     data_deps := [st.next_node_id], role := "BWD_IG" },
                                  { id := st.next_node_id + 1 + 1 + 1,
                                     name := "COMM_COLL_NODE_" ++ l0.name ++ "_" ++
                                       l0.bwd_ig_comm_type,
                                     ntype := .COMM_COLL_NODE, duration_micros := 0,
                                     attr := [⟨"comm_type",
                                         .int64 (get_comm_type l0.bwd_ig_comm_type)⟩,
                                       ⟨"comm_size", .uint64 l0.bwd_ig_comm_size⟩,
                                       involvedDimAll c.num_dims],
                                     data_deps := [st.next_node_id + 1 + 1], role := "BWD_IG" }] })
              layer
              ({ layer with
                               bwd_wg_comp_node := some st.next_node_id,
                               bwd_wg_comm_node := some (st.next_node_id + 1),
                               bwd_ig_comp_node := some (st.next_node_id + 1 + 1) })
              l0
              ({ l0 with
                               bwd_ig_comm_node := some (st.next_node_id + 1 + 1 + 1) })
              (some fid)
              ([{ id := st.next_node_id,
                                 name := "COMP_NODE_" ++ layer.name ++ "_" ++ "BWD_WG",
                                 ntype := .COMP_NODE,
                                 duration_micros := layer.bwd_wg_comp_time,
                                 attr := [],
                                 data_deps := [fid],
                                 role := "BWD_WG" },
                              { id := st.next_node_id + 1,
                                 name := "COMM_COLL_NODE_" ++ layer.name ++ "_" ++
                                   layer.bwd_wg_comm_type,
                                 ntype := .COMM_COLL_NODE, duration_micros := 0,
                                 attr := [⟨"comm_type",
                                     .int64 (get_comm_type layer.bwd_wg_comm_type)⟩,
                                   ⟨"comm_size", .uint64 layer.bwd_wg_comm_size⟩,
                                   involvedDimAll c.num_dims],
                                 data_deps := [st.next_node_id], role := "BWD_WG" },
                              { id := st.next_node_id + 1 + 1,
                                 name := "COMP_NODE_" ++ layer.name ++ "_" ++ "BWD_IG",
                                 ntype := .COMP_NODE,
                                 duration_micros := layer.bwd_ig_comp_time,
                                 attr := [],
                                 data_deps := [st.next_node_id], role := "BWD_IG" },
                              { id := st.next_node_id + 1 + 1 + 1,
                                 name := "COMM_COLL_NODE_" ++ l0.name ++ "_" ++
                                   l0.bwd_ig_comm_type,
                                 ntype := .COMM_COLL_NODE, duration_micros := 0,
                                 attr := [⟨"comm_type",
                                     .int64 (get_comm_type l0.bwd_ig_comm_type)⟩,
                                   ⟨"comm_size", .uint64 l0.bwd_ig_comm_size⟩,
                                   involvedDimAll c.num_dims],
                                 data_deps := [st.next_node_id + 1 + 1], role := "BWD_IG" }])
              hidx hly hqne hl0g hIS hlen hbs hf0 hf0n hfc
              rfl rfl rfl rfl rfl ?_ ?_ ?_ rfl rfl
            · intro nd hnd dep hdep
              rcases List.mem_cons.mp hnd with rfl | hnd1
              · have he := List.mem_singleton.mp hdep
                subst he
                dsimp only
                exact ⟨by omega, by omega⟩
              rcases List.mem_cons.mp hnd1 with rfl | hnd2
              · have he := List.mem_singleton.mp hdep
                subst he
                dsimp only
                exact ⟨by omega, by omega⟩
              rcases List.mem_cons.mp hnd2 with rfl | hnd3
              · have he := List.mem_singleton.mp hdep
                subst he
                dsimp only
                exact ⟨by omega, by omega⟩
              rcases List.mem_cons.mp hnd3 with rfl | hnd4
              · have he := List.mem_singleton.mp hdep
                subst he
                dsimp only
                exact ⟨by omega, by omega⟩
              cases hnd4
            · refine ⟨?_, ?_, ?_, ?_⟩
              · intro v hv
                have hvv := Option.some.inj
                  (show some (st.next_node_id + 1 + 1) = some v from hv)
                refine ⟨by omega, ?_⟩
                show v < st.next_node_id + 4
                omega
              · exact (hmem.2.1).mono (Nat.le_add_right _ _)
              · intro v hv
                have hvv := Option.some.inj
                  (show some (st.next_node_id) = some v from hv)
                refine ⟨by omega, ?_⟩
                show v < st.next_node_id + 4
                omega
              · intro v hv
                have hvv := Option.some.inj
                  (show some (st.next_node_id + 1) = some v from hv)
                refine ⟨by omega, ?_⟩
                show v < st.next_node_id + 4
                omega
            · refine ⟨?_, ?_, ?_, ?_⟩
              · exact (hl0mem.1).mono (Nat.le_add_right _ _)
              · intro v hv
                have hvv := Option.some.inj
                  (show some (st.next_node_id + 1 + 1 + 1) = some v from hv)
                refine ⟨by omega, ?_⟩
                show v < st.next_node_id + 4
                omega
              · exact (hl0mem.2.2.1).mono (Nat.le_add_right _ _)
              · exact (hl0mem.2.2.2).mono (Nat.le_add_right _ _)
        -- case nn=False last=False br=False
        ·
          have hqne : st.layers.length - 1 ≠ 0 := by omega
          have hbody : dlrm_bwd_body c lbl fc 0 st = .ok
              { st with
                              next_node_id := st.next_node_id + 3,
                              layers := st.layers.set (st.layers.length - 1 - 0)
                                  { layer with
                                    bwd_wg_comp_node := some st.next_node_id,
                                    bwd_wg_comm_node := some (st.next_node_id + 1),
                                    bwd_ig_comp_node := some (st.next_node_id + 1 + 1) },
                              out := st.out ++
                                [{ id := st.next_node_id,
                                    name := "COMP_NODE_" ++ layer.name ++ "_" ++ "BWD_WG",
                                    ntype := .COMP_NODE,
                                    duration_micros := layer.bwd_wg_comp_time,
                                    attr := [],
                                    data_deps := [fid],
                                    role := "BWD_WG" },
                                 { id := st.next_node_id + 1,
                                    name := "COMM_COLL_NODE_" ++ layer.name ++ "_" ++
                                      layer.bwd_wg_comm_type,
                                    ntype := .COMM_COLL_NODE, duration_micros := 0,
                                    attr := [⟨"comm_type",
                                        .int64 (get_comm_type layer.bwd_wg_comm_type)⟩,
                                      ⟨"comm_size", .uint64 layer.bwd_wg_comm_size⟩,
                                      involvedDimAll c.num_dims],
                                    data_deps := [st.next_node_id], role := "BWD_WG" },
                                 { id := st.next_node_id + 1 + 1,
                                    name := "COMP_NODE_" ++ layer.name ++ "_" ++ "BWD_IG",
                                    ntype := .COMP_NODE,
                                    duration_micros := layer.bwd_ig_comp_time,
                                    attr := [],
                                    data_deps := [st.next_node_id], role := "BWD_IG" }] }
              := by
            unfold dlrm_bwd_body
            simp only [hly, if_pos rfl, if_true, hfcc, add_parent, add_parent_if, get_comp_node, get_node, if_neg hnn, get_comm_coll_node, if_neg hlast, if_neg hbr, setLayer, emit, List.get?_set_eq, Option.map_some', List.set_set, List.get?_eq_getElem?, List.getElem?_set_self', Option.map_eq_map, Function.const, Nat.sub_zero, hlyE]
            all_goals simp [hlyE]
          rw [hbody] at hb
          cases hb
          refine dlrm_bwd_finish1 lbl L 0 st
            ({ st with
                           next_node_id := st.next_node_id + 3,
                           layers := st.layers.set (st.layers.length - 1 - 0)
                               { layer with
                                 bwd_wg_comp_node := some st.next_node_id,
                                 bwd_wg_comm_node := some (st.next_node_id + 1),
                                 bwd_ig_comp_node := some (st.next_node_id + 1 + 1) },
                           out := st.out ++
                             [{ id := st.next_node_id,
                                 name := "COMP_NODE_" ++ layer.name ++ "_" ++ "BWD_WG",
                                 ntype := .COMP_NODE,
                                 duration_micros := layer.bwd_wg_comp_time,
                                 attr := [],
                                 data_deps := [fid],
                                 role := "BWD_WG" },
                              { id := st.next_node_id + 1,
                                 name := "COMM_COLL_NODE_" ++ layer.name ++ "_" ++
                                   layer.bwd_wg_comm_type,
                                 ntype := .COMM_COLL_NODE, duration_micros := 0,
                                 attr := [⟨"comm_type",
                                     .int64 (get_comm_type layer.bwd_wg_comm_type)⟩,
                                   ⟨"comm_size", .uint64 layer.bwd_wg_comm_size⟩,
                                   involvedDimAll c.num_dims],
                                 data_deps := [st.next_node_id], role := "BWD_WG" },
                              { id := st.next_node_id + 1 + 1,
                                 name := "COMP_NODE_" ++ layer.name ++ "_" ++ "BWD_IG",
                                 ntype := .COMP_NODE,
                                 duration_micros := layer.bwd_ig_comp_time,
                                 attr := [],
                                 data_deps := [st.next_node_id], role := "BWD_IG" }] })
            layer
            ({ layer with
                           bwd_wg_comp_node := some st.next_node_id,
                           bwd_wg_comm_node := some (st.next_node_id + 1),
                           bwd_ig_comp_node := some (st.next_node_id + 1 + 1) })
            (some fid)
            ([{ id := st.next_node_id,
                             name := "COMP_NODE_" ++ layer.name ++ "_" ++ "BWD_WG",
                             ntype := .COMP_NODE,
                             duration_micros := layer.bwd_wg_comp_time,
                             attr := [],
                             data_deps := [fid],
                             role := "BWD_WG" },
                          { id := st.next_node_id + 1,
                             name := "COMM_COLL_NODE_" ++ layer.name ++ "_" ++
                               layer.bwd_wg_comm_type,
                             ntype := .COMM_COLL_NODE, duration_micros := 0,
                             attr := [⟨"comm_type",
                                 .int64 (get_comm_type layer.bwd_wg_comm_type)⟩,
                               ⟨"comm_size", .uint64 layer.bwd_wg_comm_size⟩,
                               involvedDimAll c.num_dims],
                             data_deps := [st.next_node_id], role := "BWD_WG" },
                          { id := st.next_node_id + 1 + 1,
                             name := "COMP_NODE_" ++ layer.name ++ "_" ++ "BWD_IG",
                             ntype := .COMP_NODE,
                             duration_micros := layer.bwd_ig_comp_time,
                             attr := [],
                             data_deps := [st.next_node_id], role := "BWD_IG" }])
            hidx hly hIS hlen hbs hf0 hf0n hfc
            rfl rfl rfl rfl rfl ?_ ?_ rfl rfl
          · intro nd hnd dep hdep
            rcases List.mem_cons.mp hnd with rfl | hnd1
            · have he := List.mem_singleton.mp hdep
              subst he
              dsimp only
              exact ⟨by omega, by omega⟩
            rcases List.mem_cons.mp hnd1 with rfl | hnd2
            · have he := List.mem_singleton.mp hdep
              subst he
              dsimp only
              exact ⟨by omega, by omega⟩
            rcases List.mem_cons.mp hnd2 with rfl | hnd3
            · have he := List.mem_singleton.mp hdep
              subst he
              dsimp only
              exact ⟨by omega, by omega⟩
            cases hnd3
          · refine ⟨?_, ?_, ?_, ?_⟩
            · intro v hv
              have hvv := Option.some.inj
                (show some (st.next_node_id + 1 + 1) = some v from hv)
              refine ⟨by omega, ?_⟩
              show v < st.next_node_id + 3
              omega
            · exact (hmem.2.1).mono (Nat.le_add_right _ _)
            · intro v hv
              have hvv := Option.some.inj
                (show some (st.next_node_id) = some v from hv)
              refine ⟨by omega, ?_⟩
              show v < st.next_node_id + 3
              omega
            · intro v hv
              have hvv := Option.some.inj
                (show some (st.next_node_id + 1) = some v from hv)
              refine ⟨by omega, ?_⟩
              show v < st.next_node_id + 3
              omega
    · have hlyE : st.layers[st.layers.length - 1 - idx]? = some layer := by
        rw [← List.get?_eq_getElem?]
        exact hly
      cases hnx : st.layers.get? (st.layers.length - idx) with
      | none =>
        rw [List.get?_eq_none] at hnx
        omega
      | some nxt =>
        have hly2 : st.layers.get? (st.layers.length - idx - 1) = some layer := by
          rw [show st.layers.length - idx - 1 = st.layers.length - 1 - idx from by omega]
          exact hly
        have hnmem := hbs nxt (List.get?_mem hnx)
        have hD12 : ∀ dep ∈ ((match nxt.bwd_ig_comp_node with
            | some v => ([v] : List Nat)
            | none => []) ++ (match layer.bwd_ig_comm_node with
            | some v => [v]
            | none => [])),
          st.traces.flatten.length ≤ dep ∧ dep < st.next_node_id := by
          intro dep hdep
          rcases List.mem_append.mp hdep with hd | hd
          · cases hig : nxt.bwd_ig_comp_node with
            | some v =>
              rw [hig] at hd
              have he := List.mem_singleton.mp hd
              subst he
              exact hnmem.1 dep hig
            | none =>
              rw [hig] at hd
              cases hd
          · cases hig : layer.bwd_ig_comm_node with
            | some v =>
              rw [hig] at hd
              have he := List.mem_singleton.mp hd
              subst he
              exact hmem.2.1 dep hig
            | none =>
              rw [hig] at hd
              cases hd
        by_cases hnn : layer.bwd_wg_comm_type = "NONE" <;>
          by_cases hlast : idx = st.layers.length - 1 <;>
          by_cases hbr : (st.layers.length : Int) - (idx : Int) - 1 = lbl + 1
        -- case nn=True last=True br=True
        ·
          have hq0 : st.layers.length - 1 - idx = 0 := by omega
          have hlyE0 : st.layers[0]? = some layer := by
            rw [← List.get?_eq_getElem?, ← hq0]
            exact hly
          have hbody : dlrm_bwd_body c lbl fc idx st = .error
              "ValueError: bwd_ig_comp_node is None" := by
            unfold dlrm_bwd_body
            simp only [hly, if_neg hz, hnx, hly2, add_parent, add_parent_if, get_comp_node, get_node, if_pos hnn, if_pos hlast, hq0, if_pos hbr, hlyE0, setLayer, emit, List.get?_set_eq, Option.map_some', List.set_set, List.get?_eq_getElem?, List.getElem?_set_self', Option.map_eq_map, Function.const]
            all_goals (cases nxt.bwd_ig_comp_node <;> cases layer.bwd_ig_comm_node <;> simp [hlyE0])
          rw [hbody] at hb
          cases hb
        -- case nn=True last=True br=False
        ·
          have hq0 : st.layers.length - 1 - idx = 0 := by omega
          have hlyE0 : st.layers[0]? = some layer := by
            rw [← List.get?_eq_getElem?, ← hq0]
            exact hly
          have hbody : dlrm_bwd_body c lbl fc idx st = .ok
              { st with
                              next_node_id := st.next_node_id + 1,
                              layers := st.layers.set (st.layers.length - 1 - idx)
                                  { layer with
                                    bwd_wg_comp_node := some st.next_node_id },
                              out := st.out ++
                                [{ id := st.next_node_id,
                                    name := "COMP_NODE_" ++ layer.name ++ "_" ++ "BWD_WG",
                                    ntype := .COMP_NODE,
                                    duration_micros := layer.bwd_wg_comp_time,
                                    attr := [],
                                    data_deps := ((match nxt.bwd_ig_comp_node with
                                                   | some v => [v]
                                                   | none => []) ++ (match layer.bwd_ig_comm_node with
                                                   | some v => [v]
                                                   | none => [])),
                                    role := "BWD_WG" }] }
              := by
            unfold dlrm_bwd_body
            simp only [hly, if_neg hz, hnx, hly2, add_parent, add_parent_if, get_comp_node, get_node, if_pos hnn, if_pos hlast, hq0, if_neg hbr, setLayer, emit, List.get?_set_eq, Option.map_some', List.set_set, List.get?_eq_getElem?, List.getElem?_set_self', Option.map_eq_map, Function.const, hlyE0]
            all_goals (cases nxt.bwd_ig_comp_node <;> cases layer.bwd_ig_comm_node <;> simp [hlyE0])
          rw [hbody] at hb
          cases hb
          refine dlrm_bwd_finish1 lbl L idx st
            ({ st with
                           next_node_id := st.next_node_id + 1,
                           layers := st.layers.set (st.layers.length - 1 - idx)
                               { layer with
                                 bwd_wg_comp_node := some st.next_node_id },
                           out := st.out ++
                             [{ id := st.next_node_id,
                                 name := "COMP_NODE_" ++ layer.name ++ "_" ++ "BWD_WG",
                                 ntype := .COMP_NODE,
                                 duration_micros := layer.bwd_wg_comp_time,
                                 attr := [],
                                 data_deps := ((match nxt.bwd_ig_comp_node with
                                                | some v => [v]
                                                | none => []) ++ (match layer.bwd_ig_comm_node with
                                                | some v => [v]
                                                | none => [])),
                                 role := "BWD_WG" }] })
            layer
            ({ layer with
                           bwd_wg_comp_node := some st.next_node_id })
            fc
            ([{ id := st.next_node_id,
                             name := "COMP_NODE_" ++ layer.name ++ "_" ++ "BWD_WG",
                             ntype := .COMP_NODE,
                             duration_micros := layer.bwd_wg_comp_time,
                             attr := [],
                             data_deps := ((match nxt.bwd_ig_comp_node with
                                            | some v => [v]
                                            | none => []) ++ (match layer.bwd_ig_comm_node with
                                            | some v => [v]
                                            | none => [])),
                             role := "BWD_WG" }])
            hidx hly hIS hlen hbs hf0 hf0n hfc
            rfl rfl rfl rfl rfl ?_ ?_ rfl rfl
          · intro nd hnd dep hdep
            rcases List.mem_cons.mp hnd with rfl | hnd1
            · have h1 := hD12 dep hdep
              exact ⟨h1.1, h1.2⟩
            cases hnd1
          · refine ⟨?_, ?_, ?_, ?_⟩
            · exact (hmem.1).mono (Nat.le_add_right _ _)
            · exact (hmem.2.1).mono (Nat.le_add_right _ _)
            · intro v hv
              have hvv := Option.some.inj
                (show some (st.next_node_id) = some v from hv)
              refine ⟨by omega, ?_⟩
              show v < st.next_node_id + 1
              omega
            · exact (hmem.2.2.2).mono (Nat.le_add_right _ _)
        -- case nn=True last=False br=True
        ·
          have hqne : st.layers.length - 1 - idx ≠ 0 := by omega
          cases hl0g : st.layers.get? 0 with
          | none =>
            rw [List.get?_eq_none] at hl0g
            omega
          | some l0 =>
            have hl0E : st.layers[0]? = some l0 := by
              rw [← List.get?_eq_getElem?]
              exact hl0g
            have hl0mem := hbs l0 (List.get?_mem hl0g)
            have hbody : dlrm_bwd_body c lbl fc idx st = .ok
                { st with
                                  next_node_id := st.next_node_id + 3,
                                  layers := (st.layers.set (st.layers.length - 1 - idx)
                                      { layer with
                                        bwd_wg_comp_node := some st.next_node_id,
                                        bwd_ig_comp_node := some (st.next_node_id + 1) }).set 0
                                      { l0 with
                                        bwd_ig_comm_node := some (st.next_node_id + 1 + 1) },
                                  out := st.out ++
                                    [{ id := st.next_node_id,
                                        name := "COMP_NODE_" ++ layer.name ++ "_" ++ "BWD_WG",
                                        ntype := .COMP_NODE,
                                        duration_micros := layer.bwd_wg_comp_time,
                                        attr := [],
                                        data_deps := ((match nxt.bwd_ig_comp_node with
                                                       | some v => [v]
                                                       | none => []) ++ (match layer.bwd_ig_comm_node with
                                                       | some v => [v]
                                                       | none => [])),
                                        role := "BWD_WG" },
                                     { id := st.next_node_id + 1,
                                        name := "COMP_NODE_" ++ layer.name ++ "_" ++ "BWD_IG",
                                        ntype := .COMP_NODE,
                                        duration_micros := layer.bwd_ig_comp_time,
                                        attr := [],
                                        data_deps := [st.next_node_id], role := "BWD_IG" },
                                     { id := st.next_node_id + 1 + 1,
                                        name := "COMM_COLL_NODE_" ++ l0.name ++ "_" ++
                                          l0.bwd_ig_comm_type,
                                        ntype := .COMM_COLL_NODE, duration_micros := 0,
                                        attr := [⟨"comm_type",
                                            .int64 (get_comm_type l0.bwd_ig_comm_type)⟩,
                                          ⟨"comm_size", .uint64 l0.bwd_ig_comm_size⟩,
                                          involvedDimAll c.num_dims],
                                        data_deps := [st.next_node_id + 1], role := "BWD_IG" }] }
                := by
              unfold dlrm_bwd_body
              simp only [hly, if_neg hz, hnx, hly2, add_parent, add_parent_if, get_comp_node, get_node, if_pos hnn, if_neg hlast, get_comm_coll_node, if_pos hbr, hl0E, List.getElem?_set_ne hqne, setLayer, emit, List.get?_set_eq, Option.map_some', List.set_set, List.get?_eq_getElem?, List.getElem?_set_self', Option.map_eq_map, Function.const, hlyE]
              all_goals (cases nxt.bwd_ig_comp_node <;> cases layer.bwd_ig_comm_node <;> simp [hlyE])
            rw [hbody] at hb
            cases hb
            refine dlrm_bwd_finish2 lbl L idx st
              ({ st with
                               next_node_id := st.next_node_id + 3,
                               layers := (st.layers.set (st.layers.length - 1 - idx)
                                   { layer with
                                     bwd_wg_comp_node := some st.next_node_id,
                                     bwd_ig_comp_node := some (st.next_node_id + 1) }).set 0
                                   { l0 with
                                     bwd_ig_comm_node := some (st.next_node_id + 1 + 1) },
                               out := st.out ++
                                 [{ id := st.next_node_id,
                                     name := "COMP_NODE_" ++ layer.name ++ "_" ++ "BWD_WG",
                                     ntype := .COMP_NODE,
                                     duration_micros := layer.bwd_wg_comp_time,
                                     attr := [],
                                     data_deps := ((match nxt.bwd_ig_comp_node with
                                                    | some v => [v]
                                                    | none => []) ++ (match layer.bwd_ig_comm_node with
                                                    | some v => [v]
                                                    | none => [])),
                                     role := "BWD_WG" },
                                  { id := st.next_node_id + 1,
                                     name := "COMP_NODE_" ++ layer.name ++ "_" ++ "BWD_IG",
                                     ntype := .COMP_NODE,
                                     duration_micros := layer.bwd_ig_comp_time,
                                     attr := [],
                                     data_deps := [st.next_node_id], role := "BWD_IG" },
                                  { id := st.next_node_id + 1 + 1,
                                     name := "COMM_COLL_NODE_" ++ l0.name ++ "_" ++
                                       l0.bwd_ig_comm_type,
                                     ntype := .COMM_COLL_NODE, duration_micros := 0,
                                     attr := [⟨"comm_type",
                                         .int64 (get_comm_type l0.bwd_ig_comm_type)⟩,
                                       ⟨"comm_size", .uint64 l0.bwd_ig_comm_size⟩,
                                       involvedDimAll c.num_dims],
                                     data_deps := [st.next_node_id + 1], role := "BWD_IG" }] })
              layer
              ({ layer with
                               bwd_wg_comp_node := some st.next_node_id,
                               bwd_ig_comp_node := some (st.next_node_id + 1) })
              l0
              ({ l0 with
                               bwd_ig_comm_node := some (st.next_node_id + 1 + 1) })
              fc
              ([{ id := st.next_node_id,
                                 name := "COMP_NODE_" ++ layer.name ++ "_" ++ "BWD_WG",
                                 ntype := .COMP_NODE,
                                 duration_micros := layer.bwd_wg_comp_time,
                                 attr := [],
                                 data_deps := ((match nxt.bwd_ig_comp_node with
                                                | some v => [v]
                                                | none => []) ++ (match layer.bwd_ig_comm_node with
                                                | some v => [v]
                                                | none => [])),
                                 role := "BWD_WG" },
                              { id := st.next_node_id + 1,
                                 name := "COMP_NODE_" ++ layer.name ++ "_" ++ "BWD_IG",
                                 ntype := .COMP_NODE,
                                 duration_micros := layer.bwd_ig_comp_time,
                                 attr := [],
                                 data_deps := [st.next_node_id], role := "BWD_IG" },
                              { id := st.next_node_id + 1 + 1,
                                 name := "COMM_COLL_NODE_" ++ l0.name ++ "_" ++
                                   l0.bwd_ig_comm_type,
                                 ntype := .COMM_COLL_NODE, duration_micros := 0,
                                 attr := [⟨"comm_type",
                                     .int64 (get_comm_type l0.bwd_ig_comm_type)⟩,
                                   ⟨"comm_size", .uint64 l0.bwd_ig_comm_size⟩,
                                   involvedDimAll c.num_dims],
                                 data_deps := [st.next_node_id + 1], role := "BWD_IG" }])
              hidx hly hqne hl0g hIS hlen hbs hf0 hf0n hfc
              rfl rfl rfl rfl rfl ?_ ?_ ?_ rfl rfl
            · intro nd hnd dep hdep
              rcases List.mem_cons.mp hnd with rfl | hnd1
              · have h1 := hD12 dep hdep
                exact ⟨h1.1, h1.2⟩
              rcases List.mem_cons.mp hnd1 with rfl | hnd2
              · have he := List.mem_singleton.mp hdep
                subst he
                dsimp only
                exact ⟨by omega, by omega⟩
              rcases List.mem_cons.mp hnd2 with rfl | hnd3
              · have he := List.mem_singleton.mp hdep
                subst he
                dsimp only
                exact ⟨by omega, by omega⟩
              cases hnd3
            · refine ⟨?_, ?_, ?_, ?_⟩
              · intro v hv
                have hvv := Option.some.inj
                  (show some (st.next_node_id + 1) = some v from hv)
                refine ⟨by omega, ?_⟩
                show v < st.next_node_id + 3
                omega
              · exact (hmem.2.1).mono (Nat.le_add_right _ _)
              · intro v hv
                have hvv := Option.some.inj
                  (show some (st.next_node_id) = some v from hv)
                refine ⟨by omega, ?_⟩
                show v < st.next_node_id + 3
                omega
              · exact (hmem.2.2.2).mono (Nat.le_add_right _ _)
            · refine ⟨?_, ?_, ?_, ?_⟩
              · exact (hl0mem.1).mono (Nat.le_add_right _ _)
              · intro v hv
                have hvv := Option.some.inj
                  (show some (st.next_node_id + 1 + 1) = some v from hv)
                refine ⟨by omega, ?_⟩
                show v < st.next_node_id + 3
                omega
              · exact (hl0mem.2.2.1).mono (Nat.le_add_right _ _)
              · exact (hl0mem.2.2.2).mono (Nat.le_add_right _ _)
        -- case nn=True last=False br=False
        ·
          have hqne : st.layers.length - 1 - idx ≠ 0 := by omega
          have hbody : dlrm_bwd_body c lbl fc idx st = .ok
              { st with
                              next_node_id := st.next_node_id + 2,
                              layers := st.layers.set (st.layers.length - 1 - idx)
                                  { layer with
                                    bwd_wg_comp_node := some st.next_node_id,
                                    bwd_ig_comp_node := some (st.next_node_id + 1) },
                              out := st.out ++
                                [{ id := st.next_node_id,
                                    name := "COMP_NODE_" ++ layer.name ++ "_" ++ "BWD_WG",
                                    ntype := .COMP_NODE,
                                    duration_micros := layer.bwd_wg_comp_time,
                                    attr := [],
                                    data_deps := ((match nxt.bwd_ig_comp_node with
                                                   | some v => [v]
                                                   | none => []) ++ (match layer.bwd_ig_comm_node with
                                                   | some v => [v]
                                                   | none => [])),
                                    role := "BWD_WG" },
                                 { id := st.next_node_id + 1,
                                    name := "COMP_NODE_" ++ layer.name ++ "_" ++ "BWD_IG",
                                    ntype := .COMP_NODE,
                                    duration_micros := layer.bwd_ig_comp_time,
                                    attr := [],
                                    data_deps := [st.next_node_id], role := "BWD_IG" }] }
              := by
            unfold dlrm_bwd_body
            simp only [hly, if_neg hz, hnx, hly2, add_parent, add_parent_if, get_comp_node, get_node, if_pos hnn, if_neg hlast, get_comm_coll_node, if_neg hbr, setLayer, emit, List.get?_set_eq, Option.map_some', List.set_set, List.get?_eq_getElem?, List.getElem?_set_self', Option.map_eq_map, Function.const, hlyE]
            all_goals (cases nxt.bwd_ig_comp_node <;> cases layer.bwd_ig_comm_node <;> simp [hlyE])
          rw [hbody] at hb
          cases hb
          refine dlrm_bwd_finish1 lbl L idx st
            ({ st with
                           next_node_id := st.next_node_id + 2,
                           layers := st.layers.set (st.layers.length - 1 - idx)
                               { layer with
                                 bwd_wg_comp_node := some st.next_node_id,
                                 bwd_ig_comp_node := some (st.next_node_id + 1) },
                           out := st.out ++
                             [{ id := st.next_node_id,
                                 name := "COMP_NODE_" ++ layer.name ++ "_" ++ "BWD_WG",
                                 ntype := .COMP_NODE,
                                 duration_micros := layer.bwd_wg_comp_time,
                                 attr := [],
                                 data_deps := ((match nxt.bwd_ig_comp_node with
                                                | some v => [v]
                                                | none => []) ++ (match layer.bwd_ig_comm_node with
                                                | some v => [v]
                                                | none => [])),
                                 role := "BWD_WG" },
                              { id := st.next_node_id + 1,
                                 name := "COMP_NODE_" ++ layer.name ++ "_" ++ "BWD_IG",
                                 ntype := .COMP_NODE,
                                 duration_micros := layer.bwd_ig_comp_time,
                                 attr := [],
                                 data_deps := [st.next_node_id], role := "BWD_IG" }] })
            layer
            ({ layer with
                           bwd_wg_comp_node := some st.next_node_id,
                           bwd_ig_comp_node := some (st.next_node_id + 1) })
            fc
            ([{ id := st.next_node_id,
                             name := "COMP_NODE_" ++ layer.name ++ "_" ++ "BWD_WG",
                             ntype := .COMP_NODE,
                             duration_micros := layer.bwd_wg_comp_time,
                             attr := [],
                             data_deps := ((match nxt.bwd_ig_comp_node with
                                            | some v => [v]
                                            | none => []) ++ (match layer.bwd_ig_comm_node with
                                            | some v => [v]
                                            | none => [])),
                             role := "BWD_WG" },
                          { id := st.next_node_id + 1,
                             name := "COMP_NODE_" ++ layer.name ++ "_" ++ "BWD_IG",
                             ntype := .COMP_NODE,
                             duration_micros := layer.bwd_ig_comp_time,
                             attr := [],
                             data_deps := [st.next_node_id], role := "BWD_IG" }])
            hidx hly hIS hlen hbs hf0 hf0n hfc
            rfl rfl rfl rfl rfl ?_ ?_ rfl rfl
          · intro nd hnd dep hdep
            rcases List.mem_cons.mp hnd with rfl | hnd1
            · have h1 := hD12 dep hdep
              exact ⟨h1.1, h1.2⟩
            rcases List.mem_cons.mp hnd1 with rfl | hnd2
            · have he := List.mem_singleton.mp hdep
              subst he
              dsimp only
              exact ⟨by omega, by omega⟩
            cases hnd2
          · refine ⟨?_, ?_, ?_, ?_⟩
            · intro v hv
              have hvv := Option.some.inj
                (show some (st.next_node_id + 1) = some v from hv)
              refine ⟨by omega, ?_⟩
              show v < st.next_node_id + 2
              omega
            · exact (hmem.2.1).mono (Nat.le_add_right _ _)
            · intro v hv
              have hvv := Option.some.inj
                (show some (st.next_node_id) = some v from hv)
              refine ⟨by omega, ?_⟩
              show v < st.next_node_id + 2
              omega
            · exact (hmem.2.2.2).mono (Nat.le_add_right _ _)
        -- case nn=False last=True br=True
        ·
          have hq0 : st.layers.length - 1 - idx = 0 := by omega
          have hlyE0 : st.layers[0]? = some layer := by
            rw [← List.get?_eq_getElem?, ← hq0]
            exact hly
          have hbody : dlrm_bwd_body c lbl fc idx st = .error
              "ValueError: bwd_ig_comp_node is None" := by
            unfold dlrm_bwd_body
            simp only [hly, if_neg hz, hnx, hly2, add_parent, add_parent_if, get_comp_node, get_node, if_neg hnn, get_comm_coll_node, if_pos hlast, hq0, if_pos hbr, hlyE0, setLayer, emit, List.get?_set_eq, Option.map_some', List.set_set, List.get?_eq_getElem?, List.getElem?_set_self', Option.map_eq_map, Function.const]
            all_goals (cases nxt.bwd_ig_comp_node <;> cases layer.bwd_ig_comm_node <;> simp [hlyE0])
          rw [hbody] at hb
          cases hb
        -- case nn=False last=True br=False
        ·
          have hq0 : st.layers.length - 1 - idx = 0 := by omega
          have hlyE0 : st.layers[0]? = some layer := by
            rw [← List.get?_eq_getElem?, ← hq0]
            exact hly
          have hbody : dlrm_bwd_body c lbl fc idx st = .ok
              { st with
                              next_node_id := st.next_node_id + 2,
                              layers := st.layers.set (st.layers.length - 1 - idx)
                                  { layer with
                                    bwd_wg_comp_node := some st.next_node_id,
                                    bwd_wg_comm_node := some (st.next_node_id + 1) },
                              out := st.out ++
                                [{ id := st.next_node_id,
                                    name := "COMP_NODE_" ++ layer.name ++ "_" ++ "BWD_WG",
                                    ntype := .COMP_NODE,
                                    duration_micros := layer.bwd_wg_comp_time,
                                    attr := [],
                                    data_deps := ((match nxt.bwd_ig_comp_node with
                                                   | some v => [v]
                                                   | none => []) ++ (match layer.bwd_ig_comm_node with
                                                   | some v => [v]
                                                   | none => [])),
                                    role := "BWD_WG" },
                                 { id := st.next_node_id + 1,
                                    name := "COMM_COLL_NODE_" ++ layer.name ++ "_" ++
                                      layer.bwd_wg_comm_type,
                                    ntype := .COMM_COLL_NODE, duration_micros := 0,
                                    attr := [⟨"comm_type",
                                        .int64 (get_comm_type layer.bwd_wg_comm_type)⟩,
                                      ⟨"comm_size", .uint64 layer.bwd_wg_comm_size⟩,
                                      involvedDimAll c.num_dims],
                                    data_deps := [st.next_node_id], role := "BWD_WG" }] }
              := by
            unfold dlrm_bwd_body
            simp only [hly, if_neg hz, hnx, hly2, add_parent, add_parent_if, get_comp_node, get_node, if_neg hnn, get_comm_coll_node, if_pos hlast, hq0, if_neg hbr, setLayer, emit, List.get?_set_eq, Option.map_some', List.set_set, List.get?_eq_getElem?, List.getElem?_set_self', Option.map_eq_map, Function.const, hlyE0]
            all_goals (cases nxt.bwd_ig_comp_node <;> cases layer.bwd_ig_comm_node <;> simp [hlyE0])
          rw [hbody] at hb
          cases hb
          refine dlrm_bwd_finish1 lbl L idx st
            ({ st with
                           next_node_id := st.next_node_id + 2,
                           layers := st.layers.set (st.layers.length - 1 - idx)
                               { layer with
                                 bwd_wg_comp_node := some st.next_node_id,
                                 bwd_wg_comm_node := some (st.next_node_id + 1) },
                           out := st.out ++
                             [{ id := st.next_node_id,
                                 name := "COMP_NODE_" ++ layer.name ++ "_" ++ "BWD_WG",
                                 ntype := .COMP_NODE,
                                 duration_micros := layer.bwd_wg_comp_time,
                                 attr := [],
                                 data_deps := ((match nxt.bwd_ig_comp_node with
                                                | some v => [v]
                                                | none => []) ++ (match layer.bwd_ig_comm_node with
                                                | some v => [v]
                                                | none => [])),
                                 role := "BWD_WG" },
                              { id := st.next_node_id + 1,
                                 name := "COMM_COLL_NODE_" ++ layer.name ++ "_" ++
                                   layer.bwd_wg_comm_type,
                                 ntype := .COMM_COLL_NODE, duration_micros := 0,
                                 attr := [⟨"comm_type",
                                     .int64 (get_comm_type layer.bwd_wg_comm_type)⟩,
                                   ⟨"comm_size", .uint64 layer.bwd_wg_comm_size⟩,
                                   involvedDimAll c.num_dims],
                                 data_deps := [st.next_node_id], role := "BWD_WG" }] })
            layer
            ({ layer with
                           bwd_wg_comp_node := some st.next_node_id,
                           bwd_wg_comm_node := some (st.next_node_id + 1) })
            fc
            ([{ id := st.next_node_id,
                             name := "COMP_NODE_" ++ layer.name ++ "_" ++ "BWD_WG",
                             ntype := .COMP_NODE,
                             duration_micros := layer.bwd_wg_comp_time,
                             attr := [],
                             data_deps := ((match nxt.bwd_ig_comp_node with
                                            | some v => [v]
                                            | none => []) ++ (match layer.bwd_ig_comm_node with
                                            | some v => [v]
                                            | none => [])),
                             role := "BWD_WG" },
                          { id := st.next_node_id + 1,
                             name := "COMM_COLL_NODE_" ++ layer.name ++ "_" ++
                               layer.bwd_wg_comm_type,
                             ntype := .COMM_COLL_NODE, duration_micros := 0,
                             attr := [⟨"comm_type",
                                 .int64 (get_comm_type layer.bwd_wg_comm_type)⟩,
                               ⟨"comm_size", .uint64 layer.bwd_wg_comm_size⟩,
                               involvedDimAll c.num_dims],
                             data_deps := [st.next_node_id], role := "BWD_WG" }])
            hidx hly hIS hlen hbs hf0 hf0n hfc
            rfl rfl rfl rfl rfl ?_ ?_ rfl rfl
          · intro nd hnd dep hdep
            rcases List.mem_cons.mp hnd with rfl | hnd1
            · have h1 := hD12 dep hdep
              exact ⟨h1.1, h1.2⟩
            rcases List.mem_cons.mp hnd1 with rfl | hnd2
            · have he := List.mem_singleton.mp hdep
              subst he
              dsimp only
              exact ⟨by omega, by omega⟩
            cases hnd2
          · refine ⟨?_, ?_, ?_, ?_⟩
            · exact (hmem.1).mono (Nat.le_add_right _ _)
            · exact (hmem.2.1).mono (Nat.le_add_right _ _)
            · intro v hv
              have hvv := Option.some.inj
                (show some (st.next_node_id) = some v from hv)
              refine ⟨by omega, ?_⟩
              show v < st.next_node_id + 2
              omega
            · intro v hv
              have hvv := Option.some.inj
                (show some (st.next_node_id + 1) = some v from hv)
              refine ⟨by omega, ?_⟩
              show v < st.next_node_id + 2
              omega
        -- case nn=False last=False br=True
        ·
          have hqne : st.layers.length - 1 - idx ≠ 0 := by omega
          cases hl0g : st.layers.get? 0 with
          | none =>
            rw [List.get?_eq_none] at hl0g
            omega
          | some l0 =>
            have hl0E : st.layers[0]? = some l0 := by
              rw [← List.get?_eq_getElem?]
              exact hl0g
            have hl0mem := hbs l0 (List.get?_mem hl0g)
            have hbody : dlrm_bwd_body c lbl fc idx st = .ok
                { st with
                                  next_node_id := st.next_node_id + 4,
                                  layers := (st.layers.set (st.layers.length - 1 - idx)
                                      { layer with
                                        bwd_wg_comp_node := some st.next_node_id,
                                        bwd_wg_comm_node := some (st.next_node_id + 1),
                                        bwd_ig_comp_node := some (st.next_node_id + 1 + 1) }).set 0
                                      { l0 with
                                        bwd_ig_comm_node := some (st.next_node_id + 1 + 1 + 1) },
                                  out := st.out ++
                                    [{ id := st.next_node_id,
                                        name := "COMP_NODE_" ++ layer.name ++ "_" ++ "BWD_WG",
                                        ntype := .COMP_NODE,
                                        duration_micros := layer.bwd_wg_comp_time,
                                        attr := [],
                                        data_deps := ((match nxt.bwd_ig_comp_node with
                                                       | some v => [v]
                                                       | none => []) ++ (match layer.bwd_ig_comm_node with
                                                       | some v => [v]
                                                       | none => [])),
                                        role := "BWD_WG" },
                                     { id := st.next_node_id + 1,
                                        name := "COMM_COLL_NODE_" ++ layer.name ++ "_" ++
                                          layer.bwd_wg_comm_type,
                                        ntype := .COMM_COLL_NODE, duration_micros := 0,
                                        attr := [⟨"comm_type",
                                            .int64 (get_comm_type layer.bwd_wg_comm_type)⟩,
                                          ⟨"comm_size", .uint64 layer.bwd_wg_comm_size⟩,
                                          involvedDimAll c.num_dims],
                                        data_deps := [st.next_node_id], role := "BWD_WG" },
                                     { id := st.next_node_id + 1 + 1,
                                        name := "COMP_NODE_" ++ layer.name ++ "_" ++ "BWD_IG",
                                        ntype := .COMP_NODE,
                                        duration_micros := layer.bwd_ig_comp_time,
                                        attr := [],
                                        data_deps := [st.next_node_id], role := "BWD_IG" },
                                     { id := st.next_node_id + 1 + 1 + 1,
                                        name := "COMM_COLL_NODE_" ++ l0.name ++ "_" ++
                                          l0.bwd_ig_comm_type,
                                        ntype := .COMM_COLL_NODE, duration_micros := 0,
                                        attr := [⟨"comm_type",
                                            .int64 (get_comm_type l0.bwd_ig_comm_type)⟩,
                                          ⟨"comm_size", .uint64 l0.bwd_ig_comm_size⟩,
                                          involvedDimAll c.num_dims],
                                        data_deps := [st.next_node_id + 1 + 1], role := "BWD_IG" }] }
                := by
              unfold dlrm_bwd_body
              simp only [hly, if_neg hz, hnx, hly2, add_parent, add_parent_if, get_comp_node, get_node, if_neg hnn, get_comm_coll_node, if_neg hlast, if_pos hbr, hl0E, List.getElem?_set_ne hqne, setLayer, emit, List.get?_set_eq, Option.map_some', List.set_set, List.get?_eq_getElem?, List.getElem?_set_self', Option.map_eq_map, Function.const, hlyE]
              all_goals (cases nxt.bwd_ig_comp_node <;> cases layer.bwd_ig_comm_node <;> simp [hlyE])
            rw [hbody] at hb
            cases hb
            refine dlrm_bwd_finish2 lbl L idx st
              ({ st with
                               next_node_id := st.next_node_id + 4,
                               layers := (st.layers.set (st.layers.length - 1 - idx)
                                   { layer with
                                     bwd_wg_comp_node := some st.next_node_id,
                                     bwd_wg_comm_node := some (st.next_node_id + 1),
                                     bwd_ig_comp_node := some (st.next_node_id + 1 + 1) }).set 0
                                   { l0 with
                                     bwd_ig_comm_node := some (st.next_node_id + 1 + 1 + 1) },
                               out := st.out ++
                                 [{ id := st.next_node_id,
                                     name := "COMP_NODE_" ++ layer.name ++ "_" ++ "BWD_WG",
                                     ntype := .COMP_NODE,
                                     duration_micros := layer.bwd_wg_comp_time,
                                     attr := [],
                                     data_deps := ((match nxt.bwd_ig_comp_node with
                                                    | some v => [v]
                                                    | none => []) ++ (match layer.bwd_ig_comm_node with
                                                    | some v => [v]
                                                    | none => [])),
                                     role := "BWD_WG" },
                                  { id := st.next_node_id + 1,
                                     name := "COMM_COLL_NODE_" ++ layer.name ++ "_" ++
                                       layer.bwd_wg_comm_type,
                                     ntype := .COMM_COLL_NODE, duration_micros := 0,
                                     attr := [⟨"comm_type",
                                         .int64 (get_comm_type layer.bwd_wg_comm_type)⟩,
                                       ⟨"comm_size", .uint64 layer.bwd_wg_comm_size⟩,
                                       involvedDimAll c.num_dims],
                                     data_deps := [st.next_node_id], role := "BWD_WG" },
                                  { id := st.next_node_id + 1 + 1,
                                     name := "COMP_NODE_" ++ layer.name ++ "_" ++ "BWD_IG",
                                     ntype := .COMP_NODE,
                                     duration_micros := layer.bwd_ig_comp_time,
                                     attr := [],
                                     data_deps := [st.next_node_id], role := "BWD_IG" },
                                  { id := st.next_node_id + 1 + 1 + 1,
                                     name := "COMM_COLL_NODE_" ++ l0.name ++ "_" ++
                                       l0.bwd_ig_comm_type,
                                     ntype := .COMM_COLL_NODE, duration_micros := 0,
                                     attr := [⟨"comm_type",
                                         .int64 (get_comm_type l0.bwd_ig_comm_type)⟩,
                                       ⟨"comm_size", .uint64 l0.bwd_ig_comm_size⟩,
                                       involvedDimAll c.num_dims],
                                     data_deps := [st.next_node_id + 1 + 1], role := "BWD_IG" }] })
              layer
              ({ layer with
                               bwd_wg_comp_node := some st.next_node_id,
                               bwd_wg_comm_node := some (st.next_node_id + 1),
                               bwd_ig_comp_node := some (st.next_node_id + 1 + 1) })
              l0
              ({ l0 with
                               bwd_ig_comm_node := some (st.next_node_id + 1 + 1 + 1) })
              fc
              ([{ id := st.next_node_id,
                                 name := "COMP_NODE_" ++ layer.name ++ "_" ++ "BWD_WG",
                                 ntype := .COMP_NODE,
                                 duration_micros := layer.bwd_wg_comp_time,
                                 attr := [],
                                 data_deps := ((match nxt.bwd_ig_comp_node with
                                                | some v => [v]
                                                | none => []) ++ (match layer.bwd_ig_comm_node with
                                                | some v => [v]
                                                | none => [])),
                                 role := "BWD_WG" },
                              { id := st.next_node_id + 1,
                                 name := "COMM_COLL_NODE_" ++ layer.name ++ "_" ++
                                   layer.bwd_wg_comm_type,
                                 ntype := .COMM_COLL_NODE, duration_micros := 0,
                                 attr := [⟨"comm_type",
                                     .int64 (get_comm_type layer.bwd_wg_comm_type)⟩,
                                   ⟨"comm_size", .uint64 layer.bwd_wg_comm_size⟩,
                                   involvedDimAll c.num_dims],
                                 data_deps := [st.next_node_id], role := "BWD_WG" },
                              { id := st.next_node_id + 1 + 1,
                                 name := "COMP_NODE_" ++ layer.name ++ "_" ++ "BWD_IG",
                                 ntype := .COMP_NODE,
                                 duration_micros := layer.bwd_ig_comp_time,
                                 attr := [],
                                 data_deps := [st.next_node_id], role := "BWD_IG" },
                              { id := st.next_node_id + 1 + 1 + 1,
                                 name := "COMM_COLL_NODE_" ++ l0.name ++ "_" ++
                                   l0.bwd_ig_comm_type,
                                 ntype := .COMM_COLL_NODE, duration_micros := 0,
                                 attr := [⟨"comm_type",
                                     .int64 (get_comm_type l0.bwd_ig_comm_type)⟩,
                                   ⟨"comm_size", .uint64 l0.bwd_ig_comm_size⟩,
                                   involvedDimAll c.num_dims],
                                 data_deps := [st.next_node_id + 1 + 1], role := "BWD_IG" }])
              hidx hly hqne hl0g hIS hlen hbs hf0 hf0n hfc
              rfl rfl rfl rfl rfl ?_ ?_ ?_ rfl rfl
            · intro nd hnd dep hdep
              rcases List.mem_cons.mp hnd with rfl | hnd1
              · have h1 := hD12 dep hdep
                exact ⟨h1.1, h1.2⟩
              rcases List.mem_cons.mp hnd1 with rfl | hnd2
              · have he := List.mem_singleton.mp hdep
                subst he
                dsimp only
                exact ⟨by omega, by omega⟩
              rcases List.mem_cons.mp hnd2 with rfl | hnd3
              · have he := List.mem_singleton.mp hdep
                subst he
                dsimp only
                exact ⟨by omega, by omega⟩
              rcases List.mem_cons.mp hnd3 with rfl | hnd4
              · have he := List.mem_singleton.mp hdep
                subst he
                dsimp only
                exact ⟨by omega, by omega⟩
              cases hnd4
            · refine ⟨?_, ?_, ?_, ?_⟩
              · intro v hv
                have hvv := Option.some.inj
                  (show some (st.next_node_id + 1 + 1) = some v from hv)
                refine ⟨by omega, ?_⟩
                show v < st.next_node_id + 4
                omega
              · exact (hmem.2.1).mono (Nat.le_add_right _ _)
              · intro v hv
                have hvv := Option.some.inj
                  (show some (st.next_node_id) = some v from hv)
                refine ⟨by omega, ?_⟩
                show v < st.next_node_id + 4
                omega
              · intro v hv
                have hvv := Option.some.inj
                  (show some (st.next_node_id + 1) = some v from hv)
                refine ⟨by omega, ?_⟩
                show v < st.next_node_id + 4
                omega
            · refine ⟨?_, ?_, ?_, ?_⟩
              · exact (hl0mem.1).mono (Nat.le_add_right _ _)
              · intro v hv
                have hvv := Option.some.inj
                  (show some (st.next_node_id + 1 + 1 + 1) = some v from hv)
                refine ⟨by omega, ?_⟩
                show v < st.next_node_id + 4
                omega
              · exact (hl0mem.2.2.1).mono (Nat.le_add_right _ _)
              · exact (hl0mem.2.2.2).mono (Nat.le_add_right _ _)
        -- case nn=False last=False br=False
        ·
          have hqne : st.layers.length - 1 - idx ≠ 0 := by omega
          have hbody : dlrm_bwd_body c lbl fc idx st = .ok
              { st with
                              next_node_id := st.next_node_id + 3,
                              layers := st.layers.set (st.layers.length - 1 - idx)
                                  { layer with
                                    bwd_wg_comp_node := some st.next_node_id,
                                    bwd_wg_comm_node := some (st.next_node_id + 1),
                                    bwd_ig_comp_node := some (st.next_node_id + 1 + 1) },
                              out := st.out ++
                                [{ id := st.next_node_id,
                                    name := "COMP_NODE_" ++ layer.name ++ "_" ++ "BWD_WG",
                                    ntype := .COMP_NODE,
                                    duration_micros := layer.bwd_wg_comp_time,
                                    attr := [],
                                    data_deps := ((match nxt.bwd_ig_comp_node with
                                                   | some v => [v]
                                                   | none => []) ++ (match layer.bwd_ig_comm_node with
                                                   | some v => [v]
                                                   | none => [])),
                                    role := "BWD_WG" },
                                 { id := st.next_node_id + 1,
                                    name := "COMM_COLL_NODE_" ++ layer.name ++ "_" ++
                                      layer.bwd_wg_comm_type,
                                    ntype := .COMM_COLL_NODE, duration_micros := 0,
                                    attr := [⟨"comm_type",
                                        .int64 (get_comm_type layer.bwd_wg_comm_type)⟩,
                                      ⟨"comm_size", .uint64 layer.bwd_wg_comm_size⟩,
                                      involvedDimAll c.num_dims],
                                    data_deps := [st.next_node_id], role := "BWD_WG" },
                                 { id := st.next_node_id + 1 + 1,
                                    name := "COMP_NODE_" ++ layer.name ++ "_" ++ "BWD_IG",
                                    ntype := .COMP_NODE,
                                    duration_micros := layer.bwd_ig_comp_time,
                                    attr := [],
                                    data_deps := [st.next_node_id], role := "BWD_IG" }] }
              := by
            unfold dlrm_bwd_body
            simp only [hly, if_neg hz, hnx, hly2, add_parent, add_parent_if, get_comp_node, get_node, if_neg hnn, get_comm_coll_node, if_neg hlast, if_neg hbr, setLayer, emit, List.get?_set_eq, Option.map_some', List.set_set, List.get?_eq_getElem?, List.getElem?_set_self', Option.map_eq_map, Function.const, hlyE]
            all_goals (cases nxt.bwd_ig_comp_node <;> cases layer.bwd_ig_comm_node <;> simp [hlyE])
          rw [hbody] at hb
          cases hb
          refine dlrm_bwd_finish1 lbl L idx st
            ({ st with
                           next_node_id := st.next_node_id + 3,
                           layers := st.layers.set (st.layers.length - 1 - idx)
                               { layer with
                                 bwd_wg_comp_node := some st.next_node_id,
                                 bwd_wg_comm_node := some (st.next_node_id + 1),
                                 bwd_ig_comp_node := some (st.next_node_id + 1 + 1) },
                           out := st.out ++
                             [{ id := st.next_node_id,
                                 name := "COMP_NODE_" ++ layer.name ++ "_" ++ "BWD_WG",
                                 ntype := .COMP_NODE,
                                 duration_micros := layer.bwd_wg_comp_time,
                                 attr := [],
                                 data_deps := ((match nxt.bwd_ig_comp_node with
                                                | some v => [v]
                                                | none => []) ++ (match layer.bwd_ig_comm_node with
                                                | some v => [v]
                                                | none => [])),
                                 role := "BWD_WG" },
                              { id := st.next_node_id + 1,
                                 name := "COMM_COLL_NODE_" ++ layer.name ++ "_" ++
                                   layer.bwd_wg_comm_type,
                                 ntype := .COMM_COLL_NODE, duration_micros := 0,
                                 attr := [⟨"comm_type",
                                     .int64 (get_comm_type layer.bwd_wg_comm_type)⟩,
                                   ⟨"comm_size", .uint64 layer.bwd_wg_comm_size⟩,
                                   involvedDimAll c.num_dims],
                                 data_deps := [st.next_node_id], role := "BWD_WG" },
                              { id := st.next_node_id + 1 + 1,
                                 name := "COMP_NODE_" ++ layer.name ++ "_" ++ "BWD_IG",
                                 ntype := .COMP_NODE,
                                 duration_micros := layer.bwd_ig_comp_time,
                                 attr := [],
                                 data_deps := [st.next_node_id], role := "BWD_IG" }] })
            layer
            ({ layer with
                           bwd_wg_comp_node := some st.next_node_id,
                           bwd_wg_comm_node := some (st.next_node_id + 1),
                           bwd_ig_comp_node := some (st.next_node_id + 1 + 1) })
            fc
            ([{ id := st.next_node_id,
                             name := "COMP_NODE_" ++ layer.name ++ "_" ++ "BWD_WG",
                             ntype := .COMP_NODE,
                             duration_micros := layer.bwd_wg_comp_time,
                             attr := [],
                             data_deps := ((match nxt.bwd_ig_comp_node with
                                            | some v => [v]
                                            | none => []) ++ (match layer.bwd_ig_comm_node with
                                            | some v => [v]
                                            | none => [])),
                             role := "BWD_WG" },
                          { id := st.next_node_id + 1,
                             name := "COMM_COLL_NODE_" ++ layer.name ++ "_" ++
                               layer.bwd_wg_comm_type,
                             ntype := .COMM_COLL_NODE, duration_micros := 0,
                             attr := [⟨"comm_type",
                                 .int64 (get_comm_type layer.bwd_wg_comm_type)⟩,
                               ⟨"comm_size", .uint64 layer.bwd_wg_comm_size⟩,
                               involvedDimAll c.num_dims],
                             data_deps := [st.next_node_id], role := "BWD_WG" },
                          { id := st.next_node_id + 1 + 1,
                             name := "COMP_NODE_" ++ layer.name ++ "_" ++ "BWD_IG",
                             ntype := .COMP_NODE,
                             duration_micros := layer.bwd_ig_comp_time,
                             attr := [],
                             data_deps := [st.next_node_id], role := "BWD_IG" }])
            hidx hly hIS hlen hbs hf0 hf0n hfc
            rfl rfl rfl rfl rfl ?_ ?_ rfl rfl
          · intro nd hnd dep hdep
            rcases List.mem_cons.mp hnd with rfl | hnd1
            · have h1 := hD12 dep hdep
              exact ⟨h1.1, h1.2⟩
            rcases List.mem_cons.mp hnd1 with rfl | hnd2
            · have he := List.mem_singleton.mp hdep
              subst he
              dsimp only
              exact ⟨by omega, by omega⟩
            rcases List.mem_cons.mp hnd2 with rfl | hnd3
            · have he := List.mem_singleton.mp hdep
              subst he
              dsimp only
              exact ⟨by omega, by omega⟩
            cases hnd3
          · refine ⟨?_, ?_, ?_, ?_⟩
            · intro v hv
              have hvv := Option.some.inj
                (show some (st.next_node_id + 1 + 1) = some v from hv)
              refine ⟨by omega, ?_⟩
              show v < st.next_node_id + 3
              omega
            · exact (hmem.2.1).mono (Nat.le_add_right _ _)
            · intro v hv
              have hvv := Option.some.inj
                (show some (st.next_node_id) = some v from hv)
              refine ⟨by omega, ?_⟩
              show v < st.next_node_id + 3
              omega
            · intro v hv
              have hvv := Option.some.inj
                (show some (st.next_node_id + 1) = some v from hv)
              refine ⟨by omega, ?_⟩
              show v < st.next_node_id + 3
              omega

theorem dlrm_pass_inv (c : Converter) (lbl : Int) (L : Nat) (p : Nat)
    (st st' : St)
    (hP : InvS st ∧ st.layers.length = L ∧ DlrmBwdLB st ∧ DlrmF0 st ∧
      DlrmF0N lbl st)
    (hb : dlrm_pass_body c lbl p st = .ok st') :
    InvS st' ∧ st'.layers.length = L ∧ DlrmBwdLB st' ∧ DlrmF0 st' ∧
      DlrmF0N lbl st' := by
  obtain ⟨hIS, hlen, hbs, hf0, hf0n⟩ := hP
  unfold dlrm_pass_body at hb
  cases hfl : loopE (dlrm_fwd_body c lbl) (List.range st.layers.length)
      (none, st) with
  | error e =>
    simp only [hfl] at hb
    cases hb
  | ok r =>
    obtain ⟨fwd, st1⟩ := r
    simp only [hfl] at hb
    have hfwd := loopE_range_ind (dlrm_fwd_body c lbl)
      (fun k acc => InvS acc.2 ∧ acc.2.layers.length = L ∧
        DlrmBwdLB acc.2 ∧ DlrmF0 acc.2 ∧ DlrmF0N lbl acc.2 ∧
        FwdCompFresh k acc.2 ∧ F0Done k acc.2 ∧
        SlotLB acc.2.traces.flatten.length acc.2.next_node_id acc.1)
      st.layers.length (none, st) (fwd, st1)
      (fun j t v hj hPj hbj =>
        dlrm_fwd_step c lbl L j t v (by omega) hPj hbj)
      ⟨hIS, hlen, hbs, hf0, hf0n,
        (fun j hj => absurd hj (Nat.not_lt_zero j)),
        (fun h => absurd h (by omega)),
        (fun v hv => by cases hv)⟩ hfl
    obtain ⟨hIS1, hlen1, hbs1, hf01, hf0n1, _, _, hfc1⟩ := hfwd
    dsimp only at hIS1 hlen1 hbs1 hf01 hf0n1 hfc1
    have hbwd := loopE_range_ind (dlrm_bwd_body c lbl fwd)
      (fun _ s => InvS s ∧ s.layers.length = L ∧ DlrmBwdLB s ∧ DlrmF0 s ∧
        DlrmF0N lbl s ∧ SlotLB s.traces.flatten.length s.next_node_id fwd)
      st1.layers.length st1 st'
      (fun j t v hj hPj hbj =>
        dlrm_bwd_step c lbl L fwd j t v (by omega) hPj hbj)
      ⟨hIS1, hlen1, hbs1, hf01, hf0n1, hfc1⟩ hb
    exact ⟨hbwd.1, hbwd.2.1, hbwd.2.2.1, hbwd.2.2.2.1, hbwd.2.2.2.2.1⟩

theorem dlrm_device_inv (c : Converter) (lbl : Int) (L : Nat) (k : Nat)
    (st st' : St)
    (hP : InvS st ∧ st.layers.length = L ∧ DlrmBwdLB st ∧ DlrmF0 st ∧
      DlrmF0N lbl st ∧ st.out = [])
    (hb : dlrm_device_body c lbl k st = .ok st') :
    InvS st' ∧ st'.layers.length = L ∧ DlrmBwdLB st' ∧ DlrmF0 st' ∧
      DlrmF0N lbl st' ∧ st'.out = [] := by
  obtain ⟨hIS, hlen, hbs, hf0, hf0n, hout⟩ := hP
  unfold dlrm_device_body at hb
  have hst0 : { st with out := ([] : List Node) } = st := by
    rw [← hout]
  cases hpl : loopE (dlrm_pass_body c lbl) (List.range c.num_passes)
      { st with out := [] } with
  | error e =>
    simp only [hpl] at hb
    cases hb
  | ok u =>
    simp only [hpl] at hb
    have hst' := Except.ok.inj hb
    have hlay' : st'.layers = u.layers.map (fun (l : Layer) =>
        { l with bwd_wg_comm_node := none, bwd_wg_comp_node := none,
                 bwd_ig_comm_node := none, bwd_ig_comp_node := none }) := by
      rw [← hst']
    have htr' : st'.traces = u.traces ++ [u.out] := by
      rw [← hst']
    have hout'' : st'.out = [] := by
      rw [← hst']
    have hnext' : st'.next_node_id = u.next_node_id := by
      rw [← hst']
    have h0 : InvS { st with out := ([] : List Node) } ∧
        ({ st with out := ([] : List Node) } : St).layers.length = L ∧
        DlrmBwdLB { st with out := ([] : List Node) } ∧
        DlrmF0 { st with out := ([] : List Node) } ∧
        DlrmF0N lbl { st with out := ([] : List Node) } := by
      rw [hst0]
      exact ⟨hIS, hlen, hbs, hf0, hf0n⟩
    have hrun := loopE_range_ind (dlrm_pass_body c lbl)
      (fun _ s => InvS s ∧ s.layers.length = L ∧ DlrmBwdLB s ∧ DlrmF0 s ∧
        DlrmF0N lbl s)
      c.num_passes { st with out := [] } u
      (fun j t v _ hPj hbj => dlrm_pass_inv c lbl L j t v hPj hbj) h0 hpl
    obtain ⟨hISu, hlenu, hbsu, hf0u, hf0nu⟩ := hrun
    refine ⟨InvS_commit hISu htr' hout'' hnext', ?_, ?_, ?_, ?_, hout''⟩
    · rw [hlay', List.length_map]
      exact hlenu
    · intro l hl
      rw [hlay'] at hl
      obtain ⟨l₀, _, hml⟩ := List.mem_map.mp hl
      refine ⟨?_, ?_, ?_, ?_⟩ <;>
        · intro v hv
          rw [← hml] at hv
          cases hv
    · intro l0 hl0 hne
      rw [hlay', List.get?_map] at hl0
      cases hg0 : u.layers.get? 0 with
      | none =>
        rw [hg0] at hl0
        cases hl0
      | some l₀ =>
        rw [hg0] at hl0
        simp only [Option.map_some'] at hl0
        have he := Option.some.inj hl0
        rw [← he] at hne ⊢
        exact hf0u l₀ hg0 hne
    · intro hlbl hpos l0 hl0
      rw [hlay', List.length_map] at hpos
      rw [hlay', List.get?_map] at hl0
      cases hg0 : u.layers.get? 0 with
      | none =>
        rw [hg0] at hl0
        cases hl0
      | some l₀ =>
        rw [hg0] at hl0
        simp only [Option.map_some'] at hl0
        have he := Option.some.inj hl0
        rw [← he]
        exact hf0nu hlbl hpos l₀ hg0

/-- A successful HYBRID_DLRM run satisfies the strong trace contract. -/
theorem dlrm_goodS (c : Converter) (lines : List String) (nl lbl : Int)
    (traces : List (List Node))
    (hok : convert_hybrid_dlrm c lines nl lbl = .ok traces) :
    GoodS traces := by
  unfold convert_hybrid_dlrm at hok
  cases hls : get_layers lines nl with
  | error e =>
    simp only [hls] at hok
    cases hok
  | ok ls =>
    simp only [hls] at hok
    cases hdl : loopE (dlrm_device_body c lbl) (List.range c.num_npus)
        (initSt ls) with
    | error e =>
      simp only [hdl] at hok
      cases hok
    | ok v =>
      simp only [hdl] at hok
      cases hok
      have hinit : InvS (initSt ls) ∧ (initSt ls).layers.length = ls.length ∧
          DlrmBwdLB (initSt ls) ∧ DlrmF0 (initSt ls) ∧
          DlrmF0N lbl (initSt ls) ∧ (initSt ls).out = [] := by
        refine ⟨invS_init ls, rfl, ?_, ?_, ?_, rfl⟩
        · intro l hl
          have hsl := get_layers_slots hls l hl
          refine ⟨?_, ?_, ?_, ?_⟩ <;>
            · intro v hv
              first
                | (rw [hsl.2.2.1] at hv; cases hv)
                | (rw [hsl.2.2.2.1] at hv; cases hv)
                | (rw [hsl.2.2.2.2.1] at hv; cases hv)
                | (rw [hsl.2.2.2.2.2] at hv; cases hv)
        · intro l0 hl0 _
          exact (get_layers_slots hls l0 (List.get?_mem hl0)).2.1
        · intro _ _ l0 hl0
          exact (get_layers_slots hls l0 (List.get?_mem hl0)).2.1
      have hmain := loopE_range_ind (dlrm_device_body c lbl)
        (fun _ s => InvS s ∧ s.layers.length = ls.length ∧ DlrmBwdLB s ∧
          DlrmF0 s ∧ DlrmF0N lbl s ∧ s.out = [])
        c.num_npus (initSt ls) v
        (fun j t w _ hPj hbj => dlrm_device_inv c lbl ls.length j t w hPj hbj)
        hinit hdl
      exact goodS_of_invS v hmain.1 hmain.2.2.2.2.2

theorem custom_fwd_finish (L idx : Nat) (st st' : St) (layer newl : Layer)
    (n : Node) (hidx : idx < L)
    (hly : st.layers.get? idx = some layer)
    (hIW : InvW st) (hlen : st.layers.length = L)
    (hfresh : FwdCompFresh idx st)
    (hlay' : st'.layers = st.layers.set idx newl)
    (hout' : st'.out = st.out ++ [n])
    (htr' : st'.traces = st.traces)
    (hnext' : st'.next_node_id = st.next_node_id + 1)
    (hnid : n.id = st.next_node_id)
    (hndep : ∀ dep ∈ n.data_deps, st.traces.flatten.length ≤ dep)
    (hnewcomp : newl.fwd_comp_node = some st.next_node_id) :
    InvW st' ∧ st'.layers.length = L ∧ FwdCompFresh (idx + 1) st' ∧
      SlotLB st'.traces.flatten.length st'.next_node_id
        (some st.next_node_id) := by
  have hbase := hIW.base_le
  refine ⟨InvW_append hIW [n] (by rw [show idsOf [n] = [n.id] from rfl, hnid]; rfl)
      (by
        intro nd hnd dep hdep
        rcases List.mem_cons.mp hnd with rfl | hnd2
        · exact hndep dep hdep
        cases hnd2) hout' htr' (by rw [hnext']; rfl),
    by rw [hlay', List.length_set, hlen], ?_, ?_⟩
  · intro j hj l hget
    rw [htr', hnext']
    rw [hlay'] at hget
    by_cases hji : j = idx
    · subst hji
      rw [List.get?_set_eq, hly] at hget
      have he : newl = l := Option.some.inj hget
      rw [← he, hnewcomp]
      intro v hv
      have hv' := Option.some.inj hv
      omega
    · rw [List.get?_set_ne _ _ (fun hc => hji hc.symm)] at hget
      exact (hfresh j (by omega) l hget).mono (by omega)
  · rw [htr', hnext']
    intro v hv
    have hv' := Option.some.inj hv
    omega

theorem custom_fwd_step (L : Nat) (idx : Nat)
    (acc acc' : Option Nat × St) (hidx : idx < L)
    (hP : InvW acc.2 ∧ acc.2.layers.length = L ∧ FwdCompFresh idx acc.2 ∧
      SlotLB acc.2.traces.flatten.length acc.2.next_node_id acc.1)
    (hb : custom_fwd_body idx acc = .ok acc') :
    InvW acc'.2 ∧ acc'.2.layers.length = L ∧ FwdCompFresh (idx + 1) acc'.2 ∧
      SlotLB acc'.2.traces.flatten.length acc'.2.next_node_id acc'.1 := by
  obtain ⟨fc0, st⟩ := acc
  obtain ⟨hIW, hlen, hfresh, hacc⟩ := hP
  dsimp only at hIW hlen hfresh hacc
  have hbase := hIW.base_le
  cases hly : st.layers.get? idx with
  | none =>
    unfold custom_fwd_body at hb
    simp only [hly] at hb
    cases hb
  | some layer =>
    by_cases hz : idx = 0
    · subst hz
      have hbody : custom_fwd_body 0 (fc0, st) = .ok
          (some st.next_node_id,
          { st with
            next_node_id := st.next_node_id + 1,
            layers := st.layers.set 0
              { layer with
                fwd_comp_node := some st.next_node_id },
            out := st.out ++
              [{ id := st.next_node_id,
                 name := "COMP_NODE_" ++ layer.name ++ "_" ++ "FWD",
                 ntype := .COMP_NODE,
                 duration_micros := layer.fwd_comp_time,
                 attr := [], data_deps := [], role := "FWD" }] }) := by
        unfold custom_fwd_body
        simp only [hly, if_pos rfl, if_true, get_comp_node, get_node,
          setLayer, emit, List.get?_set_eq, Option.map_some', List.set_set]
        all_goals simp
      rw [hbody] at hb
      cases hb
      exact custom_fwd_finish L 0 st _ layer _ _ hidx hly hIW hlen hfresh
        rfl rfl rfl rfl rfl (fun dep hdep => absurd hdep (by simp)) rfl
    · cases hpl : st.layers.get? (idx - 1) with
      | none =>
        rw [List.get?_eq_none] at hpl
        omega
      | some prev =>
        cases hpc : prev.fwd_comp_node with
        | none =>
          have hbody : custom_fwd_body idx (fc0, st) = .error
              "AttributeError: 'NoneType' object has no attribute 'id'" := by
            unfold custom_fwd_body
            simp only [hly, if_neg hz, hpl, hpc, add_parent, get_comp_node,
              get_node]
          rw [hbody] at hb
          cases hb
        | some w =>
          have hw := (hfresh (idx - 1) (by omega) prev hpl) w hpc
          have hbody : custom_fwd_body idx (fc0, st) = .ok
              (some st.next_node_id,
              { st with
                next_node_id := st.next_node_id + 1,
                layers := st.layers.set idx
                  { layer with
                    fwd_comp_node := some st.next_node_id },
                out := st.out ++
                  [{ id := st.next_node_id,
                     name := "COMP_NODE_" ++ layer.name ++ "_" ++ "FWD",
                     ntype := .COMP_NODE,
                     duration_micros := layer.fwd_comp_time,
                     attr := [], data_deps := [w], role := "FWD" }] }) := by
            unfold custom_fwd_body
            simp only [hly, if_neg hz, hpl, hpc, add_parent, get_comp_node,
              get_node, setLayer, emit, List.get?_set_eq, Option.map_some',
              List.set_set]
            simp
          rw [hbody] at hb
          cases hb
          refine custom_fwd_finish L idx st _ layer _ _ hidx hly hIW hlen
            hfresh rfl rfl rfl rfl rfl ?_ rfl
          intro dep hdep
          have he := List.mem_singleton.mp hdep
          subst he
          omega

theorem custom_bwd_step (types : List String) (L : Nat) (fwd : Option Nat)
    (idx : Nat) (acc acc' : Option Nat × St) (hidx : idx < L)
    (hP : InvW acc.2 ∧ acc.2.layers.length = L ∧
      SlotLB acc.2.traces.flatten.length acc.2.next_node_id acc.1 ∧
      SlotLB acc.2.traces.flatten.length acc.2.next_node_id fwd)
    (hb : custom_bwd_body types fwd idx acc = .ok acc') :
    InvW acc'.2 ∧ acc'.2.layers.length = L ∧
      SlotLB acc'.2.traces.flatten.length acc'.2.next_node_id acc'.1 ∧
      SlotLB acc'.2.traces.flatten.length acc'.2.next_node_id fwd := by
  obtain ⟨prev, st⟩ := acc
  obtain ⟨hIW, hlen, hprev, hfwd⟩ := hP
  dsimp only at hIW hlen hprev hfwd
  have hbase := hIW.base_le
  cases hly : st.layers.get? (st.layers.length - 1 - idx) with
  | none =>
    rw [List.get?_eq_none] at hly
    omega
  | some layer =>
    cases hty : types.get? idx with
    | none =>
      unfold custom_bwd_body at hb
      simp only [hly, hty] at hb
      cases hb
    | some t =>
      by_cases ht1 : t = "FP"
      · have hbody : custom_bwd_body types fwd idx (prev, st) = .ok
            (prev,
            { st with
              layers := st.layers.set (st.layers.length - 1 - idx)
                { layer with
                  bwd_ig_comp_node := none, bwd_wg_comp_node := none } }) := by
          unfold custom_bwd_body
          simp only [hly, hty, if_pos ht1, setLayer, List.get?_set_eq,
            Option.map_some', List.set_set]
        rw [hbody] at hb
        cases hb
        exact ⟨⟨hIW.ids, hIW.prevLB, hIW.curLB⟩,
          by rw [List.length_set]; exact hlen, hprev, hfwd⟩

      by_cases ht2 : t = "FP+IG"
      · by_cases hz : idx = 0
        · cases hfo : fwd with
          | none =>
            have hbody : custom_bwd_body types fwd idx (prev, st) = .error
                "AttributeError: 'NoneType' object has no attribute 'id'" := by
              unfold custom_bwd_body
              simp only [hly, hty, if_neg ht1, if_pos ht2, if_pos hz, hfo, add_parent,
                get_comp_node, get_node]
              all_goals simp
            rw [hbody] at hb
            cases hb
          | some v =>
            have hv := hfwd v hfo
            rw [hfo] at hfwd
            have hbody : custom_bwd_body types fwd idx (prev, st) = .ok
                (some st.next_node_id,
                { st with
                  next_node_id := st.next_node_id + 1,
                  layers := st.layers.set (st.layers.length - 1 - idx)
                    { layer with
                      bwd_ig_comp_node := some st.next_node_id,
                      bwd_wg_comp_node := none },
                  out := st.out ++
                    [{ id := st.next_node_id,
                       name := "COMP_NODE_" ++ layer.name ++ "_" ++ "BWD_IG",
                       ntype := .COMP_NODE,
                       duration_micros := layer.bwd_ig_comp_time,
                       attr := [], data_deps := [v], role := "BWD_IG" }] }) := by
              unfold custom_bwd_body
              simp only [hly, hty, if_neg ht1, if_pos ht2, if_pos hz, hfo,
                add_parent, get_comp_node, get_node, setLayer, emit,
                List.get?_set_eq, Option.map_some', List.set_set]
              all_goals simp
            rw [hbody] at hb
            cases hb
            refine ⟨InvW_append hIW
              [{ id := st.next_node_id,
                 name := "COMP_NODE_" ++ layer.name ++ "_" ++ "BWD_IG",
                 ntype := .COMP_NODE,
                 duration_micros := layer.bwd_ig_comp_time,
                 attr := [], data_deps := [v], role := "BWD_IG" }]
              rfl ?_ rfl rfl rfl,
              by rw [List.length_set]; exact hlen, ?_, ?_⟩
            · intro nd hnd dep hdep
              rcases List.mem_cons.mp hnd with rfl | hnd2
              · have he := List.mem_singleton.mp hdep
                subst he
                omega
              cases hnd2
            · intro u hu
              have hu' := Option.some.inj hu
              dsimp only
              omega
            · exact (hfwd.mono (Nat.le_add_right _ _) :
                SlotLB st.traces.flatten.length (st.next_node_id + 1) (some v))
        · cases hfo : prev with
          | none =>
            have hbody : custom_bwd_body types fwd idx (prev, st) = .error
                "AttributeError: 'NoneType' object has no attribute 'id'" := by
              unfold custom_bwd_body
              simp only [hly, hty, if_neg ht1, if_pos ht2, if_neg hz, hfo, add_parent,
                get_comp_node, get_node]
              all_goals simp
            rw [hbody] at hb
            cases hb
          | some v =>
            have hv := hprev v hfo
            have hbody : custom_bwd_body types fwd idx (prev, st) = .ok
                (some st.next_node_id,
                { st with
                  next_node_id := st.next_node_id + 1,
                  layers := st.layers.set (st.layers.length - 1 - idx)
                    { layer with
                      bwd_ig_comp_node := some st.next_node_id,
                      bwd_wg_comp_node := none },
                  out := st.out ++
                    [{ id := st.next_node_id,
                       name := "COMP_NODE_" ++ layer.name ++ "_" ++ "BWD_IG",
                       ntype := .COMP_NODE,
                       duration_micros := layer.bwd_ig_comp_time,
                       attr := [], data_deps := [v], role := "BWD_IG" }] }) := by
              unfold custom_bwd_body
              simp only [hly, hty, if_neg ht1, if_pos ht2, if_neg hz, hfo,
                add_parent, get_comp_node, get_node, setLayer, emit,
                List.get?_set_eq, Option.map_some', List.set_set]
              all_goals simp
            rw [hbody] at hb
            cases hb
            refine ⟨InvW_append hIW
              [{ id := st.next_node_id,
                 name := "COMP_NODE_" ++ layer.name ++ "_" ++ "BWD_IG",
                 ntype := .COMP_NODE,
                 duration_micros := layer.bwd_ig_comp_time,
                 attr := [], data_deps := [v], role := "BWD_IG" }]
              rfl ?_ rfl rfl rfl,
              by rw [List.length_set]; exact hlen, ?_, ?_⟩
            · intro nd hnd dep hdep
              rcases List.mem_cons.mp hnd with rfl | hnd2
              · have he := List.mem_singleton.mp hdep
                subst he
                omega
              cases hnd2
            · intro u hu
              have hu' := Option.some.inj hu
              dsimp only
              omega
            · exact (hfwd.mono (Nat.le_add_right _ _) :
                SlotLB st.traces.flatten.length (st.next_node_id + 1) fwd)
      by_cases ht3 : t = "FP+WG"
      · by_cases hz : idx = 0
        · cases hfo : fwd with
          | none =>
            have hbody : custom_bwd_body types fwd idx (prev, st) = .error
                "AttributeError: 'NoneType' object has no attribute 'id'" := by
              unfold custom_bwd_body
              simp only [hly, hty, if_neg ht1, if_neg ht2, if_pos ht3, if_pos hz, hfo, add_parent,
                get_comp_node, get_node]
              all_goals simp
            rw [hbody] at hb
            cases hb
          | some v =>
            have hv := hfwd v hfo
            rw [hfo] at hfwd
            have hbody : custom_bwd_body types fwd idx (prev, st) = .ok
                (some st.next_node_id,
                { st with
                  next_node_id := st.next_node_id + 1,
                  layers := st.layers.set (st.layers.length - 1 - idx)
                    { layer with
                      bwd_ig_comp_node := none,
                      bwd_wg_comp_node := some st.next_node_id },
                  out := st.out ++
                    [{ id := st.next_node_id,
                       name := "COMP_NODE_" ++ layer.name ++ "_" ++ "BWD_WG",
                       ntype := .COMP_NODE,
                       duration_micros := layer.bwd_wg_comp_time,
                       attr := [], data_deps := [v], role := "BWD_WG" }] }) := by
              unfold custom_bwd_body
              simp only [hly, hty, if_neg ht1, if_neg ht2, if_pos ht3, if_pos hz, hfo,
                add_parent, get_comp_node, get_node, setLayer, emit,
                List.get?_set_eq, Option.map_some', List.set_set]
              all_goals simp
            rw [hbody] at hb
            cases hb
            refine ⟨InvW_append hIW
              [{ id := st.next_node_id,
                 name := "COMP_NODE_" ++ layer.name ++ "_" ++ "BWD_WG",
                 ntype := .COMP_NODE,
                 duration_micros := layer.bwd_wg_comp_time,
                 attr := [], data_deps := [v], role := "BWD_WG" }]
              rfl ?_ rfl rfl rfl,
              by rw [List.length_set]; exact hlen, ?_, ?_⟩
            · intro nd hnd dep hdep
              rcases List.mem_cons.mp hnd with rfl | hnd2
              · have he := List.mem_singleton.mp hdep
                subst he
                omega
              cases hnd2
            · intro u hu
              have hu' := Option.some.inj hu
              dsimp only
              omega
            · exact (hfwd.mono (Nat.le_add_right _ _) :
                SlotLB st.traces.flatten.length (st.next_node_id + 1) (some v))
        · cases hfo : prev with
          | none =>
            have hbody : custom_bwd_body types fwd idx (prev, st) = .error
                "AttributeError: 'NoneType' object has no attribute 'id'" := by
              unfold custom_bwd_body
              simp only [hly, hty, if_neg ht1, if_neg ht2, if_pos ht3, if_neg hz, hfo, add_parent,
                get_comp_node, get_node]
              all_goals simp
            rw [hbody] at hb
            cases hb
          | some v =>
            have hv := hprev v hfo
            have hbody : custom_bwd_body types fwd idx (prev, st) = .ok
                (some st.next_node_id,
                { st with
                  next_node_id := st.next_node_id + 1,
                  layers := st.layers.set (st.layers.length - 1 - idx)
                    { layer with
                      bwd_ig_comp_node := none,
                      bwd_wg_comp_node := some st.next_node_id },
                  out := st.out ++
                    [{ id := st.next_node_id,
                       name := "COMP_NODE_" ++ layer.name ++ "_" ++ "BWD_WG",
                       ntype := .COMP_NODE,
                       duration_micros := layer.bwd_wg_comp_time,
                       attr := [], data_deps := [v], role := "BWD_WG" }] }) := by
              unfold custom_bwd_body
              simp only [hly, hty, if_neg ht1, if_neg ht2, if_pos ht3, if_neg hz, hfo,
                add_parent, get_comp_node, get_node, setLayer, emit,
                List.get?_set_eq, Option.map_some', List.set_set]
              all_goals simp
            rw [hbody] at hb
            cases hb
            refine ⟨InvW_append hIW
              [{ id := st.next_node_id,
                 name := "COMP_NODE_" ++ layer.name ++ "_" ++ "BWD_WG",
                 ntype := .COMP_NODE,
                 duration_micros := layer.bwd_wg_comp_time,
                 attr := [], data_deps := [v], role := "BWD_WG" }]
              rfl ?_ rfl rfl rfl,
              by rw [List.length_set]; exact hlen, ?_, ?_⟩
            · intro nd hnd dep hdep
              rcases List.mem_cons.mp hnd with rfl | hnd2
              · have he := List.mem_singleton.mp hdep
                subst he
                omega
              cases hnd2
            · intro u hu
              have hu' := Option.some.inj hu
              dsimp only
              omega
            · exact (hfwd.mono (Nat.le_add_right _ _) :
                SlotLB st.traces.flatten.length (st.next_node_id + 1) fwd)
      by_cases ht4 : t = "FP+IG+WG"
      · by_cases hz : idx = 0
        · cases hfo : fwd with
          | none =>
            have hbody : custom_bwd_body types fwd idx (prev, st) = .error
                "AttributeError: 'NoneType' object has no attribute 'id'" := by
              unfold custom_bwd_body
              simp only [hly, hty, if_neg ht1, if_neg ht2, if_neg ht3, if_pos ht4, if_pos hz, hfo, add_parent,
                get_comp_node, get_node]
              all_goals simp
            rw [hbody] at hb
            cases hb
          | some v =>
            have hv := hfwd v hfo
            rw [hfo] at hfwd
            have hbody : custom_bwd_body types fwd idx (prev, st) = .ok
                (some st.next_node_id,
                { st with
                  next_node_id := st.next_node_id + 2,
                  layers := st.layers.set (st.layers.length - 1 - idx)
                    { layer with
                      bwd_ig_comp_node := some st.next_node_id,
                      bwd_wg_comp_node := some (st.next_node_id + 1) },
                  out := st.out ++
                    [{ id := st.next_node_id,
                       name := "COMP_NODE_" ++ layer.name ++ "_" ++ "BWD_IG",
                       ntype := .COMP_NODE,
                       duration_micros := layer.bwd_ig_comp_time,
                       attr := [],
                       data_deps := [st.next_node_id + 1],
                       role := "BWD_IG" },
                     { id := st.next_node_id + 1,
                       name := "COMP_NODE_" ++ layer.name ++ "_" ++ "BWD_WG",
                       ntype := .COMP_NODE,
                       duration_micros := layer.bwd_wg_comp_time,
                       attr := [], data_deps := [v],
                       role := "BWD_WG" }] }) := by
              unfold custom_bwd_body
              simp only [hly, hty, if_neg ht1, if_neg ht2, if_neg ht3,
                if_pos ht4, if_pos hz, hfo, add_parent, add_parent_if,
                get_comp_node, get_node, setLayer, emit, List.get?_set_eq,
                Option.map_some', List.set_set]
              all_goals simp
            rw [hbody] at hb
            cases hb
            refine ⟨InvW_append hIW
              [{ id := st.next_node_id,
                 name := "COMP_NODE_" ++ layer.name ++ "_" ++ "BWD_IG",
                 ntype := .COMP_NODE,
                 duration_micros := layer.bwd_ig_comp_time,
                 attr := [],
                 data_deps := [st.next_node_id + 1],
                 role := "BWD_IG" },
               { id := st.next_node_id + 1,
                 name := "COMP_NODE_" ++ layer.name ++ "_" ++ "BWD_WG",
                 ntype := .COMP_NODE,
                 duration_micros := layer.bwd_wg_comp_time,
                 attr := [], data_deps := [v],
                 role := "BWD_WG" }]
              rfl ?_ rfl rfl rfl,
              by rw [List.length_set]; exact hlen, ?_, ?_⟩
            · intro nd hnd dep hdep
              rcases List.mem_cons.mp hnd with rfl | hnd2
              · have he := List.mem_singleton.mp hdep
                subst he
                omega
              rcases List.mem_cons.mp hnd2 with rfl | hnd3
              · have he := List.mem_singleton.mp hdep
                subst he
                omega
              cases hnd3
            · intro u hu
              have hu' := Option.some.inj hu
              dsimp only
              omega
            · exact (hfwd.mono (Nat.le_add_right _ _) :
                SlotLB st.traces.flatten.length (st.next_node_id + 2) (some v))
        · cases hfo : prev with
          | none =>
            have hbody : custom_bwd_body types fwd idx (prev, st) = .error
                "AttributeError: 'NoneType' object has no attribute 'id'" := by
              unfold custom_bwd_body
              simp only [hly, hty, if_neg ht1, if_neg ht2, if_neg ht3, if_pos ht4, if_neg hz, hfo, add_parent,
                get_comp_node, get_node]
              all_goals simp
            rw [hbody] at hb
            cases hb
          | some v =>
            have hv := hprev v hfo
            have hbody : custom_bwd_body types fwd idx (prev, st) = .ok
                (some st.next_node_id,
                { st with
                  next_node_id := st.next_node_id + 2,
                  layers := st.layers.set (st.layers.length - 1 - idx)
                    { layer with
                      bwd_ig_comp_node := some st.next_node_id,
                      bwd_wg_comp_node := some (st.next_node_id + 1) },
                  out := st.out ++
                    [{ id := st.next_node_id,
                       name := "COMP_NODE_" ++ layer.name ++ "_" ++ "BWD_IG",
                       ntype := .COMP_NODE,
                       duration_micros := layer.bwd_ig_comp_time,
                       attr := [],
                       data_deps := [st.next_node_id + 1],
                       role := "BWD_IG" },
                     { id := st.next_node_id + 1,
                       name := "COMP_NODE_" ++ layer.name ++ "_" ++ "BWD_WG",
                       ntype := .COMP_NODE,
                       duration_micros := layer.bwd_wg_comp_time,
                       attr := [], data_deps := [v],
                       role := "BWD_WG" }] }) := by
              unfold custom_bwd_body
              simp only [hly, hty, if_neg ht1, if_neg ht2, if_neg ht3,
                if_pos ht4, if_neg hz, hfo, add_parent, add_parent_if,
                get_comp_node, get_node, setLayer, emit, List.get?_set_eq,
                Option.map_some', List.set_set]
              all_goals simp
            rw [hbody] at hb
            cases hb
            refine ⟨InvW_append hIW
              [{ id := st.next_node_id,
                 name := "COMP_NODE_" ++ layer.name ++ "_" ++ "BWD_IG",
                 ntype := .COMP_NODE,
                 duration_micros := layer.bwd_ig_comp_time,
                 attr := [],
                 data_deps := [st.next_node_id + 1],
                 role := "BWD_IG" },
               { id := st.next_node_id + 1,
                 name := "COMP_NODE_" ++ layer.name ++ "_" ++ "BWD_WG",
                 ntype := .COMP_NODE,
                 duration_micros := layer.bwd_wg_comp_time,
                 attr := [], data_deps := [v],
                 role := "BWD_WG" }]
              rfl ?_ rfl rfl rfl,
              by rw [List.length_set]; exact hlen, ?_, ?_⟩
            · intro nd hnd dep hdep
              rcases List.mem_cons.mp hnd with rfl | hnd2
              · have he := List.mem_singleton.mp hdep
                subst he
                omega
              rcases List.mem_cons.mp hnd2 with rfl | hnd3
              · have he := List.mem_singleton.mp hdep
                subst he
                omega
              cases hnd3
            · intro u hu
              have hu' := Option.some.inj hu
              dsimp only
              omega
            · exact (hfwd.mono (Nat.le_add_right _ _) :
                SlotLB st.traces.flatten.length (st.next_node_id + 2) fwd)
      · have hbody : custom_bwd_body types fwd idx (prev, st) = .error
            ("Unknown compute type: " ++ t) := by
          unfold custom_bwd_body
          simp only [hly, hty, if_neg ht1, if_neg ht2, if_neg ht3, if_neg ht4]
        rw [hbody] at hb
        cases hb

theorem custom_pass_inv (types : List String) (c : Converter) (L : Nat)
    (p : Nat) (st st' : St)
    (hP : InvW st ∧ st.layers.length = L)
    (hb : custom_pass_body types p st = .ok st') :
    InvW st' ∧ st'.layers.length = L := by
  obtain ⟨hIW, hlen⟩ := hP
  unfold custom_pass_body at hb
  cases hfl : loopE custom_fwd_body (List.range st.layers.length)
      (none, st) with
  | error e =>
    simp only [hfl] at hb
    cases hb
  | ok r =>
    obtain ⟨fwd, st1⟩ := r
    simp only [hfl] at hb
    have hfwd := loopE_range_ind custom_fwd_body
      (fun k acc => InvW acc.2 ∧ acc.2.layers.length = L ∧
        FwdCompFresh k acc.2 ∧
        SlotLB acc.2.traces.flatten.length acc.2.next_node_id acc.1)
      st.layers.length (none, st) (fwd, st1)
      (fun j t v hj hPj hbj =>
        custom_fwd_step L j t v (by omega) hPj hbj)
      ⟨hIW, hlen, (fun j hj => absurd hj (Nat.not_lt_zero j)),
        (fun v hv => by cases hv)⟩ hfl
    obtain ⟨hIW1, hlen1, _, hfwd1⟩ := hfwd
    dsimp only at hIW1 hlen1 hfwd1
    cases hbl : loopE (custom_bwd_body types fwd)
        (List.range st1.layers.length) (none, st1) with
    | error e =>
      simp only [hbl] at hb
      cases hb
    | ok r2 =>
      obtain ⟨pv, st2⟩ := r2
      simp only [hbl] at hb
      cases hb
      have hbwd := loopE_range_ind (custom_bwd_body types fwd)
        (fun _ acc => InvW acc.2 ∧ acc.2.layers.length = L ∧
          SlotLB acc.2.traces.flatten.length acc.2.next_node_id acc.1 ∧
          SlotLB acc.2.traces.flatten.length acc.2.next_node_id fwd)
        st1.layers.length (none, st1) (pv, st')
        (fun j t v hj hPj hbj =>
          custom_bwd_step types L fwd j t v (by omega) hPj hbj)
        ⟨hIW1, hlen1, (fun v hv => by cases hv), hfwd1⟩ hbl
      exact ⟨hbwd.1, hbwd.2.1⟩

theorem custom_device_inv (types : List String) (c : Converter) (L : Nat)
    (k : Nat) (st st' : St)
    (hP : InvW st ∧ st.layers.length = L ∧ st.out = [])
    (hb : custom_device_body types c k st = .ok st') :
    InvW st' ∧ st'.layers.length = L ∧ st'.out = [] := by
  obtain ⟨hIW, hlen, hout⟩ := hP
  unfold custom_device_body at hb
  have hst0 : { st with out := ([] : List Node) } = st := by
    rw [← hout]
  cases hpl : loopE (custom_pass_body types) (List.range c.num_passes)
      { st with out := [] } with
  | error e =>
    simp only [hpl] at hb
    cases hb
  | ok u =>
    simp only [hpl] at hb
    have hst' := Except.ok.inj hb
    have hlay' : st'.layers = u.layers := by
      rw [← hst']
    have htr' : st'.traces = u.traces ++ [u.out] := by
      rw [← hst']
    have hout'' : st'.out = [] := by
      rw [← hst']
    have hnext' : st'.next_node_id = u.next_node_id := by
      rw [← hst']
    have h0 : InvW { st with out := ([] : List Node) } ∧
        ({ st with out := ([] : List Node) } : St).layers.length = L := by
      rw [hst0]
      exact ⟨hIW, hlen⟩
    have hrun := loopE_range_ind (custom_pass_body types)
      (fun _ s => InvW s ∧ s.layers.length = L)
      c.num_passes { st with out := [] } u
      (fun j t v _ hPj hbj => custom_pass_inv types c L j t v hPj hbj)
      h0 hpl
    refine ⟨InvW_commit hrun.1 htr' hout'' hnext', ?_, hout''⟩
    rw [hlay']
    exact hrun.2

/-- A successful CUSTOM run satisfies the weak trace contract. -/
theorem custom_goodW (c : Converter) (lines : List String) (nl : Int)
    (traces : List (List Node))
    (hok : convert_custom_paralellism c lines nl = .ok traces) :
    GoodW traces := by
  unfold convert_custom_paralellism at hok
  cases hls : get_layers lines nl with
  | error e =>
    simp only [hls] at hok
    cases hok
  | ok ls =>
    simp only [hls] at hok
    cases hts : custom_layer_types ls nl with
    | error e =>
      simp only [hts] at hok
      cases hok
    | ok types =>
      simp only [hts] at hok
      cases hdl : loopE (custom_device_body types c) (List.range c.num_npus)
          (initSt ls) with
      | error e =>
        simp only [hdl] at hok
        cases hok
      | ok v =>
        simp only [hdl] at hok
        cases hok
        have hmain := loopE_range_ind (custom_device_body types c)
          (fun _ s => InvW s ∧ s.layers.length = ls.length ∧ s.out = [])
          c.num_npus (initSt ls) v
          (fun j t w _ hPj hbj =>
            custom_device_inv types c ls.length j t w hPj hbj)
          ⟨(invS_init ls).toInvW, rfl, rfl⟩ hdl
        exact goodW_of_invW v hmain.1 hmain.2.2

/-! ## Dispatcher-level contracts and id-slice geometry -/

/-- Every successful `convert` run satisfies the weak trace contract. -/
theorem convert_goodW (c : Converter) (lines : List String)
    (traces : List (List Node)) (hok : convert c lines = .ok traces) :
    GoodW traces := by
  unfold convert at hok
  cases htag : (splitWs ((lines.get? 0).getD "")).get? 0 with
  | none =>
    simp only [htag] at hok
    cases hok
  | some tag =>
    simp only [htag] at hok
    cases hnl : pyInt (stripWs ((lines.get? 1).getD "")) with
    | none =>
      simp only [hnl] at hok
      cases hok
    | some nl =>
      simp only [hnl] at hok
      by_cases h1 : tag = "MICRO"
      · rw [if_pos h1] at hok
        exact (micro_goodS c _ nl traces hok).1
      rw [if_neg h1] at hok
      by_cases h2 : tag = "DATA"
      · rw [if_pos h2] at hok
        have hok2 := hok
        unfold convert_data_parallel at hok2
        cases hls : get_layers (lines.drop 2) nl with
        | error e =>
          simp only [hls] at hok2
          cases hok2
        | ok ls =>
          exact (data_goodS c _ nl ls hls traces hok).1
      rw [if_neg h2] at hok
      by_cases h3 : tag = "MODEL"
      · rw [if_pos h3] at hok
        exact (model_goodS c _ nl traces hok).1
      rw [if_neg h3] at hok
      by_cases h4 : tag = "HYBRID_DATA_MODEL"
      · rw [if_pos h4] at hok
        exact (hdm_goodS c _ nl traces hok).1.1
      rw [if_neg h4] at hok
      by_cases h5 : tag = "HYBRID_MODEL_DATA"
      · rw [if_pos h5] at hok
        exact (hmd_goodS c _ nl traces hok).1.1
      rw [if_neg h5] at hok
      by_cases h6 : tag = "CUSTOM"
      · rw [if_pos h6] at hok
        exact custom_goodW c _ nl traces hok
      rw [if_neg h6] at hok
      by_cases h7 : tag = "HYBRID_DLRM" ∨ tag = "HYBRID_DLRM_ENHANCED"
      · rw [if_pos h7] at hok
        cases htok : (splitWs ((lines.get? 0).getD "")).get? 1 with
        | none =>
          simp only [htok] at hok
          cases hok
        | some tok =>
          simp only [htok] at hok
          cases hlbl : pyInt tok with
          | none =>
            simp only [hlbl] at hok
            cases hok
          | some lbl =>
            simp only [hlbl] at hok
            exact (dlrm_goodS c _ nl lbl traces hok).1
      · rw [if_neg h7] at hok
        cases hok

/-- Every successful `convert` run whose mode tag is not `CUSTOM` satisfies
the strong trace contract. -/
theorem convert_goodS_noncustom (c : Converter) (lines : List String)
    (traces : List (List Node))
    (htagne : (splitWs ((lines.get? 0).getD "")).get? 0 ≠ some "CUSTOM")
    (hok : convert c lines = .ok traces) :
    GoodS traces := by
  unfold convert at hok
  cases htag : (splitWs ((lines.get? 0).getD "")).get? 0 with
  | none =>
    simp only [htag] at hok
    cases hok
  | some tag =>
    simp only [htag] at hok
    cases hnl : pyInt (stripWs ((lines.get? 1).getD "")) with
    | none =>
      simp only [hnl] at hok
      cases hok
    | some nl =>
      simp only [hnl] at hok
      by_cases h1 : tag = "MICRO"
      · rw [if_pos h1] at hok
        exact micro_goodS c _ nl traces hok
      rw [if_neg h1] at hok
      by_cases h2 : tag = "DATA"
      · rw [if_pos h2] at hok
        have hok2 := hok
        unfold convert_data_parallel at hok2
        cases hls : get_layers (lines.drop 2) nl with
        | error e =>
          simp only [hls] at hok2
          cases hok2
        | ok ls =>
          exact data_goodS c _ nl ls hls traces hok
      rw [if_neg h2] at hok
      by_cases h3 : tag = "MODEL"
      · rw [if_pos h3] at hok
        exact model_goodS c _ nl traces hok
      rw [if_neg h3] at hok
      by_cases h4 : tag = "HYBRID_DATA_MODEL"
      · rw [if_pos h4] at hok
        exact (hdm_goodS c _ nl traces hok).1
      rw [if_neg h4] at hok
      by_cases h5 : tag = "HYBRID_MODEL_DATA"
      · rw [if_pos h5] at hok
        exact (hmd_goodS c _ nl traces hok).1
      rw [if_neg h5] at hok
      by_cases h6 : tag = "CUSTOM"
      · subst h6
        exact absurd htag htagne
      rw [if_neg h6] at hok
      by_cases h7 : tag = "HYBRID_DLRM" ∨ tag = "HYBRID_DLRM_ENHANCED"
      · rw [if_pos h7] at hok
        cases htok : (splitWs ((lines.get? 0).getD "")).get? 1 with
        | none =>
          simp only [htok] at hok
          cases hok
        | some tok =>
          simp only [htok] at hok
          cases hlbl : pyInt tok with
          | none =>
            simp only [hlbl] at hok
            cases hok
          | some lbl =>
            simp only [hlbl] at hok
            exact dlrm_goodS c _ nl lbl traces hok
      · rw [if_neg h7] at hok
        cases hok

/-- The flattened prefix of `k` traces carries the ids `0 … len-1`. -/
theorem goodW_take_ids (traces : List (List Node)) (h : GoodW traces)
    (k : Nat) :
    idsOf (traces.take k).flatten =
      List.range ((traces.take k).flatten.length) := by
  obtain ⟨hids, _⟩ := h
  have hflat : traces.flatten =
      (traces.take k).flatten ++ (traces.drop k).flatten := by
    rw [← List.flatten_append, List.take_append_drop]
  rw [hflat, idsOf_append, List.length_append] at hids
  have hsplit : List.range ((traces.take k).flatten.length +
      (traces.drop k).flatten.length) =
      List.range ((traces.take k).flatten.length) ++
        List.range' ((traces.take k).flatten.length)
          ((traces.drop k).flatten.length) := by
    rw [List.range_eq_range', List.range_eq_range']
    rw [← range'_concat]
    simp only [Nat.zero_add]
  rw [hsplit] at hids
  have hlen : (idsOf (traces.take k).flatten).length =
      (List.range ((traces.take k).flatten.length)).length := by
    rw [List.length_range]
    exact List.length_map _ _
  exact (List.append_inj hids hlen).1

/-- Appending the `k`-th trace to the flattened prefix. -/
theorem take_succ_flatten (traces : List (List Node)) (k : Nat)
    (hk : k < traces.length) :
    (traces.take (k + 1)).flatten =
      (traces.take k).flatten ++ traces.get ⟨k, hk⟩ := by
  rw [List.take_succ]
  rw [List.getElem?_eq_getElem hk]
  simp only [Option.toList_some, List.flatten_append, List.flatten_cons,
    List.flatten_nil, List.append_nil, List.get_eq_getElem]

/-- Each trace of a `GoodW` run carries the consecutive id block that starts
right after the ids of the previous traces. -/
theorem trace_ids_slice (traces : List (List Node)) (h : GoodW traces)
    (k : Nat) (hk : k < traces.length) :
    idsOf (traces.get ⟨k, hk⟩) =
      List.range' ((traces.take k).flatten.length)
        ((traces.get ⟨k, hk⟩).length) := by
  have h1 := goodW_take_ids traces h (k + 1)
  rw [take_succ_flatten traces k hk, idsOf_append, List.length_append]
  at h1
  have hsplit : List.range ((traces.take k).flatten.length +
      (traces.get ⟨k, hk⟩).length) =
      List.range ((traces.take k).flatten.length) ++
        List.range' ((traces.take k).flatten.length)
          ((traces.get ⟨k, hk⟩).length) := by
    rw [List.range_eq_range', List.range_eq_range']
    rw [← range'_concat]
    simp only [Nat.zero_add]
  rw [hsplit] at h1
  have hlen : (idsOf (traces.take k).flatten).length =
      (List.range ((traces.take k).flatten.length)).length := by
    rw [List.length_range]
    exact List.length_map _ _
  have h2 := (List.append_inj h1 hlen).2
  rw [h2]

/-- The flattened prefix length is monotone in the number of traces. -/
theorem take_flatten_mono (traces : List (List Node)) (a b : Nat)
    (hab : a ≤ b) :
    (traces.take a).flatten.length ≤ (traces.take b).flatten.length := by
  have hpre : traces.take a = (traces.take b).take a := by
    rw [List.take_take]
    rw [Nat.min_eq_left hab]
  rw [hpre]
  conv_rhs => rw [← List.take_append_drop a (traces.take b)]
  rw [List.flatten_append, List.length_append]
  omega

/-- In a `GoodW` run no dependency of a node in trace `k` names an id of an
earlier trace `k'`. -/
theorem goodW_no_cross (traces : List (List Node)) (h : GoodW traces) :
    ∀ k (hk : k < traces.length) (k' : Nat) (hk' : k' < traces.length),
      k' < k → ∀ n ∈ traces.get ⟨k, hk⟩, ∀ dep ∈ n.data_deps,
      dep ∉ idsOf (traces.get ⟨k', hk'⟩) := by
  intro k hk k' hk' hlt n hn dep hdep hmem
  have hLB := h.2 k hk n hn dep hdep
  rw [trace_ids_slice traces h k' hk'] at hmem
  have hrange := List.mem_range'_1.mp hmem
  have hsum : (traces.take (k' + 1)).flatten.length =
      (traces.take k').flatten.length +
        (traces.get ⟨k', hk'⟩).length := by
    rw [take_succ_flatten traces k' hk', List.length_append]
  have hmono := take_flatten_mono traces (k' + 1) k hlt
  omega

/-! ## Claim C5 -/

/-- C5: in DATA mode with `L` layers, every device's trace splits into one
segment per pass, and every segment holds exactly `L` forward compute
nodes, `L` weight-gradient compute nodes, `L` weight-gradient collective
communication nodes, and `L - 1` input-gradient compute nodes. -/
theorem c5_data_pass_census (c : Converter) (lines : List String) (nl : Int)
    (ls : List Layer) (traces : List (List Node))
    (hls : get_layers lines nl = .ok ls)
    (hok : convert_data_parallel c lines nl = .ok traces) :
    ∀ tr ∈ traces, ∃ segs : List (List Node),
      tr = segs.flatten ∧ segs.length = c.num_passes ∧
      ∀ seg ∈ segs,
        seg.countP isFwdComp = ls.length ∧
        seg.countP isWgComp = ls.length ∧
        seg.countP isWgComm = ls.length ∧
        seg.countP isIgComp = ls.length - 1 := by
  have htr := convert_data_parallel_spec c lines nl ls hls traces hok
  intro tr htrm
  rw [htr] at htrm
  obtain ⟨dev, _, hfl⟩ := List.mem_map.mp htrm
  refine ⟨dataSegs c.num_dims ls (dev * (c.num_passes * (4 * ls.length - 1)))
    c.num_passes, hfl.symm, ?_, ?_⟩
  · unfold dataSegs
    simp
  · intro seg hseg
    unfold dataSegs at hseg
    obtain ⟨p, _, hsegeq⟩ := List.mem_map.mp hseg
    subst hsegeq
    have hlen := dataStateLayers_length ls
      (dev * (c.num_passes * (4 * ls.length - 1))) p
    rw [countP_dataSegment_fwd, countP_dataSegment_wgComp,
      countP_dataSegment_wgComm, countP_dataSegment_ig, hlen]
    exact ⟨rfl, rfl, rfl, rfl⟩

/-- C5 witness: a one-layer one-pass one-device DATA run, with each count
evaluated on the concrete trace. -/
theorem c5_witness :
    get_layers ["l0 0 1 NONE 1 1 NONE 1 1 NONE 1 0"] 1 =
      .ok ((get_layers ["l0 0 1 NONE 1 1 NONE 1 1 NONE 1 0"] 1).toOption.getD
        []) ∧
    convert_data_parallel ⟨1, 1, 1⟩ ["l0 0 1 NONE 1 1 NONE 1 1 NONE 1 0"] 1 =
      .ok ((convert_data_parallel ⟨1, 1, 1⟩
        ["l0 0 1 NONE 1 1 NONE 1 1 NONE 1 0"] 1).toOption.getD []) ∧
    (∀ tr ∈ (convert_data_parallel ⟨1, 1, 1⟩
        ["l0 0 1 NONE 1 1 NONE 1 1 NONE 1 0"] 1).toOption.getD [],
      ∃ segs : List (List Node), tr = segs.flatten ∧ segs.length = 1 ∧
        ∀ seg ∈ segs,
          seg.countP isFwdComp = 1 ∧
          seg.countP isWgComp = 1 ∧
          seg.countP isWgComm = 1 ∧
          seg.countP isIgComp = 0) :=
  ⟨rfl, rfl,
    c5_data_pass_census ⟨1, 1, 1⟩ ["l0 0 1 NONE 1 1 NONE 1 1 NONE 1 0"] 1
      ((get_layers ["l0 0 1 NONE 1 1 NONE 1 1 NONE 1 0"] 1).toOption.getD [])
      ((convert_data_parallel ⟨1, 1, 1⟩
        ["l0 0 1 NONE 1 1 NONE 1 1 NONE 1 0"] 1).toOption.getD [])
      rfl rfl⟩

/-- Position 1 of every backward chunk is the weight-gradient collective
communication node of the chunk's layer. -/
theorem dataBwdChunk_get_comm (d : Nat) (ls : List Layer) (N j : Nat) :
    ∃ m, (dataBwdChunk d ls N j).get? 1 = some m ∧
      m.id = N + ls.length + 3 * j + 1 ∧
      m.ntype = .COMM_COLL_NODE ∧ m.role = "BWD_WG" ∧
      m.name = "COMM_COLL_NODE_" ++
        (ls.getD (ls.length - 1 - j) default).name ++ "_" ++
        (ls.getD (ls.length - 1 - j) default).bwd_wg_comm_type := by
  simp only [dataBwdChunk]
  by_cases h : j = ls.length - 1
  · rw [if_pos h]
    exact ⟨_, rfl, rfl, rfl, rfl, rfl⟩
  · rw [if_neg h]
    exact ⟨_, rfl, rfl, rfl, rfl, rfl⟩

/-! ## Claim C6 -/

/-- C6: in DATA mode, the forward compute node of layer `i` in pass `p`
(position `i` of the pass's segment) chains to layer `i-1`'s forward node
when `i > 0`, carries exactly one extra cross-pass dependency when `p > 0`
— on the id of layer `i`'s weight-gradient communication node of pass
`p-1` — and carries none on the first pass of each device. -/
theorem c6_data_forward_deps (c : Converter) (lines : List String) (nl : Int)
    (ls : List Layer) (traces : List (List Node))
    (hls : get_layers lines nl = .ok ls)
    (hok : convert_data_parallel c lines nl = .ok traces) :
    ∀ tr ∈ traces, ∃ (segs : List (List Node)) (N₀ : Nat),
      tr = segs.flatten ∧ segs.length = c.num_passes ∧
      ∀ p (hp : p < segs.length), ∀ i, i < ls.length →
        ∃ nd, (segs.get ⟨p, hp⟩).get? i = some nd ∧
          nd.role = "FWD" ∧ nd.ntype = .COMP_NODE ∧
          nd.id = N₀ + p * (4 * ls.length - 1) + i ∧
          nd.data_deps =
            (if i = 0 then []
             else [N₀ + p * (4 * ls.length - 1) + (i - 1)]) ++
            (if p = 0 then []
             else [N₀ + (p - 1) * (4 * ls.length - 1) + ls.length +
               3 * (ls.length - 1 - i) + 1]) ∧
          (0 < p → ∃ m, (segs.get ⟨p - 1, by omega⟩).get?
              (ls.length + 3 * (ls.length - 1 - i) + 1) = some m ∧
            m.id = N₀ + (p - 1) * (4 * ls.length - 1) + ls.length +
              3 * (ls.length - 1 - i) + 1 ∧
            m.ntype = .COMM_COLL_NODE ∧ m.role = "BWD_WG" ∧
            m.name = "COMM_COLL_NODE_" ++ (ls.getD i default).name ++ "_" ++
              (ls.getD i default).bwd_wg_comm_type) := by
  have htr := convert_data_parallel_spec c lines nl ls hls traces hok
  have hwg : ∀ l ∈ ls, l.bwd_wg_comm_node = none :=
    fun l hl => (get_layers_slots hls l hl).2.2.2.2.2
  intro tr htrm
  rw [htr] at htrm
  obtain ⟨dev, _, hfl⟩ := List.mem_map.mp htrm
  set N₀ := dev * (c.num_passes * (4 * ls.length - 1)) with hN₀
  have hsegslen : (dataSegs c.num_dims ls N₀ c.num_passes).length =
      c.num_passes := by
    unfold dataSegs
    simp
  have hsegp : ∀ q, q < c.num_passes →
      ∀ (hq : q < (dataSegs c.num_dims ls N₀ c.num_passes).length),
      (dataSegs c.num_dims ls N₀ c.num_passes).get ⟨q, hq⟩ =
        dataSegment c.num_dims (dataStateLayers ls N₀ q)
          (N₀ + q * (4 * ls.length - 1)) := by
    intro q hqP hq
    have h1 : (dataSegs c.num_dims ls N₀ c.num_passes).get? q = some
        (dataSegment c.num_dims (dataStateLayers ls N₀ q)
          (N₀ + q * (4 * ls.length - 1))) := by
      unfold dataSegs
      rw [List.get?_map, List.get?_range hqP]
      rfl
    have h2 := List.get?_eq_get hq
    exact Option.some.inj (h2.symm.trans h1)
  refine ⟨dataSegs c.num_dims ls N₀ c.num_passes, N₀, hfl.symm, hsegslen, ?_⟩
  intro p hp i hi
  have hplen : p < c.num_passes := by omega
  have hlenp := dataStateLayers_length ls N₀ p
  refine ⟨dataFwdNode (dataStateLayers ls N₀ p)
    (N₀ + p * (4 * ls.length - 1)) i, ?_, rfl, rfl, rfl, ?_, ?_⟩
  · rw [hsegp p hplen hp]
    exact dataSegment_get_fwd c.num_dims _ _ i (by omega)
  · show (if i = 0 then []
        else [N₀ + p * (4 * ls.length - 1) + (i - 1)]) ++
        (match ((dataStateLayers ls N₀ p).getD i default).bwd_wg_comm_node with
         | some v => [v] | none => []) = _
    have hslot := dataStateLayers_wg_slot ls N₀ hwg p i hi
    by_cases hp0 : p = 0
    · subst hp0
      rw [if_pos rfl] at hslot
      rw [hslot]
      simp
    · rw [if_neg hp0] at hslot
      rw [hslot, if_neg hp0]
  · intro hppos
    have hp1 : p - 1 < c.num_passes := by omega
    have hlenp1 := dataStateLayers_length ls N₀ (p - 1)
    have hj : ls.length - 1 - i < (dataStateLayers ls N₀ (p - 1)).length := by
      omega
    have hbwd := dataSegment_get_bwd c.num_dims (dataStateLayers ls N₀ (p - 1))
      (N₀ + (p - 1) * (4 * ls.length - 1)) (ls.length - 1 - i) 1 hj
      (by split <;> omega)
    obtain ⟨m, hm, hmid, hmty, hmrole, hmname⟩ := dataBwdChunk_get_comm
      c.num_dims (dataStateLayers ls N₀ (p - 1))
      (N₀ + (p - 1) * (4 * ls.length - 1)) (ls.length - 1 - i)
    refine ⟨m, ?_, ?_, hmty, hmrole, ?_⟩
    · rw [hsegp (p - 1) hp1]
      have hposfix : ls.length + 3 * (ls.length - 1 - i) + 1 =
          (dataStateLayers ls N₀ (p - 1)).length +
            3 * (ls.length - 1 - i) + 1 := by
        rw [hlenp1]
      rw [hposfix, hbwd]
      exact hm
    · rw [hlenp1] at hmid
      exact hmid
    · have hidx : (dataStateLayers ls N₀ (p - 1)).length - 1 -
          (ls.length - 1 - i) = i := by omega
      rw [hidx] at hmname
      have hstat := dataStateLayers_static ls N₀ (p - 1) i hi
      have hname : ((dataStateLayers ls N₀ (p - 1)).getD i default).name =
          (ls.getD i default).name := by
        have hc := congrArg Layer.name hstat
        exact hc
      have htype : ((dataStateLayers ls N₀ (p - 1)).getD i
            default).bwd_wg_comm_type =
          (ls.getD i default).bwd_wg_comm_type := by
        have hc := congrArg Layer.bwd_wg_comm_type hstat
        exact hc
      rw [hname, htype] at hmname
      exact hmname

/-- C6 witness: a one-layer two-pass DATA run; pass 1's forward node
carries the cross-pass dependency on pass 0's weight-gradient communication
node, pass 0's forward node carries none. -/
theorem c6_witness :
    get_layers ["l0 0 1 NONE 1 1 NONE 1 1 NONE 1 0"] 1 =
      .ok ((get_layers ["l0 0 1 NONE 1 1 NONE 1 1 NONE 1 0"] 1).toOption.getD
        []) ∧
    convert_data_parallel ⟨1, 1, 2⟩ ["l0 0 1 NONE 1 1 NONE 1 1 NONE 1 0"] 1 =
      .ok ((convert_data_parallel ⟨1, 1, 2⟩
        ["l0 0 1 NONE 1 1 NONE 1 1 NONE 1 0"] 1).toOption.getD []) ∧
    ∀ tr ∈ (convert_data_parallel ⟨1, 1, 2⟩
        ["l0 0 1 NONE 1 1 NONE 1 1 NONE 1 0"] 1).toOption.getD [],
      ∃ (segs : List (List Node)) (N₀ : Nat),
        tr = segs.flatten ∧ segs.length = 2 ∧
        ∀ p (hp : p < segs.length), ∀ i, i < 1 →
          ∃ nd, (segs.get ⟨p, hp⟩).get? i = some nd ∧
            nd.role = "FWD" ∧ nd.ntype = .COMP_NODE ∧
            nd.id = N₀ + p * (4 * 1 - 1) + i ∧
            nd.data_deps =
              (if i = 0 then [] else [N₀ + p * (4 * 1 - 1) + (i - 1)]) ++
              (if p = 0 then [] else [N₀ + (p - 1) * (4 * 1 - 1) + 1 +
                3 * (1 - 1 - i) + 1]) ∧
            (0 < p → ∃ m, (segs.get ⟨p - 1, by omega⟩).get?
                (1 + 3 * (1 - 1 - i) + 1) = some m ∧
              m.id = N₀ + (p - 1) * (4 * 1 - 1) + 1 + 3 * (1 - 1 - i) + 1 ∧
              m.ntype = .COMM_COLL_NODE ∧ m.role = "BWD_WG" ∧
              m.name = "COMM_COLL_NODE_" ++
                (((get_layers ["l0 0 1 NONE 1 1 NONE 1 1 NONE 1 0"]
                  1).toOption.getD []).getD i default).name ++ "_" ++
                (((get_layers ["l0 0 1 NONE 1 1 NONE 1 1 NONE 1 0"]
                  1).toOption.getD []).getD i default).bwd_wg_comm_type) :=
  ⟨rfl, rfl,
    c6_data_forward_deps ⟨1, 1, 2⟩ ["l0 0 1 NONE 1 1 NONE 1 1 NONE 1 0"] 1
      ((get_layers ["l0 0 1 NONE 1 1 NONE 1 1 NONE 1 0"] 1).toOption.getD [])
      ((convert_data_parallel ⟨1, 1, 2⟩
        ["l0 0 1 NONE 1 1 NONE 1 1 NONE 1 0"] 1).toOption.getD [])
      rfl rfl⟩

/-! ## Claim C10 -/

/-- C10: layer loading ignores the declared layer count — `get_layers`
returns the same result for any declared count, and on success delivers one
`Layer` record per remaining input line. -/
theorem c10_get_layers_ignores_declared_count (lines : List String) (n m : Int) :
    get_layers lines n = get_layers lines m ∧
    (∀ ls, get_layers lines n = .ok ls → ls.length = lines.length) := by
  refine ⟨rfl, fun ls h => get_layers_length h⟩

/-- C10 witness: a concrete three-line input parsed with declared counts 99
and 1 gives the same three records. -/
theorem c10_witness :
    get_layers ["a 1 2 T 3 4 U 5 6 V 7 8", "b 0 2 T 3 4 U 5 6 V 7 8",
        "c 1 2 T 3 4 U 5 6 V 7 8"] 99 =
      get_layers ["a 1 2 T 3 4 U 5 6 V 7 8", "b 0 2 T 3 4 U 5 6 V 7 8",
        "c 1 2 T 3 4 U 5 6 V 7 8"] 1 ∧
    (∀ ls, get_layers ["a 1 2 T 3 4 U 5 6 V 7 8", "b 0 2 T 3 4 U 5 6 V 7 8",
        "c 1 2 T 3 4 U 5 6 V 7 8"] 99 = .ok ls → ls.length = 3) :=
  c10_get_layers_ignores_declared_count
    ["a 1 2 T 3 4 U 5 6 V 7 8", "b 0 2 T 3 4 U 5 6 V 7 8",
     "c 1 2 T 3 4 U 5 6 V 7 8"] 99 1

/-! ## Claim C9 -/

/-- C9: for every mode tag other than the eight recognized ones, `convert`
fails with the fatal unsupported-strategy error (provided the layer-count
line parses, which Python reads before dispatching); no builder runs and no
output sink is opened, so no output is produced. -/
theorem c9_unsupported_strategy (c : Converter) (lines : List String) (tag : String)
    (htag : (splitWs ((lines.get? 0).getD "")).get? 0 = some tag)
    (hnl : ∃ k, pyInt (stripWs ((lines.get? 1).getD "")) = some k)
    (hnotin : tag ∉ (["MICRO", "DATA", "MODEL", "HYBRID_DATA_MODEL",
      "HYBRID_MODEL_DATA", "CUSTOM", "HYBRID_DLRM", "HYBRID_DLRM_ENHANCED"] :
        List String)) :
    convert c lines = .error ("Unsupported parallelism type, " ++ tag) := by
  obtain ⟨k, hk⟩ := hnl
  simp only [List.mem_cons, List.not_mem_nil, or_false, not_or] at hnotin
  obtain ⟨h1, h2, h3, h4, h5, h6, h7, h8⟩ := hnotin
  unfold convert
  simp only [htag, hk]
  rw [if_neg h1, if_neg h2, if_neg h3, if_neg h4, if_neg h5, if_neg h6,
    if_neg (by exact fun h => h.elim h7 h8)]

/-- C9 witness: the unrecognized tag `FOO` on an otherwise well-formed input
is rejected with the unsupported-strategy error. -/
theorem c9_witness :
    (splitWs (((["FOO", "2"] : List String).get? 0).getD "")).get? 0 = some "FOO" ∧
    (∃ k, pyInt (stripWs (((["FOO", "2"] : List String).get? 1).getD "")) = some k) ∧
    convert ⟨1, 1, 1⟩ ["FOO", "2"] = .error ("Unsupported parallelism type, " ++ "FOO") :=
  ⟨by decide, ⟨2, by decide⟩,
   c9_unsupported_strategy ⟨1, 1, 1⟩ ["FOO", "2"] "FOO" (by decide) ⟨2, by decide⟩
     (by decide)⟩

/-! ## Claim C2 -/

/-- C2: on the two-layer CUSTOM input `[trainable=false, trainable=true]`
the classification is correct (`layer 0 ↦ FP`, `layer 1 ↦ FP+WG`), but the
backward sweep looks the kind up by the *reversed* position
(`layer_types[idx]` against `reversed(layers)`), so it skips the trainable
layer 1 (reading kind `FP`), then processes layer 0 with kind `FP+WG` and
crashes dereferencing the never-assigned `prev_comp_node` — instead of
emitting one weight-gradient node for layer 1 as the claim states. -/
theorem c2_code_bug :
    ((get_layers ["l0 0 1 NONE 1 1 NONE 1 1 NONE 1 0",
        "l1 1 1 NONE 1 1 NONE 1 1 NONE 1 0"] 2).bind
      (fun ls => custom_layer_types ls 2)) = .ok ["FP", "FP+WG"] ∧
    convert ⟨1, 1, 1⟩ ["CUSTOM", "2", "l0 0 1 NONE 1 1 NONE 1 1 NONE 1 0",
        "l1 1 1 NONE 1 1 NONE 1 1 NONE 1 0"]
      = .error "AttributeError: 'NoneType' object has no attribute 'id'" :=
  ⟨rfl, rfl⟩

/-! ## Claim C8 -/

/-- C8 counterexample: on the claimed scenario (HYBRID_DLRM, boundary 1,
3 layers, only layer 1's forward communication kind ALL_TO_ALL) the
conversion produces no trace at all, so the claimed emission behavior does
not occur. -/
theorem c8_counterexample :
    (convert ⟨1, 1, 1⟩ ["HYBRID_DLRM 1", "3",
      "l0 0 1 NONE 1 1 NONE 1 1 NONE 1 0",
      "l1 0 1 ALLTOALL 1 1 NONE 1 1 NONE 1 0",
      "l2 0 1 NONE 1 1 NONE 1 1 NONE 1 0"]).isOk = false :=
  rfl

/-- C8 (amended): in that scenario layer 0 never emits a forward
communication node (its kind is not ALL_TO_ALL), so when layer 1 — the
boundary layer — tries to depend on layer 0's forward communication node the
slot is still `None` and the conversion dies with the missing-dependency
crash while building layer 1's forward compute node. -/
theorem c8_amended :
    convert ⟨1, 1, 1⟩ ["HYBRID_DLRM 1", "3",
      "l0 0 1 NONE 1 1 NONE 1 1 NONE 1 0",
      "l1 0 1 ALLTOALL 1 1 NONE 1 1 NONE 1 0",
      "l2 0 1 NONE 1 1 NONE 1 1 NONE 1 0"]
    = .error "AttributeError: 'NoneType' object has no attribute 'id'" :=
  rfl

/-! ## Claim C1: counterexample -/

/-- C1 counterexample: in CUSTOM mode with two trainable layers, the
`FP+IG+WG` branch makes the input-gradient node depend on its own
weight-gradient node, whose id is one *greater* and which is emitted *after*
it — a forward reference, so the emitted stream is not a topological order. -/
theorem c1_counterexample :
    ∃ t ∈ (convert ⟨1, 1, 1⟩ ["CUSTOM", "2", "l0 1 1 NONE 1 1 NONE 1 1 NONE 1 0",
        "l1 1 1 NONE 1 1 NONE 1 1 NONE 1 0"]).toOption.getD [],
      ∃ n ∈ t, ∃ d ∈ n.data_deps, ¬ d < n.id := by
  decide

/-! ## Claim C7: counterexample -/

/-- C7 counterexample: with `num_dims = 0` the hybrid builders still emit a
one-element `involved_dim` vector (Python appends one flag and then loops
`range(num_dims - 1)`), so the attribute is not a vector of `num_dims`
booleans. -/
theorem c7_counterexample :
    ∃ t ∈ (convert ⟨0, 1, 1⟩ ["HYBRID_DATA_MODEL", "1",
        "l0 0 1 ALLREDUCE 5 1 ALLREDUCE 5 1 ALLREDUCE 5 0"]).toOption.getD [],
      ∃ n ∈ t, n.ntype = .COMM_COLL_NODE ∧ ∃ bs ∈ involved_dims n, bs.length ≠ 0 := by
  decide

/-! ## Claim C4 -/

/-- C4: node id allocation starts at 0 for the lifetime of one conversion
run, each allocated id is one greater than the previous one, and the counter
is not reset between devices, so the concatenation of all devices' emitted
nodes in allocation order carries exactly the ids `0, 1, 2, …` with no gaps
and no repeats. -/
theorem c4_global_id_contiguity (c : Converter) (lines : List String)
    (traces : List (List Node)) (hok : convert c lines = .ok traces) :
    idsOf traces.flatten = List.range traces.flatten.length :=
  (convert_goodW c lines traces hok).1

/-- C4 witness: a concrete one-layer one-device MICRO run. -/
theorem c4_witness :
    convert ⟨1, 1, 1⟩ ["MICRO", "1", "l0 0 1 NONE 1 1 NONE 1 1 NONE 1 0"] =
      .ok ((convert ⟨1, 1, 1⟩ ["MICRO", "1",
        "l0 0 1 NONE 1 1 NONE 1 1 NONE 1 0"]).toOption.getD []) ∧
    idsOf ((convert ⟨1, 1, 1⟩ ["MICRO", "1",
        "l0 0 1 NONE 1 1 NONE 1 1 NONE 1 0"]).toOption.getD []).flatten =
      List.range ((convert ⟨1, 1, 1⟩ ["MICRO", "1",
        "l0 0 1 NONE 1 1 NONE 1 1 NONE 1 0"]).toOption.getD
          []).flatten.length :=
  ⟨rfl, c4_global_id_contiguity ⟨1, 1, 1⟩ ["MICRO", "1",
    "l0 0 1 NONE 1 1 NONE 1 1 NONE 1 0"] _ rfl⟩

/-! ## Claim C3 -/

/-- C3: in every mode, in every run that completes without error, no node of
device `k`'s trace has a data dependency naming an id allocated during an
earlier device `k'`'s generation. -/
theorem c3_no_cross_device_deps (c : Converter) (lines : List String)
    (traces : List (List Node)) (hok : convert c lines = .ok traces) :
    ∀ k (hk : k < traces.length) (k' : Nat) (hk' : k' < traces.length),
      k' < k → ∀ n ∈ traces.get ⟨k, hk⟩, ∀ dep ∈ n.data_deps,
      dep ∉ idsOf (traces.get ⟨k', hk'⟩) :=
  goodW_no_cross traces (convert_goodW c lines traces hok)

/-- C3 witness: a concrete one-layer two-device MICRO run. -/
theorem c3_witness :
    convert ⟨1, 2, 1⟩ ["MICRO", "1", "l0 0 1 NONE 1 1 NONE 1 1 NONE 1 0"] =
      .ok ((convert ⟨1, 2, 1⟩ ["MICRO", "1",
        "l0 0 1 NONE 1 1 NONE 1 1 NONE 1 0"]).toOption.getD []) ∧
    (∀ k (hk : k < ((convert ⟨1, 2, 1⟩ ["MICRO", "1",
        "l0 0 1 NONE 1 1 NONE 1 1 NONE 1 0"]).toOption.getD []).length)
      (k' : Nat)
      (hk' : k' < ((convert ⟨1, 2, 1⟩ ["MICRO", "1",
        "l0 0 1 NONE 1 1 NONE 1 1 NONE 1 0"]).toOption.getD []).length),
      k' < k →
      ∀ n ∈ ((convert ⟨1, 2, 1⟩ ["MICRO", "1",
        "l0 0 1 NONE 1 1 NONE 1 1 NONE 1 0"]).toOption.getD
          []).get ⟨k, hk⟩,
      ∀ dep ∈ n.data_deps,
      dep ∉ idsOf (((convert ⟨1, 2, 1⟩ ["MICRO", "1",
        "l0 0 1 NONE 1 1 NONE 1 1 NONE 1 0"]).toOption.getD
          []).get ⟨k', hk'⟩)) :=
  ⟨rfl, c3_no_cross_device_deps ⟨1, 2, 1⟩ ["MICRO", "1",
    "l0 0 1 NONE 1 1 NONE 1 1 NONE 1 0"] _ rfl⟩

/-! ## Claim C1: amended -/

/-- C1 (amended): in every mode other than CUSTOM (where the FP+IG+WG
backward rule emits a forward reference, see the counterexample), every
dependency of every emitted node names an id already assigned to a node
emitted earlier in the same trace and strictly below the depending node's
own id, so each trace's emission order is a valid topological order. -/
theorem c1_amended_topological (c : Converter) (lines : List String)
    (traces : List (List Node))
    (htagne : (splitWs ((lines.get? 0).getD "")).get? 0 ≠ some "CUSTOM")
    (hok : convert c lines = .ok traces) :
    ∀ k (hk : k < traces.length), ∀ n ∈ traces.get ⟨k, hk⟩,
      ∀ dep ∈ n.data_deps,
      dep ∈ idsOf (traces.get ⟨k, hk⟩) ∧ dep < n.id := by
  intro k hk n hn dep hdep
  have hGS := convert_goodS_noncustom c lines traces htagne hok
  have hstrict := hGS.2 k hk n hn dep hdep
  have hLB := hGS.1.2 k hk n hn dep hdep
  refine ⟨?_, hstrict⟩
  rw [trace_ids_slice traces hGS.1 k hk]
  refine List.mem_range'_1.mpr ⟨hLB, ?_⟩
  have hnid : n.id ∈ idsOf (traces.get ⟨k, hk⟩) :=
    List.mem_map.mpr ⟨n, hn, rfl⟩
  rw [trace_ids_slice traces hGS.1 k hk] at hnid
  have h2 := List.mem_range'_1.mp hnid
  omega

/-- C1 witness: a concrete one-layer MICRO run (tag ≠ CUSTOM). -/
theorem c1_witness :
    (splitWs (((["MICRO", "1", "l0 0 1 NONE 1 1 NONE 1 1 NONE 1 0"] :
        List String).get? 0).getD "")).get? 0 ≠ some "CUSTOM" ∧
    convert ⟨1, 1, 1⟩ ["MICRO", "1", "l0 0 1 NONE 1 1 NONE 1 1 NONE 1 0"] =
      .ok ((convert ⟨1, 1, 1⟩ ["MICRO", "1",
        "l0 0 1 NONE 1 1 NONE 1 1 NONE 1 0"]).toOption.getD []) ∧
    (∀ k (hk : k < ((convert ⟨1, 1, 1⟩ ["MICRO", "1",
        "l0 0 1 NONE 1 1 NONE 1 1 NONE 1 0"]).toOption.getD []).length),
      ∀ n ∈ ((convert ⟨1, 1, 1⟩ ["MICRO", "1",
        "l0 0 1 NONE 1 1 NONE 1 1 NONE 1 0"]).toOption.getD
          []).get ⟨k, hk⟩,
      ∀ dep ∈ n.data_deps,
      dep ∈ idsOf (((convert ⟨1, 1, 1⟩ ["MICRO", "1",
        "l0 0 1 NONE 1 1 NONE 1 1 NONE 1 0"]).toOption.getD
          []).get ⟨k, hk⟩) ∧ dep < n.id) :=
  ⟨by decide, rfl, c1_amended_topological ⟨1, 1, 1⟩ ["MICRO", "1",
    "l0 0 1 NONE 1 1 NONE 1 1 NONE 1 0"] _ (by decide) rfl⟩

/-! ## Claim C7: amended -/

/-- C7 (amended): every collective communication node emitted by the hybrid
builders carries exactly one `involved_dim` attribute, a vector of
`1 + (num_dims - 1)` booleans: in HYBRID_DATA_MODEL the forward and
input-gradient collectives have the first flag true and the `num_dims - 1`
others false while the weight-gradient collective has the first flag false
and the others true; in HYBRID_MODEL_DATA the assignment is the exact
inverse (for `num_dims = 0` the vector has one flag, not zero). -/
theorem c7_amended_involved_dims (c : Converter) (lines : List String)
    (nl : Int) :
    (∀ traces, convert_hybrid_data_model c lines nl = .ok traces →
      ∀ t ∈ traces, ∀ n ∈ t, hdmQ c.num_dims n) ∧
    (∀ traces, convert_hybrid_model_data c lines nl = .ok traces →
      ∀ t ∈ traces, ∀ n ∈ t, hmdQ c.num_dims n) :=
  ⟨fun traces hok => (hdm_goodS c lines nl traces hok).2,
   fun traces hok => (hmd_goodS c lines nl traces hok).2⟩

/-- C7 witness: the HYBRID_DATA_MODEL half applied to a concrete one-layer
run with two dimensions. -/
theorem c7_witness :
    convert_hybrid_data_model ⟨2, 1, 1⟩
      ["l0 0 1 ALLREDUCE 5 1 ALLREDUCE 5 1 ALLREDUCE 5 0"] 1 =
      .ok ((convert_hybrid_data_model ⟨2, 1, 1⟩
        ["l0 0 1 ALLREDUCE 5 1 ALLREDUCE 5 1 ALLREDUCE 5 0"]
          1).toOption.getD []) ∧
    (∀ t ∈ (convert_hybrid_data_model ⟨2, 1, 1⟩
        ["l0 0 1 ALLREDUCE 5 1 ALLREDUCE 5 1 ALLREDUCE 5 0"]
          1).toOption.getD [],
      ∀ n ∈ t, hdmQ 2 n) :=
  ⟨rfl, (c7_amended_involved_dims ⟨2, 1, 1⟩
    ["l0 0 1 ALLREDUCE 5 1 ALLREDUCE 5 1 ALLREDUCE 5 0"] 1).1 _ rfl⟩

end Chakra
